import Mathlib

/-!
# Deferred renderer: pass graph, command recording and frame scheduling

A shallow embedding of `src/DeferredRenderer.cpp`.  The Vulkan driver is a
ghost device that hands out fresh handles, keeps the set of live objects,
remembers what was recorded into each command buffer and which descriptor
writes were applied.  Every member function of `DeferredRenderer` is a state
transformer over the device and the member fields; a `throw` stops the
function and keeps the state reached so far.

Result codes of checked driver calls come from the device: the calls are
numbered in the order they are made and `Vk.failures` lists the numbers of the
calls that do not return `VK_SUCCESS`.  Queue submission, acquire and present
results are inputs of `Frame`.
-/

namespace DeferredRenderer

/-! ## Handles and Vulkan enumerations -/

abbrev Handle := Nat

/-- The null handle; the device never hands it out. -/
def VK_NULL_HANDLE : Handle := 0

inductive ObjKind
  | commandPool | renderPass | image | deviceMemory | imageView | framebuffer
  | sampler | commandBuffer | semaphore | descriptorSetLayout | descriptorPool
  | descriptorSet | pipelineLayout | pipeline | shaderModule
  deriving DecidableEq, Repr

inductive DescriptorType
  | sampler | combinedImageSampler | uniformBuffer | storageBuffer
  deriving DecidableEq, Repr

inductive ShaderStage
  | vertex | tessellationControl | tessellationEvaluation | fragment | compute
  deriving DecidableEq, Repr

/-- Stage masks: `VK_SHADER_STAGE_ALL` or an explicit set of stage bits. -/
inductive StageFlags
  | all
  | bits (stages : List ShaderStage)
  deriving DecidableEq, Repr

inductive Format
  | swapChainFormat | R16G16B16A16_SFLOAT | depthFormat
  deriving DecidableEq, Repr

inductive ImageLayout
  | UNDEFINED | COLOR_ATTACHMENT_OPTIMAL | DEPTH_STENCIL_ATTACHMENT_OPTIMAL
  | SHADER_READ_ONLY_OPTIMAL | PRESENT_SRC_KHR
  deriving DecidableEq, Repr

inductive LoadOp
  | CLEAR | DONT_CARE
  deriving DecidableEq, Repr

inductive StoreOp
  | STORE | DONT_CARE
  deriving DecidableEq, Repr

inductive PipelineStage
  | BOTTOM_OF_PIPE | COLOR_ATTACHMENT_OUTPUT | COMPUTE_SHADER | DRAW_INDIRECT
  deriving DecidableEq, Repr

inductive Access
  | MEMORY_READ | COLOR_ATTACHMENT_READ | COLOR_ATTACHMENT_WRITE | SHADER_WRITE
  | INDIRECT_COMMAND_READ
  deriving DecidableEq, Repr

inductive ImageUsage
  | COLOR_ATTACHMENT | SAMPLED | DEPTH_STENCIL_ATTACHMENT
  deriving DecidableEq, Repr

inductive ImageAspect
  | COLOR | DEPTH
  deriving DecidableEq, Repr

inductive BindPoint
  | GRAPHICS | COMPUTE
  deriving DecidableEq, Repr

inductive IndexType
  | UINT16 | UINT32
  deriving DecidableEq, Repr

inductive Topology
  | TRIANGLE_LIST | PATCH_LIST
  deriving DecidableEq, Repr

inductive CullMode
  | NONE | BACK
  deriving DecidableEq, Repr

inductive FrontFace
  | COUNTER_CLOCKWISE | CLOCKWISE
  deriving DecidableEq, Repr

inductive QueueFlags
  | Graphics | Compute
  deriving DecidableEq, Repr

/-- A subpass index or `VK_SUBPASS_EXTERNAL`. -/
inductive SubpassRef
  | outside
  | index (i : Nat)
  deriving DecidableEq, Repr

/-- A decimal float literal of the source, `mantissa / 10 ^ decimals`
    (`0.768f` is `⟨768, 3⟩`, `1.0f` is `⟨10, 1⟩`). -/
structure FloatLit where
  mantissa : Nat
  decimals : Nat
  deriving DecidableEq, Repr

/-! ## Create-info payloads -/

structure AttachmentDescription where
  format : Format
  loadOp : LoadOp
  storeOp : StoreOp
  stencilLoadOp : LoadOp
  stencilStoreOp : StoreOp
  initialLayout : ImageLayout
  finalLayout : ImageLayout
  deriving DecidableEq, Repr

structure AttachmentReference where
  attachment : Nat
  layout : ImageLayout
  deriving DecidableEq, Repr

structure SubpassDependency where
  srcSubpass : SubpassRef
  dstSubpass : SubpassRef
  srcStageMask : PipelineStage
  dstStageMask : PipelineStage
  srcAccessMask : List Access
  dstAccessMask : List Access
  byRegion : Bool
  deriving DecidableEq, Repr

structure RenderPassInfo where
  attachments : List AttachmentDescription
  colorAttachments : List AttachmentReference
  depthStencilAttachment : AttachmentReference
  dependencies : List SubpassDependency
  deriving DecidableEq, Repr

structure LayoutBinding where
  binding : Nat
  descriptorType : DescriptorType
  descriptorCount : Nat
  stageFlags : StageFlags
  deriving DecidableEq, Repr

structure PoolSize where
  type : DescriptorType
  descriptorCount : Nat
  deriving DecidableEq, Repr

structure PushConstantRange where
  stageFlags : StageFlags
  offset : Nat
  size : Nat
  deriving DecidableEq, Repr

structure ShaderStageInfo where
  stage : ShaderStage
  module : Handle
  deriving DecidableEq, Repr

inductive BlendFactor
  | ZERO | ONE
  deriving DecidableEq, Repr

inductive BlendOp
  | ADD
  deriving DecidableEq, Repr

inductive ColorComponent
  | R | G | B | A
  deriving DecidableEq, Repr

structure ColorBlendAttachmentState where
  colorWriteMask : List ColorComponent
  blendEnable : Bool
  srcColorBlendFactor : BlendFactor
  dstColorBlendFactor : BlendFactor
  colorBlendOp : BlendOp
  srcAlphaBlendFactor : BlendFactor
  dstAlphaBlendFactor : BlendFactor
  alphaBlendOp : BlendOp
  deriving DecidableEq, Repr

structure GraphicsPipelineInfo where
  stages : List ShaderStageInfo
  topology : Topology
  cullMode : CullMode
  frontFace : FrontFace
  depthTestEnable : Bool
  depthWriteEnable : Bool
  colorBlendAttachmentCount : Nat
  colorBlendAttachments : List ColorBlendAttachmentState
  patchControlPoints : Option Nat
  layout : Handle
  renderPass : Handle
  subpass : Nat
  deriving DecidableEq, Repr

/-- What an object was created from. -/
inductive Info
  | commandPool (queueFamilyIndex : Nat)
  | renderPass (info : RenderPassInfo)
  | image (width height : Nat) (format : Format) (usage : List ImageUsage)
  | deviceMemory (image : Handle)
  | imageView (image : Handle) (format : Format) (aspect : ImageAspect)
  | framebuffer (renderPass : Handle) (attachments : List Handle) (width height : Nat)
  | sampler
  | commandBuffer (commandPool : Handle)
  | semaphore
  | descriptorSetLayout (bindings : List LayoutBinding)
  | descriptorPool (poolSizes : List PoolSize) (maxSets : Nat)
  | descriptorSet (descriptorPool : Handle) (setLayout : Option Handle)
  | pipelineLayout (setLayouts : List Handle) (pushConstantRanges : List PushConstantRange)
  | graphicsPipeline (info : GraphicsPipelineInfo)
  | computePipeline (stage : ShaderStageInfo) (layout : Handle)
  | shaderModule (file : String)
  deriving DecidableEq, Repr

def Info.kind : Info → ObjKind
  | .commandPool _ => .commandPool
  | .renderPass _ => .renderPass
  | .image _ _ _ _ => .image
  | .deviceMemory _ => .deviceMemory
  | .imageView _ _ _ => .imageView
  | .framebuffer _ _ _ _ => .framebuffer
  | .sampler => .sampler
  | .commandBuffer _ => .commandBuffer
  | .semaphore => .semaphore
  | .descriptorSetLayout _ => .descriptorSetLayout
  | .descriptorPool _ _ => .descriptorPool
  | .descriptorSet _ _ => .descriptorSet
  | .pipelineLayout _ _ => .pipelineLayout
  | .graphicsPipeline _ => .pipeline
  | .computePipeline _ _ => .pipeline
  | .shaderModule _ => .shaderModule

/-- A driver object: its handle and what it was created from. -/
structure Obj where
  handle : Handle
  info : Info
  deriving DecidableEq, Repr

/-! ## Recorded commands -/

inductive ClearValue
  | color (r g b a : FloatLit)
  | depthStencil (depth : FloatLit) (stencil : Nat)
  deriving DecidableEq, Repr

structure BufferMemoryBarrier where
  srcAccessMask : List Access
  dstAccessMask : List Access
  srcQueueFamilyIndex : Nat
  dstQueueFamilyIndex : Nat
  buffer : Handle
  offset : Nat
  size : Nat
  deriving DecidableEq, Repr

inductive Cmd
  | bindPipeline (bindPoint : BindPoint) (pipeline : Handle)
  | bindDescriptorSets (bindPoint : BindPoint) (layout : Handle) (firstSet : Nat)
      (descriptorSets : List Handle)
  | pushConstants (layout : Handle) (stageFlags : StageFlags) (offset size : Nat)
      (values : List Nat)
  | dispatch (groupCountX groupCountY groupCountZ : Nat)
  | pipelineBarrier (srcStageMask dstStageMask : PipelineStage)
      (bufferMemoryBarriers : List BufferMemoryBarrier)
  | beginRenderPass (renderPass framebuffer : Handle) (width height : Nat)
      (clearValues : List ClearValue)
  | endRenderPass
  | bindVertexBuffers (firstBinding : Nat) (buffers : List Handle) (offsets : List Nat)
  | bindIndexBuffer (buffer : Handle) (offset : Nat) (indexType : IndexType)
  | drawIndexed (indexCount instanceCount firstIndex vertexOffset firstInstance : Nat)
  | drawIndirect (buffer : Handle) (offset drawCount stride : Nat)
  deriving DecidableEq, Repr

/-! ## Descriptor writes

`VkWriteDescriptorSet` carries pointers to info structs that live on the
caller's stack.  A stack cell keeps the last value stored in it and whether
the variable that owns it is still in scope. -/

inductive DescInfo
  | buffer (buffer : Handle) (offset range : Nat)
  | image (sampler imageView : Handle) (imageLayout : ImageLayout)
  deriving DecidableEq, Repr

structure StackCell where
  value : DescInfo
  inScope : Bool
  deriving DecidableEq, Repr

structure WriteDescriptorSet where
  dstSet : Handle
  dstBinding : Nat
  dstArrayElement : Nat
  descriptorType : DescriptorType
  descriptorCount : Nat
  pBufferInfo : Option Nat
  pImageInfo : Option Nat
  deriving DecidableEq, Repr

/-- A value-initialised `VkWriteDescriptorSet`. -/
def WriteDescriptorSet.zero : WriteDescriptorSet :=
  { dstSet := VK_NULL_HANDLE, dstBinding := 0, dstArrayElement := 0,
    descriptorType := .sampler, descriptorCount := 0,
    pBufferInfo := none, pImageInfo := none }

/-- One descriptor write as the driver saw it when `vkUpdateDescriptorSets`
    ran: the struct the pointer led to, if any. -/
structure AppliedWrite where
  dstSet : Handle
  dstBinding : Nat
  descriptorType : DescriptorType
  descriptorCount : Nat
  source : Option StackCell
  deriving DecidableEq, Repr

/-- One call of `vkAllocateDescriptorSets`. -/
structure DescriptorSetAllocation where
  descriptorPool : Handle
  descriptorSetCount : Nat
  setLayouts : List Handle
  deriving DecidableEq, Repr

/-! ## The scene, the swap chain and the device configuration -/

structure Model where
  vertexBuffer : Handle
  indexBuffer : Handle
  indexCount : Nat
  modelBuffer : Handle
  textureView : Handle
  textureSampler : Handle
  deriving DecidableEq, Repr, Inhabited

structure Blades where
  bladesBuffer : Handle
  culledBladesBuffer : Handle
  numBladesBuffer : Handle
  modelBuffer : Handle
  deriving DecidableEq, Repr, Inhabited

structure Scene where
  models : List Model
  blades : List Blades
  timeBuffer : Handle
  deriving DecidableEq, Repr

structure SwapChain where
  count : Nat
  images : List Handle
  width : Nat
  height : Nat
  imageAvailableSemaphore : Handle
  renderFinishedSemaphore : Handle
  deriving DecidableEq, Repr

/-- Everything the renderer reads from its collaborators, and the constants of
    headers that are not part of this file (`NUM_BLADES`, the `sizeof`s). -/
structure Env where
  scene : Scene
  swapChain : SwapChain
  cameraBuffer : Handle
  graphicsQueueFamily : Nat
  computeQueueFamily : Nat
  NUM_BLADES : Nat
  sizeofCameraBufferObject : Nat
  sizeofModelBufferObject : Nat
  sizeofTime : Nat
  sizeofBlade : Nat
  sizeofBladeDrawIndirect : Nat
  deriving DecidableEq, Repr

def WORKGROUP_SIZE : Nat := 32

def sizeofInt : Nat := 4

/-! ## Device and renderer state -/

structure Vk where
  nextHandle : Handle
  live : List Obj
  faults : List (ObjKind × Handle)
  recorded : Handle → List Cmd
  descriptorAllocations : List DescriptorSetAllocation
  appliedWrites : List AppliedWrite
  stack : Nat → Option StackCell
  callNo : Nat
  failures : List Nat

/-- The member fields of `DeferredRenderer`. -/
structure Fields where
  graphicsCommandPool : Handle
  computeCommandPool : Handle
  renderPass : Handle
  deferredRenderPass : Handle
  cameraDescriptorSetLayout : Handle
  modelDescriptorSetLayout : Handle
  timeDescriptorSetLayout : Handle
  grassComputeDescriptorSetLayout : Handle
  descriptorPool : Handle
  cameraDescriptorSet : Handle
  modelDescriptorSets : List Handle
  grassDescriptorSets : List Handle
  timeDescriptorSet : Handle
  grassComputeDescriptorSets : List Handle
  graphicsPipelineLayout : Handle
  grassPipelineLayout : Handle
  computePipelineLayout : Handle
  graphicsPipeline : Handle
  grassPipeline : Handle
  computePipeline : Handle
  imageViews : List Handle
  depthImage : Handle
  depthImageMemory : Handle
  depthImageView : Handle
  framebuffers : List Handle
  deferredAlbedoImage : Handle
  deferredAlbedoImageMemory : Handle
  deferredAlbedoImageView : Handle
  deferredPositionImage : Handle
  deferredPositionImageMemory : Handle
  deferredPositionImageView : Handle
  deferredNormalImage : Handle
  deferredNormalImageMemory : Handle
  deferredNormalImageView : Handle
  deferredDepthImage : Handle
  deferredDepthImageMemory : Handle
  deferredDepthImageView : Handle
  deferredFramebuffer : Handle
  deferredSampler : Handle
  commandBuffers : List Handle
  computeCommandBuffer : Handle
  deferredCommandBuffer : Handle
  deferredSemaphore : Handle
  deriving DecidableEq, Repr

structure State where
  vk : Vk
  r : Fields

/-- A device on which nothing has been created; `failures` are the numbers
    of the checked calls that will not return `VK_SUCCESS`. -/
def Vk.fresh (failures : List Nat) : Vk :=
  { nextHandle := 1, live := [], faults := [], recorded := fun _ => [],
    descriptorAllocations := [], appliedWrites := [], stack := fun _ => none,
    callNo := 0, failures := failures }

/-- All member fields before the constructor body runs. -/
def Fields.null : Fields :=
  { graphicsCommandPool := 0, computeCommandPool := 0, renderPass := 0,
    deferredRenderPass := 0, cameraDescriptorSetLayout := 0,
    modelDescriptorSetLayout := 0, timeDescriptorSetLayout := 0,
    grassComputeDescriptorSetLayout := 0, descriptorPool := 0,
    cameraDescriptorSet := 0, modelDescriptorSets := [], grassDescriptorSets := [],
    timeDescriptorSet := 0, grassComputeDescriptorSets := [],
    graphicsPipelineLayout := 0, grassPipelineLayout := 0, computePipelineLayout := 0,
    graphicsPipeline := 0, grassPipeline := 0, computePipeline := 0,
    imageViews := [], depthImage := 0, depthImageMemory := 0, depthImageView := 0,
    framebuffers := [], deferredAlbedoImage := 0, deferredAlbedoImageMemory := 0,
    deferredAlbedoImageView := 0, deferredPositionImage := 0,
    deferredPositionImageMemory := 0, deferredPositionImageView := 0,
    deferredNormalImage := 0, deferredNormalImageMemory := 0,
    deferredNormalImageView := 0, deferredDepthImage := 0,
    deferredDepthImageMemory := 0, deferredDepthImageView := 0,
    deferredFramebuffer := 0, deferredSampler := 0, commandBuffers := [],
    computeCommandBuffer := 0, deferredCommandBuffer := 0, deferredSemaphore := 0 }

def State.fresh (failures : List Nat) : State :=
  { vk := Vk.fresh failures, r := Fields.null }

/-! ## The state monad with exceptions -/

/-- Outcome of running a member function: the value or the message of the
    `std::runtime_error` thrown, and the state reached. -/
structure Out (α : Type) where
  res : Except String α
  st : State

def Out.error? {α : Type} (o : Out α) : Option String :=
  match o.res with
  | .ok _ => none
  | .error e => some e

def M (α : Type) : Type := State → Out α

def M.run {α : Type} (m : M α) (s : State) : Out α := m s

def M.pure {α : Type} (a : α) : M α := fun s => ⟨.ok a, s⟩

def M.bind {α β : Type} (m : M α) (f : α → M β) : M β := fun s =>
  match m s with
  | ⟨.ok a, s1⟩ => f a s1
  | ⟨.error e, s1⟩ => ⟨.error e, s1⟩

instance : Monad M where
  pure := M.pure
  bind := M.bind

/-- Raise `std::runtime_error(msg)`. -/
def throwRuntimeError {α : Type} (msg : String) : M α := fun s => ⟨.error msg, s⟩

def getFields : M Fields := fun s => ⟨.ok s.r, s⟩

def setFields (f : Fields → Fields) : M Unit := fun s => ⟨.ok (), { s with r := f s.r }⟩

def getVk : M Vk := fun s => ⟨.ok s.vk, s⟩

def setVk (f : Vk → Vk) : M Unit := fun s => ⟨.ok (), { s with vk := f s.vk }⟩

/-- A counted loop, `for (i = 0; i < n; ++i) body(i)`. -/
def forRange (n : Nat) (body : Nat → M Unit) : M Unit :=
  match n with
  | 0 => pure ()
  | k + 1 => do
    forRange k body
    body k

/-- A counted loop that threads a local variable through its iterations. -/
def forRangeWith {β : Type} (n : Nat) (acc : β) (body : Nat → β → M β) : M β :=
  match n with
  | 0 => pure acc
  | k + 1 => do
    let a ← forRangeWith k acc body
    body k a

/-- The effect of `std::vector::resize` on a vector of handles. -/
def resize (v : List Handle) (n : Nat) : List Handle :=
  v.take n ++ List.replicate (n - v.length) VK_NULL_HANDLE

/-! ## Driver primitives -/

/-- The result code of the next checked call: `true` is `VK_SUCCESS`. -/
def vkResult : M Bool := fun s =>
  ⟨.ok (decide (s.vk.callNo ∉ s.vk.failures)),
   { s with vk := { s.vk with callNo := s.vk.callNo + 1 } }⟩

/-- Hand out a fresh handle for a new live object. -/
def newObject (info : Info) : M Handle := fun s =>
  ⟨.ok s.vk.nextHandle,
   { s with vk := { s.vk with nextHandle := s.vk.nextHandle + 1,
                              live := s.vk.live ++ [⟨s.vk.nextHandle, info⟩] } }⟩

/-- A `vkCreate*` call whose result the caller checks: on success the new
    handle, on failure nothing is created. -/
def vkCreate (info : Info) : M (Option Handle) := do
  let ok ← vkResult
  if ok then
    let h ← newObject info
    pure (some h)
  else
    pure none

def Vk.isLive (d : Vk) (h : Handle) : Bool := d.live.any (fun o => o.handle == h)

def Vk.isLiveOfKind (d : Vk) (k : ObjKind) (h : Handle) : Bool :=
  d.live.any (fun o => o.handle == h && decide (o.info.kind = k))

/-- A `vkDestroy*` / `vkFree*` call.  Destroying the null handle is a no-op;
    destroying anything else that is not a live object of that kind is
    recorded as a fault. -/
def vkDestroy (k : ObjKind) (h : Handle) : M Unit := setVk fun d =>
  if h = VK_NULL_HANDLE then d
  else if d.isLiveOfKind k h then
    { d with live := d.live.filter (fun o => !(o.handle == h)) }
  else
    { d with faults := d.faults ++ [(k, h)] }

/-- Whether an object was allocated from the pool `pool`. -/
def Obj.allocatedFrom (pool : Handle) (o : Obj) : Bool :=
  match o.info with
  | .descriptorSet p _ => p == pool
  | .commandBuffer p => p == pool
  | _ => false

/-- The calls `vkDestroyDescriptorPool` and `vkDestroyCommandPool`: destroying
    a pool also frees what was allocated from it. -/
def vkDestroyPool (k : ObjKind) (h : Handle) : M Unit := setVk fun d =>
  if h = VK_NULL_HANDLE then d
  else if d.isLiveOfKind k h then
    { d with live := d.live.filter (fun o => !(o.handle == h) && !(o.allocatedFrom h)) }
  else
    { d with faults := d.faults ++ [(k, h)] }

/-- The device after more commands went into a command buffer. -/
def Vk.record (d : Vk) (commandBuffer : Handle) (cs : List Cmd) : Vk :=
  { d with recorded := fun h =>
      if h = commandBuffer then d.recorded h ++ cs else d.recorded h }

/-- One `vkCmd*` call: append a command to what the command buffer holds. -/
def vkCmd (commandBuffer : Handle) (c : Cmd) : M Unit :=
  setVk fun d => d.record commandBuffer [c]

/-- Several `vkCmd*` calls in a row on one command buffer. -/
def vkCmds (commandBuffer : Handle) (cs : List Cmd) : M Unit :=
  setVk fun d => d.record commandBuffer cs

def vkBeginCommandBuffer (commandBuffer : Handle) : M Bool := do
  let ok ← vkResult
  if ok then
    setVk fun d => { d with recorded := fun h =>
      if h = commandBuffer then [] else d.recorded h }
  pure ok

def vkEndCommandBuffer (_commandBuffer : Handle) : M Bool := vkResult

/-- The call `vkAllocateCommandBuffers` for `count` buffers of a pool. -/
def vkAllocateCommandBuffers (commandPool : Handle) (count : Nat) : M (Option (List Handle)) := do
  let ok ← vkResult
  if ok then
    let hs ← forRangeWith count [] fun _ acc => do
      let h ← newObject (.commandBuffer commandPool)
      pure (acc ++ [h])
    pure (some hs)
  else
    pure none

def vkFreeCommandBuffers (commandBuffers : List Handle) : M Unit :=
  forRange commandBuffers.length fun i =>
    vkDestroy .commandBuffer (commandBuffers.getD i VK_NULL_HANDLE)

/-- The call `vkAllocateDescriptorSets`: set `k` is created with the `k`-th
    entry of the layouts array, if the array has one. -/
def vkAllocateDescriptorSets (descriptorPool : Handle) (count : Nat) (layouts : List Handle) :
    M (Option (List Handle)) := do
  setVk fun d => { d with descriptorAllocations :=
    d.descriptorAllocations ++ [⟨descriptorPool, count, layouts⟩] }
  let ok ← vkResult
  if ok then
    let hs ← forRangeWith count [] fun k acc => do
      let h ← newObject (.descriptorSet descriptorPool layouts[k]?)
      pure (acc ++ [h])
    pure (some hs)
  else
    pure none

/-- A local info struct is (re)initialised in its stack cell. -/
def declareLocal (cell : Nat) (v : DescInfo) : M Unit := setVk fun d =>
  { d with stack := fun c => if c = cell then some ⟨v, true⟩ else d.stack c }

/-- A local info struct goes out of scope; its bytes stay where they are. -/
def endLocal (cell : Nat) : M Unit := setVk fun d =>
  { d with stack := fun c =>
      if c = cell then (d.stack c).map (fun x => { x with inScope := false })
      else d.stack c }

def isBufferType : DescriptorType → Bool
  | .uniformBuffer => true
  | .storageBuffer => true
  | _ => false

/-- What the driver reads for one write: `pBufferInfo` for buffer types,
    `pImageInfo` for image types, through the pointer, now. -/
def Vk.applyWrite (d : Vk) (w : WriteDescriptorSet) : AppliedWrite :=
  { dstSet := w.dstSet, dstBinding := w.dstBinding, descriptorType := w.descriptorType,
    descriptorCount := w.descriptorCount,
    source := (if isBufferType w.descriptorType then w.pBufferInfo else w.pImageInfo).bind
      d.stack }

def vkUpdateDescriptorSets (writes : List WriteDescriptorSet) : M Unit := setVk fun d =>
  { d with appliedWrites := d.appliedWrites ++ writes.map d.applyWrite }

/-- The idiom `if (call(...) != VK_SUCCESS) throw std::runtime_error(msg)` for a
    call that returns nothing but its result code. -/
def throwUnless (ok : Bool) (msg : String) : M Unit :=
  if ok then pure () else throwRuntimeError msg

/-- The idiom `if (vkCreate*(...) != VK_SUCCESS) throw std::runtime_error(msg)`. -/
def createOrThrow (info : Info) (msg : String) : M Handle := do
  match ← vkCreate info with
  | some h => pure h
  | none => throwRuntimeError msg

/-- Modelled from the spec: `Image::Create` of the resource layer (`Image.h`
    is not part of this file) creates an image and the memory bound to it. -/
def Image.Create (width height : Nat) (format : Format) (usage : List ImageUsage) :
    M (Handle × Handle) := do
  let image ← newObject (.image width height format usage)
  let memory ← newObject (.deviceMemory image)
  pure (image, memory)

/-- Modelled from the spec: `Image::CreateView` of the resource layer creates
    an image view of the image. -/
def Image.CreateView (image : Handle) (format : Format) (aspect : ImageAspect) : M Handle :=
  newObject (.imageView image format aspect)

/-- Modelled from the spec: `Image::TransitionLayout` of the resource layer
    leaves no object behind. -/
def Image.TransitionLayout (_image : Handle) (_oldLayout _newLayout : ImageLayout) : M Unit :=
  pure ()

/-- Modelled from the spec: `ShaderModule::Create` of the shader loader
    returns a ready-to-bind shader module for a file. -/
def ShaderModule.Create (file : String) : M Handle :=
  newObject (.shaderModule file)

/-! ## Construction: pools and render passes -/

def CreateCommandPools (env : Env) : M Unit := do
  let graphicsPool ← createOrThrow (.commandPool env.graphicsQueueFamily)
    "Failed to create command pool"
  setFields fun r => { r with graphicsCommandPool := graphicsPool }
  let computePool ← createOrThrow (.commandPool env.computeQueueFamily)
    "Failed to create command pool"
  setFields fun r => { r with computeCommandPool := computePool }

def presentationRenderPassInfo : RenderPassInfo :=
  { attachments :=
      [ { format := .swapChainFormat, loadOp := .CLEAR, storeOp := .STORE,
          stencilLoadOp := .DONT_CARE, stencilStoreOp := .DONT_CARE,
          initialLayout := .UNDEFINED, finalLayout := .PRESENT_SRC_KHR },
        { format := .depthFormat, loadOp := .CLEAR, storeOp := .DONT_CARE,
          stencilLoadOp := .DONT_CARE, stencilStoreOp := .DONT_CARE,
          initialLayout := .UNDEFINED, finalLayout := .DEPTH_STENCIL_ATTACHMENT_OPTIMAL } ],
    colorAttachments := [⟨0, .COLOR_ATTACHMENT_OPTIMAL⟩],
    depthStencilAttachment := ⟨1, .DEPTH_STENCIL_ATTACHMENT_OPTIMAL⟩,
    dependencies :=
      [ { srcSubpass := .outside, dstSubpass := .index 0,
          srcStageMask := .COLOR_ATTACHMENT_OUTPUT, srcAccessMask := [],
          dstStageMask := .COLOR_ATTACHMENT_OUTPUT,
          dstAccessMask := [.COLOR_ATTACHMENT_READ, .COLOR_ATTACHMENT_WRITE],
          byRegion := false } ] }

def CreateRenderPass : M Unit := do
  let h ← createOrThrow (.renderPass presentationRenderPassInfo) "Failed to create render pass"
  setFields fun r => { r with renderPass := h }

/-- The albedo, position and normal attachments are declared alike. -/
def gBufferColorAttachment : AttachmentDescription :=
  { format := .R16G16B16A16_SFLOAT, loadOp := .CLEAR, storeOp := .STORE,
    stencilLoadOp := .DONT_CARE, stencilStoreOp := .DONT_CARE,
    initialLayout := .UNDEFINED, finalLayout := .SHADER_READ_ONLY_OPTIMAL }

def deferredRenderPassInfo : RenderPassInfo :=
  { attachments :=
      [ gBufferColorAttachment, gBufferColorAttachment, gBufferColorAttachment,
        { format := .depthFormat, loadOp := .CLEAR, storeOp := .DONT_CARE,
          stencilLoadOp := .DONT_CARE, stencilStoreOp := .DONT_CARE,
          initialLayout := .UNDEFINED, finalLayout := .DEPTH_STENCIL_ATTACHMENT_OPTIMAL } ],
    colorAttachments :=
      [⟨0, .COLOR_ATTACHMENT_OPTIMAL⟩, ⟨1, .COLOR_ATTACHMENT_OPTIMAL⟩,
       ⟨2, .COLOR_ATTACHMENT_OPTIMAL⟩],
    depthStencilAttachment := ⟨3, .DEPTH_STENCIL_ATTACHMENT_OPTIMAL⟩,
    dependencies :=
      [ { srcSubpass := .outside, dstSubpass := .index 0,
          srcStageMask := .BOTTOM_OF_PIPE, dstStageMask := .COLOR_ATTACHMENT_OUTPUT,
          srcAccessMask := [.MEMORY_READ],
          dstAccessMask := [.COLOR_ATTACHMENT_READ, .COLOR_ATTACHMENT_WRITE],
          byRegion := true },
        { srcSubpass := .index 0, dstSubpass := .outside,
          srcStageMask := .COLOR_ATTACHMENT_OUTPUT, dstStageMask := .BOTTOM_OF_PIPE,
          srcAccessMask := [.COLOR_ATTACHMENT_READ, .COLOR_ATTACHMENT_WRITE],
          dstAccessMask := [.MEMORY_READ],
          byRegion := true } ] }

/-- Creates the G-buffer render pass and, with it, the four G-buffer images,
    their views, the G-buffer framebuffer and the sampler. -/
def CreateDeferredRenderPass (env : Env) : M Unit := do
  let rp ← createOrThrow (.renderPass deferredRenderPassInfo)
    "Failed to create DEFERRED render pass"
  setFields fun r => { r with deferredRenderPass := rp }
  let width := env.swapChain.width
  let height := env.swapChain.height
  -- albedo
  let (albedo, albedoMemory) ←
    Image.Create width height .R16G16B16A16_SFLOAT [.COLOR_ATTACHMENT, .SAMPLED]
  setFields fun r => { r with deferredAlbedoImage := albedo,
                              deferredAlbedoImageMemory := albedoMemory }
  let albedoView ← Image.CreateView albedo .R16G16B16A16_SFLOAT .COLOR
  setFields fun r => { r with deferredAlbedoImageView := albedoView }
  -- position
  let (position, positionMemory) ←
    Image.Create width height .R16G16B16A16_SFLOAT [.COLOR_ATTACHMENT, .SAMPLED]
  setFields fun r => { r with deferredPositionImage := position,
                              deferredPositionImageMemory := positionMemory }
  let positionView ← Image.CreateView position .R16G16B16A16_SFLOAT .COLOR
  setFields fun r => { r with deferredPositionImageView := positionView }
  -- normal
  let (normal, normalMemory) ←
    Image.Create width height .R16G16B16A16_SFLOAT [.COLOR_ATTACHMENT, .SAMPLED]
  setFields fun r => { r with deferredNormalImage := normal,
                              deferredNormalImageMemory := normalMemory }
  let normalView ← Image.CreateView normal .R16G16B16A16_SFLOAT .COLOR
  setFields fun r => { r with deferredNormalImageView := normalView }
  -- deferred depth
  let (depth, depthMemory) ←
    Image.Create width height .depthFormat [.DEPTH_STENCIL_ATTACHMENT]
  setFields fun r => { r with deferredDepthImage := depth,
                              deferredDepthImageMemory := depthMemory }
  let depthView ← Image.CreateView depth .depthFormat .DEPTH
  setFields fun r => { r with deferredDepthImageView := depthView }
  -- the framebuffer over the four views
  let views := [albedoView, positionView, normalView, depthView]
  let fb ← createOrThrow (.framebuffer rp views width height)
    "Failed to create DEFERRED framebuffer"
  setFields fun r => { r with deferredFramebuffer := fb }
  let sampler ← createOrThrow .sampler "Failed to create DEFERRED sampler"
  setFields fun r => { r with deferredSampler := sampler }

/-! ## Construction: binding schemas, pool and binding instances -/

def cameraLayoutBindings : List LayoutBinding :=
  [⟨0, .uniformBuffer, 1, .all⟩]

def modelLayoutBindings : List LayoutBinding :=
  [ ⟨0, .uniformBuffer, 1, .bits [.vertex]⟩,
    ⟨1, .combinedImageSampler, 1, .bits [.fragment]⟩,
    ⟨2, .combinedImageSampler, 1, .bits [.fragment]⟩,
    ⟨3, .combinedImageSampler, 1, .bits [.fragment]⟩,
    ⟨4, .combinedImageSampler, 1, .bits [.fragment]⟩ ]

def timeLayoutBindings : List LayoutBinding :=
  [⟨0, .uniformBuffer, 1, .bits [.compute]⟩]

def computeLayoutBindings : List LayoutBinding :=
  [ ⟨0, .storageBuffer, 1, .bits [.compute]⟩,
    ⟨1, .storageBuffer, 1, .bits [.compute]⟩,
    ⟨2, .storageBuffer, 1, .bits [.compute]⟩ ]

def CreateCameraDescriptorSetLayout : M Unit := do
  let h ← createOrThrow (.descriptorSetLayout cameraLayoutBindings)
    "Failed to create descriptor set layout"
  setFields fun r => { r with cameraDescriptorSetLayout := h }

def CreateModelDescriptorSetLayout : M Unit := do
  let h ← createOrThrow (.descriptorSetLayout modelLayoutBindings)
    "Failed to create descriptor set layout"
  setFields fun r => { r with modelDescriptorSetLayout := h }

def CreateTimeDescriptorSetLayout : M Unit := do
  let h ← createOrThrow (.descriptorSetLayout timeLayoutBindings)
    "Failed to create descriptor set layout"
  setFields fun r => { r with timeDescriptorSetLayout := h }

def CreateComputeDescriptorSetLayout : M Unit := do
  let h ← createOrThrow (.descriptorSetLayout computeLayoutBindings)
    "Failed to create descriptor set layout"
  setFields fun r => { r with grassComputeDescriptorSetLayout := h }

def descriptorPoolSizes (env : Env) : List PoolSize :=
  [ ⟨.uniformBuffer, 1⟩,
    ⟨.combinedImageSampler, env.scene.models.length * 7 + env.scene.blades.length⟩,
    ⟨.uniformBuffer, env.scene.models.length + env.scene.blades.length⟩,
    ⟨.uniformBuffer, 1⟩,
    ⟨.storageBuffer, env.scene.blades.length⟩,
    ⟨.storageBuffer, env.scene.blades.length⟩,
    ⟨.storageBuffer, env.scene.blades.length⟩ ]

def CreateDescriptorPool (env : Env) : M Unit := do
  let h ← createOrThrow (.descriptorPool (descriptorPoolSizes env) 5)
    "Failed to create descriptor pool"
  setFields fun r => { r with descriptorPool := h }

/-- The idiom `if (vkAllocateDescriptorSets(...) != VK_SUCCESS) throw ...`. -/
def allocateDescriptorSetsOrThrow (descriptorPool : Handle) (count : Nat)
    (layouts : List Handle) : M (List Handle) := do
  match ← vkAllocateDescriptorSets descriptorPool count layouts with
  | some hs => pure hs
  | none => throwRuntimeError "Failed to allocate descriptor set"

def CreateCameraDescriptorSet (env : Env) : M Unit := do
  let r ← getFields
  let layouts := [r.cameraDescriptorSetLayout]
  let sets ← allocateDescriptorSetsOrThrow r.descriptorPool 1 layouts
  let cameraDescriptorSet := sets.headD VK_NULL_HANDLE
  setFields fun r => { r with cameraDescriptorSet := cameraDescriptorSet }
  -- VkDescriptorBufferInfo cameraBufferInfo, stack cell 0
  declareLocal 0 (.buffer env.cameraBuffer 0 env.sizeofCameraBufferObject)
  let descriptorWrites : List WriteDescriptorSet :=
    [ { dstSet := cameraDescriptorSet, dstBinding := 0, dstArrayElement := 0,
        descriptorType := .uniformBuffer, descriptorCount := 1,
        pBufferInfo := some 0, pImageInfo := none } ]
  vkUpdateDescriptorSets descriptorWrites
  endLocal 0

def CreateModelDescriptorSets (env : Env) : M Unit := do
  let n := env.scene.models.length
  setFields fun r => { r with modelDescriptorSets := resize r.modelDescriptorSets n }
  let r ← getFields
  let layouts := [r.modelDescriptorSetLayout]
  let sets ← allocateDescriptorSetsOrThrow r.descriptorPool r.modelDescriptorSets.length layouts
  setFields fun r => { r with modelDescriptorSets := sets }
  -- texDescriptorAlbedo, texDescriptorPosition, texDescriptorNormal: cells 0, 1, 2
  declareLocal 0 (.image r.deferredSampler r.deferredAlbedoImageView .SHADER_READ_ONLY_OPTIMAL)
  declareLocal 1 (.image r.deferredSampler r.deferredPositionImageView .SHADER_READ_ONLY_OPTIMAL)
  declareLocal 2 (.image r.deferredSampler r.deferredNormalImageView .SHADER_READ_ONLY_OPTIMAL)
  let descriptorWrites ← forRangeWith n (List.replicate (5 * sets.length) WriteDescriptorSet.zero)
    fun i writes => do
      let model := env.scene.models.getD i default
      let dstSet := sets.getD i VK_NULL_HANDLE
      -- modelBufferInfo and imageInfo are locals of the loop body: cells 3 and 4
      declareLocal 3 (.buffer model.modelBuffer 0 env.sizeofModelBufferObject)
      declareLocal 4 (.image model.textureSampler model.textureView .SHADER_READ_ONLY_OPTIMAL)
      let writes := writes.set (5 * i + 0)
        { dstSet := dstSet, dstBinding := 0, dstArrayElement := 0,
          descriptorType := .uniformBuffer, descriptorCount := 1,
          pBufferInfo := some 3, pImageInfo := none }
      let writes := writes.set (5 * i + 1)
        { dstSet := dstSet, dstBinding := 1, dstArrayElement := 0,
          descriptorType := .combinedImageSampler, descriptorCount := 1,
          pBufferInfo := none, pImageInfo := some 4 }
      let writes := writes.set (5 * i + 2)
        { dstSet := dstSet, dstBinding := 2, dstArrayElement := 0,
          descriptorType := .combinedImageSampler, descriptorCount := 1,
          pBufferInfo := none, pImageInfo := some 0 }
      let writes := writes.set (5 * i + 3)
        { dstSet := dstSet, dstBinding := 3, dstArrayElement := 0,
          descriptorType := .combinedImageSampler, descriptorCount := 1,
          pBufferInfo := none, pImageInfo := some 1 }
      let writes := writes.set (5 * i + 4)
        { dstSet := dstSet, dstBinding := 4, dstArrayElement := 0,
          descriptorType := .combinedImageSampler, descriptorCount := 1,
          pBufferInfo := none, pImageInfo := some 2 }
      endLocal 3
      endLocal 4
      pure writes
  vkUpdateDescriptorSets descriptorWrites
  endLocal 0
  endLocal 1
  endLocal 2

def CreateGrassDescriptorSets (env : Env) : M Unit := do
  let n := env.scene.blades.length
  setFields fun r => { r with grassDescriptorSets := resize r.grassDescriptorSets n }
  let r ← getFields
  let layouts := [r.modelDescriptorSetLayout]
  let sets ← allocateDescriptorSetsOrThrow r.descriptorPool r.grassDescriptorSets.length layouts
  setFields fun r => { r with grassDescriptorSets := sets }
  let descriptorWrites ← forRangeWith n (List.replicate (1 * sets.length) WriteDescriptorSet.zero)
    fun i writes => do
      let blades := env.scene.blades.getD i default
      -- grassBufferInfo is a local of the loop body: cell 0
      declareLocal 0 (.buffer blades.modelBuffer 0 env.sizeofModelBufferObject)
      let writes := writes.set i
        { dstSet := sets.getD i VK_NULL_HANDLE, dstBinding := 0, dstArrayElement := 0,
          descriptorType := .uniformBuffer, descriptorCount := 1,
          pBufferInfo := some 0, pImageInfo := none }
      endLocal 0
      pure writes
  vkUpdateDescriptorSets descriptorWrites

def CreateTimeDescriptorSet (env : Env) : M Unit := do
  let r ← getFields
  let layouts := [r.timeDescriptorSetLayout]
  let sets ← allocateDescriptorSetsOrThrow r.descriptorPool 1 layouts
  let timeDescriptorSet := sets.headD VK_NULL_HANDLE
  setFields fun r => { r with timeDescriptorSet := timeDescriptorSet }
  -- VkDescriptorBufferInfo timeBufferInfo, stack cell 0
  declareLocal 0 (.buffer env.scene.timeBuffer 0 env.sizeofTime)
  let descriptorWrites : List WriteDescriptorSet :=
    [ { dstSet := timeDescriptorSet, dstBinding := 0, dstArrayElement := 0,
        descriptorType := .uniformBuffer, descriptorCount := 1,
        pBufferInfo := some 0, pImageInfo := none } ]
  vkUpdateDescriptorSets descriptorWrites
  endLocal 0

def CreateComputeDescriptorSets (env : Env) : M Unit := do
  let n := env.scene.blades.length
  setFields fun r =>
    { r with grassComputeDescriptorSets := resize r.grassComputeDescriptorSets n }
  let r ← getFields
  let layouts := [r.grassComputeDescriptorSetLayout]
  let sets ← allocateDescriptorSetsOrThrow r.descriptorPool
    r.grassComputeDescriptorSets.length layouts
  setFields fun r => { r with grassComputeDescriptorSets := sets }
  let descriptorWrites ← forRangeWith n (List.replicate (3 * sets.length) WriteDescriptorSet.zero)
    fun i writes => do
      let blades := env.scene.blades.getD i default
      let dstSet := sets.getD i VK_NULL_HANDLE
      -- inputBladesBufferInfo, culledBladesBufferInfo, numBladesBufferInfo are
      -- locals of the loop body: cells 0, 1, 2
      declareLocal 0 (.buffer blades.bladesBuffer 0 (env.sizeofBlade * env.NUM_BLADES))
      declareLocal 1 (.buffer blades.culledBladesBuffer 0 (env.sizeofBlade * env.NUM_BLADES))
      declareLocal 2 (.buffer blades.numBladesBuffer 0 env.sizeofBladeDrawIndirect)
      let writes := writes.set (3 * i + 0)
        { dstSet := dstSet, dstBinding := 0, dstArrayElement := 0,
          descriptorType := .storageBuffer, descriptorCount := 1,
          pBufferInfo := some 0, pImageInfo := none }
      let writes := writes.set (3 * i + 1)
        { dstSet := dstSet, dstBinding := 1, dstArrayElement := 0,
          descriptorType := .storageBuffer, descriptorCount := 1,
          pBufferInfo := some 1, pImageInfo := none }
      let writes := writes.set (3 * i + 2)
        { dstSet := dstSet, dstBinding := 2, dstArrayElement := 0,
          descriptorType := .storageBuffer, descriptorCount := 1,
          pBufferInfo := some 2, pImageInfo := none }
      endLocal 0
      endLocal 1
      endLocal 2
      pure writes
  vkUpdateDescriptorSets descriptorWrites

/-! ## Construction: pipelines -/

/-- The colour blend attachment state both pipelines fill in: blending off,
    all four components written. -/
def colorBlendAttachment : ColorBlendAttachmentState :=
  { colorWriteMask := [.R, .G, .B, .A], blendEnable := false,
    srcColorBlendFactor := .ONE, dstColorBlendFactor := .ZERO, colorBlendOp := .ADD,
    srcAlphaBlendFactor := .ONE, dstAlphaBlendFactor := .ZERO, alphaBlendOp := .ADD }

def CreateGraphicsPipeline : M Unit := do
  let vertShaderModule ← ShaderModule.Create "shaders/graphics-DEFERRED.vert.spv"
  let fragShaderModule ← ShaderModule.Create "shaders/graphics-DEFERRED.frag.spv"
  let r ← getFields
  let descriptorSetLayouts := [r.cameraDescriptorSetLayout, r.modelDescriptorSetLayout]
  let layout ← createOrThrow (.pipelineLayout descriptorSetLayouts [])
    "Failed to create pipeline layout"
  setFields fun r => { r with graphicsPipelineLayout := layout }
  let pipeline ← createOrThrow
    (.graphicsPipeline
      { stages := [⟨.vertex, vertShaderModule⟩, ⟨.fragment, fragShaderModule⟩],
        topology := .TRIANGLE_LIST, cullMode := .BACK, frontFace := .COUNTER_CLOCKWISE,
        depthTestEnable := true, depthWriteEnable := true,
        colorBlendAttachmentCount := 1, colorBlendAttachments := [colorBlendAttachment],
        patchControlPoints := none,
        layout := layout, renderPass := r.renderPass, subpass := 0 })
    "Failed to create graphics pipeline"
  setFields fun r => { r with graphicsPipeline := pipeline }
  vkDestroy .shaderModule vertShaderModule
  vkDestroy .shaderModule fragShaderModule

def CreateGrassPipeline : M Unit := do
  let vertShaderModule ← ShaderModule.Create "shaders/grass.vert.spv"
  let tescShaderModule ← ShaderModule.Create "shaders/grass.tesc.spv"
  let teseShaderModule ← ShaderModule.Create "shaders/grass-DEFERRED.tese.spv"
  let fragShaderModule ← ShaderModule.Create "shaders/grass-DEFERRED.frag.spv"
  let r ← getFields
  -- three blend attachment states are pushed by the loop `for (int i = 0; i < 3; i++)`
  let colorBlendAttachments := (List.range 3).map fun _ => colorBlendAttachment
  let descriptorSetLayouts := [r.cameraDescriptorSetLayout, r.modelDescriptorSetLayout]
  let layout ← createOrThrow (.pipelineLayout descriptorSetLayouts [])
    "Failed to create pipeline layout"
  setFields fun r => { r with grassPipelineLayout := layout }
  let pipeline ← createOrThrow
    (.graphicsPipeline
      { stages := [⟨.vertex, vertShaderModule⟩, ⟨.tessellationControl, tescShaderModule⟩,
                   ⟨.tessellationEvaluation, teseShaderModule⟩, ⟨.fragment, fragShaderModule⟩],
        topology := .PATCH_LIST, cullMode := .NONE, frontFace := .COUNTER_CLOCKWISE,
        depthTestEnable := true, depthWriteEnable := true,
        colorBlendAttachmentCount := colorBlendAttachments.length,
        colorBlendAttachments := colorBlendAttachments,
        patchControlPoints := some 1,
        layout := layout, renderPass := r.deferredRenderPass, subpass := 0 })
    "Failed to create graphics pipeline"
  setFields fun r => { r with grassPipeline := pipeline }
  vkDestroy .shaderModule vertShaderModule
  vkDestroy .shaderModule tescShaderModule
  vkDestroy .shaderModule teseShaderModule
  vkDestroy .shaderModule fragShaderModule

def CreateComputePipeline : M Unit := do
  let computeShaderModule ← ShaderModule.Create "shaders/compute.comp.spv"
  let r ← getFields
  let descriptorSetLayouts :=
    [r.cameraDescriptorSetLayout, r.timeDescriptorSetLayout, r.grassComputeDescriptorSetLayout]
  let pushConstantRange : PushConstantRange :=
    { stageFlags := .bits [.compute], offset := 0, size := sizeofInt }
  let layout ← createOrThrow (.pipelineLayout descriptorSetLayouts [pushConstantRange])
    "Failed to create pipeline layout"
  setFields fun r => { r with computePipelineLayout := layout }
  let pipeline ← createOrThrow (.computePipeline ⟨.compute, computeShaderModule⟩ layout)
    "Failed to create compute pipeline"
  setFields fun r => { r with computePipeline := pipeline }
  vkDestroy .shaderModule computeShaderModule

/-! ## Frame resources -/

def CreateFrameResources (env : Env) : M Unit := do
  let count := env.swapChain.count
  setFields fun r => { r with imageViews := resize r.imageViews count }
  forRange count fun i => do
    let view ← createOrThrow
      (.imageView (env.swapChain.images.getD i VK_NULL_HANDLE) .swapChainFormat .COLOR)
      "Failed to create image views"
    setFields fun r => { r with imageViews := r.imageViews.set i view }
  -- the presentation depth image
  let (depthImage, depthImageMemory) ←
    Image.Create env.swapChain.width env.swapChain.height .depthFormat
      [.DEPTH_STENCIL_ATTACHMENT]
  setFields fun r => { r with depthImage := depthImage, depthImageMemory := depthImageMemory }
  let depthImageView ← Image.CreateView depthImage .depthFormat .DEPTH
  setFields fun r => { r with depthImageView := depthImageView }
  Image.TransitionLayout depthImage .UNDEFINED .DEPTH_STENCIL_ATTACHMENT_OPTIMAL
  -- one framebuffer per swap-chain image
  setFields fun r => { r with framebuffers := resize r.framebuffers count }
  forRange count fun i => do
    let r ← getFields
    let attachments := [r.imageViews.getD i VK_NULL_HANDLE, r.depthImageView]
    let fb ← createOrThrow
      (.framebuffer r.renderPass attachments env.swapChain.width env.swapChain.height)
      "Failed to create framebuffer"
    setFields fun r => { r with framebuffers := r.framebuffers.set i fb }

def DestroyFrameResources : M Unit := do
  let r ← getFields
  forRange r.imageViews.length fun i =>
    vkDestroy .imageView (r.imageViews.getD i VK_NULL_HANDLE)
  vkDestroy .imageView r.depthImageView
  vkDestroy .deviceMemory r.depthImageMemory
  vkDestroy .image r.depthImage
  forRange r.framebuffers.length fun i =>
    vkDestroy .framebuffer (r.framebuffers.getD i VK_NULL_HANDLE)
  -- free deferred pipeline stuff
  vkDestroy .imageView r.deferredAlbedoImageView
  vkDestroy .deviceMemory r.deferredAlbedoImageMemory
  vkDestroy .image r.deferredAlbedoImage
  vkDestroy .imageView r.deferredPositionImageView
  vkDestroy .deviceMemory r.deferredPositionImageMemory
  vkDestroy .image r.deferredPositionImage
  vkDestroy .imageView r.deferredNormalImageView
  vkDestroy .deviceMemory r.deferredNormalImageMemory
  vkDestroy .image r.deferredNormalImage
  vkDestroy .imageView r.deferredDepthImageView
  vkDestroy .deviceMemory r.deferredDepthImageMemory
  vkDestroy .image r.deferredDepthImage
  vkDestroy .framebuffer r.deferredFramebuffer

/-! ## Command recording -/

/-- A binary32 value of the form `mant / 2 ^ scale`. -/
structure Binary32 where
  mant : Nat
  scale : Nat
  deriving DecidableEq, Repr

/-- How many low bits of `n < 2 ^ 31` do not fit the 24-bit significand. -/
def droppedBits (n : Nat) : Nat :=
  if n < 2 ^ 24 then 0
  else if n < 2 ^ 25 then 1
  else if n < 2 ^ 26 then 2
  else if n < 2 ^ 27 then 3
  else if n < 2 ^ 28 then 4
  else if n < 2 ^ 29 then 5
  else if n < 2 ^ 30 then 6
  else 7

/-- The conversion `(float)n` of a non-negative `int`: round to the nearest
    binary32 value, ties to the even significand. -/
def intToFloat (n : Nat) : Binary32 :=
  let e := droppedBits n
  let q := n / 2 ^ e
  let rest := n % 2 ^ e
  let roundUp := decide (2 ^ e < 2 * rest) || (decide (2 * rest = 2 ^ e) && decide (q % 2 = 1))
  ⟨(if roundUp then q + 1 else q) * 2 ^ e, 0⟩

/-- Float division by `2 ^ k`; only the exponent changes, so it is exact. -/
def Binary32.divPow2 (x : Binary32) (k : Nat) : Binary32 := ⟨x.mant, x.scale + k⟩

/-- The function `ceil`, and the cast of its result to an integer. -/
def Binary32.ceil (x : Binary32) : Nat := (x.mant + (2 ^ x.scale - 1)) / 2 ^ x.scale

/-- The expression `(int)ceil((float)NUM_BLADES / WORKGROUP_SIZE)`, where
    `WORKGROUP_SIZE` is `32 = 2 ^ 5`. -/
def dispatchGroupCount (numBlades : Nat) : Nat :=
  ((intToFloat numBlades).divPow2 5).ceil

/-- The idiom `if (vkAllocateCommandBuffers(...) != VK_SUCCESS) throw ...`. -/
def allocateCommandBuffersOrThrow (commandPool : Handle) (count : Nat) (msg : String) :
    M (List Handle) := do
  match ← vkAllocateCommandBuffers commandPool count with
  | some hs => pure hs
  | none => throwRuntimeError msg

def zeroLit : FloatLit := ⟨0, 1⟩

def oneLit : FloatLit := ⟨10, 1⟩

/-- Records the Fill pass into `deferredCommandBuffer`. -/
def RecordDeferredCommandBuffer (env : Env) : M Unit := do
  let r ← getFields
  let bufs ← allocateCommandBuffersOrThrow r.graphicsCommandPool 1
    "Failed to allocate DEFERRED command buffers"
  let deferredCommandBuffer := bufs.headD VK_NULL_HANDLE
  setFields fun r => { r with deferredCommandBuffer := deferredCommandBuffer }
  let semaphore ← createOrThrow .semaphore "Failed to allocate DEFERRED semaphore"
  setFields fun r => { r with deferredSemaphore := semaphore }
  let clearValues : List ClearValue :=
    [ .color zeroLit zeroLit zeroLit zeroLit,
      .color zeroLit zeroLit zeroLit zeroLit,
      .color zeroLit zeroLit zeroLit zeroLit,
      .depthStencil oneLit 0 ]
  throwUnless (← vkBeginCommandBuffer deferredCommandBuffer) "Failed to begin recording DEFERRED command buffer"
  vkCmd deferredCommandBuffer
    (.bindDescriptorSets .GRAPHICS r.grassPipelineLayout 0 [r.cameraDescriptorSet])
  vkCmd deferredCommandBuffer
    (.beginRenderPass r.deferredRenderPass r.deferredFramebuffer
      env.swapChain.width env.swapChain.height clearValues)
  vkCmd deferredCommandBuffer (.bindPipeline .GRAPHICS r.grassPipeline)
  forRange env.scene.blades.length fun j => do
    let blades := env.scene.blades.getD j default
    vkCmd deferredCommandBuffer (.bindVertexBuffers 0 [blades.culledBladesBuffer] [0])
    vkCmd deferredCommandBuffer
      (.bindDescriptorSets .GRAPHICS r.grassPipelineLayout 1
        [r.grassDescriptorSets.getD j VK_NULL_HANDLE])
    vkCmd deferredCommandBuffer
      (.drawIndirect blades.numBladesBuffer 0 1 env.sizeofBladeDrawIndirect)
  vkCmd deferredCommandBuffer .endRenderPass
  throwUnless (← vkEndCommandBuffer deferredCommandBuffer) "Failed to record DEFERRED command buffer"

/-- Records the Cull pass into `computeCommandBuffer`. -/
def RecordComputeCommandBuffer (env : Env) : M Unit := do
  let r ← getFields
  let bufs ← allocateCommandBuffersOrThrow r.computeCommandPool 1
    "Failed to allocate command buffers"
  let computeCommandBuffer := bufs.headD VK_NULL_HANDLE
  setFields fun r => { r with computeCommandBuffer := computeCommandBuffer }
  throwUnless (← vkBeginCommandBuffer computeCommandBuffer) "Failed to begin recording compute command buffer"
  vkCmd computeCommandBuffer (.bindPipeline .COMPUTE r.computePipeline)
  vkCmd computeCommandBuffer
    (.bindDescriptorSets .COMPUTE r.computePipelineLayout 0 [r.cameraDescriptorSet])
  vkCmd computeCommandBuffer
    (.bindDescriptorSets .COMPUTE r.computePipelineLayout 1 [r.timeDescriptorSet])
  let pushValues := [env.NUM_BLADES]
  vkCmd computeCommandBuffer
    (.pushConstants r.computePipelineLayout (.bits [.compute]) 0 sizeofInt pushValues)
  forRange env.scene.blades.length fun j => do
    vkCmd computeCommandBuffer
      (.bindDescriptorSets .COMPUTE r.computePipelineLayout 2
        [r.grassComputeDescriptorSets.getD j VK_NULL_HANDLE])
    vkCmd computeCommandBuffer (.dispatch (dispatchGroupCount env.NUM_BLADES) 1 1)
  throwUnless (← vkEndCommandBuffer computeCommandBuffer) "Failed to record compute command buffer"

/-- The buffer barriers built by the inner loop of `RecordCommandBuffers`. -/
def cullToFillBarriers (env : Env) : List BufferMemoryBarrier :=
  (List.range env.scene.blades.length).map fun j =>
    { srcAccessMask := [.SHADER_WRITE],
      dstAccessMask := [.INDIRECT_COMMAND_READ],
      srcQueueFamilyIndex := env.computeQueueFamily,
      dstQueueFamilyIndex := env.graphicsQueueFamily,
      buffer := (env.scene.blades.getD j default).numBladesBuffer,
      offset := 0,
      size := env.sizeofBladeDrawIndirect }

/-- Records the Composite pass, one command buffer per swap-chain image. -/
def RecordCommandBuffers (env : Env) : M Unit := do
  setFields fun r => { r with commandBuffers := resize r.commandBuffers env.swapChain.count }
  let r ← getFields
  let bufs ← allocateCommandBuffersOrThrow r.graphicsCommandPool r.commandBuffers.length
    "Failed to allocate command buffers"
  setFields fun r => { r with commandBuffers := bufs }
  forRange bufs.length fun i => do
    let cb := bufs.getD i VK_NULL_HANDLE
    throwUnless (← vkBeginCommandBuffer cb) "Failed to begin recording command buffer"
    let clearValues : List ClearValue :=
      [ .color ⟨768, 3⟩ ⟨8039, 4⟩ ⟨898, 3⟩ oneLit,
        .depthStencil oneLit 0 ]
    vkCmd cb (.pipelineBarrier .COMPUTE_SHADER .DRAW_INDIRECT (cullToFillBarriers env))
    vkCmd cb (.bindDescriptorSets .GRAPHICS r.graphicsPipelineLayout 0 [r.cameraDescriptorSet])
    vkCmd cb
      (.beginRenderPass r.renderPass (r.framebuffers.getD i VK_NULL_HANDLE)
        env.swapChain.width env.swapChain.height clearValues)
    vkCmd cb (.bindPipeline .GRAPHICS r.graphicsPipeline)
    forRange env.scene.models.length fun j => do
      let model := env.scene.models.getD j default
      vkCmd cb (.bindVertexBuffers 0 [model.vertexBuffer] [0])
      vkCmd cb (.bindIndexBuffer model.indexBuffer 0 .UINT32)
      vkCmd cb
        (.bindDescriptorSets .GRAPHICS r.graphicsPipelineLayout 1
          [r.modelDescriptorSets.getD j VK_NULL_HANDLE])
      vkCmd cb (.drawIndexed model.indexCount 1 0 0 0)
    vkCmd cb .endRenderPass
    throwUnless (← vkEndCommandBuffer cb) "Failed to record command buffer"

/-! ## Resize, construction and teardown -/

def RecreateFrameResources (env : Env) : M Unit := do
  let r ← getFields
  vkDestroy .pipeline r.graphicsPipeline
  vkDestroy .pipeline r.grassPipeline
  vkDestroy .pipelineLayout r.graphicsPipelineLayout
  vkDestroy .pipelineLayout r.grassPipelineLayout
  vkFreeCommandBuffers r.commandBuffers
  DestroyFrameResources
  CreateFrameResources env
  CreateGraphicsPipeline
  CreateGrassPipeline
  RecordCommandBuffers env

/-- The constructor `DeferredRenderer::DeferredRenderer`. -/
def construct (env : Env) : M Unit := do
  CreateCommandPools env
  CreateRenderPass
  CreateDeferredRenderPass env
  CreateCameraDescriptorSetLayout
  CreateModelDescriptorSetLayout
  CreateTimeDescriptorSetLayout
  CreateComputeDescriptorSetLayout
  CreateDescriptorPool env
  CreateCameraDescriptorSet env
  CreateModelDescriptorSets env
  CreateGrassDescriptorSets env
  CreateTimeDescriptorSet env
  CreateComputeDescriptorSets env
  CreateFrameResources env
  CreateGraphicsPipeline
  CreateGrassPipeline
  CreateComputePipeline
  RecordCommandBuffers env
  RecordDeferredCommandBuffer env
  RecordComputeCommandBuffer env

/-- The destructor; `vkDeviceWaitIdle` comes first and changes no object. -/
def destruct : M Unit := do
  let r ← getFields
  vkFreeCommandBuffers r.commandBuffers
  vkFreeCommandBuffers [r.computeCommandBuffer]
  vkFreeCommandBuffers [r.deferredCommandBuffer]
  vkDestroy .pipeline r.graphicsPipeline
  vkDestroy .pipeline r.grassPipeline
  vkDestroy .pipeline r.computePipeline
  vkDestroy .pipelineLayout r.graphicsPipelineLayout
  vkDestroy .pipelineLayout r.grassPipelineLayout
  vkDestroy .pipelineLayout r.computePipelineLayout
  vkDestroy .descriptorSetLayout r.cameraDescriptorSetLayout
  vkDestroy .descriptorSetLayout r.modelDescriptorSetLayout
  vkDestroy .descriptorSetLayout r.timeDescriptorSetLayout
  vkDestroy .descriptorSetLayout r.grassComputeDescriptorSetLayout
  vkDestroyPool .descriptorPool r.descriptorPool
  vkDestroy .renderPass r.renderPass
  vkDestroy .renderPass r.deferredRenderPass
  DestroyFrameResources
  vkDestroyPool .commandPool r.computeCommandPool
  vkDestroyPool .commandPool r.graphicsCommandPool
  vkDestroy .semaphore r.deferredSemaphore
  vkDestroy .sampler r.deferredSampler

/-! ## The frame scheduler -/

/-- What one call of `Frame` does to the queues and the swap chain. -/
inductive Action
  | queueSubmit (queue : QueueFlags) (waitSemaphores : List Handle)
      (waitDstStageMask : List PipelineStage) (commandBuffers : List Handle)
      (signalSemaphores : List Handle)
  | acquire
  | present
  | recreateFrameResources
  deriving DecidableEq, Repr

/-- What the driver and the swap chain answer during one call of `Frame`:
    for each call whether it reports success, and the image index the swap
    chain holds after `Acquire`. -/
structure FrameInputs where
  computeSubmit : Bool
  acquire : Bool
  imageIndex : Nat
  deferredSubmit : Bool
  submit : Bool
  present : Bool
  deriving DecidableEq, Repr

structure FrameOut where
  actions : List Action
  out : Out Unit

def submitCull (s : State) : Action :=
  .queueSubmit .Compute [] [] [s.r.computeCommandBuffer] []

def submitFill (env : Env) (s : State) : Action :=
  .queueSubmit .Graphics [env.swapChain.imageAvailableSemaphore] [.COLOR_ATTACHMENT_OUTPUT]
    [s.r.deferredCommandBuffer] [s.r.deferredSemaphore]

/-- The Composite submission reads `commandBuffers[swapChain->GetIndex()]`; an
    index outside the vector reads the null handle here. -/
def submitComposite (env : Env) (imageIndex : Nat) (s : State) : Action :=
  .queueSubmit .Graphics [s.r.deferredSemaphore] [.COLOR_ATTACHMENT_OUTPUT]
    [s.r.commandBuffers.getD imageIndex VK_NULL_HANDLE]
    [env.swapChain.renderFinishedSemaphore]

/-- One call of `DeferredRenderer::Frame`, one branch per way out of the
    function: what it did to the queues and the swap chain up to there, and
    the outcome (`PRINT_NUM_BLADES` is 0, so the read-back block is not
    compiled). -/
def Frame (env : Env) (inp : FrameInputs) (s : State) : FrameOut :=
  if !inp.computeSubmit then
    ⟨[submitCull s], (throwRuntimeError "Failed to submit draw command buffer").run s⟩
  else if !inp.acquire then
    ⟨[submitCull s, .acquire, .recreateFrameResources], (RecreateFrameResources env).run s⟩
  else if !inp.deferredSubmit then
    ⟨[submitCull s, .acquire, submitFill env s],
     (throwRuntimeError "Failed to submit draw DEFERRED command buffer").run s⟩
  else if !inp.submit then
    ⟨[submitCull s, .acquire, submitFill env s, submitComposite env inp.imageIndex s],
     (throwRuntimeError "Failed to submit draw command buffer").run s⟩
  else if !inp.present then
    ⟨[submitCull s, .acquire, submitFill env s, submitComposite env inp.imageIndex s,
      .present, .recreateFrameResources],
     (RecreateFrameResources env).run s⟩
  else
    ⟨[submitCull s, .acquire, submitFill env s, submitComposite env inp.imageIndex s, .present],
     (M.pure ()).run s⟩

/-! ## Reading recorded sequences -/

def Cmd.isDispatch : Cmd → Bool
  | .dispatch _ _ _ => true
  | _ => false

def Cmd.isDraw : Cmd → Bool
  | .drawIndexed _ _ _ _ _ => true
  | .drawIndirect _ _ _ _ => true
  | _ => false

def Cmd.isDrawIndirect : Cmd → Bool
  | .drawIndirect _ _ _ _ => true
  | _ => false

def Cmd.isPipelineBarrier : Cmd → Bool
  | .pipelineBarrier _ _ _ => true
  | _ => false

/-- The buffer barriers a command carries. -/
def Cmd.bufferBarriers : Cmd → List BufferMemoryBarrier
  | .pipelineBarrier _ _ bs => bs
  | _ => []

/-- The driver objects a command refers to by handle (pipelines, pipeline
    layouts, render passes, framebuffers, descriptor sets).  Buffers belong to
    the scene and are not listed. -/
def Cmd.objects : Cmd → List Handle
  | .bindPipeline _ p => [p]
  | .bindDescriptorSets _ layout _ sets => layout :: sets
  | .pushConstants layout _ _ _ _ => [layout]
  | .beginRenderPass rp fb _ _ _ => [rp, fb]
  | _ => []

/-- Every object the command buffer's sequence refers to is live, and so is
    the command buffer itself. -/
def Vk.sequenceLive (d : Vk) (commandBuffer : Handle) : Bool :=
  d.isLive commandBuffer &&
    (d.recorded commandBuffer).all fun c => c.objects.all d.isLive

/-- The image views that the applied writes of a descriptor set put into one
    of its slots. -/
def Vk.boundImageViews (d : Vk) (set : Handle) (binding : Nat) : List Handle :=
  d.appliedWrites.filterMap fun w =>
    if w.dstSet = set ∧ w.dstBinding = binding then
      match w.source with
      | some ⟨.image _ view _, _⟩ => some view
      | _ => none
    else none

/-- How many live objects of a kind the device holds. -/
def Vk.liveCount (d : Vk) (k : ObjKind) : Nat :=
  (d.live.filter fun o => decide (o.info.kind = k)).length

/-- The first commands of the Cull sequence: pipeline, camera, time, and the
    push constant. -/
def cullHead (env : Env) (r : Fields) : List Cmd :=
  [ .bindPipeline .COMPUTE r.computePipeline,
    .bindDescriptorSets .COMPUTE r.computePipelineLayout 0 [r.cameraDescriptorSet],
    .bindDescriptorSets .COMPUTE r.computePipelineLayout 1 [r.timeDescriptorSet],
    .pushConstants r.computePipelineLayout (.bits [.compute]) 0 sizeofInt [env.NUM_BLADES] ]

/-- The commands of the Cull sequence for grass group `j`. -/
def cullBlock (env : Env) (r : Fields) (j : Nat) : List Cmd :=
  [ .bindDescriptorSets .COMPUTE r.computePipelineLayout 2
      [r.grassComputeDescriptorSets.getD j VK_NULL_HANDLE],
    .dispatch (dispatchGroupCount env.NUM_BLADES) 1 1 ]

/-- The sequence `RecordComputeCommandBuffer` is to leave in the Cull command
    buffer, read off the member fields. -/
def cullCommands (env : Env) (r : Fields) : List Cmd :=
  cullHead env r ++ (List.range env.scene.blades.length).flatMap (cullBlock env r)

/-- The first commands of the Fill sequence: camera, begin of the G-buffer
    render pass with its clear values, grass pipeline. -/
def fillHead (env : Env) (r : Fields) : List Cmd :=
  [ .bindDescriptorSets .GRAPHICS r.grassPipelineLayout 0 [r.cameraDescriptorSet],
    .beginRenderPass r.deferredRenderPass r.deferredFramebuffer
      env.swapChain.width env.swapChain.height
      [ .color zeroLit zeroLit zeroLit zeroLit,
        .color zeroLit zeroLit zeroLit zeroLit,
        .color zeroLit zeroLit zeroLit zeroLit,
        .depthStencil oneLit 0 ],
    .bindPipeline .GRAPHICS r.grassPipeline ]

/-- The commands of the Fill sequence for grass group `j`. -/
def fillBlock (env : Env) (r : Fields) (j : Nat) : List Cmd :=
  [ .bindVertexBuffers 0 [(env.scene.blades.getD j default).culledBladesBuffer] [0],
    .bindDescriptorSets .GRAPHICS r.grassPipelineLayout 1
      [r.grassDescriptorSets.getD j VK_NULL_HANDLE],
    .drawIndirect (env.scene.blades.getD j default).numBladesBuffer 0 1
      env.sizeofBladeDrawIndirect ]

/-- The sequence `RecordDeferredCommandBuffer` is to leave in the Fill command
    buffer, read off the member fields. -/
def fillCommands (env : Env) (r : Fields) : List Cmd :=
  fillHead env r ++ (List.range env.scene.blades.length).flatMap (fillBlock env r) ++
    [ .endRenderPass ]

/-- The first commands of Composite sequence `i`: the buffer barriers, the
    camera, begin of the presentation render pass, the graphics pipeline. -/
def compositeHead (env : Env) (r : Fields) (i : Nat) : List Cmd :=
  [ .pipelineBarrier .COMPUTE_SHADER .DRAW_INDIRECT (cullToFillBarriers env),
    .bindDescriptorSets .GRAPHICS r.graphicsPipelineLayout 0 [r.cameraDescriptorSet],
    .beginRenderPass r.renderPass (r.framebuffers.getD i VK_NULL_HANDLE)
      env.swapChain.width env.swapChain.height
      [ .color ⟨768, 3⟩ ⟨8039, 4⟩ ⟨898, 3⟩ oneLit, .depthStencil oneLit 0 ],
    .bindPipeline .GRAPHICS r.graphicsPipeline ]

/-- The commands of a Composite sequence for static model `j`. -/
def compositeBlock (env : Env) (r : Fields) (j : Nat) : List Cmd :=
  [ .bindVertexBuffers 0 [(env.scene.models.getD j default).vertexBuffer] [0],
    .bindIndexBuffer (env.scene.models.getD j default).indexBuffer 0 .UINT32,
    .bindDescriptorSets .GRAPHICS r.graphicsPipelineLayout 1
      [r.modelDescriptorSets.getD j VK_NULL_HANDLE],
    .drawIndexed (env.scene.models.getD j default).indexCount 1 0 0 0 ]

/-- The sequence `RecordCommandBuffers` is to leave in Composite command
    buffer `i`, read off the member fields. -/
def compositeCommands (env : Env) (r : Fields) (i : Nat) : List Cmd :=
  compositeHead env r i ++ (List.range env.scene.models.length).flatMap (compositeBlock env r) ++
    [ .endRenderPass ]

/-- The body of the outer loop of `RecordCommandBuffers`, with its `vkCmd*`
    calls taken together. -/
def compositeBody (env : Env) (r : Fields) (bufs : List Handle) (i : Nat) : M Unit := do
  throwUnless (← vkBeginCommandBuffer (bufs.getD i VK_NULL_HANDLE))
    "Failed to begin recording command buffer"
  vkCmds (bufs.getD i VK_NULL_HANDLE) (compositeCommands env r i)
  throwUnless (← vkEndCommandBuffer (bufs.getD i VK_NULL_HANDLE)) "Failed to record command buffer"

/-- Every buffer barrier recorded into any command buffer of the renderer. -/
def recordedBarriers (s : State) : List BufferMemoryBarrier :=
  (s.r.computeCommandBuffer :: s.r.deferredCommandBuffer :: s.r.commandBuffers).flatMap
    fun cb => (s.vk.recorded cb).flatMap Cmd.bufferBarriers

/-! ## A concrete scene

One static model, two grass groups, a swap chain of two images and
`NUM_BLADES = 512`; the driver accepts every call. -/

def demoEnv : Env :=
  { scene := { models := [⟨101, 102, 6, 103, 104, 105⟩],
               blades := [⟨201, 202, 203, 204⟩, ⟨211, 212, 213, 214⟩],
               timeBuffer := 300 },
    swapChain := { count := 2, images := [401, 402], width := 640, height := 480,
                   imageAvailableSemaphore := 501, renderFinishedSemaphore := 502 },
    cameraBuffer := 600, graphicsQueueFamily := 0, computeQueueFamily := 1,
    NUM_BLADES := 512, sizeofCameraBufferObject := 128, sizeofModelBufferObject := 64,
    sizeofTime := 8, sizeofBlade := 64, sizeofBladeDrawIndirect := 16 }

/-- The renderer right after its constructor returned. -/
def demoConstructed : State := ((construct demoEnv).run (State.fresh [])).st

/-- The renderer after the constructor and one `RecreateFrameResources`. -/
def demoRecreated : State := ((RecreateFrameResources demoEnv).run demoConstructed).st

/-- A scene with one static model and no grass group. -/
def noGrassEnv : Env :=
  { demoEnv with scene := { models := [⟨101, 102, 6, 103, 104, 105⟩], blades := [],
                            timeBuffer := 300 } }

/-- The renderer of the scene without grass, right after its constructor. -/
def noGrassConstructed : State := ((construct noGrassEnv).run (State.fresh [])).st

/-- Every driver call and every submission succeeds; image 1 is acquired. -/
def allSucceed : FrameInputs :=
  { computeSubmit := true, acquire := true, imageIndex := 1, deferredSubmit := true,
    submit := true, present := true }

/-! ## Reading the device -/

/-- The device after the call `vkDestroy k h`. -/
def Vk.destroy (d : Vk) (k : ObjKind) (h : Handle) : Vk :=
  if h = VK_NULL_HANDLE then d
  else if d.isLiveOfKind k h then
    { d with live := d.live.filter (fun o => !(o.handle == h)) }
  else
    { d with faults := d.faults ++ [(k, h)] }

/-- The create-info of the live object with handle `h`. -/
def Vk.info? (d : Vk) (h : Handle) : Option Info :=
  (d.live.find? fun o => o.handle == h).map fun o => o.info

/-- Whether a stage is in a `VkShaderStageFlags` mask. -/
def StageFlags.visibleTo : StageFlags → ShaderStage → Bool
  | .all, _ => true
  | .bits bs, st => decide (st ∈ bs)

/-- The applied writes to slot `binding` of binding instance `set`, oldest
    first. -/
def Vk.writesTo (d : Vk) (set : Handle) (binding : Nat) : List AppliedWrite :=
  d.appliedWrites.filter fun w => decide (w.dstSet = set) && decide (w.dstBinding = binding)

/-- The effective resource at a slot of a binding instance: what the last
    applied write to the slot read through its pointer (last write wins). -/
def Vk.effective? (d : Vk) (set : Handle) (binding : Nat) : Option StackCell :=
  (d.writesTo set binding).getLast?.bind fun w => w.source

/-- The slots of a binding instance that some applied write targets. -/
def Vk.writtenSlots (d : Vk) (set : Handle) : List Nat :=
  ((d.appliedWrites.filter fun w => decide (w.dstSet = set)).map fun w => w.dstBinding).dedup

/-- The capacity `maxSets` of the live descriptor pool `pool`. -/
def Vk.maxSets? (d : Vk) (pool : Handle) : Option Nat :=
  match d.info? pool with
  | some (.descriptorPool _ maxSets) => some maxSets
  | _ => none

/-- How many binding instances were requested from the pool `pool`, over all
    calls of `vkAllocateDescriptorSets`. -/
def Vk.requestedSets (d : Vk) (pool : Handle) : Nat :=
  ((d.descriptorAllocations.filter fun a => decide (a.descriptorPool = pool)).map
    fun a => a.descriptorSetCount).sum

/-- The binding instances a command binds. -/
def Cmd.boundSets : Cmd → List Handle
  | .bindDescriptorSets _ _ _ sets => sets
  | _ => []

/-- The binding instances bound somewhere in a command sequence. -/
def boundIn (seq : List Cmd) : List Handle := seq.flatMap Cmd.boundSets

/-- A scene with two static models and two grass groups. -/
def twoModelEnv : Env :=
  { demoEnv with scene := { models := [⟨101, 102, 6, 103, 104, 105⟩,
                                        ⟨111, 112, 36, 113, 114, 115⟩],
                            blades := [⟨201, 202, 203, 204⟩, ⟨211, 212, 213, 214⟩],
                            timeBuffer := 300 } }

/-- The renderer of the scene with two models, right after its constructor. -/
def twoModelConstructed : State := ((construct twoModelEnv).run (State.fresh [])).st


/-! ## Triples -/

/-- A triple for member functions: started in a state that satisfies `P`,
    `m` either returns a value `a` in a state that satisfies `Q a`, or throws
    in a state that satisfies `E`. -/
def Hoare {α : Type} (P : State → Prop) (m : M α) (Q : α → State → Prop)
    (E : State → Prop) : Prop :=
  ∀ s, P s →
    match (m.run s).res with
    | .ok a => Q a (m.run s).st
    | .error _ => E (m.run s).st

/-- Every checked call made since the state `s0` returned `VK_SUCCESS`. -/
def allCallsSucceeded (s0 s : State) : Prop :=
  s.vk.failures = s0.vk.failures ∧ s0.vk.callNo ≤ s.vk.callNo ∧
    ∀ k, s0.vk.callNo ≤ k → k < s.vk.callNo → k ∉ s0.vk.failures

/-- The last checked call made since the state `s0` did not return
    `VK_SUCCESS`, and every checked call before it did. -/
def stoppedAtFailure (s0 s : State) : Prop :=
  s.vk.failures = s0.vk.failures ∧ s0.vk.callNo < s.vk.callNo ∧
    s.vk.callNo - 1 ∈ s0.vk.failures ∧
    ∀ k, s0.vk.callNo ≤ k → k + 1 < s.vk.callNo → k ∉ s0.vk.failures

/-- The member function `m` is fail-fast: it returns only if every checked
    call it made succeeded, and it throws right at the first one that did
    not. -/
def FailFast {α : Type} (s0 : State) (m : M α) : Prop :=
  Hoare (allCallsSucceeded s0) m (fun _ => allCallsSucceeded s0) (stoppedAtFailure s0)


/-! ## Resize: what is touched and what is kept -/

/-- The handles `RecreateFrameResources` hands to `vkDestroy*`, `vkFreeMemory`
    and `vkFreeCommandBuffers`, read off the member fields at its start. -/
def resizeSensitiveHandles (r : Fields) : List Handle :=
  [r.graphicsPipeline, r.grassPipeline, r.graphicsPipelineLayout, r.grassPipelineLayout]
    ++ r.commandBuffers ++ r.imageViews
    ++ [r.depthImageView, r.depthImageMemory, r.depthImage]
    ++ r.framebuffers
    ++ [r.deferredAlbedoImageView, r.deferredAlbedoImageMemory, r.deferredAlbedoImage,
        r.deferredPositionImageView, r.deferredPositionImageMemory, r.deferredPositionImage,
        r.deferredNormalImageView, r.deferredNormalImageMemory, r.deferredNormalImage,
        r.deferredDepthImageView, r.deferredDepthImageMemory, r.deferredDepthImage,
        r.deferredFramebuffer]

/-- The member fields with the ones `RecreateFrameResources` assigns blanked
    out; two states agree on it when every other field is the same. -/
def Fields.withoutFrameResources (r : Fields) : Fields :=
  { r with graphicsPipeline := 0, grassPipeline := 0, graphicsPipelineLayout := 0,
           grassPipelineLayout := 0, commandBuffers := [], imageViews := [],
           depthImage := 0, depthImageMemory := 0, depthImageView := 0, framebuffers := [] }

/-- The kinds of object `RecreateFrameResources` creates: image views, images
    and their memory, framebuffers, shader modules, pipeline layouts,
    graphics pipelines and command buffers. -/
def Info.isFrameResource : Info → Bool
  | .imageView _ _ _ => true
  | .image _ _ _ _ => true
  | .deviceMemory _ => true
  | .framebuffer _ _ _ _ => true
  | .shaderModule _ => true
  | .pipelineLayout _ _ => true
  | .graphicsPipeline _ => true
  | .commandBuffer _ => true
  | _ => false

/-- What holds of a state `s` that `RecreateFrameResources` goes through when
    started in `s0`, for an object `o` of `s0`: the fields it does not assign
    are the same, no handle of `s0` is handed out again, command buffers of
    `s0` hold what they held, no descriptor write was applied, `o` is live,
    and every live object is an object of `s0` or a new frame resource. -/
def KeptOnResize (s0 : State) (o : Obj) (s : State) : Prop :=
  s.r.withoutFrameResources = s0.r.withoutFrameResources
  ∧ s0.vk.nextHandle ≤ s.vk.nextHandle
  ∧ (∀ h, h < s0.vk.nextHandle → s.vk.recorded h = s0.vk.recorded h)
  ∧ s.vk.appliedWrites = s0.vk.appliedWrites
  ∧ o ∈ s.vk.live
  ∧ ∀ o1, o1 ∈ s.vk.live →
      o1 ∈ s0.vk.live ∨ (s0.vk.nextHandle ≤ o1.handle ∧ o1.info.isFrameResource = true)


/-! ## What a member function leaves alone -/

/-- The member function `m` assigns no member field and applies no
    descriptor write. -/
def Quiet {α : Type} (m : M α) : Prop :=
  ∀ s, (m.run s).st.r = s.r ∧ (m.run s).st.vk.appliedWrites = s.vk.appliedWrites

/-- A reading `π` of the member fields and the applied descriptor writes has
    the value `c`. -/
def Frozen {β : Type} (π : Fields → List AppliedWrite → β) (c : β) (s : State) : Prop :=
  π s.r s.vk.appliedWrites = c


/-! ## Which slots have been written -/

/-- The (binding instance, slot) pairs that the applied descriptor writes
    target, oldest first. -/
def Vk.writtenPairs (d : Vk) : List (Handle × Nat) :=
  d.appliedWrites.map fun w => (w.dstSet, w.dstBinding)

/-- The (binding instance, slot) pair a descriptor write names. -/
def WriteDescriptorSet.target (w : WriteDescriptorSet) : Handle × Nat :=
  (w.dstSet, w.dstBinding)

/-- The member fields are `r`, the written pairs are `pairs`, and the next
    handle the device hands out is `next`. -/
def Tracked (r : Fields) (pairs : List (Handle × Nat)) (next : Handle) (s : State) : Prop :=
  s.r = r ∧ s.vk.writtenPairs = pairs ∧ s.vk.nextHandle = next

/-- The pairs of `count` binding instances with the handles `first`,
    `first + 1`, ..., each written at the slots `0` to `slots - 1`, instance
    by instance. -/
def blockPairs (first : Handle) (count slots : Nat) : List (Handle × Nat) :=
  (List.range count).flatMap fun i => (List.range slots).map fun b => (first + i, b)

/-- The written pairs are exactly the slots below `g.2` of the instances
    `g.1`, over the groups `g` of `groups`; no instance is in two groups or
    twice in one, and every instance has been handed out. -/
def Written (groups : List (List Handle × Nat)) (s : State) : Prop :=
  (∀ h b, (h, b) ∈ s.vk.writtenPairs ↔ ∃ g, g ∈ groups ∧ h ∈ g.1 ∧ b < g.2)
  ∧ (groups.flatMap fun g => g.1).Nodup
  ∧ ∀ h, h ∈ (groups.flatMap fun g => g.1) → h < s.vk.nextHandle

/-- In the list `T` of targets of a vector of descriptor writes that is
    filled block by block, `slots` writes per binding instance: the blocks
    of the instances before the `i`-th are filled in, and so are the first
    `c` entries of the block of the `i`-th. -/
def FilledUpTo (T : List (Handle × Nat)) (slots : Nat) (first : Handle) (i c : Nat) : Prop :=
  (∀ j b, j < i → b < slots → T[slots * j + b]? = some (first + j, b))
  ∧ ∀ b, b < c → T[slots * i + b]? = some (first + i, b)


/-- The groups of binding instances the constructor allocates, in the order
    it allocates them, each with the number of slots it writes per
    instance: the camera instance (slot 0), the model instances (slots 0 to
    4), the grass instances (slot 0), the time instance (slot 0) and the
    compute instances (slots 0 to 2). -/
def bindingGroups (r : Fields) : List (List Handle × Nat) :=
  [ ([r.cameraDescriptorSet], 1), (r.modelDescriptorSets, 5), (r.grassDescriptorSets, 1),
    ([r.timeDescriptorSet], 1), (r.grassComputeDescriptorSets, 3) ]

/-- How many binding instances each group has, for a scene. -/
def bindingCounts (env : Env) : List Nat :=
  [1, env.scene.models.length, env.scene.blades.length, 1, env.scene.blades.length]

/-- The first `k` groups of binding instances are allocated and written. -/
def WrittenStage (env : Env) (k : Nat) (s : State) : Prop :=
  Written ((bindingGroups s.r).take k) s
  ∧ ((bindingGroups s.r).take k).map (fun g => g.1.length) = (bindingCounts env).take k

/-- The steps of the constructor that come before the binding instances are
    created, and the steps that come after. -/
def stepsOutsideBindings (env : Env) : List (M Unit) :=
  [ CreateCommandPools env, CreateRenderPass, CreateDeferredRenderPass env,
    CreateCameraDescriptorSetLayout, CreateModelDescriptorSetLayout,
    CreateTimeDescriptorSetLayout, CreateComputeDescriptorSetLayout, CreateDescriptorPool env,
    CreateFrameResources env, CreateGraphicsPipeline, CreateGrassPipeline,
    CreateComputePipeline, RecordCommandBuffers env, RecordDeferredCommandBuffer env,
    RecordComputeCommandBuffer env ]

/-- All binding instances are allocated and written: the written pairs are
    exactly the slots of the five groups, no instance is in two groups or
    twice in one, and the groups have the sizes the scene asks for. -/
def AllWritten (env : Env) (s : State) : Prop :=
  (∀ h b, (h, b) ∈ s.vk.writtenPairs ↔ ∃ g, g ∈ bindingGroups s.r ∧ h ∈ g.1 ∧ b < g.2)
  ∧ ((bindingGroups s.r).flatMap fun g => g.1).Nodup
  ∧ (bindingGroups s.r).map (fun g => g.1.length) = bindingCounts env

/-! ## Push constants -/

def Cmd.isPushConstants : Cmd → Bool
  | .pushConstants _ _ _ _ _ => true
  | _ => false

/-! ## Binds against pipeline layouts -/

/-- Whether a command is compatible with the pipeline layout it names: for
    a descriptor-set bind at first set `k`, the layout is a live pipeline
    layout and the `i`-th bound instance is live and was allocated with the
    schema at position `k + i` of the layout.  Other commands name no
    layout entry. -/
def Vk.compatibleBind (d : Vk) : Cmd → Bool
  | .bindDescriptorSets _ layout firstSet sets =>
    match d.info? layout with
    | some (.pipelineLayout setLayouts _) =>
      (List.range sets.length).all fun i =>
        match d.info? (sets.getD i VK_NULL_HANDLE) with
        | some (.descriptorSet _ (some l)) => setLayouts[firstSet + i]? == some l
        | _ => false
    | _ => false
  | _ => true

/-! ## Descriptors reserved and descriptors taken -/

/-- How many descriptors of a kind a list of pool sizes reserves. -/
def reservedDescriptors (sizes : List PoolSize) (ty : DescriptorType) : Nat :=
  ((sizes.filter fun p => p.type == ty).map fun p => p.descriptorCount).sum

/-- How many descriptors of a kind one binding instance of a schema takes. -/
def schemaDescriptors (bindings : List LayoutBinding) (ty : DescriptorType) : Nat :=
  ((bindings.filter fun b => b.descriptorType == ty).map fun b => b.descriptorCount).sum

/-- How many descriptors of a kind the allocation requests made on a pool
    take: each request takes, for every instance it asks for, what the
    schema it passes declares. -/
def Vk.requiredDescriptors (d : Vk) (pool : Handle) (ty : DescriptorType) : Nat :=
  ((d.descriptorAllocations.filter fun a => a.descriptorPool == pool).map fun a =>
    match a.setLayouts.head?.bind d.info? with
    | some (.descriptorSetLayout bindings) => a.descriptorSetCount * schemaDescriptors bindings ty
    | _ => 0).sum

/-- What the descriptor pool of a live pool object reserves of a kind. -/
def Vk.reservedBy (d : Vk) (pool : Handle) (ty : DescriptorType) : Nat :=
  match d.info? pool with
  | some (.descriptorPool sizes _) => reservedDescriptors sizes ty
  | _ => 0

/-! ## What a state holds -/

/-- The member fields are `r`, the live objects are `live`, every one with a
    handle below `next`, the next handle the device hands out, which is not
    the null handle, and the releases of objects that were not live are
    `faults`. -/
def Holds (r : Fields) (live : List Obj) (next : Handle) (faults : List (ObjKind × Handle))
    (s : State) : Prop :=
  s.r = r ∧ s.vk.live = live ∧ s.vk.nextHandle = next ∧ s.vk.faults = faults
    ∧ 0 < next ∧ ∀ o ∈ live, o.handle < next

/-! ## The renderer the constructor leaves -/

/-- The handle of the first swap-chain image view, when the constructor
    starts handing out handles at `n0`: 23 objects, the camera instance, the
    model instances, the grass instances, the time instance and the compute
    instances come before it. -/
def frameBase (env : Env) (n0 : Handle) : Handle :=
  n0 + 24 + env.scene.models.length + env.scene.blades.length + 1 + env.scene.blades.length

/-- The handle of the first shader module of the opaque pipeline: the image
    views, the depth image with its memory and view, and the framebuffers
    come before it. -/
def pipelineBase (env : Env) (n0 : Handle) : Handle :=
  frameBase env n0 + env.swapChain.count + 3 + env.swapChain.count

/-- The member fields after a constructor that returned, on a device whose
    next handle was `n0`. -/
def constructedFields (env : Env) (n0 : Handle) : Fields :=
  { graphicsCommandPool := n0,
    computeCommandPool := n0 + 1,
    renderPass := n0 + 2,
    deferredRenderPass := n0 + 3,
    deferredAlbedoImage := n0 + 4,
    deferredAlbedoImageMemory := n0 + 5,
    deferredAlbedoImageView := n0 + 6,
    deferredPositionImage := n0 + 7,
    deferredPositionImageMemory := n0 + 8,
    deferredPositionImageView := n0 + 9,
    deferredNormalImage := n0 + 10,
    deferredNormalImageMemory := n0 + 11,
    deferredNormalImageView := n0 + 12,
    deferredDepthImage := n0 + 13,
    deferredDepthImageMemory := n0 + 14,
    deferredDepthImageView := n0 + 15,
    deferredFramebuffer := n0 + 16,
    deferredSampler := n0 + 17,
    cameraDescriptorSetLayout := n0 + 18,
    modelDescriptorSetLayout := n0 + 19,
    timeDescriptorSetLayout := n0 + 20,
    grassComputeDescriptorSetLayout := n0 + 21,
    descriptorPool := n0 + 22,
    cameraDescriptorSet := n0 + 23,
    modelDescriptorSets := (List.range env.scene.models.length).map (n0 + 24 + ·),
    grassDescriptorSets :=
      (List.range env.scene.blades.length).map (n0 + 24 + env.scene.models.length + ·),
    timeDescriptorSet := n0 + 24 + env.scene.models.length + env.scene.blades.length,
    grassComputeDescriptorSets :=
      (List.range env.scene.blades.length).map
        (n0 + 24 + env.scene.models.length + env.scene.blades.length + 1 + ·),
    imageViews := (List.range env.swapChain.count).map (frameBase env n0 + ·),
    depthImage := frameBase env n0 + env.swapChain.count,
    depthImageMemory := frameBase env n0 + env.swapChain.count + 1,
    depthImageView := frameBase env n0 + env.swapChain.count + 2,
    framebuffers :=
      (List.range env.swapChain.count).map (frameBase env n0 + env.swapChain.count + 3 + ·),
    graphicsPipelineLayout := pipelineBase env n0 + 2,
    graphicsPipeline := pipelineBase env n0 + 3,
    grassPipelineLayout := pipelineBase env n0 + 8,
    grassPipeline := pipelineBase env n0 + 9,
    computePipelineLayout := pipelineBase env n0 + 11,
    computePipeline := pipelineBase env n0 + 12,
    commandBuffers := (List.range env.swapChain.count).map (pipelineBase env n0 + 13 + ·),
    deferredCommandBuffer := pipelineBase env n0 + 13 + env.swapChain.count,
    deferredSemaphore := pipelineBase env n0 + 13 + env.swapChain.count + 1,
    computeCommandBuffer := pipelineBase env n0 + 13 + env.swapChain.count + 2 }

/-- The objects the constructor creates before the binding instances: the
    command pools, the render passes, the G-buffer images with their memory
    and views, the G-buffer framebuffer, the sampler, the four binding
    schemas and the descriptor pool. -/
def constructedBase (env : Env) (n0 : Handle) : List Obj :=
  [ ⟨n0, .commandPool env.graphicsQueueFamily⟩,
    ⟨n0 + 1, .commandPool env.computeQueueFamily⟩,
    ⟨n0 + 2, .renderPass presentationRenderPassInfo⟩,
    ⟨n0 + 3, .renderPass deferredRenderPassInfo⟩,
    ⟨n0 + 4, .image env.swapChain.width env.swapChain.height .R16G16B16A16_SFLOAT
      [.COLOR_ATTACHMENT, .SAMPLED]⟩,
    ⟨n0 + 5, .deviceMemory (n0 + 4)⟩,
    ⟨n0 + 6, .imageView (n0 + 4) .R16G16B16A16_SFLOAT .COLOR⟩,
    ⟨n0 + 7, .image env.swapChain.width env.swapChain.height .R16G16B16A16_SFLOAT
      [.COLOR_ATTACHMENT, .SAMPLED]⟩,
    ⟨n0 + 8, .deviceMemory (n0 + 7)⟩,
    ⟨n0 + 9, .imageView (n0 + 7) .R16G16B16A16_SFLOAT .COLOR⟩,
    ⟨n0 + 10, .image env.swapChain.width env.swapChain.height .R16G16B16A16_SFLOAT
      [.COLOR_ATTACHMENT, .SAMPLED]⟩,
    ⟨n0 + 11, .deviceMemory (n0 + 10)⟩,
    ⟨n0 + 12, .imageView (n0 + 10) .R16G16B16A16_SFLOAT .COLOR⟩,
    ⟨n0 + 13, .image env.swapChain.width env.swapChain.height .depthFormat
      [.DEPTH_STENCIL_ATTACHMENT]⟩,
    ⟨n0 + 14, .deviceMemory (n0 + 13)⟩,
    ⟨n0 + 15, .imageView (n0 + 13) .depthFormat .DEPTH⟩,
    ⟨n0 + 16, .framebuffer (n0 + 3) [n0 + 6, n0 + 9, n0 + 12, n0 + 15]
      env.swapChain.width env.swapChain.height⟩,
    ⟨n0 + 17, .sampler⟩,
    ⟨n0 + 18, .descriptorSetLayout cameraLayoutBindings⟩,
    ⟨n0 + 19, .descriptorSetLayout modelLayoutBindings⟩,
    ⟨n0 + 20, .descriptorSetLayout timeLayoutBindings⟩,
    ⟨n0 + 21, .descriptorSetLayout computeLayoutBindings⟩,
    ⟨n0 + 22, .descriptorPool (descriptorPoolSizes env) 5⟩ ]

/-- The binding instances the constructor allocates; instance `i` of a
    group is allocated with entry `i` of its one-element layouts array. -/
def constructedSets (env : Env) (n0 : Handle) : List Obj :=
  [ (⟨n0 + 23, .descriptorSet (n0 + 22) (some (n0 + 18))⟩ : Obj) ]
  ++ (List.range env.scene.models.length).map
      (fun i => ⟨n0 + 24 + i, .descriptorSet (n0 + 22) [n0 + 19][i]?⟩)
  ++ (List.range env.scene.blades.length).map
      (fun i => ⟨n0 + 24 + env.scene.models.length + i,
        .descriptorSet (n0 + 22) [n0 + 19][i]?⟩)
  ++ [ (⟨n0 + 24 + env.scene.models.length + env.scene.blades.length,
        .descriptorSet (n0 + 22) (some (n0 + 20))⟩ : Obj) ]
  ++ (List.range env.scene.blades.length).map
      (fun i => ⟨n0 + 24 + env.scene.models.length + env.scene.blades.length + 1 + i,
        .descriptorSet (n0 + 22) [n0 + 21][i]?⟩)

/-- The frame resources: one view per swap-chain image, the presentation
    depth image with its memory and view, one framebuffer per swap-chain
    image over its view and the depth view. -/
def constructedFrame (env : Env) (n0 : Handle) : List Obj :=
  (List.range env.swapChain.count).map
      (fun i => ⟨frameBase env n0 + i,
        .imageView (env.swapChain.images.getD i VK_NULL_HANDLE) .swapChainFormat .COLOR⟩)
  ++ [ ⟨frameBase env n0 + env.swapChain.count,
        .image env.swapChain.width env.swapChain.height .depthFormat
          [.DEPTH_STENCIL_ATTACHMENT]⟩,
       ⟨frameBase env n0 + env.swapChain.count + 1,
        .deviceMemory (frameBase env n0 + env.swapChain.count)⟩,
       ⟨frameBase env n0 + env.swapChain.count + 2,
        .imageView (frameBase env n0 + env.swapChain.count) .depthFormat .DEPTH⟩ ]
  ++ (List.range env.swapChain.count).map
      (fun i => ⟨frameBase env n0 + env.swapChain.count + 3 + i,
        .framebuffer (n0 + 2)
          [frameBase env n0 + i, frameBase env n0 + env.swapChain.count + 2]
          env.swapChain.width env.swapChain.height⟩)

/-- The three pipelines with their layouts; the shader modules are gone. -/
def constructedPipelines (env : Env) (n0 : Handle) : List Obj :=
  [ ⟨pipelineBase env n0 + 2, .pipelineLayout [n0 + 18, n0 + 19] []⟩,
    ⟨pipelineBase env n0 + 3, .graphicsPipeline
      { stages := [⟨.vertex, pipelineBase env n0⟩, ⟨.fragment, pipelineBase env n0 + 1⟩],
        topology := .TRIANGLE_LIST, cullMode := .BACK, frontFace := .COUNTER_CLOCKWISE,
        depthTestEnable := true, depthWriteEnable := true,
        colorBlendAttachmentCount := 1, colorBlendAttachments := [colorBlendAttachment],
        patchControlPoints := none,
        layout := pipelineBase env n0 + 2, renderPass := n0 + 2, subpass := 0 }⟩,
    ⟨pipelineBase env n0 + 8, .pipelineLayout [n0 + 18, n0 + 19] []⟩,
    ⟨pipelineBase env n0 + 9, .graphicsPipeline
      { stages := [⟨.vertex, pipelineBase env n0 + 4⟩,
                   ⟨.tessellationControl, pipelineBase env n0 + 5⟩,
                   ⟨.tessellationEvaluation, pipelineBase env n0 + 6⟩,
                   ⟨.fragment, pipelineBase env n0 + 7⟩],
        topology := .PATCH_LIST, cullMode := .NONE, frontFace := .COUNTER_CLOCKWISE,
        depthTestEnable := true, depthWriteEnable := true,
        colorBlendAttachmentCount := 3,
        colorBlendAttachments :=
          [colorBlendAttachment, colorBlendAttachment, colorBlendAttachment],
        patchControlPoints := some 1,
        layout := pipelineBase env n0 + 8, renderPass := n0 + 3, subpass := 0 }⟩,
    ⟨pipelineBase env n0 + 11, .pipelineLayout [n0 + 18, n0 + 20, n0 + 21]
      [⟨.bits [.compute], 0, sizeofInt⟩]⟩,
    ⟨pipelineBase env n0 + 12, .computePipeline ⟨.compute, pipelineBase env n0 + 10⟩
      (pipelineBase env n0 + 11)⟩ ]

/-- The command buffers and the semaphore. -/
def constructedCommandBuffers (env : Env) (n0 : Handle) : List Obj :=
  (List.range env.swapChain.count).map
      (fun i => ⟨pipelineBase env n0 + 13 + i, .commandBuffer n0⟩)
  ++ [ ⟨pipelineBase env n0 + 13 + env.swapChain.count, .commandBuffer n0⟩,
       ⟨pipelineBase env n0 + 13 + env.swapChain.count + 1, .semaphore⟩,
       ⟨pipelineBase env n0 + 13 + env.swapChain.count + 2, .commandBuffer (n0 + 1)⟩ ]

/-- The live objects a constructor that returned has added, oldest first. -/
def constructedLive (env : Env) (n0 : Handle) : List Obj :=
  constructedBase env n0 ++ constructedSets env n0 ++ constructedFrame env n0
    ++ constructedPipelines env n0 ++ constructedCommandBuffers env n0

/-- The next handle of the device after a constructor that returned. -/
def constructedNext (env : Env) (n0 : Handle) : Handle :=
  pipelineBase env n0 + 13 + env.swapChain.count + 3

/-- The Composite, Fill and Cull command buffers named by the fields `r`
    hold the sequences that the recording functions are to leave for the
    scene, read off `r`. -/
def SequencesRecorded (env : Env) (r : Fields) (s : State) : Prop :=
  (∀ i, i < env.swapChain.count →
      s.vk.recorded (r.commandBuffers.getD i VK_NULL_HANDLE) = compositeCommands env r i)
  ∧ s.vk.recorded r.deferredCommandBuffer = fillCommands env r
  ∧ s.vk.recorded r.computeCommandBuffer = cullCommands env r

/-! ## The destructor, call by call -/

/-- The device after `vkDestroyDescriptorPool` or `vkDestroyCommandPool`. -/
def Vk.destroyPool (d : Vk) (k : ObjKind) (h : Handle) : Vk :=
  if h = VK_NULL_HANDLE then d
  else if d.isLiveOfKind k h then
    { d with live := d.live.filter (fun o => !(o.handle == h) && !(o.allocatedFrom h)) }
  else
    { d with faults := d.faults ++ [(k, h)] }

/-- One release of one object: of a pool with what was allocated from it,
    or of a single object. -/
structure Release where
  pool : Bool
  kind : ObjKind
  handle : Handle
  deriving DecidableEq, Repr

def Release.apply (d : Vk) (x : Release) : Vk :=
  if x.pool then d.destroyPool x.kind x.handle else d.destroy x.kind x.handle

/-- Whether a release takes the object `o` out of the live set. -/
def Release.frees (x : Release) (o : Obj) : Bool :=
  o.handle == x.handle || (x.pool && o.allocatedFrom x.handle)

/-- One driver call of the destructor. -/
inductive TeardownCall
  | deviceWaitIdle
  | freeCommandBuffers (commandPool : Handle) (commandBuffers : List Handle)
  | destroy (kind : ObjKind) (handle : Handle)
  | destroyPool (kind : ObjKind) (handle : Handle)
  deriving DecidableEq, Repr

/-- The releases a call is made of, in order. -/
def TeardownCall.releases : TeardownCall → List Release
  | .deviceWaitIdle => []
  | .freeCommandBuffers _ bufs => bufs.map fun h => ⟨false, .commandBuffer, h⟩
  | .destroy k h => [⟨false, k, h⟩]
  | .destroyPool k h => [⟨true, k, h⟩]

/-- The calls of `DestroyFrameResources`, in the order it makes them. -/
def destroyFrameResourcesCalls (r : Fields) : List TeardownCall :=
  r.imageViews.map (.destroy .imageView)
  ++ [ .destroy .imageView r.depthImageView,
       .destroy .deviceMemory r.depthImageMemory,
       .destroy .image r.depthImage ]
  ++ r.framebuffers.map (.destroy .framebuffer)
  ++ [ .destroy .imageView r.deferredAlbedoImageView,
       .destroy .deviceMemory r.deferredAlbedoImageMemory,
       .destroy .image r.deferredAlbedoImage,
       .destroy .imageView r.deferredPositionImageView,
       .destroy .deviceMemory r.deferredPositionImageMemory,
       .destroy .image r.deferredPositionImage,
       .destroy .imageView r.deferredNormalImageView,
       .destroy .deviceMemory r.deferredNormalImageMemory,
       .destroy .image r.deferredNormalImage,
       .destroy .imageView r.deferredDepthImageView,
       .destroy .deviceMemory r.deferredDepthImageMemory,
       .destroy .image r.deferredDepthImage,
       .destroy .framebuffer r.deferredFramebuffer ]

/-- The calls of the destructor before `DestroyFrameResources`, in the order
    it makes them. -/
def destructHead (r : Fields) : List TeardownCall :=
  [ .deviceWaitIdle,
    .freeCommandBuffers r.graphicsCommandPool r.commandBuffers,
    .freeCommandBuffers r.computeCommandPool [r.computeCommandBuffer],
    .freeCommandBuffers r.graphicsCommandPool [r.deferredCommandBuffer],
    .destroy .pipeline r.graphicsPipeline,
    .destroy .pipeline r.grassPipeline,
    .destroy .pipeline r.computePipeline,
    .destroy .pipelineLayout r.graphicsPipelineLayout,
    .destroy .pipelineLayout r.grassPipelineLayout,
    .destroy .pipelineLayout r.computePipelineLayout,
    .destroy .descriptorSetLayout r.cameraDescriptorSetLayout,
    .destroy .descriptorSetLayout r.modelDescriptorSetLayout,
    .destroy .descriptorSetLayout r.timeDescriptorSetLayout,
    .destroy .descriptorSetLayout r.grassComputeDescriptorSetLayout,
    .destroyPool .descriptorPool r.descriptorPool,
    .destroy .renderPass r.renderPass,
    .destroy .renderPass r.deferredRenderPass ]

/-- The calls of the destructor after `DestroyFrameResources`. -/
def destructTail (r : Fields) : List TeardownCall :=
  [ .destroyPool .commandPool r.computeCommandPool,
    .destroyPool .commandPool r.graphicsCommandPool,
    .destroy .semaphore r.deferredSemaphore,
    .destroy .sampler r.deferredSampler ]

/-- The driver calls of the destructor, in the order it makes them. -/
def destructCalls (r : Fields) : List TeardownCall :=
  destructHead r ++ destroyFrameResourcesCalls r ++ destructTail r

/-- The device after a list of releases. -/
def Vk.releaseAll (d : Vk) (xs : List Release) : Vk := xs.foldl Release.apply d

/-- The device after a list of calls. -/
def Vk.teardown (d : Vk) (calls : List TeardownCall) : Vk :=
  d.releaseAll (calls.flatMap TeardownCall.releases)

/-- The releases of the destructor of a constructed renderer that come
    before it destroys the descriptor pool: the command buffers, the
    pipelines, the pipeline layouts and the binding schemas. -/
def earlyReleases (env : Env) (n0 : Handle) : List Release :=
  (List.range env.swapChain.count).map
      (fun i => ⟨false, .commandBuffer, pipelineBase env n0 + 13 + i⟩)
  ++ [ ⟨false, .commandBuffer, pipelineBase env n0 + 13 + env.swapChain.count + 2⟩,
       ⟨false, .commandBuffer, pipelineBase env n0 + 13 + env.swapChain.count⟩,
       ⟨false, .pipeline, pipelineBase env n0 + 3⟩,
       ⟨false, .pipeline, pipelineBase env n0 + 9⟩,
       ⟨false, .pipeline, pipelineBase env n0 + 12⟩,
       ⟨false, .pipelineLayout, pipelineBase env n0 + 2⟩,
       ⟨false, .pipelineLayout, pipelineBase env n0 + 8⟩,
       ⟨false, .pipelineLayout, pipelineBase env n0 + 11⟩,
       ⟨false, .descriptorSetLayout, n0 + 18⟩,
       ⟨false, .descriptorSetLayout, n0 + 19⟩,
       ⟨false, .descriptorSetLayout, n0 + 20⟩,
       ⟨false, .descriptorSetLayout, n0 + 21⟩ ]

/-- The releases from the descriptor pool on: the pool with its binding
    instances, the render passes, the frame resources, the G-buffer objects,
    the command pools, the semaphore and the sampler. -/
def lateReleases (env : Env) (n0 : Handle) : List Release :=
  [ ⟨true, .descriptorPool, n0 + 22⟩,
    ⟨false, .renderPass, n0 + 2⟩,
    ⟨false, .renderPass, n0 + 3⟩ ]
  ++ (List.range env.swapChain.count).map (fun i => ⟨false, .imageView, frameBase env n0 + i⟩)
  ++ [ ⟨false, .imageView, frameBase env n0 + env.swapChain.count + 2⟩,
       ⟨false, .deviceMemory, frameBase env n0 + env.swapChain.count + 1⟩,
       ⟨false, .image, frameBase env n0 + env.swapChain.count⟩ ]
  ++ (List.range env.swapChain.count).map
      (fun i => ⟨false, .framebuffer, frameBase env n0 + env.swapChain.count + 3 + i⟩)
  ++ [ ⟨false, .imageView, n0 + 6⟩, ⟨false, .deviceMemory, n0 + 5⟩, ⟨false, .image, n0 + 4⟩,
       ⟨false, .imageView, n0 + 9⟩, ⟨false, .deviceMemory, n0 + 8⟩, ⟨false, .image, n0 + 7⟩,
       ⟨false, .imageView, n0 + 12⟩, ⟨false, .deviceMemory, n0 + 11⟩,
       ⟨false, .image, n0 + 10⟩,
       ⟨false, .imageView, n0 + 15⟩, ⟨false, .deviceMemory, n0 + 14⟩,
       ⟨false, .image, n0 + 13⟩,
       ⟨false, .framebuffer, n0 + 16⟩,
       ⟨true, .commandPool, n0 + 1⟩,
       ⟨true, .commandPool, n0⟩,
       ⟨false, .semaphore, pipelineBase env n0 + 13 + env.swapChain.count + 1⟩,
       ⟨false, .sampler, n0 + 17⟩ ]

/-! ## What descriptor writes read -/

/-- The member fields are `r`, the applied descriptor writes are `A`, the
    next handle the device hands out is `n`, and `K` holds of the stack. -/
def Traced (r : Fields) (A : List AppliedWrite) (n : Handle)
    (K : (Nat → Option StackCell) → Prop) (s : State) : Prop :=
  s.r = r ∧ s.vk.appliedWrites = A ∧ s.vk.nextHandle = n ∧ K s.vk.stack

/-- The applied descriptor writes are those of `A` followed by newer ones, of
    each of which `Φ` holds. -/
def Appended (A : List AppliedWrite) (Φ : AppliedWrite → Prop) (s : State) : Prop :=
  ∃ new, s.vk.appliedWrites = A ++ new ∧ ∀ a ∈ new, Φ a

/-- The image info a descriptor write for G-buffer slot `b` (2, 3 or 4) is to
    read: the sampler `S` with the view of `V` for the slot, in the layout
    for shader reads, from a struct that is in scope. -/
def gBufferSource (S : Handle) (V : List Handle) (b : Nat) : Option StackCell :=
  some ⟨.image S (V.getD (b - 2) VK_NULL_HANDLE) .SHADER_READ_ONLY_OPTIMAL, true⟩

/-- Every applied descriptor write to a slot from 2 on of a binding instance
    with a handle below `B` read the G-buffer image info for its slot. -/
def GBufferReads (S : Handle) (V : List Handle) (B : Handle) (s : State) : Prop :=
  ∀ a ∈ s.vk.appliedWrites, 2 ≤ a.dstBinding → a.dstSet < B →
    a.source = gBufferSource S V a.dstBinding

/-- What the loop of `CreateModelDescriptorSets` keeps of its vector of
    writes: an entry for a slot from 2 on is for a slot up to 4 and is an
    image write through the pointer to the info struct of that slot. -/
def WriteDescriptorSet.namesGBuffer (w : WriteDescriptorSet) : Prop :=
  2 ≤ w.dstBinding →
    w.dstBinding ≤ 4 ∧ w.descriptorType = .combinedImageSampler
      ∧ w.pImageInfo = some (w.dstBinding - 2)

/-! ## What `Frame` needs of the Composite sequences -/

def Cmd.isDrawIndexed : Cmd → Bool
  | .drawIndexed _ _ _ _ _ => true
  | _ => false

/-- The device has handed out every handle of a live object: the handles of
    the live objects are below the next handle, which is not the null
    handle. -/
def HandlesIssued (s : State) : Prop :=
  0 < s.vk.nextHandle ∧ ∀ o ∈ s.vk.live, o.handle < s.vk.nextHandle

/-- The member fields are `r`, the next handle is `n`, and every handle of a
    live object has been handed out. -/
def Issued (r : Fields) (n : Handle) (s : State) : Prop :=
  s.r = r ∧ s.vk.nextHandle = n ∧ 0 < n ∧ ∀ o ∈ s.vk.live, o.handle < n

/-- The command sequence `seq` is a Composite sequence for swap-chain image
    `i`: after the barrier and the camera it begins the presentation render
    pass on framebuffer `i` with the background colour and depth 1.0 as its
    two clear values, binds the opaque pipeline, holds one indexed draw per
    static model and no other draw, and ends the render pass; the draw for
    model `j` comes after the binds of the model's vertex buffer, of its
    index buffer with 32-bit indices, and of model instance `j` at set 1, and
    draws the model's index count with one instance. -/
def CompositeSequence (env : Env) (r : Fields) (i : Nat) (seq : List Cmd) : Prop :=
  seq.length = 4 + 4 * env.scene.models.length + 1
  ∧ seq[2]? = some
      (.beginRenderPass r.renderPass (r.framebuffers.getD i VK_NULL_HANDLE)
        env.swapChain.width env.swapChain.height
        [ .color ⟨768, 3⟩ ⟨8039, 4⟩ ⟨898, 3⟩ ⟨10, 1⟩, .depthStencil ⟨10, 1⟩ 0 ])
  ∧ seq[3]? = some (.bindPipeline .GRAPHICS r.graphicsPipeline)
  ∧ seq[4 + 4 * env.scene.models.length]? = some .endRenderPass
  ∧ seq.countP Cmd.isDraw = env.scene.models.length
  ∧ seq.countP Cmd.isDrawIndexed = env.scene.models.length
  ∧ ∀ j m, env.scene.models[j]? = some m →
      seq[4 + 4 * j]? = some (.bindVertexBuffers 0 [m.vertexBuffer] [0])
      ∧ seq[4 + 4 * j + 1]? = some (.bindIndexBuffer m.indexBuffer 0 .UINT32)
      ∧ seq[4 + 4 * j + 2]? = some
          (.bindDescriptorSets .GRAPHICS r.graphicsPipelineLayout 1
            [r.modelDescriptorSets.getD j VK_NULL_HANDLE])
      ∧ seq[4 + 4 * j + 3]? = some (.drawIndexed m.indexCount 1 0 0 0)

/-- There is one Composite command buffer, one presentation framebuffer and
    one swap-chain image view per swap-chain image; for every image index
    `i` below the count the three are live, the view is of swap-chain image
    `i`, the framebuffer is for the presentation render pass over view `i`
    and the shared depth view, and the command buffer holds a Composite
    sequence for `i`. -/
def FramePresentable (env : Env) (s : State) : Prop :=
  s.r.commandBuffers.length = env.swapChain.count
  ∧ s.r.framebuffers.length = env.swapChain.count
  ∧ s.r.imageViews.length = env.swapChain.count
  ∧ ∀ i, i < env.swapChain.count →
      (⟨s.r.commandBuffers.getD i VK_NULL_HANDLE, .commandBuffer s.r.graphicsCommandPool⟩ : Obj)
        ∈ s.vk.live
      ∧ (⟨s.r.imageViews.getD i VK_NULL_HANDLE,
          .imageView (env.swapChain.images.getD i VK_NULL_HANDLE) .swapChainFormat .COLOR⟩
          : Obj) ∈ s.vk.live
      ∧ (⟨s.r.framebuffers.getD i VK_NULL_HANDLE,
          .framebuffer s.r.renderPass
            [s.r.imageViews.getD i VK_NULL_HANDLE, s.r.depthImageView]
            env.swapChain.width env.swapChain.height⟩ : Obj) ∈ s.vk.live
      ∧ CompositeSequence env s.r i
          (s.vk.recorded (s.r.commandBuffers.getD i VK_NULL_HANDLE))

/-! ## The monad: evaluation lemmas -/

@[simp] theorem run_pure {α : Type} (a : α) (s : State) :
    (pure a : M α).run s = ⟨.ok a, s⟩ := rfl

theorem run_bind {α β : Type} (m : M α) (f : α → M β) (s : State) :
    (m >>= f).run s =
      match m.run s with
      | ⟨.ok a, s1⟩ => (f a).run s1
      | ⟨.error e, s1⟩ => ⟨.error e, s1⟩ := rfl

@[simp] theorem run_throw {α : Type} (msg : String) (s : State) :
    (throwRuntimeError msg : M α).run s = ⟨.error msg, s⟩ := rfl

@[simp] theorem error_ok {α : Type} (a : α) (s : State) :
    (Out.mk (.ok a) s).error? = none := rfl

@[simp] theorem error_error {α : Type} (e : String) (s : State) :
    (Out.mk (.error e : Except String α) s).error? = some e := rfl

@[simp] theorem run_setVk (f : Vk → Vk) (s : State) :
    (setVk f).run s = ⟨.ok (), { s with vk := f s.vk }⟩ := rfl

@[simp] theorem run_setFields (f : Fields → Fields) (s : State) :
    (setFields f).run s = ⟨.ok (), { s with r := f s.r }⟩ := rfl

@[simp] theorem run_getFields (s : State) : getFields.run s = ⟨.ok s.r, s⟩ := rfl

@[simp] theorem run_vkResult (s : State) :
    vkResult.run s =
      ⟨.ok (decide (s.vk.callNo ∉ s.vk.failures)),
       { s with vk := { s.vk with callNo := s.vk.callNo + 1 } }⟩ := rfl

@[simp] theorem run_newObject (info : Info) (s : State) :
    (newObject info).run s =
      ⟨.ok s.vk.nextHandle,
       { s with vk := { s.vk with nextHandle := s.vk.nextHandle + 1,
                                  live := s.vk.live ++ [⟨s.vk.nextHandle, info⟩] } }⟩ := rfl

@[simp] theorem run_throwUnless_true (msg : String) (s : State) :
    (throwUnless true msg).run s = ⟨.ok (), s⟩ := rfl

@[simp] theorem run_throwUnless_false (msg : String) (s : State) :
    (throwUnless false msg).run s = ⟨.error msg, s⟩ := rfl

theorem M.ext {α : Type} {m n : M α} (h : ∀ s, m.run s = n.run s) : m = n := funext h

/-! ## Command buffers: evaluation lemmas -/

theorem Vk.record_record (d : Vk) (cb : Handle) (a b : List Cmd) :
    (d.record cb a).record cb b = d.record cb (a ++ b) := by
  simp only [Vk.record]
  congr 1
  funext h
  split <;> simp

theorem Vk.record_nil (d : Vk) (cb : Handle) : d.record cb [] = d := by
  have : (fun h => if h = cb then d.recorded h ++ [] else d.recorded h) = d.recorded := by
    funext h; split <;> simp
  simp only [Vk.record, this]

@[simp] theorem Vk.record_recorded_self (d : Vk) (cb : Handle) (cs : List Cmd) :
    (d.record cb cs).recorded cb = d.recorded cb ++ cs := by
  simp [Vk.record]

theorem Vk.record_recorded_other (d : Vk) (cb h : Handle) (cs : List Cmd) (hne : h ≠ cb) :
    (d.record cb cs).recorded h = d.recorded h := by
  simp [Vk.record, hne]

@[simp] theorem Vk.record_callNo (d : Vk) (cb : Handle) (cs : List Cmd) :
    (d.record cb cs).callNo = d.callNo := rfl

@[simp] theorem Vk.record_failures (d : Vk) (cb : Handle) (cs : List Cmd) :
    (d.record cb cs).failures = d.failures := rfl

@[simp] theorem Vk.record_nextHandle (d : Vk) (cb : Handle) (cs : List Cmd) :
    (d.record cb cs).nextHandle = d.nextHandle := rfl

@[simp] theorem Vk.record_live (d : Vk) (cb : Handle) (cs : List Cmd) :
    (d.record cb cs).live = d.live := rfl

@[simp] theorem Vk.record_faults (d : Vk) (cb : Handle) (cs : List Cmd) :
    (d.record cb cs).faults = d.faults := rfl

theorem vkCmd_eq (cb : Handle) (c : Cmd) : vkCmd cb c = vkCmds cb [c] := rfl

@[simp] theorem run_vkCmds (cb : Handle) (cs : List Cmd) (s : State) :
    (vkCmds cb cs).run s = ⟨.ok (), { s with vk := s.vk.record cb cs }⟩ := rfl

theorem vkCmds_append (cb : Handle) (a b : List Cmd) :
    (do vkCmds cb a; vkCmds cb b) = vkCmds cb (a ++ b) := by
  apply M.ext; intro s
  simp only [run_bind, run_vkCmds, Vk.record_record]

theorem vkCmds_append_bind {β : Type} (cb : Handle) (a b : List Cmd) (f : Unit → M β) :
    (vkCmds cb a >>= fun _ => vkCmds cb b >>= f) = vkCmds cb (a ++ b) >>= f := by
  apply M.ext; intro s
  simp only [run_bind, run_vkCmds, Vk.record_record]

theorem vkCmds_nil (cb : Handle) : vkCmds cb [] = pure () := by
  apply M.ext; intro s
  simp only [run_vkCmds, run_pure, Vk.record_nil]

/-- A loop whose body only records commands records their concatenation. -/
theorem forRange_vkCmds (cb : Handle) (g : Nat → List Cmd) (n : Nat) :
    forRange n (fun j => vkCmds cb (g j)) = vkCmds cb ((List.range n).flatMap g) := by
  induction n with
  | zero => simp [forRange, vkCmds_nil]
  | succ k ih =>
    simp only [forRange, ih, List.range_succ, List.flatMap_append, List.flatMap_singleton,
      List.flatMap_nil, List.append_nil]
    exact vkCmds_append cb _ _

theorem run_allocateOne (pool : Handle) (msg : String) (s : State) :
    (allocateCommandBuffersOrThrow pool 1 msg).run s =
      if s.vk.callNo ∈ s.vk.failures then
        ⟨.error msg, { s with vk := { s.vk with callNo := s.vk.callNo + 1 } }⟩
      else
        ⟨.ok [s.vk.nextHandle],
         { s with vk := { s.vk with callNo := s.vk.callNo + 1,
                                    nextHandle := s.vk.nextHandle + 1,
                                    live := s.vk.live ++
                                      [⟨s.vk.nextHandle, .commandBuffer pool⟩] } }⟩ := by
  by_cases h : s.vk.callNo ∈ s.vk.failures <;>
    simp [allocateCommandBuffersOrThrow, vkAllocateCommandBuffers, run_bind, h, forRangeWith]

theorem run_createOrThrow (info : Info) (msg : String) (s : State) :
    (createOrThrow info msg).run s =
      if s.vk.callNo ∈ s.vk.failures then
        ⟨.error msg, { s with vk := { s.vk with callNo := s.vk.callNo + 1 } }⟩
      else
        ⟨.ok s.vk.nextHandle,
         { s with vk := { s.vk with callNo := s.vk.callNo + 1,
                                    nextHandle := s.vk.nextHandle + 1,
                                    live := s.vk.live ++ [⟨s.vk.nextHandle, info⟩] } }⟩ := by
  by_cases h : s.vk.callNo ∈ s.vk.failures <;>
    simp [createOrThrow, vkCreate, run_bind, h]

theorem run_bind_ok {α β : Type} {m : M α} {f : α → M β} {s s1 : State} {a : α}
    (h : m.run s = ⟨.ok a, s1⟩) : (m >>= f).run s = (f a).run s1 := by
  rw [run_bind, h]

theorem run_bind_error {α β : Type} {m : M α} {f : α → M β} {s s1 : State} {e : String}
    (h : m.run s = ⟨.error e, s1⟩) : (m >>= f).run s = ⟨.error e, s1⟩ := by
  rw [run_bind, h]

theorem forRange_succ (k : Nat) (body : Nat → M Unit) :
    forRange (k + 1) body = (forRange k body >>= fun _ => body k) := rfl

/-- Loop invariants: what holds before the loop and is kept by every
    iteration that does not throw holds after a loop that does not throw. -/
theorem forRange_induction (P : Nat → State → Prop) (body : Nat → M Unit) (n : Nat) (s : State)
    (h0 : P 0 s)
    (hstep : ∀ k s1, k < n → P k s1 → ((body k).run s1).error? = none →
      P (k + 1) ((body k).run s1).st)
    (hok : ((forRange n body).run s).error? = none) :
    P n ((forRange n body).run s).st := by
  induction n with
  | zero => simpa [forRange] using h0
  | succ k ih =>
    rcases hk : (forRange k body).run s with ⟨res, s1⟩
    cases res with
    | error e =>
      rw [forRange_succ, run_bind_error hk] at hok
      simp at hok
    | ok u =>
      rw [forRange_succ, run_bind_ok hk] at hok ⊢
      have hP : P k s1 := by
        have := ih (fun k' s' hk' => hstep k' s' (by omega)) (by rw [hk]; rfl)
        rw [hk] at this
        exact this
      exact hstep k s1 (by omega) hP hok

theorem length_resize (v : List Handle) (n : Nat) : (resize v n).length = n := by
  simp [resize]
  omega

theorem getD_map_range (h0 n i : Nat) (hi : i < n) :
    ((List.range n).map (h0 + ·)).getD i VK_NULL_HANDLE = h0 + i := by
  simp [List.getD, hi]

theorem run_allocLoop (pool : Handle) (n : Nat) (s : State) :
    (forRangeWith n [] (fun _ acc => do
        let h ← newObject (.commandBuffer pool)
        pure (acc ++ [h]))).run s =
      ⟨.ok ((List.range n).map (s.vk.nextHandle + ·)),
       { s with vk := { s.vk with
          nextHandle := s.vk.nextHandle + n,
          live := s.vk.live ++
            (List.range n).map (fun i => ⟨s.vk.nextHandle + i, .commandBuffer pool⟩) } }⟩ := by
  induction n with
  | zero => simp [forRangeWith]
  | succ k ih =>
    simp only [forRangeWith, run_bind, ih, run_newObject, run_pure, List.range_succ,
      List.map_append, List.map_cons, List.map_nil, List.append_assoc, Nat.add_assoc]

theorem run_allocateCommandBuffersOrThrow (pool : Handle) (n : Nat) (msg : String) (s : State) :
    (allocateCommandBuffersOrThrow pool n msg).run s =
      if s.vk.callNo ∈ s.vk.failures then
        ⟨.error msg, { s with vk := { s.vk with callNo := s.vk.callNo + 1 } }⟩
      else
        ⟨.ok ((List.range n).map (s.vk.nextHandle + ·)),
         { s with vk := { s.vk with
            callNo := s.vk.callNo + 1,
            nextHandle := s.vk.nextHandle + n,
            live := s.vk.live ++
              (List.range n).map (fun i => ⟨s.vk.nextHandle + i, .commandBuffer pool⟩) } }⟩ := by
  by_cases h : s.vk.callNo ∈ s.vk.failures <;>
    simp [allocateCommandBuffersOrThrow, vkAllocateCommandBuffers, run_bind, h, run_allocLoop]

/-! ## Lists of equal-sized blocks -/

theorem length_flatMap_range {α : Type} (g : Nat → List α) (k : Nat)
    (hk : ∀ j, (g j).length = k) (n : Nat) :
    ((List.range n).flatMap g).length = k * n := by
  induction n with
  | zero => simp
  | succ m ih =>
    simp [List.range_succ, List.flatMap_append, ih, hk, Nat.mul_succ]

theorem getElem?_flatMap_range {α : Type} (g : Nat → List α) (k : Nat)
    (hk : ∀ j, (g j).length = k) (n j i : Nat) (hj : j < n) (hi : i < k) :
    ((List.range n).flatMap g)[k * j + i]? = (g j)[i]? := by
  induction n with
  | zero => omega
  | succ m ih =>
    have hlen := length_flatMap_range g k hk m
    simp only [List.range_succ, List.flatMap_append, List.flatMap_singleton, List.flatMap_nil,
      List.append_nil]
    rcases Nat.lt_or_ge j m with hlt | hge
    · have hb : k * j + i < ((List.range m).flatMap g).length := by
        rw [hlen]
        calc k * j + i < k * j + k := by omega
          _ = k * (j + 1) := by rw [Nat.mul_succ]
          _ ≤ k * m := Nat.mul_le_mul_left k hlt
      rw [List.getElem?_append_left hb]
      exact ih hlt
    · have hjm : j = m := by omega
      subst hjm
      have hb : ((List.range j).flatMap g).length ≤ k * j + i := by rw [hlen]; omega
      rw [List.getElem?_append_right hb, hlen]
      congr 1
      omega

theorem countP_flatMap_range {α : Type} (p : α → Bool) (g : Nat → List α) (k : Nat)
    (hk : ∀ j, (g j).countP p = k) (n : Nat) :
    ((List.range n).flatMap g).countP p = k * n := by
  induction n with
  | zero => simp
  | succ m ih =>
    simp [List.range_succ, List.flatMap_append, List.countP_append, ih, hk, Nat.mul_succ]

/-! ## What the recording functions record -/

/-- A successful `RecordComputeCommandBuffer` leaves exactly `cullCommands`
    in the new Cull command buffer. -/
theorem recorded_cull (env : Env) (s : State)
    (h : ((RecordComputeCommandBuffer env).run s).error? = none) :
    ((RecordComputeCommandBuffer env).run s).st.vk.recorded
        ((RecordComputeCommandBuffer env).run s).st.r.computeCommandBuffer =
      cullCommands env s.r := by
  simp only [RecordComputeCommandBuffer, vkCmd_eq, vkCmds_append, forRange_vkCmds,
    vkCmds_append_bind] at h ⊢
  by_cases h1 : s.vk.callNo ∈ s.vk.failures <;>
  by_cases h2 : s.vk.callNo + 1 ∈ s.vk.failures <;>
  by_cases h3 : s.vk.callNo + 1 + 1 ∈ s.vk.failures <;>
  simp [run_bind, run_allocateOne, vkBeginCommandBuffer, vkEndCommandBuffer, h1, h2, h3,
    cullCommands, cullHead] at h ⊢
  congr 1
  funext j
  simp [cullBlock]

/-- A successful `RecordDeferredCommandBuffer` leaves exactly `fillCommands`
    in the new Fill command buffer. -/
theorem recorded_fill (env : Env) (s : State)
    (h : ((RecordDeferredCommandBuffer env).run s).error? = none) :
    ((RecordDeferredCommandBuffer env).run s).st.vk.recorded
        ((RecordDeferredCommandBuffer env).run s).st.r.deferredCommandBuffer =
      fillCommands env s.r := by
  simp only [RecordDeferredCommandBuffer, vkCmd_eq, vkCmds_append, forRange_vkCmds,
    vkCmds_append_bind] at h ⊢
  by_cases h1 : s.vk.callNo ∈ s.vk.failures <;>
  by_cases h2 : s.vk.callNo + 1 ∈ s.vk.failures <;>
  by_cases h3 : s.vk.callNo + 1 + 1 ∈ s.vk.failures <;>
  by_cases h4 : s.vk.callNo + 1 + 1 + 1 ∈ s.vk.failures <;>
  simp [run_bind, run_allocateOne, run_createOrThrow, vkBeginCommandBuffer,
    vkEndCommandBuffer, h1, h2, h3, h4, fillCommands, fillHead] at h ⊢
  congr 1
  funext j
  simp [fillBlock]

theorem cullCommands_block (env : Env) (r : Fields) (j i : Nat)
    (hj : j < env.scene.blades.length) (hi : i < 2) :
    (cullCommands env r)[4 + (2 * j + i)]? = (cullBlock env r j)[i]? := by
  unfold cullCommands
  have hlen : (cullHead env r).length = 4 := rfl
  rw [List.getElem?_append_right (by rw [hlen]; omega), hlen]
  have hidx : 4 + (2 * j + i) - 4 = 2 * j + i := by omega
  rw [hidx]
  exact getElem?_flatMap_range (cullBlock env r) 2 (fun _ => rfl) _ j i hj hi

theorem cullCommands_length (env : Env) (r : Fields) :
    (cullCommands env r).length = 4 + 2 * env.scene.blades.length := by
  unfold cullCommands
  rw [List.length_append, length_flatMap_range (cullBlock env r) 2 (fun _ => rfl)]
  rfl

theorem cullCommands_dispatches (env : Env) (r : Fields) :
    (cullCommands env r).countP Cmd.isDispatch = env.scene.blades.length := by
  unfold cullCommands
  rw [List.countP_append,
    countP_flatMap_range Cmd.isDispatch (cullBlock env r) 1 (fun _ => rfl)]
  have : (cullHead env r).countP Cmd.isDispatch = 0 := rfl
  omega

theorem fillCommands_block (env : Env) (r : Fields) (j i : Nat)
    (hj : j < env.scene.blades.length) (hi : i < 3) :
    (fillCommands env r)[3 + (3 * j + i)]? = (fillBlock env r j)[i]? := by
  unfold fillCommands
  have hlen := length_flatMap_range (fillBlock env r) 3 (fun _ => rfl) env.scene.blades.length
  have hhead : (fillHead env r).length = 3 := rfl
  rw [List.getElem?_append_left (by rw [List.length_append, hlen, hhead]; omega)]
  rw [List.getElem?_append_right (by rw [hhead]; omega), hhead]
  have hidx : 3 + (3 * j + i) - 3 = 3 * j + i := by omega
  rw [hidx]
  exact getElem?_flatMap_range (fillBlock env r) 3 (fun _ => rfl) _ j i hj hi

theorem fillCommands_length (env : Env) (r : Fields) :
    (fillCommands env r).length = 3 + 3 * env.scene.blades.length + 1 := by
  unfold fillCommands
  rw [List.length_append, List.length_append,
    length_flatMap_range (fillBlock env r) 3 (fun _ => rfl)]
  rfl

theorem fillCommands_last (env : Env) (r : Fields) :
    (fillCommands env r)[3 + 3 * env.scene.blades.length]? = some .endRenderPass := by
  unfold fillCommands
  have hlen := length_flatMap_range (fillBlock env r) 3 (fun _ => rfl) env.scene.blades.length
  have hhead : (fillHead env r).length = 3 := rfl
  rw [List.getElem?_append_right (by rw [List.length_append, hlen, hhead]),
    List.length_append, hlen, hhead, Nat.sub_self]
  rfl

theorem fillCommands_draws (env : Env) (r : Fields) :
    (fillCommands env r).countP Cmd.isDraw = env.scene.blades.length
    ∧ (fillCommands env r).countP Cmd.isDrawIndirect = env.scene.blades.length := by
  unfold fillCommands
  rw [List.countP_append, List.countP_append, List.countP_append, List.countP_append,
    countP_flatMap_range Cmd.isDraw (fillBlock env r) 1 (fun _ => rfl),
    countP_flatMap_range Cmd.isDrawIndirect (fillBlock env r) 1 (fun _ => rfl)]
  have h1 : (fillHead env r).countP Cmd.isDraw = 0 := rfl
  have h2 : (fillHead env r).countP Cmd.isDrawIndirect = 0 := rfl
  have h3 : [Cmd.endRenderPass].countP Cmd.isDraw = 0 := rfl
  have h4 : [Cmd.endRenderPass].countP Cmd.isDrawIndirect = 0 := rfl
  omega

theorem RecordCommandBuffers_eq (env : Env) :
    RecordCommandBuffers env = (do
      setFields fun r => { r with commandBuffers := resize r.commandBuffers env.swapChain.count }
      let r ← getFields
      let bufs ← allocateCommandBuffersOrThrow r.graphicsCommandPool r.commandBuffers.length
        "Failed to allocate command buffers"
      setFields fun r => { r with commandBuffers := bufs }
      forRange bufs.length (compositeBody env r bufs)) := by
  simp only [RecordCommandBuffers, vkCmd_eq, vkCmds_append, forRange_vkCmds, vkCmds_append_bind]
  rfl

theorem run_compositeBody (env : Env) (r : Fields) (bufs : List Handle) (i : Nat) (s1 : State)
    (hok : ((compositeBody env r bufs i).run s1).error? = none) :
    ((compositeBody env r bufs i).run s1).st.r = s1.r
    ∧ ∀ h, ((compositeBody env r bufs i).run s1).st.vk.recorded h =
        if h = bufs.getD i VK_NULL_HANDLE then compositeCommands env r i
        else s1.vk.recorded h := by
  by_cases h1 : s1.vk.callNo ∈ s1.vk.failures <;>
  by_cases h2 : s1.vk.callNo + 1 ∈ s1.vk.failures <;>
  simp [compositeBody, run_bind, vkBeginCommandBuffer, vkEndCommandBuffer, h1, h2] at hok ⊢
  intro h
  by_cases hh : h = bufs[i]?.getD VK_NULL_HANDLE <;> simp [Vk.record, hh]

/-- A successful `RecordCommandBuffers` allocates one command buffer per
    swap-chain image and leaves `compositeCommands i` in the `i`-th. -/
theorem recorded_composite (env : Env) (s : State)
    (h : ((RecordCommandBuffers env).run s).error? = none) :
    ((RecordCommandBuffers env).run s).st.r =
      { s.r with commandBuffers := (List.range env.swapChain.count).map (s.vk.nextHandle + ·) }
    ∧ ∀ i, i < env.swapChain.count →
        ((RecordCommandBuffers env).run s).st.vk.recorded (s.vk.nextHandle + i) =
          compositeCommands env s.r i := by
  rw [RecordCommandBuffers_eq] at h ⊢
  by_cases h1 : s.vk.callNo ∈ s.vk.failures
  · simp [run_bind, run_allocateCommandBuffersOrThrow, h1] at h
  · simp only [run_bind, run_setFields, run_getFields, run_allocateCommandBuffersOrThrow, h1,
      if_false, length_resize, List.length_map, List.length_range] at h ⊢
    have key := forRange_induction
      (fun k st =>
        st.r = { s.r with
          commandBuffers := (List.range env.swapChain.count).map (s.vk.nextHandle + ·) }
        ∧ ∀ i, i < k →
            st.vk.recorded (s.vk.nextHandle + i) = compositeCommands env s.r i)
      _ _ _ ⟨rfl, fun i hi => absurd hi (Nat.not_lt_zero i)⟩ ?_ h
    · exact ⟨key.1, fun i hi => key.2 i hi⟩
    · intro k s1 hk hP hok
      obtain ⟨hr, hrec⟩ := run_compositeBody _ _ _ _ _ hok
      refine ⟨hr.trans hP.1, fun i hi => ?_⟩
      rw [hrec, getD_map_range _ _ _ hk]
      by_cases hik : i = k
      · subst hik
        simp
        rfl
      · have hne : s.vk.nextHandle + i ≠ s.vk.nextHandle + k :=
          fun heq => hik (Nat.add_left_cancel heq)
        rw [if_neg hne]
        exact hP.2 i (by omega)

theorem compositeCommands_barriers (env : Env) (r : Fields) (i : Nat) :
    (compositeCommands env r i)[0]? =
        some (.pipelineBarrier .COMPUTE_SHADER .DRAW_INDIRECT (cullToFillBarriers env))
    ∧ (compositeCommands env r i).countP Cmd.isPipelineBarrier = 1 := by
  constructor
  · simp [compositeCommands, compositeHead]
  · unfold compositeCommands
    rw [List.countP_append, List.countP_append,
      countP_flatMap_range Cmd.isPipelineBarrier (compositeBlock env r) 0 (fun _ => rfl)]
    have h1 : (compositeHead env r i).countP Cmd.isPipelineBarrier = 1 := rfl
    have h2 : [Cmd.endRenderPass].countP Cmd.isPipelineBarrier = 0 := rfl
    omega

/-! ## The Cull and Fill sequences -/

/-- C8: the Cull sequence that `RecordComputeCommandBuffer` records for a
    scene with `M` grass groups binds the camera instance at set 0 and the
    time instance at set 1, then holds exactly `M` dispatches; the `j`-th
    dispatch comes right after the bind of compute binding instance `j` at
    set 2 (so zero dispatches for `M = 0`, two for `M = 2`). -/
theorem cull_sequence_shape (env : Env) (s : State) (seq : List Cmd)
    (h : ((RecordComputeCommandBuffer env).run s).error? = none)
    (hseq : seq = ((RecordComputeCommandBuffer env).run s).st.vk.recorded
      ((RecordComputeCommandBuffer env).run s).st.r.computeCommandBuffer) :
    seq.length = 4 + 2 * env.scene.blades.length
    ∧ seq[1]? = some
        (.bindDescriptorSets .COMPUTE s.r.computePipelineLayout 0 [s.r.cameraDescriptorSet])
    ∧ seq[2]? = some
        (.bindDescriptorSets .COMPUTE s.r.computePipelineLayout 1 [s.r.timeDescriptorSet])
    ∧ seq.countP Cmd.isDispatch = env.scene.blades.length
    ∧ (∀ j, j < env.scene.blades.length →
        seq[4 + 2 * j]? = some
          (.bindDescriptorSets .COMPUTE s.r.computePipelineLayout 2
            [s.r.grassComputeDescriptorSets.getD j VK_NULL_HANDLE])
        ∧ seq[4 + 2 * j + 1]? = some (.dispatch (dispatchGroupCount env.NUM_BLADES) 1 1)) := by
  rw [recorded_cull env s h] at hseq
  subst hseq
  refine ⟨cullCommands_length env s.r, ?_, ?_, cullCommands_dispatches env s.r,
    fun j hj => ⟨?_, ?_⟩⟩
  · simp [cullCommands, cullHead]
  · simp [cullCommands, cullHead]
  · exact cullCommands_block env s.r j 0 hj (by omega)
  · exact cullCommands_block env s.r j 1 hj (by omega)

/-- C10: the Fill sequence that `RecordDeferredCommandBuffer` records for a
    scene with `M` grass groups begins the G-buffer render pass with clear
    colour (0,0,0,0) for the three colour attachments and depth 1.0, ends it
    with its last command, and in between holds exactly `M` draws, all of
    them indirect; the `j`-th binds group `j`'s culled-blade buffer as vertex
    buffer 0 at offset 0, binds grass binding instance `j` at set 1 and reads
    one draw record at offset 0 of group `j`'s indirect-argument buffer.
    With `M = 0` nothing is drawn between begin and end. -/
theorem fill_sequence_shape (env : Env) (s : State) (seq : List Cmd)
    (h : ((RecordDeferredCommandBuffer env).run s).error? = none)
    (hseq : seq = ((RecordDeferredCommandBuffer env).run s).st.vk.recorded
      ((RecordDeferredCommandBuffer env).run s).st.r.deferredCommandBuffer) :
    seq.length = 3 + 3 * env.scene.blades.length + 1
    ∧ seq[1]? = some
        (.beginRenderPass s.r.deferredRenderPass s.r.deferredFramebuffer
          env.swapChain.width env.swapChain.height
          [ .color ⟨0, 1⟩ ⟨0, 1⟩ ⟨0, 1⟩ ⟨0, 1⟩, .color ⟨0, 1⟩ ⟨0, 1⟩ ⟨0, 1⟩ ⟨0, 1⟩,
            .color ⟨0, 1⟩ ⟨0, 1⟩ ⟨0, 1⟩ ⟨0, 1⟩, .depthStencil ⟨10, 1⟩ 0 ])
    ∧ seq[3 + 3 * env.scene.blades.length]? = some .endRenderPass
    ∧ seq.countP Cmd.isDraw = env.scene.blades.length
    ∧ seq.countP Cmd.isDrawIndirect = env.scene.blades.length
    ∧ (∀ j b, env.scene.blades[j]? = some b →
        seq[3 + 3 * j]? = some (.bindVertexBuffers 0 [b.culledBladesBuffer] [0])
        ∧ seq[3 + 3 * j + 1]? = some
            (.bindDescriptorSets .GRAPHICS s.r.grassPipelineLayout 1
              [s.r.grassDescriptorSets.getD j VK_NULL_HANDLE])
        ∧ seq[3 + 3 * j + 2]? = some
            (.drawIndirect b.numBladesBuffer 0 1 env.sizeofBladeDrawIndirect)) := by
  rw [recorded_fill env s h] at hseq
  subst hseq
  refine ⟨fillCommands_length env s.r, ?_, fillCommands_last env s.r,
    (fillCommands_draws env s.r).1, (fillCommands_draws env s.r).2, fun j b hb => ?_⟩
  · simp [fillCommands, fillHead, zeroLit, oneLit]
  · have hj : j < env.scene.blades.length := by
      rcases List.getElem?_eq_some.1 hb with ⟨hlt, _⟩
      exact hlt
    have hd : env.scene.blades.getD j default = b := by
      simp [List.getD, hb]
    have h0 := fillCommands_block env s.r j 0 hj (by omega)
    have h1 := fillCommands_block env s.r j 1 hj (by omega)
    have h2 := fillCommands_block env s.r j 2 hj (by omega)
    simp only [fillBlock, hd] at h0 h1 h2
    exact ⟨h0, h1, h2⟩

/-- C8, at the demo scene (two grass groups, two dispatches) and at the scene
    without grass (no dispatch). -/
theorem cull_sequence_shape_witness :
    ((RecordComputeCommandBuffer demoEnv).run demoConstructed).error? = none
    ∧ (((RecordComputeCommandBuffer demoEnv).run demoConstructed).st.vk.recorded
        ((RecordComputeCommandBuffer demoEnv).run demoConstructed).st.r.computeCommandBuffer).countP
          Cmd.isDispatch = demoEnv.scene.blades.length
    ∧ ((RecordComputeCommandBuffer noGrassEnv).run noGrassConstructed).error? = none
    ∧ (((RecordComputeCommandBuffer noGrassEnv).run noGrassConstructed).st.vk.recorded
        ((RecordComputeCommandBuffer noGrassEnv).run
          noGrassConstructed).st.r.computeCommandBuffer).countP
          Cmd.isDispatch = noGrassEnv.scene.blades.length :=
  ⟨by decide!,
   (cull_sequence_shape demoEnv demoConstructed _ (by decide!) rfl).2.2.2.1,
   by decide!,
   (cull_sequence_shape noGrassEnv noGrassConstructed _ (by decide!) rfl).2.2.2.1⟩

/-- C10, at the demo scene (two grass groups, two indirect draws) and at the
    scene without grass (no draw). -/
theorem fill_sequence_shape_witness :
    ((RecordDeferredCommandBuffer demoEnv).run demoConstructed).error? = none
    ∧ (((RecordDeferredCommandBuffer demoEnv).run demoConstructed).st.vk.recorded
        ((RecordDeferredCommandBuffer demoEnv).run
          demoConstructed).st.r.deferredCommandBuffer).countP
          Cmd.isDraw = demoEnv.scene.blades.length
    ∧ ((RecordDeferredCommandBuffer noGrassEnv).run noGrassConstructed).error? = none
    ∧ (((RecordDeferredCommandBuffer noGrassEnv).run noGrassConstructed).st.vk.recorded
        ((RecordDeferredCommandBuffer noGrassEnv).run
          noGrassConstructed).st.r.deferredCommandBuffer).countP
          Cmd.isDraw = noGrassEnv.scene.blades.length :=
  ⟨by decide!,
   (fill_sequence_shape demoEnv demoConstructed _ (by decide!) rfl).2.2.2.1,
   by decide!,
   (fill_sequence_shape noGrassEnv noGrassConstructed _ (by decide!) rfl).2.2.2.1⟩

/-! ## Resize -/

/-- C1, on the code: at the demo scene the constructor leaves 5 live
    attachment images and 3 framebuffers; after one `RecreateFrameResources`
    (which succeeds, with the same swap chain) 1 image and 2 framebuffers are
    live.  The four G-buffer images and the G-buffer framebuffer are destroyed
    and not created again. -/
theorem recreate_loses_gbuffer_attachments :
    ((construct demoEnv).run (State.fresh [])).error? = none
    ∧ ((RecreateFrameResources demoEnv).run demoConstructed).error? = none
    ∧ demoConstructed.vk.liveCount .image = 5
    ∧ demoConstructed.vk.liveCount .framebuffer = 3
    ∧ demoRecreated.vk.liveCount .image = 1
    ∧ demoRecreated.vk.liveCount .framebuffer = 2
    ∧ demoRecreated.vk.isLive demoRecreated.r.deferredAlbedoImage = false
    ∧ demoRecreated.vk.isLive demoRecreated.r.deferredPositionImage = false
    ∧ demoRecreated.vk.isLive demoRecreated.r.deferredNormalImage = false
    ∧ demoRecreated.vk.isLive demoRecreated.r.deferredDepthImage = false
    ∧ demoRecreated.vk.isLive demoRecreated.r.deferredFramebuffer = false := by
  decide!

/-- C2, on the code: at the demo scene, after the constructor every object
    the Fill sequence refers to is live; after one `RecreateFrameResources`
    the Fill sequence is still the one the constructor recorded, it is not the
    sequence for the re-created objects, and it refers to the destroyed grass
    pipeline, grass pipeline layout and G-buffer framebuffer; the G-buffer
    slots 2, 3 and 4 of the model binding instances hold destroyed image
    views.  The Cull and Composite sequences refer to live objects only. -/
theorem fill_sequence_stale_after_recreate :
    demoConstructed.vk.sequenceLive demoConstructed.r.deferredCommandBuffer = true
    ∧ demoRecreated.vk.sequenceLive demoRecreated.r.deferredCommandBuffer = false
    ∧ demoRecreated.vk.recorded demoRecreated.r.deferredCommandBuffer =
        fillCommands demoEnv demoConstructed.r
    ∧ demoRecreated.vk.recorded demoRecreated.r.deferredCommandBuffer ≠
        fillCommands demoEnv demoRecreated.r
    ∧ demoRecreated.vk.isLive demoConstructed.r.grassPipeline = false
    ∧ demoRecreated.vk.isLive demoConstructed.r.grassPipelineLayout = false
    ∧ demoRecreated.vk.isLive demoConstructed.r.deferredFramebuffer = false
    ∧ (demoRecreated.r.modelDescriptorSets.all fun set =>
        [2, 3, 4].all fun slot =>
          (demoRecreated.vk.boundImageViews set slot).all fun view =>
            !demoRecreated.vk.isLive view) = true
    ∧ (demoRecreated.r.modelDescriptorSets.all fun set =>
        [2, 3, 4].all fun slot =>
          !(demoRecreated.vk.boundImageViews set slot).isEmpty) = true
    ∧ demoRecreated.vk.sequenceLive demoRecreated.r.computeCommandBuffer = true
    ∧ (demoRecreated.r.commandBuffers.all demoRecreated.vk.sequenceLive) = true := by
  decide!

/-! ## Synchronisation between Cull and Fill -/

/-- C3, on the code: at the demo scene neither the Cull sequence nor the Fill
    sequence holds a pipeline barrier, while the Fill sequence holds the two
    indirect draws; the only barriers are in the Composite sequences, and the
    first `Frame` after construction submits Cull, then Fill, then the
    Composite sequence: nothing that carries a barrier is submitted before
    Fill. -/
theorem barrier_recorded_after_fill :
    (demoConstructed.vk.recorded demoConstructed.r.computeCommandBuffer).countP
        Cmd.isPipelineBarrier = 0
    ∧ (demoConstructed.vk.recorded demoConstructed.r.deferredCommandBuffer).countP
        Cmd.isPipelineBarrier = 0
    ∧ (demoConstructed.vk.recorded demoConstructed.r.deferredCommandBuffer).countP
        Cmd.isDrawIndirect = 2
    ∧ (demoConstructed.r.commandBuffers.all fun cb =>
        (demoConstructed.vk.recorded cb).countP Cmd.isPipelineBarrier == 1) = true
    ∧ (Frame demoEnv allSucceed demoConstructed).actions =
        [ submitCull demoConstructed, .acquire, submitFill demoEnv demoConstructed,
          submitComposite demoEnv 1 demoConstructed, .present ] := by
  decide!

/-- C4, as the claim states it, fails at the demo scene: no recorded buffer
    barrier names the culled-blade buffer of a grass group. -/
theorem culled_blade_buffer_not_covered :
    ¬ (∀ g ∈ demoEnv.scene.blades,
        (∃ b ∈ recordedBarriers demoConstructed, b.buffer = g.culledBladesBuffer)
        ∧ (∃ b ∈ recordedBarriers demoConstructed, b.buffer = g.numBladesBuffer)) := by
  decide!

/-- C4, amended: the pipeline barrier that `RecordCommandBuffers` records
    (one in every command buffer it fills) carries one compute-to-graphics
    ownership-transfer buffer barrier per grass group, the `j`-th on group
    `j`'s indirect-count record; every buffer barrier names the indirect-count
    buffer of a group, so a culled-blade buffer has no barrier of its own. -/
theorem barriers_cover_indirect_count (env : Env) (s : State)
    (h : ((RecordCommandBuffers env).run s).error? = none) :
    (∀ i, i < env.swapChain.count →
        (((RecordCommandBuffers env).run s).st.vk.recorded
          (((RecordCommandBuffers env).run s).st.r.commandBuffers.getD i VK_NULL_HANDLE))[0]? =
            some (.pipelineBarrier .COMPUTE_SHADER .DRAW_INDIRECT (cullToFillBarriers env))
        ∧ (((RecordCommandBuffers env).run s).st.vk.recorded
          (((RecordCommandBuffers env).run s).st.r.commandBuffers.getD i
            VK_NULL_HANDLE)).countP Cmd.isPipelineBarrier = 1)
    ∧ (cullToFillBarriers env).length = env.scene.blades.length
    ∧ (∀ (j : Nat) (b : Blades), env.scene.blades[j]? = some b →
        (cullToFillBarriers env)[j]? = some
          (BufferMemoryBarrier.mk [.SHADER_WRITE] [.INDIRECT_COMMAND_READ]
            env.computeQueueFamily env.graphicsQueueFamily
            b.numBladesBuffer 0 env.sizeofBladeDrawIndirect))
    ∧ (∀ x ∈ cullToFillBarriers env, ∃ b ∈ env.scene.blades, x.buffer = b.numBladesBuffer) := by
  obtain ⟨hr, hrec⟩ := recorded_composite env s h
  refine ⟨fun i hi => ?_, by simp [cullToFillBarriers], fun j b hb => ?_, fun x hx => ?_⟩
  · rw [hr]
    simp only []
    rw [getD_map_range _ _ _ hi, hrec i hi]
    exact compositeCommands_barriers env s.r i
  · have hj : j < env.scene.blades.length := by
      rcases List.getElem?_eq_some.1 hb with ⟨hlt, _⟩
      exact hlt
    simp [cullToFillBarriers, hj, List.getD, hb]
  · simp only [cullToFillBarriers, List.mem_map, List.mem_range] at hx
    obtain ⟨j, hj, rfl⟩ := hx
    refine ⟨env.scene.blades[j], List.getElem_mem _, ?_⟩
    simp [List.getD, hj]

/-- C4 amended, at the demo scene. -/
theorem barriers_cover_indirect_count_witness :
    ((RecordCommandBuffers demoEnv).run demoConstructed).error? = none
    ∧ (cullToFillBarriers demoEnv).length = demoEnv.scene.blades.length
    ∧ (∀ x ∈ cullToFillBarriers demoEnv, ∃ b ∈ demoEnv.scene.blades,
        x.buffer = b.numBladesBuffer) :=
  ⟨by decide!,
   (barriers_cover_indirect_count demoEnv demoConstructed (by decide!)).2.1,
   (barriers_cover_indirect_count demoEnv demoConstructed (by decide!)).2.2.2⟩

/-! ## The frame scheduler -/

/-- C5: when the three submissions, acquire and present all report success,
    one call of `Frame` submits the Cull sequence to the compute queue with no
    wait and no signal, acquires, submits the Fill sequence to the graphics
    queue waiting on image-available and signalling the deferred semaphore,
    submits the Composite sequence of the acquired image waiting on the
    deferred semaphore and signalling render-finished, presents, and does
    nothing else: no error is raised and the state is left as it was. -/
theorem frame_success_actions (env : Env) (inp : FrameInputs) (s : State)
    (hc : inp.computeSubmit = true) (ha : inp.acquire = true)
    (hd : inp.deferredSubmit = true) (hs : inp.submit = true)
    (hp : inp.present = true) :
    (Frame env inp s).actions =
      [ .queueSubmit .Compute [] [] [s.r.computeCommandBuffer] [],
        .acquire,
        .queueSubmit .Graphics [env.swapChain.imageAvailableSemaphore]
          [.COLOR_ATTACHMENT_OUTPUT] [s.r.deferredCommandBuffer] [s.r.deferredSemaphore],
        .queueSubmit .Graphics [s.r.deferredSemaphore] [.COLOR_ATTACHMENT_OUTPUT]
          [s.r.commandBuffers.getD inp.imageIndex VK_NULL_HANDLE]
          [env.swapChain.renderFinishedSemaphore],
        .present ]
    ∧ (Frame env inp s).out.error? = none
    ∧ (Frame env inp s).out.st = s := by
  simp [Frame, hc, ha, hd, hs, hp, submitCull, submitFill, submitComposite, M.run, M.pure,
    Out.error?]

/-- C5, at the demo renderer with every call succeeding. -/
theorem frame_success_actions_witness :
    (Frame demoEnv allSucceed demoConstructed).actions =
      [ .queueSubmit .Compute [] [] [demoConstructed.r.computeCommandBuffer] [],
        .acquire,
        .queueSubmit .Graphics [demoEnv.swapChain.imageAvailableSemaphore]
          [.COLOR_ATTACHMENT_OUTPUT] [demoConstructed.r.deferredCommandBuffer]
          [demoConstructed.r.deferredSemaphore],
        .queueSubmit .Graphics [demoConstructed.r.deferredSemaphore] [.COLOR_ATTACHMENT_OUTPUT]
          [demoConstructed.r.commandBuffers.getD allSucceed.imageIndex VK_NULL_HANDLE]
          [demoEnv.swapChain.renderFinishedSemaphore],
        .present ]
    ∧ (Frame demoEnv allSucceed demoConstructed).out.error? = none
    ∧ (Frame demoEnv allSucceed demoConstructed).out.st = demoConstructed :=
  frame_success_actions demoEnv allSucceed demoConstructed rfl rfl rfl rfl rfl

/-- C6: if acquire reports failure and recreation succeeds, `Frame` submits
    only the Cull sequence, runs `RecreateFrameResources` exactly once and
    returns normally, with no Fill or Composite submission and no present; if
    acquire succeeds and present reports failure, `Frame` runs
    `RecreateFrameResources` exactly once, after the present, and returns
    normally.  In both cases the state is the one recreation leaves and no
    error reaches the caller. -/
theorem frame_absorbs_stale_surface (env : Env) (inp : FrameInputs) (s : State)
    (hc : inp.computeSubmit = true)
    (hrec : ((RecreateFrameResources env).run s).error? = none) :
    (inp.acquire = false →
        (Frame env inp s).actions = [submitCull s, .acquire, .recreateFrameResources]
        ∧ (Frame env inp s).out = (RecreateFrameResources env).run s
        ∧ (Frame env inp s).out.error? = none)
    ∧ (inp.acquire = true → inp.deferredSubmit = true → inp.submit = true →
        inp.present = false →
        (Frame env inp s).actions =
          [ submitCull s, .acquire, submitFill env s, submitComposite env inp.imageIndex s,
            .present, .recreateFrameResources ]
        ∧ (Frame env inp s).out = (RecreateFrameResources env).run s
        ∧ (Frame env inp s).out.error? = none) := by
  refine ⟨fun ha => ?_, fun ha hd hs hp => ?_⟩
  · simp [Frame, hc, ha, hrec]
  · simp [Frame, hc, ha, hd, hs, hp, hrec]

/-- C6, at the demo renderer: a failed acquire, and a failed present. -/
theorem frame_absorbs_stale_surface_witness :
    ((RecreateFrameResources demoEnv).run demoConstructed).error? = none
    ∧ (Frame demoEnv { allSucceed with acquire := false } demoConstructed).actions =
        [submitCull demoConstructed, .acquire, .recreateFrameResources]
    ∧ (Frame demoEnv { allSucceed with acquire := false } demoConstructed).out.error? = none
    ∧ (Frame demoEnv { allSucceed with present := false } demoConstructed).actions =
        [ submitCull demoConstructed, .acquire, submitFill demoEnv demoConstructed,
          submitComposite demoEnv 1 demoConstructed, .present, .recreateFrameResources ]
    ∧ (Frame demoEnv { allSucceed with present := false } demoConstructed).out.error? = none :=
  have hrec : ((RecreateFrameResources demoEnv).run demoConstructed).error? = none := by
    decide!
  ⟨hrec,
   ((frame_absorbs_stale_surface demoEnv { allSucceed with acquire := false }
      demoConstructed rfl hrec).1 rfl).1,
   ((frame_absorbs_stale_surface demoEnv { allSucceed with acquire := false }
      demoConstructed rfl hrec).1 rfl).2.2,
   ((frame_absorbs_stale_surface demoEnv { allSucceed with present := false }
      demoConstructed rfl hrec).2 rfl rfl rfl rfl).1,
   ((frame_absorbs_stale_surface demoEnv { allSucceed with present := false }
      demoConstructed rfl hrec).2 rfl rfl rfl rfl).2.2⟩

/-- C7: a queue submission that returns a non-success result makes `Frame`
    raise a fatal error, and that submission is the last thing `Frame` does
    (no further acquire, submission, recreation or present; the state is left
    as it was); conversely, when the three submissions succeed and any
    recreation succeeds, `Frame` raises no error. -/
theorem frame_submission_failure_is_fatal (env : Env) (inp : FrameInputs) (s : State) :
    (inp.computeSubmit = false →
        (Frame env inp s).out.error? = some "Failed to submit draw command buffer"
        ∧ (Frame env inp s).actions = [submitCull s]
        ∧ (Frame env inp s).out.st = s)
    ∧ (inp.computeSubmit = true → inp.acquire = true → inp.deferredSubmit = false →
        (Frame env inp s).out.error? = some "Failed to submit draw DEFERRED command buffer"
        ∧ (Frame env inp s).actions = [submitCull s, .acquire, submitFill env s]
        ∧ (Frame env inp s).out.st = s)
    ∧ (inp.computeSubmit = true → inp.acquire = true → inp.deferredSubmit = true →
        inp.submit = false →
        (Frame env inp s).out.error? = some "Failed to submit draw command buffer"
        ∧ (Frame env inp s).actions =
            [submitCull s, .acquire, submitFill env s, submitComposite env inp.imageIndex s]
        ∧ (Frame env inp s).out.st = s)
    ∧ (inp.computeSubmit = true → inp.deferredSubmit = true → inp.submit = true →
        ((RecreateFrameResources env).run s).error? = none →
        (Frame env inp s).out.error? = none) := by
  refine ⟨fun hc => ?_, fun hc ha hd => ?_, fun hc ha hd hs => ?_, fun hc hd hs hrec => ?_⟩
  · simp [Frame, hc]
  · simp [Frame, hc, ha, hd]
  · simp [Frame, hc, ha, hd, hs]
  · cases ha : inp.acquire <;> cases hp : inp.present <;>
      simp [Frame, hc, ha, hd, hs, hp, hrec]
    rfl

/-- C7, at the demo renderer: each of the three submissions failing in turn,
    and a frame whose submissions succeed while acquire fails. -/
theorem frame_submission_failure_is_fatal_witness :
    (Frame demoEnv { allSucceed with computeSubmit := false } demoConstructed).out.error? =
        some "Failed to submit draw command buffer"
    ∧ (Frame demoEnv { allSucceed with deferredSubmit := false } demoConstructed).out.error? =
        some "Failed to submit draw DEFERRED command buffer"
    ∧ (Frame demoEnv { allSucceed with submit := false } demoConstructed).out.error? =
        some "Failed to submit draw command buffer"
    ∧ (Frame demoEnv { allSucceed with acquire := false } demoConstructed).out.error? = none :=
  ⟨((frame_submission_failure_is_fatal demoEnv { allSucceed with computeSubmit := false }
      demoConstructed).1 rfl).1,
   ((frame_submission_failure_is_fatal demoEnv { allSucceed with deferredSubmit := false }
      demoConstructed).2.1 rfl rfl rfl).1,
   ((frame_submission_failure_is_fatal demoEnv { allSucceed with submit := false }
      demoConstructed).2.2.1 rfl rfl rfl rfl).1,
   (frame_submission_failure_is_fatal demoEnv { allSucceed with acquire := false }
      demoConstructed).2.2.2 rfl rfl rfl (by decide!)⟩

/-! ## The workgroup count -/

/-- C9, as the claim states it, fails: `NUM_BLADES = 16777217 = 2 ^ 24 + 1`
    fits a 32-bit signed int, the conversion to float rounds it to `2 ^ 24`,
    and the recorded workgroup count `524288` leaves the last blade
    uncovered. -/
theorem dispatchGroupCount_large_counterexample :
    1 ≤ 16777217 ∧ 16777217 < 2 ^ 31 ∧ dispatchGroupCount 16777217 = 524288
    ∧ ¬ (16777217 ≤ 32 * dispatchGroupCount 16777217) := by
  decide

/-- C9, amended: for `1 ≤ NUM_BLADES ≤ 2 ^ 24`, where the conversion to float
    is exact, the recorded workgroup count is the least `g` with
    `32 * g ≥ NUM_BLADES`; for `NUM_BLADES = 512` it is 16. -/
theorem dispatchGroupCount_is_ceiling (n : Nat) (h1 : 1 ≤ n) (h2 : n ≤ 2 ^ 24) :
    n ≤ 32 * dispatchGroupCount n
    ∧ (∀ g, n ≤ 32 * g → dispatchGroupCount n ≤ g)
    ∧ dispatchGroupCount 512 = 16 := by
  have key : dispatchGroupCount n = (n + 31) / 32 := by
    rcases Nat.lt_or_ge n (2 ^ 24) with hlt | hge
    · have hd : droppedBits n = 0 := by
        unfold droppedBits
        rw [if_pos hlt]
      simp [dispatchGroupCount, intToFloat, hd, Binary32.divPow2, Binary32.ceil, Nat.mod_one]
    · have hn : n = 2 ^ 24 := Nat.le_antisymm h2 hge
      subst hn
      decide
  refine ⟨?_, ?_, by decide⟩
  · rw [key]; omega
  · intro g hg; rw [key]; omega

/-- C9 amended, at `NUM_BLADES = 512`. -/
theorem dispatchGroupCount_is_ceiling_witness :
    1 ≤ 512 ∧ 512 ≤ 2 ^ 24 ∧ 512 ≤ 32 * dispatchGroupCount 512
    ∧ (∀ g, 512 ≤ 32 * g → dispatchGroupCount 512 ≤ g)
    ∧ dispatchGroupCount 512 = 16 :=
  ⟨by decide, by decide, dispatchGroupCount_is_ceiling 512 (by decide) (by decide)⟩

/-! ## Rules for triples -/

theorem hoare_pure {α : Type} {P : State → Prop} {Q : α → State → Prop} {E : State → Prop}
    (a : α) (h : ∀ s, P s → Q a s) : Hoare P (pure a : M α) Q E := by
  intro s hs
  exact h s hs

theorem hoare_bind {α β : Type} {P : State → Prop} {Q : α → State → Prop}
    {R : β → State → Prop} {E : State → Prop} {m : M α} {f : α → M β}
    (hm : Hoare P m Q E) (hf : ∀ a, Hoare (Q a) (f a) R E) : Hoare P (m >>= f) R E := by
  intro s hs
  have h1 := hm s hs
  rcases hk : m.run s with ⟨res, s1⟩
  rw [hk] at h1
  cases res with
  | error e =>
    rw [run_bind_error hk]
    exact h1
  | ok a =>
    rw [run_bind_ok hk]
    exact hf a s1 h1

theorem hoare_conseq {α : Type} {P P1 : State → Prop} {Q Q1 : α → State → Prop}
    {E E1 : State → Prop} {m : M α} (hm : Hoare P1 m Q1 E1)
    (hP : ∀ s, P s → P1 s) (hQ : ∀ a s, Q1 a s → Q a s) (hE : ∀ s, E1 s → E s) :
    Hoare P m Q E := by
  intro s hs
  have h1 := hm s (hP s hs)
  rcases hk : m.run s with ⟨res, s1⟩
  rw [hk] at h1
  cases res with
  | error e => exact hE _ h1
  | ok a => exact hQ _ _ h1

theorem hoare_throw {α : Type} {P : State → Prop} {Q : α → State → Prop} {E : State → Prop}
    (msg : String) (h : ∀ s, P s → E s) : Hoare P (throwRuntimeError msg : M α) Q E := by
  intro s hs
  exact h s hs

theorem hoare_setFields {P : State → Prop} {Q : Unit → State → Prop} {E : State → Prop}
    (f : Fields → Fields) (h : ∀ s, P s → Q () { s with r := f s.r }) :
    Hoare P (setFields f) Q E := by
  intro s hs
  exact h s hs

theorem hoare_setVk {P : State → Prop} {Q : Unit → State → Prop} {E : State → Prop}
    (f : Vk → Vk) (h : ∀ s, P s → Q () { s with vk := f s.vk }) :
    Hoare P (setVk f) Q E := by
  intro s hs
  exact h s hs

theorem hoare_getFields {P : State → Prop} {Q : Fields → State → Prop} {E : State → Prop}
    (h : ∀ s, P s → Q s.r s) : Hoare P getFields Q E := by
  intro s hs
  exact h s hs

theorem hoare_forRange {I : State → Prop} {E : State → Prop} (n : Nat) (body : Nat → M Unit)
    (h : ∀ i, i < n → Hoare I (body i) (fun _ => I) E) :
    Hoare I (forRange n body) (fun _ => I) E := by
  induction n with
  | zero => exact hoare_pure () (fun _ hs => hs)
  | succ k ih =>
    rw [forRange_succ]
    exact hoare_bind (ih (fun i hi => h i (by omega))) (fun _ => h k (by omega))

theorem hoare_forRangeWith {β : Type} {I : State → Prop} {J : β → Prop} {E : State → Prop}
    (n : Nat) (acc : β) (body : Nat → β → M β) (hacc : J acc)
    (h : ∀ i a, i < n → J a → Hoare I (body i a) (fun b s => I s ∧ J b) E) :
    Hoare I (forRangeWith n acc body) (fun b s => I s ∧ J b) E := by
  induction n with
  | zero => exact hoare_pure acc (fun _ hs => ⟨hs, hacc⟩)
  | succ k ih =>
    have e : forRangeWith (k + 1) acc body = (forRangeWith k acc body >>= fun a => body k a) :=
      rfl
    rw [e]
    refine hoare_bind (ih (fun i a hi => h i a (by omega))) (fun a => ?_)
    intro s hs
    exact h k a (by omega) hs.2 s hs.1

/-- A value-independent fact established by the precondition can be taken
    out of the triple. -/
theorem hoare_pre_pure {α : Type} {P : State → Prop} {φ : Prop} {Q : α → State → Prop}
    {E : State → Prop} {m : M α} (h : φ → Hoare P m Q E) :
    Hoare (fun s => P s ∧ φ) m Q E := by
  intro s hs
  exact h hs.2 s hs.1

/-- Sequencing, with a fact `F` about the value handed on. -/
theorem hoare_bind_val {α β : Type} {I : State → Prop} {F : α → Prop}
    {Q : β → State → Prop} {E : State → Prop} {m : M α} {f : α → M β}
    (hm : Hoare I m (fun a s => I s ∧ F a) E) (hf : ∀ a, F a → Hoare I (f a) Q E) :
    Hoare I (m >>= f) Q E :=
  hoare_bind hm (fun a => hoare_pre_pure (hf a))

/-- Sequencing under an invariant. -/
theorem hoare_bind_inv {α β : Type} {I : State → Prop} {Q : β → State → Prop}
    {E : State → Prop} {m : M α} {f : α → M β}
    (hm : Hoare I m (fun _ => I) E) (hf : ∀ a, Hoare I (f a) Q E) :
    Hoare I (m >>= f) Q E :=
  hoare_bind hm hf

/-- What a triple with one and the same condition for returning and for
    throwing says about the state reached. -/
theorem hoare_state {α : Type} {P I : State → Prop} {m : M α}
    (h : Hoare P m (fun _ => I) I) (s : State) (hs : P s) : I (m.run s).st := by
  have h1 := h s hs
  rcases hk : m.run s with ⟨res, s1⟩
  rw [hk] at h1
  cases res with
  | error e => exact h1
  | ok a => exact h1

/-- A counted loop with a local variable: what holds of the variable after
    `i` iterations may depend on `i`. -/
theorem hoare_forRangeWith_idx {β : Type} {I : State → Prop} {J : Nat → β → Prop}
    {E : State → Prop} (n : Nat) (acc : β) (body : Nat → β → M β) (hacc : J 0 acc)
    (h : ∀ i a, i < n → J i a → Hoare I (body i a) (fun b s => I s ∧ J (i + 1) b) E) :
    Hoare I (forRangeWith n acc body) (fun b s => I s ∧ J n b) E := by
  induction n with
  | zero => exact hoare_pure acc (fun _ hs => ⟨hs, hacc⟩)
  | succ k ih =>
    have e : forRangeWith (k + 1) acc body = (forRangeWith k acc body >>= fun a => body k a) :=
      rfl
    rw [e]
    refine hoare_bind (ih (fun i a hi => h i a (by omega))) (fun a => ?_)
    intro s hs
    exact h k a (by omega) hs.2 s hs.1

/-! ## Destroying objects -/

@[simp] theorem run_vkDestroy (k : ObjKind) (h : Handle) (s : State) :
    (vkDestroy k h).run s = ⟨.ok (), { s with vk := s.vk.destroy k h }⟩ := rfl

@[simp] theorem Vk.destroy_callNo (d : Vk) (k : ObjKind) (h : Handle) :
    (d.destroy k h).callNo = d.callNo := by
  unfold Vk.destroy; split_ifs <;> rfl

@[simp] theorem Vk.destroy_failures (d : Vk) (k : ObjKind) (h : Handle) :
    (d.destroy k h).failures = d.failures := by
  unfold Vk.destroy; split_ifs <;> rfl

@[simp] theorem Vk.destroy_nextHandle (d : Vk) (k : ObjKind) (h : Handle) :
    (d.destroy k h).nextHandle = d.nextHandle := by
  unfold Vk.destroy; split_ifs <;> rfl

@[simp] theorem Vk.destroy_recorded (d : Vk) (k : ObjKind) (h : Handle) :
    (d.destroy k h).recorded = d.recorded := by
  unfold Vk.destroy; split_ifs <;> rfl

@[simp] theorem Vk.destroy_appliedWrites (d : Vk) (k : ObjKind) (h : Handle) :
    (d.destroy k h).appliedWrites = d.appliedWrites := by
  unfold Vk.destroy; split_ifs <;> rfl

/-- Destroying `h` takes no object with another handle out of the live set. -/
theorem Vk.mem_destroy (d : Vk) (k : ObjKind) (h : Handle) (o : Obj)
    (ho : o ∈ d.live) (hne : o.handle ≠ h) : o ∈ (d.destroy k h).live := by
  unfold Vk.destroy
  split_ifs
  · exact ho
  · simp [List.mem_filter, ho, hne]
  · exact ho

theorem Vk.mem_destroy_fresh (d : Vk) (k : ObjKind) (h : Handle) (o : Obj)
    (ho : o ∈ d.live) (hlt : h < o.handle) : o ∈ (d.destroy k h).live :=
  Vk.mem_destroy d k h o ho (Nat.ne_of_gt hlt)

/-- Destroying never adds a live object. -/
theorem Vk.mem_of_mem_destroy (d : Vk) (k : ObjKind) (h : Handle) (o : Obj)
    (ho : o ∈ (d.destroy k h).live) : o ∈ d.live := by
  unfold Vk.destroy at ho
  split_ifs at ho
  · exact ho
  · exact (List.mem_filter.1 ho).1
  · exact ho

/-! ## Binding instances at concrete scenes -/

/-- C11, on the code: at the demo scene (two grass groups with distinct
    buffers, every driver call succeeding) the batched update of
    `CreateComputeDescriptorSets` reads, for compute binding instance 0
    (handle 29), the buffers of group 1 in all three slots: the writes point
    at the loop-local info structs, which by then are out of scope and hold
    what the last iteration put there.  Dispatch 0 of the Cull sequence binds
    that instance, so it writes the count buffer 213 that the Fill draw of
    group 1 reads. -/
theorem compute_instance_reads_last_group :
    ((construct demoEnv).run (State.fresh [])).error? = none
    ∧ demoEnv.scene.blades.map (fun b => (b.bladesBuffer, b.culledBladesBuffer, b.numBladesBuffer))
        = [(201, 202, 203), (211, 212, 213)]
    ∧ demoConstructed.r.grassComputeDescriptorSets = [29, 30]
    ∧ demoConstructed.vk.effective? 29 0 = some ⟨.buffer 211 0 32768, false⟩
    ∧ demoConstructed.vk.effective? 29 1 = some ⟨.buffer 212 0 32768, false⟩
    ∧ demoConstructed.vk.effective? 29 2 = some ⟨.buffer 213 0 16, false⟩
    ∧ (demoConstructed.vk.recorded demoConstructed.r.computeCommandBuffer)[4]?
        = some (.bindDescriptorSets .COMPUTE demoConstructed.r.computePipelineLayout 2 [29])
    ∧ (demoConstructed.vk.recorded demoConstructed.r.computeCommandBuffer)[5]?
        = some (.dispatch 16 1 1)
    ∧ (demoConstructed.vk.recorded demoConstructed.r.deferredCommandBuffer)[8]?
        = some (.drawIndirect 213 0 1 16) := by
  decide!

/-- C12, on the code: at the demo scene (1 static model, 2 grass groups) the
    descriptor pool is created with `maxSets = 5`, and the constructor
    requests 1 + 1 + 2 + 1 + 2 = 7 binding instances from it. -/
theorem pool_capacity_below_requested_sets :
    ((construct demoEnv).run (State.fresh [])).error? = none
    ∧ demoConstructed.vk.maxSets? demoConstructed.r.descriptorPool = some 5
    ∧ demoConstructed.vk.requestedSets demoConstructed.r.descriptorPool = 7
    ∧ 1 + demoEnv.scene.models.length + demoEnv.scene.blades.length + 1
        + demoEnv.scene.blades.length = 7
    ∧ (demoConstructed.r.cameraDescriptorSet :: demoConstructed.r.modelDescriptorSets
        ++ demoConstructed.r.grassDescriptorSets
        ++ demoConstructed.r.timeDescriptorSet :: demoConstructed.r.grassComputeDescriptorSets)
        = [24, 25, 26, 27, 28, 29, 30] := by
  decide!

/-- C14, on the code: at the scene with two static models (every driver call
    succeeding) the batched update of `CreateModelDescriptorSets` holds one
    write per slot of model binding instance 0 (handle 25) and reads, for
    its slots 0 and 1, the uniform buffer and the texture of model 1: the
    writes point at the loop-local info structs, out of scope by then.
    Slots 2, 3, 4 read the G-buffer views with the deferred sampler. -/
theorem model_instance_reads_last_model :
    ((construct twoModelEnv).run (State.fresh [])).error? = none
    ∧ twoModelEnv.scene.models.map (fun m => (m.modelBuffer, m.textureView, m.textureSampler))
        = [(103, 104, 105), (113, 114, 115)]
    ∧ twoModelConstructed.r.modelDescriptorSets = [25, 26]
    ∧ (List.range 5).map (fun b => (twoModelConstructed.vk.writesTo 25 b).length)
        = [1, 1, 1, 1, 1]
    ∧ twoModelConstructed.vk.effective? 25 0 = some ⟨.buffer 113 0 64, false⟩
    ∧ twoModelConstructed.vk.effective? 25 1
        = some ⟨.image 115 114 .SHADER_READ_ONLY_OPTIMAL, false⟩
    ∧ twoModelConstructed.vk.effective? 25 2 = some
        ⟨.image twoModelConstructed.r.deferredSampler
          twoModelConstructed.r.deferredAlbedoImageView .SHADER_READ_ONLY_OPTIMAL, true⟩
    ∧ twoModelConstructed.vk.effective? 25 3 = some
        ⟨.image twoModelConstructed.r.deferredSampler
          twoModelConstructed.r.deferredPositionImageView .SHADER_READ_ONLY_OPTIMAL, true⟩
    ∧ twoModelConstructed.vk.effective? 25 4 = some
        ⟨.image twoModelConstructed.r.deferredSampler
          twoModelConstructed.r.deferredNormalImageView .SHADER_READ_ONLY_OPTIMAL, true⟩ := by
  decide!

/-! ## Binding schemas and pipelines -/

/-- C13, as stated, fails on the code: in the Model schema that the
    constructor creates at the demo scene, slot 0 (the uniform buffer) is
    visible to the vertex stage and not to the fragment stage. -/
theorem model_schema_slot0_vertex_only :
    ((construct demoEnv).run (State.fresh [])).error? = none
    ∧ demoConstructed.vk.info? demoConstructed.r.modelDescriptorSetLayout
        = some (.descriptorSetLayout modelLayoutBindings)
    ∧ modelLayoutBindings[0]? = some ⟨0, .uniformBuffer, 1, .bits [.vertex]⟩
    ∧ (modelLayoutBindings.map fun b => b.stageFlags.visibleTo .fragment)
        = [false, true, true, true, true]
    ∧ (modelLayoutBindings.map fun b => b.stageFlags.visibleTo .vertex)
        = [true, false, false, false, false] := by
  decide!

/-- C13, amended: each of the four schema-creating functions, when its
    `vkCreateDescriptorSetLayout` succeeds, leaves a live schema of exactly
    this shape in its member field.  Camera: one uniform-buffer slot 0,
    visible to all stages.  Model: uniform-buffer slot 0 visible to the
    vertex stage, and four sampled-image slots 1, 2, 3, 4 visible to the
    fragment stage.  Time: one uniform-buffer slot 0 visible to compute.
    Compute-Cull: three storage-buffer slots 0, 1, 2 visible to compute. -/
theorem schema_shapes (s : State) :
    ((CreateCameraDescriptorSetLayout.run s).error? = none →
      (⟨(CreateCameraDescriptorSetLayout.run s).st.r.cameraDescriptorSetLayout,
        .descriptorSetLayout [⟨0, .uniformBuffer, 1, .all⟩]⟩ : Obj) ∈
        (CreateCameraDescriptorSetLayout.run s).st.vk.live)
    ∧ ((CreateModelDescriptorSetLayout.run s).error? = none →
      (⟨(CreateModelDescriptorSetLayout.run s).st.r.modelDescriptorSetLayout,
        .descriptorSetLayout
          [ ⟨0, .uniformBuffer, 1, .bits [.vertex]⟩,
            ⟨1, .combinedImageSampler, 1, .bits [.fragment]⟩,
            ⟨2, .combinedImageSampler, 1, .bits [.fragment]⟩,
            ⟨3, .combinedImageSampler, 1, .bits [.fragment]⟩,
            ⟨4, .combinedImageSampler, 1, .bits [.fragment]⟩ ]⟩ : Obj) ∈
        (CreateModelDescriptorSetLayout.run s).st.vk.live)
    ∧ ((CreateTimeDescriptorSetLayout.run s).error? = none →
      (⟨(CreateTimeDescriptorSetLayout.run s).st.r.timeDescriptorSetLayout,
        .descriptorSetLayout [⟨0, .uniformBuffer, 1, .bits [.compute]⟩]⟩ : Obj) ∈
        (CreateTimeDescriptorSetLayout.run s).st.vk.live)
    ∧ ((CreateComputeDescriptorSetLayout.run s).error? = none →
      (⟨(CreateComputeDescriptorSetLayout.run s).st.r.grassComputeDescriptorSetLayout,
        .descriptorSetLayout
          [ ⟨0, .storageBuffer, 1, .bits [.compute]⟩,
            ⟨1, .storageBuffer, 1, .bits [.compute]⟩,
            ⟨2, .storageBuffer, 1, .bits [.compute]⟩ ]⟩ : Obj) ∈
        (CreateComputeDescriptorSetLayout.run s).st.vk.live) := by
  refine ⟨?_, ?_, ?_, ?_⟩
  · intro h
    unfold CreateCameraDescriptorSetLayout at h ⊢
    by_cases h1 : s.vk.callNo ∈ s.vk.failures <;>
      simp [run_bind, run_createOrThrow, h1, cameraLayoutBindings] at h ⊢
  · intro h
    unfold CreateModelDescriptorSetLayout at h ⊢
    by_cases h1 : s.vk.callNo ∈ s.vk.failures <;>
      simp [run_bind, run_createOrThrow, h1, modelLayoutBindings] at h ⊢
  · intro h
    unfold CreateTimeDescriptorSetLayout at h ⊢
    by_cases h1 : s.vk.callNo ∈ s.vk.failures <;>
      simp [run_bind, run_createOrThrow, h1, timeLayoutBindings] at h ⊢
  · intro h
    unfold CreateComputeDescriptorSetLayout at h ⊢
    by_cases h1 : s.vk.callNo ∈ s.vk.failures <;>
      simp [run_bind, run_createOrThrow, h1, computeLayoutBindings] at h ⊢

/-- C13, amended, on a device that accepts every call: the four functions
    succeed and leave the four schemas. -/
theorem schema_shapes_witness :
    (CreateCameraDescriptorSetLayout.run (State.fresh [])).error? = none
    ∧ (CreateModelDescriptorSetLayout.run (State.fresh [])).error? = none
    ∧ (CreateTimeDescriptorSetLayout.run (State.fresh [])).error? = none
    ∧ (CreateComputeDescriptorSetLayout.run (State.fresh [])).error? = none
    ∧ (⟨(CreateCameraDescriptorSetLayout.run (State.fresh [])).st.r.cameraDescriptorSetLayout,
        .descriptorSetLayout [⟨0, .uniformBuffer, 1, .all⟩]⟩ : Obj) ∈
        (CreateCameraDescriptorSetLayout.run (State.fresh [])).st.vk.live
    ∧ (⟨(CreateModelDescriptorSetLayout.run (State.fresh [])).st.r.modelDescriptorSetLayout,
        .descriptorSetLayout
          [ ⟨0, .uniformBuffer, 1, .bits [.vertex]⟩,
            ⟨1, .combinedImageSampler, 1, .bits [.fragment]⟩,
            ⟨2, .combinedImageSampler, 1, .bits [.fragment]⟩,
            ⟨3, .combinedImageSampler, 1, .bits [.fragment]⟩,
            ⟨4, .combinedImageSampler, 1, .bits [.fragment]⟩ ]⟩ : Obj) ∈
        (CreateModelDescriptorSetLayout.run (State.fresh [])).st.vk.live
    ∧ (⟨(CreateTimeDescriptorSetLayout.run (State.fresh [])).st.r.timeDescriptorSetLayout,
        .descriptorSetLayout [⟨0, .uniformBuffer, 1, .bits [.compute]⟩]⟩ : Obj) ∈
        (CreateTimeDescriptorSetLayout.run (State.fresh [])).st.vk.live
    ∧ (⟨(CreateComputeDescriptorSetLayout.run (State.fresh [])).st.r.grassComputeDescriptorSetLayout,
        .descriptorSetLayout
          [ ⟨0, .storageBuffer, 1, .bits [.compute]⟩,
            ⟨1, .storageBuffer, 1, .bits [.compute]⟩,
            ⟨2, .storageBuffer, 1, .bits [.compute]⟩ ]⟩ : Obj) ∈
        (CreateComputeDescriptorSetLayout.run (State.fresh [])).st.vk.live :=
  ⟨by decide!, by decide!, by decide!, by decide!,
   (schema_shapes (State.fresh [])).1 (by decide!),
   (schema_shapes (State.fresh [])).2.1 (by decide!),
   (schema_shapes (State.fresh [])).2.2.1 (by decide!),
   (schema_shapes (State.fresh [])).2.2.2 (by decide!)⟩

/-- C16: `CreateGraphicsPipeline`, when it succeeds, leaves in
    `graphicsPipeline` a live pipeline with the two stages vertex and
    fragment, triangle-list topology, back-face culling, counter-clockwise
    front face, depth test and depth write on, exactly one colour blend
    attachment, created for the presentation render pass (`renderPass`).
    `CreateGrassPipeline`, when it succeeds, leaves in `grassPipeline` a live
    pipeline with the four stages vertex, tessellation-control,
    tessellation-evaluation, fragment in this order, patch-list topology with
    one control point per patch, no face culling, exactly three colour blend
    attachments, all the same, created for the G-buffer render pass
    (`deferredRenderPass`). -/
theorem pipeline_fixed_function_state (s : State) :
    ((CreateGraphicsPipeline.run s).error? = none →
      (⟨(CreateGraphicsPipeline.run s).st.r.graphicsPipeline,
        .graphicsPipeline
          { stages := [⟨.vertex, s.vk.nextHandle⟩, ⟨.fragment, s.vk.nextHandle + 1⟩],
            topology := .TRIANGLE_LIST, cullMode := .BACK, frontFace := .COUNTER_CLOCKWISE,
            depthTestEnable := true, depthWriteEnable := true,
            colorBlendAttachmentCount := 1, colorBlendAttachments := [colorBlendAttachment],
            patchControlPoints := none,
            layout := (CreateGraphicsPipeline.run s).st.r.graphicsPipelineLayout,
            renderPass := s.r.renderPass, subpass := 0 }⟩ : Obj) ∈
        (CreateGraphicsPipeline.run s).st.vk.live)
    ∧ ((CreateGrassPipeline.run s).error? = none →
      (⟨(CreateGrassPipeline.run s).st.r.grassPipeline,
        .graphicsPipeline
          { stages := [⟨.vertex, s.vk.nextHandle⟩,
                       ⟨.tessellationControl, s.vk.nextHandle + 1⟩,
                       ⟨.tessellationEvaluation, s.vk.nextHandle + 2⟩,
                       ⟨.fragment, s.vk.nextHandle + 3⟩],
            topology := .PATCH_LIST, cullMode := .NONE, frontFace := .COUNTER_CLOCKWISE,
            depthTestEnable := true, depthWriteEnable := true,
            colorBlendAttachmentCount := 3,
            colorBlendAttachments :=
              [colorBlendAttachment, colorBlendAttachment, colorBlendAttachment],
            patchControlPoints := some 1,
            layout := (CreateGrassPipeline.run s).st.r.grassPipelineLayout,
            renderPass := s.r.deferredRenderPass, subpass := 0 }⟩ : Obj) ∈
        (CreateGrassPipeline.run s).st.vk.live) := by
  refine ⟨?_, ?_⟩
  · intro h
    unfold CreateGraphicsPipeline at h ⊢
    by_cases h1 : s.vk.callNo ∈ s.vk.failures <;>
    by_cases h2 : s.vk.callNo + 1 ∈ s.vk.failures <;>
      simp [run_bind, run_createOrThrow, h1, h2, ShaderModule.Create] at h ⊢
    refine Vk.mem_destroy_fresh _ _ _ _ (Vk.mem_destroy_fresh _ _ _ _ (by simp) ?_) ?_
    all_goals repeat (first | exact Nat.lt_succ_self _ | apply Nat.lt_succ_of_lt)
  · intro h
    unfold CreateGrassPipeline at h ⊢
    by_cases h1 : s.vk.callNo ∈ s.vk.failures <;>
    by_cases h2 : s.vk.callNo + 1 ∈ s.vk.failures <;>
      simp [run_bind, run_createOrThrow, h1, h2, ShaderModule.Create] at h ⊢
    refine Vk.mem_destroy_fresh _ _ _ _ (Vk.mem_destroy_fresh _ _ _ _ (Vk.mem_destroy_fresh _ _ _ _
      (Vk.mem_destroy_fresh _ _ _ _ (by simp [List.range_succ, Nat.add_assoc]) ?_) ?_) ?_) ?_
    all_goals repeat (first | exact Nat.lt_succ_self _ | apply Nat.lt_succ_of_lt)

/-- C16, when the two functions run again on the constructed demo renderer
    (as a resize makes them): both succeed, `renderPass` is the presentation
    render pass and `deferredRenderPass` the G-buffer render pass, and the
    pipelines they leave have the fixed-function state of the claim. -/
theorem pipeline_fixed_function_state_witness :
    (CreateGraphicsPipeline.run demoConstructed).error? = none
    ∧ (CreateGrassPipeline.run demoConstructed).error? = none
    ∧ demoConstructed.vk.info? demoConstructed.r.renderPass
        = some (.renderPass presentationRenderPassInfo)
    ∧ demoConstructed.vk.info? demoConstructed.r.deferredRenderPass
        = some (.renderPass deferredRenderPassInfo)
    ∧ (⟨(CreateGraphicsPipeline.run demoConstructed).st.r.graphicsPipeline,
        .graphicsPipeline
          { stages := [⟨.vertex, demoConstructed.vk.nextHandle⟩,
                       ⟨.fragment, demoConstructed.vk.nextHandle + 1⟩],
            topology := .TRIANGLE_LIST, cullMode := .BACK, frontFace := .COUNTER_CLOCKWISE,
            depthTestEnable := true, depthWriteEnable := true,
            colorBlendAttachmentCount := 1, colorBlendAttachments := [colorBlendAttachment],
            patchControlPoints := none,
            layout := (CreateGraphicsPipeline.run demoConstructed).st.r.graphicsPipelineLayout,
            renderPass := demoConstructed.r.renderPass, subpass := 0 }⟩ : Obj) ∈
        (CreateGraphicsPipeline.run demoConstructed).st.vk.live
    ∧ (⟨(CreateGrassPipeline.run demoConstructed).st.r.grassPipeline,
        .graphicsPipeline
          { stages := [⟨.vertex, demoConstructed.vk.nextHandle⟩,
                       ⟨.tessellationControl, demoConstructed.vk.nextHandle + 1⟩,
                       ⟨.tessellationEvaluation, demoConstructed.vk.nextHandle + 2⟩,
                       ⟨.fragment, demoConstructed.vk.nextHandle + 3⟩],
            topology := .PATCH_LIST, cullMode := .NONE, frontFace := .COUNTER_CLOCKWISE,
            depthTestEnable := true, depthWriteEnable := true,
            colorBlendAttachmentCount := 3,
            colorBlendAttachments :=
              [colorBlendAttachment, colorBlendAttachment, colorBlendAttachment],
            patchControlPoints := some 1,
            layout := (CreateGrassPipeline.run demoConstructed).st.r.grassPipelineLayout,
            renderPass := demoConstructed.r.deferredRenderPass, subpass := 0 }⟩ : Obj) ∈
        (CreateGrassPipeline.run demoConstructed).st.vk.live :=
  ⟨by decide!, by decide!, by decide!, by decide!,
   (pipeline_fixed_function_state demoConstructed).1 (by decide!),
   (pipeline_fixed_function_state demoConstructed).2 (by decide!)⟩

/-! ## Fail-fast construction -/

theorem failFast_pure {α : Type} (s0 : State) (a : α) : FailFast s0 (pure a : M α) :=
  hoare_pure a (fun _ hs => hs)

theorem failFast_bind {α β : Type} {s0 : State} {m : M α} {f : α → M β}
    (hm : FailFast s0 m) (hf : ∀ a, FailFast s0 (f a)) : FailFast s0 (m >>= f) :=
  hoare_bind hm hf

theorem failFast_setFields (s0 : State) (f : Fields → Fields) : FailFast s0 (setFields f) :=
  hoare_setFields f (fun _ hs => hs)

theorem failFast_getFields (s0 : State) : FailFast s0 getFields :=
  hoare_getFields (fun _ hs => hs)

/-- A driver call without a result code keeps the count of checked calls. -/
theorem failFast_setVk (s0 : State) (f : Vk → Vk) (h1 : ∀ d, (f d).callNo = d.callNo)
    (h2 : ∀ d, (f d).failures = d.failures) : FailFast s0 (setVk f) := by
  refine hoare_setVk f (fun s hs => ?_)
  unfold allCallsSucceeded at hs ⊢
  simpa [h1, h2] using hs

theorem failFast_newObject (s0 : State) (info : Info) : FailFast s0 (newObject info) := by
  intro s hs
  exact hs

theorem failFast_vkDestroy (s0 : State) (k : ObjKind) (h : Handle) :
    FailFast s0 (vkDestroy k h) := by
  intro s hs
  unfold allCallsSucceeded at hs ⊢
  simpa using hs

theorem failFast_declareLocal (s0 : State) (cell : Nat) (v : DescInfo) :
    FailFast s0 (declareLocal cell v) :=
  failFast_setVk s0 _ (fun _ => rfl) (fun _ => rfl)

theorem failFast_endLocal (s0 : State) (cell : Nat) : FailFast s0 (endLocal cell) :=
  failFast_setVk s0 _ (fun _ => rfl) (fun _ => rfl)

theorem failFast_vkUpdateDescriptorSets (s0 : State) (ws : List WriteDescriptorSet) :
    FailFast s0 (vkUpdateDescriptorSets ws) :=
  failFast_setVk s0 _ (fun _ => rfl) (fun _ => rfl)

theorem failFast_vkCmd (s0 : State) (cb : Handle) (c : Cmd) : FailFast s0 (vkCmd cb c) :=
  failFast_setVk s0 _ (fun _ => rfl) (fun _ => rfl)

theorem failFast_forRange (s0 : State) (n : Nat) (body : Nat → M Unit)
    (h : ∀ i, FailFast s0 (body i)) : FailFast s0 (forRange n body) :=
  hoare_forRange n body (fun i _ => h i)

theorem failFast_forRangeWith {β : Type} (s0 : State) (n : Nat) (acc : β) (body : Nat → β → M β)
    (h : ∀ i a, FailFast s0 (body i a)) : FailFast s0 (forRangeWith n acc body) := by
  have key := hoare_forRangeWith (I := allCallsSucceeded s0) (J := fun _ => True)
    (E := stoppedAtFailure s0) n acc body trivial
    (fun i a _ _ => hoare_conseq (h i a) (fun _ hs => hs) (fun _ _ hq => ⟨hq, trivial⟩)
      (fun _ he => he))
  exact hoare_conseq key (fun _ hs => hs) (fun _ _ hq => hq.1) (fun _ he => he)

/-- One more checked call, which succeeded. -/
theorem allCallsSucceeded_step {s0 s s1 : State} (hs : allCallsSucceeded s0 s)
    (hok : s.vk.callNo ∉ s.vk.failures) (hc : s1.vk.callNo = s.vk.callNo + 1)
    (hf : s1.vk.failures = s.vk.failures) : allCallsSucceeded s0 s1 := by
  obtain ⟨hf0, hle, hall⟩ := hs
  refine ⟨hf.trans hf0, by omega, fun k h1 h2 => ?_⟩
  by_cases hk : k = s.vk.callNo
  · subst hk
    rwa [hf0] at hok
  · exact hall k h1 (by omega)

/-- One more checked call, which failed. -/
theorem stoppedAtFailure_step {s0 s s1 : State} (hs : allCallsSucceeded s0 s)
    (hbad : s.vk.callNo ∈ s.vk.failures) (hc : s1.vk.callNo = s.vk.callNo + 1)
    (hf : s1.vk.failures = s.vk.failures) : stoppedAtFailure s0 s1 := by
  obtain ⟨hf0, hle, hall⟩ := hs
  refine ⟨hf.trans hf0, by omega, ?_, fun k h1 h2 => hall k h1 (by omega)⟩
  rw [hc, Nat.add_sub_cancel, ← hf0]
  exact hbad

/-- The result code of a checked call: success keeps the run clean, anything
    else makes this call the failure the run stops at, provided the caller
    throws. -/
theorem hoare_vkResult (s0 : State) :
    Hoare (allCallsSucceeded s0) vkResult
      (fun ok s => if ok = true then allCallsSucceeded s0 s else stoppedAtFailure s0 s)
      (stoppedAtFailure s0) := by
  intro s hs
  by_cases hmem : s.vk.callNo ∈ s.vk.failures
  · simp only [run_vkResult, hmem, not_true_eq_false, decide_False, Bool.false_eq_true,
      if_false]
    exact stoppedAtFailure_step hs hmem rfl rfl
  · simp only [run_vkResult, hmem, not_false_eq_true, decide_True, if_true]
    exact allCallsSucceeded_step hs hmem rfl rfl

theorem hoare_vkBeginCommandBuffer (s0 : State) (cb : Handle) :
    Hoare (allCallsSucceeded s0) (vkBeginCommandBuffer cb)
      (fun ok s => if ok = true then allCallsSucceeded s0 s else stoppedAtFailure s0 s)
      (stoppedAtFailure s0) := by
  unfold vkBeginCommandBuffer
  refine hoare_bind (hoare_vkResult s0) (fun ok => ?_)
  cases ok with
  | false => exact hoare_pure _ (fun s hs => by simpa using hs)
  | true =>
    refine hoare_bind (Q := fun _ => allCallsSucceeded s0) ?_
      (fun _ => hoare_pure _ (fun s hs => by simpa using hs))
    simp only [if_true]
    exact hoare_setVk _ (fun s hs => hs)

theorem hoare_vkEndCommandBuffer (s0 : State) (cb : Handle) :
    Hoare (allCallsSucceeded s0) (vkEndCommandBuffer cb)
      (fun ok s => if ok = true then allCallsSucceeded s0 s else stoppedAtFailure s0 s)
      (stoppedAtFailure s0) :=
  hoare_vkResult s0

/-- The idiom `if (call != VK_SUCCESS) throw ...`, followed by more code. -/
theorem failFast_checked {β : Type} {s0 : State} {call : M Bool} {msg : String}
    {f : Unit → M β}
    (hc : Hoare (allCallsSucceeded s0) call
      (fun ok s => if ok = true then allCallsSucceeded s0 s else stoppedAtFailure s0 s)
      (stoppedAtFailure s0))
    (hf : FailFast s0 (f ())) :
    FailFast s0 (call >>= fun ok => throwUnless ok msg >>= f) := by
  refine hoare_bind hc (fun ok => ?_)
  cases ok with
  | false =>
    intro s hs
    simpa [throwUnless, run_bind] using hs
  | true =>
    intro s hs
    have := hf s (by simpa using hs)
    simpa [throwUnless, run_bind] using this

/-- The idiom `if (call != VK_SUCCESS) throw ...` as the last statement. -/
theorem failFast_checked_last {s0 : State} {call : M Bool} {msg : String}
    (hc : Hoare (allCallsSucceeded s0) call
      (fun ok s => if ok = true then allCallsSucceeded s0 s else stoppedAtFailure s0 s)
      (stoppedAtFailure s0)) :
    FailFast s0 (call >>= fun ok => throwUnless ok msg) := by
  refine hoare_bind hc (fun ok => ?_)
  cases ok with
  | false =>
    intro s hs
    simpa [throwUnless] using hs
  | true =>
    intro s hs
    simpa [throwUnless] using hs

theorem failFast_createOrThrow (s0 : State) (info : Info) (msg : String) :
    FailFast s0 (createOrThrow info msg) := by
  intro s hs
  rw [run_createOrThrow]
  by_cases hmem : s.vk.callNo ∈ s.vk.failures
  · simp only [hmem, if_true]
    exact stoppedAtFailure_step hs hmem rfl rfl
  · simp only [hmem, if_false]
    exact allCallsSucceeded_step hs hmem rfl rfl

theorem failFast_allocateCommandBuffersOrThrow (s0 : State) (pool : Handle) (n : Nat)
    (msg : String) : FailFast s0 (allocateCommandBuffersOrThrow pool n msg) := by
  intro s hs
  rw [run_allocateCommandBuffersOrThrow]
  by_cases hmem : s.vk.callNo ∈ s.vk.failures
  · simp only [hmem, if_true]
    exact stoppedAtFailure_step hs hmem rfl rfl
  · simp only [hmem, if_false]
    exact allCallsSucceeded_step hs hmem rfl rfl

theorem run_descriptorSetLoop (pool : Handle) (layouts : List Handle) (n : Nat) (s : State) :
    (forRangeWith n [] (fun k acc => do
        let h ← newObject (.descriptorSet pool layouts[k]?)
        pure (acc ++ [h]))).run s =
      ⟨.ok ((List.range n).map (s.vk.nextHandle + ·)),
       { s with vk := { s.vk with
          nextHandle := s.vk.nextHandle + n,
          live := s.vk.live ++
            (List.range n).map
              (fun i => ⟨s.vk.nextHandle + i, .descriptorSet pool layouts[i]?⟩) } }⟩ := by
  induction n with
  | zero => simp [forRangeWith]
  | succ k ih =>
    simp only [forRangeWith, run_bind, ih, run_newObject, run_pure, List.range_succ,
      List.map_append, List.map_cons, List.map_nil, List.append_assoc, Nat.add_assoc]

theorem run_allocateDescriptorSetsOrThrow (pool : Handle) (n : Nat) (layouts : List Handle)
    (s : State) :
    (allocateDescriptorSetsOrThrow pool n layouts).run s =
      if s.vk.callNo ∈ s.vk.failures then
        ⟨.error "Failed to allocate descriptor set",
         { s with vk := { s.vk with
            callNo := s.vk.callNo + 1,
            descriptorAllocations := s.vk.descriptorAllocations ++ [⟨pool, n, layouts⟩] } }⟩
      else
        ⟨.ok ((List.range n).map (s.vk.nextHandle + ·)),
         { s with vk := { s.vk with
            callNo := s.vk.callNo + 1,
            descriptorAllocations := s.vk.descriptorAllocations ++ [⟨pool, n, layouts⟩],
            nextHandle := s.vk.nextHandle + n,
            live := s.vk.live ++
              (List.range n).map
                (fun i => ⟨s.vk.nextHandle + i, .descriptorSet pool layouts[i]?⟩) } }⟩ := by
  by_cases h : s.vk.callNo ∈ s.vk.failures <;>
    simp [allocateDescriptorSetsOrThrow, vkAllocateDescriptorSets, run_bind, h,
      run_descriptorSetLoop]

theorem failFast_allocateDescriptorSetsOrThrow (s0 : State) (pool : Handle) (n : Nat)
    (layouts : List Handle) : FailFast s0 (allocateDescriptorSetsOrThrow pool n layouts) := by
  intro s hs
  rw [run_allocateDescriptorSetsOrThrow]
  by_cases hmem : s.vk.callNo ∈ s.vk.failures
  · simp only [hmem, if_true]
    exact stoppedAtFailure_step hs hmem rfl rfl
  · simp only [hmem, if_false]
    exact allCallsSucceeded_step hs hmem rfl rfl

theorem failFast_ImageCreate (s0 : State) (width height : Nat) (format : Format)
    (usage : List ImageUsage) : FailFast s0 (Image.Create width height format usage) := by
  intro s hs
  exact hs

theorem failFast_ImageCreateView (s0 : State) (image : Handle) (format : Format)
    (aspect : ImageAspect) : FailFast s0 (Image.CreateView image format aspect) := by
  intro s hs
  exact hs

theorem failFast_ImageTransitionLayout (s0 : State) (image : Handle)
    (oldLayout newLayout : ImageLayout) :
    FailFast s0 (Image.TransitionLayout image oldLayout newLayout) := by
  intro s hs
  exact hs

theorem failFast_ShaderModuleCreate (s0 : State) (file : String) :
    FailFast s0 (ShaderModule.Create file) := by
  intro s hs
  exact hs

/-- The constructor is fail-fast, whatever state it starts in. -/
theorem failFast_construct (s0 : State) (env : Env) : FailFast s0 (construct env) := by
  unfold construct
  repeat' (first
    | with_reducible (first
      | exact failFast_pure _ _
      | exact failFast_setFields _ _
      | exact failFast_getFields _
      | exact failFast_newObject _ _
      | exact failFast_vkDestroy _ _ _
      | exact failFast_declareLocal _ _ _
      | exact failFast_endLocal _ _
      | exact failFast_vkUpdateDescriptorSets _ _
      | exact failFast_vkCmd _ _ _
      | exact failFast_createOrThrow _ _ _
      | exact failFast_allocateCommandBuffersOrThrow _ _ _ _
      | exact failFast_allocateDescriptorSetsOrThrow _ _ _ _
      | exact failFast_ImageCreate _ _ _ _ _
      | exact failFast_ImageCreateView _ _ _ _
      | exact failFast_ImageTransitionLayout _ _ _ _
      | exact failFast_ShaderModuleCreate _ _
      | exact failFast_checked_last (hoare_vkBeginCommandBuffer _ _)
      | exact failFast_checked_last (hoare_vkEndCommandBuffer _ _)
      | apply failFast_checked (hoare_vkBeginCommandBuffer _ _)
      | apply failFast_checked (hoare_vkEndCommandBuffer _ _)
      | apply failFast_forRange
      | apply failFast_forRangeWith
      | apply failFast_bind
      | intro _)
    | unfold CreateCommandPools
    | unfold CreateRenderPass
    | unfold CreateDeferredRenderPass
    | unfold CreateCameraDescriptorSetLayout
    | unfold CreateModelDescriptorSetLayout
    | unfold CreateTimeDescriptorSetLayout
    | unfold CreateComputeDescriptorSetLayout
    | unfold CreateDescriptorPool
    | unfold CreateCameraDescriptorSet
    | unfold CreateModelDescriptorSets
    | unfold CreateGrassDescriptorSets
    | unfold CreateTimeDescriptorSet
    | unfold CreateComputeDescriptorSets
    | unfold CreateFrameResources
    | unfold CreateGraphicsPipeline
    | unfold CreateGrassPipeline
    | unfold CreateComputePipeline
    | unfold RecordCommandBuffers
    | unfold RecordDeferredCommandBuffer
    | unfold RecordComputeCommandBuffer)

/-- C15: construction is fail-fast.  The checked calls a run of the
    constructor makes are numbered from `s.vk.callNo` on, and `s.vk.failures`
    holds the numbers of those that do not return `VK_SUCCESS`.  If the
    constructor makes checked call `k` and that call fails, the constructor
    throws, and `k` is the last checked call it made: no later creation step
    is reached. -/
theorem construct_fail_fast (env : Env) (s : State) (k : Nat)
    (hk : s.vk.callNo ≤ k) (hmade : k < ((construct env).run s).st.vk.callNo)
    (hfail : k ∈ s.vk.failures) :
    ((construct env).run s).error? ≠ none
    ∧ ((construct env).run s).st.vk.callNo = k + 1 := by
  have h := failFast_construct s env s
    ⟨rfl, Nat.le_refl _, fun j h1 h2 => absurd (Nat.lt_of_le_of_lt h1 h2) (Nat.lt_irrefl _)⟩
  rcases hrun : (construct env).run s with ⟨res, s1⟩
  rw [hrun] at h hmade
  cases res with
  | ok u => exact absurd hfail (h.2.2 k hk hmade)
  | error e =>
    refine ⟨by simp [Out.error?], ?_⟩
    obtain ⟨_, hlt, _, hall⟩ := h
    by_cases hlast : k + 1 < s1.vk.callNo
    · exact absurd hfail (hall k hk hlast)
    · show s1.vk.callNo = k + 1
      have hmade1 : k < s1.vk.callNo := hmade
      omega

/-- C15, at the demo scene: on a device that accepts every call the
    constructor makes 38 checked calls and returns; when checked call 3 (the
    G-buffer render pass) fails, it throws with 4 calls made; and the same
    holds of each of the 38 calls when it is the one that fails. -/
theorem construct_fail_fast_witness :
    (State.fresh [3]).vk.callNo ≤ 3
    ∧ 3 < ((construct demoEnv).run (State.fresh [3])).st.vk.callNo
    ∧ 3 ∈ (State.fresh [3]).vk.failures
    ∧ (((construct demoEnv).run (State.fresh [3])).error? ≠ none
        ∧ ((construct demoEnv).run (State.fresh [3])).st.vk.callNo = 3 + 1)
    ∧ ((construct demoEnv).run (State.fresh [])).error? = none
    ∧ ((construct demoEnv).run (State.fresh [])).st.vk.callNo = 38
    ∧ ∀ k, k < 38 →
        ((construct demoEnv).run (State.fresh [k])).error? ≠ none
        ∧ ((construct demoEnv).run (State.fresh [k])).st.vk.callNo = k + 1 :=
  ⟨by decide!, by decide!, by decide!,
   construct_fail_fast demoEnv (State.fresh [3]) 3 (by decide!) (by decide!) (by decide!),
   by decide!, by decide!, by decide!⟩

/-! ## Resize keeps what it does not name -/

/-- One step of `RecreateFrameResources`, whatever it is, keeps `KeptOnResize`
    if it does these things only. -/
theorem KeptOnResize.step {s0 : State} {o : Obj} {s s1 : State} (hs : KeptOnResize s0 o s)
    (hr : s1.r.withoutFrameResources = s.r.withoutFrameResources)
    (hn : s.vk.nextHandle ≤ s1.vk.nextHandle)
    (hrec : ∀ h, h < s0.vk.nextHandle → s1.vk.recorded h = s.vk.recorded h)
    (hw : s1.vk.appliedWrites = s.vk.appliedWrites)
    (ho : o ∈ s1.vk.live)
    (hlive : ∀ o1, o1 ∈ s1.vk.live →
      o1 ∈ s.vk.live ∨ (s.vk.nextHandle ≤ o1.handle ∧ o1.info.isFrameResource = true)) :
    KeptOnResize s0 o s1 := by
  obtain ⟨h1, h2, h3, h4, _, h6⟩ := hs
  refine ⟨hr.trans h1, Nat.le_trans h2 hn, fun h hh => (hrec h hh).trans (h3 h hh),
    hw.trans h4, ho, fun o1 ho1 => ?_⟩
  rcases hlive o1 ho1 with hold | ⟨hnew, hk⟩
  · exact h6 o1 hold
  · exact Or.inr ⟨Nat.le_trans h2 hnew, hk⟩

theorem KeptOnResize.refl (s0 : State) (o : Obj) (ho : o ∈ s0.vk.live) :
    KeptOnResize s0 o s0 :=
  ⟨rfl, Nat.le_refl _, fun _ _ => rfl, rfl, ho, fun _ h => Or.inl h⟩

/-- Destroying a handle other than that of `o`. -/
theorem KeptOnResize.destroy {s0 : State} {o : Obj} {s : State} (hs : KeptOnResize s0 o s)
    (k : ObjKind) (h : Handle) (hne : o.handle ≠ h) :
    KeptOnResize s0 o { s with vk := s.vk.destroy k h } :=
  hs.step rfl (by simp) (fun _ _ => by simp) (by simp)
    (Vk.mem_destroy _ _ _ _ hs.2.2.2.2.1 hne)
    (fun o1 ho1 => Or.inl (Vk.mem_of_mem_destroy _ _ _ _ ho1))

/-- Creating a frame resource. -/
theorem KeptOnResize.create {s0 : State} {o : Obj} {s : State} (hs : KeptOnResize s0 o s)
    (info : Info) (hk : info.isFrameResource = true) (c : Nat) :
    KeptOnResize s0 o
      { s with vk := { s.vk with callNo := c, nextHandle := s.vk.nextHandle + 1,
                                 live := s.vk.live ++ [⟨s.vk.nextHandle, info⟩] } } := by
  refine hs.step rfl (Nat.le_succ _) (fun _ _ => rfl) rfl
    (List.mem_append_left _ hs.2.2.2.2.1) (fun o1 ho1 => ?_)
  rcases List.mem_append.1 ho1 with hold | hnew
  · exact Or.inl hold
  · rw [List.mem_singleton] at hnew
    subst hnew
    exact Or.inr ⟨Nat.le_refl _, hk⟩

/-- A checked call that creates nothing. -/
theorem KeptOnResize.call {s0 : State} {o : Obj} {s : State} (hs : KeptOnResize s0 o s)
    (c : Nat) : KeptOnResize s0 o { s with vk := { s.vk with callNo := c } } :=
  hs.step rfl (Nat.le_refl _) (fun _ _ => rfl) rfl hs.2.2.2.2.1 (fun _ h => Or.inl h)

/-- Assigning fields that `RecreateFrameResources` may assign. -/
theorem KeptOnResize.assign {s0 : State} {o : Obj} {s : State} (hs : KeptOnResize s0 o s)
    (f : Fields → Fields)
    (hf : ∀ r, (f r).withoutFrameResources = r.withoutFrameResources) :
    KeptOnResize s0 o { s with r := f s.r } :=
  hs.step (hf _) (Nat.le_refl _) (fun _ _ => rfl) rfl hs.2.2.2.2.1 (fun _ h => Or.inl h)

/-- Recording into, or resetting, a command buffer allocated after `s0`. -/
theorem KeptOnResize.recorded {s0 : State} {o : Obj} {s : State} (hs : KeptOnResize s0 o s)
    (cb : Handle) (hcb : s0.vk.nextHandle ≤ cb) (rec : Handle → List Cmd) (c : Nat)
    (hrec : ∀ h, h ≠ cb → rec h = s.vk.recorded h) :
    KeptOnResize s0 o { s with vk := { s.vk with recorded := rec, callNo := c } } :=
  hs.step rfl (Nat.le_refl _)
    (fun h hh => hrec h (Nat.ne_of_lt (Nat.lt_of_lt_of_le hh hcb)))
    rfl hs.2.2.2.2.1 (fun _ h => Or.inl h)

theorem getD_mem_of_lt (l : List Handle) (i : Nat) (d : Handle) (hi : i < l.length) :
    l.getD i d ∈ l := by
  rw [List.getD_eq_getElem _ _ hi]
  exact List.getElem_mem hi

theorem kept_pure {α : Type} (s0 : State) (o : Obj) (a : α) :
    Hoare (KeptOnResize s0 o) (pure a : M α) (fun _ => KeptOnResize s0 o) (KeptOnResize s0 o) :=
  hoare_pure a (fun _ hs => hs)

theorem kept_setFields (s0 : State) (o : Obj) (f : Fields → Fields)
    (hf : ∀ r, (f r).withoutFrameResources = r.withoutFrameResources) :
    Hoare (KeptOnResize s0 o) (setFields f) (fun _ => KeptOnResize s0 o) (KeptOnResize s0 o) :=
  hoare_setFields f (fun _ hs => hs.assign f hf)

theorem kept_getFields (s0 : State) (o : Obj) :
    Hoare (KeptOnResize s0 o) getFields (fun _ => KeptOnResize s0 o) (KeptOnResize s0 o) :=
  hoare_getFields (fun _ hs => hs)

theorem kept_vkDestroy (s0 : State) (o : Obj) (k : ObjKind) (h : Handle)
    (hne : o.handle ≠ h) :
    Hoare (KeptOnResize s0 o) (vkDestroy k h) (fun _ => KeptOnResize s0 o)
      (KeptOnResize s0 o) := by
  intro s hs
  exact hs.destroy k h hne

/-- Destroying an object created after `s0`. -/
theorem kept_vkDestroy_new (s0 : State) (o : Obj) (k : ObjKind) (h : Handle)
    (hlt : o.handle < s0.vk.nextHandle) (hh : s0.vk.nextHandle ≤ h) :
    Hoare (KeptOnResize s0 o) (vkDestroy k h) (fun _ => KeptOnResize s0 o)
      (KeptOnResize s0 o) :=
  kept_vkDestroy s0 o k h (Nat.ne_of_lt (Nat.lt_of_lt_of_le hlt hh))

theorem kept_newObject (s0 : State) (o : Obj) (info : Info)
    (hk : info.isFrameResource = true) :
    Hoare (KeptOnResize s0 o) (newObject info)
      (fun h s => KeptOnResize s0 o s ∧ s0.vk.nextHandle ≤ h) (KeptOnResize s0 o) := by
  intro s hs
  exact ⟨hs.create info hk _, hs.2.1⟩

theorem kept_createOrThrow (s0 : State) (o : Obj) (info : Info) (msg : String)
    (hk : info.isFrameResource = true) :
    Hoare (KeptOnResize s0 o) (createOrThrow info msg)
      (fun h s => KeptOnResize s0 o s ∧ s0.vk.nextHandle ≤ h) (KeptOnResize s0 o) := by
  intro s hs
  rw [run_createOrThrow]
  by_cases hmem : s.vk.callNo ∈ s.vk.failures
  · simp only [hmem, if_true]
    exact hs.call _
  · simp only [hmem, if_false]
    exact ⟨hs.create info hk _, hs.2.1⟩

theorem kept_ShaderModuleCreate (s0 : State) (o : Obj) (file : String) :
    Hoare (KeptOnResize s0 o) (ShaderModule.Create file)
      (fun h s => KeptOnResize s0 o s ∧ s0.vk.nextHandle ≤ h) (KeptOnResize s0 o) :=
  kept_newObject s0 o _ rfl

theorem kept_ImageCreateView (s0 : State) (o : Obj) (image : Handle) (format : Format)
    (aspect : ImageAspect) :
    Hoare (KeptOnResize s0 o) (Image.CreateView image format aspect)
      (fun h s => KeptOnResize s0 o s ∧ s0.vk.nextHandle ≤ h) (KeptOnResize s0 o) :=
  kept_newObject s0 o _ rfl

theorem kept_ImageCreate (s0 : State) (o : Obj) (width height : Nat) (format : Format)
    (usage : List ImageUsage) :
    Hoare (KeptOnResize s0 o) (Image.Create width height format usage)
      (fun _ => KeptOnResize s0 o) (KeptOnResize s0 o) := by
  unfold Image.Create
  refine hoare_bind_val (kept_newObject s0 o _ rfl) (fun image _ => ?_)
  refine hoare_bind_val (kept_newObject s0 o _ rfl) (fun memory _ => ?_)
  exact kept_pure s0 o _

theorem kept_ImageTransitionLayout (s0 : State) (o : Obj) (image : Handle)
    (oldLayout newLayout : ImageLayout) :
    Hoare (KeptOnResize s0 o) (Image.TransitionLayout image oldLayout newLayout)
      (fun _ => KeptOnResize s0 o) (KeptOnResize s0 o) :=
  kept_pure s0 o _

theorem kept_allocateCommandBuffersOrThrow (s0 : State) (o : Obj) (pool : Handle) (n : Nat)
    (msg : String) :
    Hoare (KeptOnResize s0 o) (allocateCommandBuffersOrThrow pool n msg)
      (fun hs s => KeptOnResize s0 o s ∧ ∀ h, h ∈ hs → s0.vk.nextHandle ≤ h)
      (KeptOnResize s0 o) := by
  intro s hs
  rw [run_allocateCommandBuffersOrThrow]
  by_cases hmem : s.vk.callNo ∈ s.vk.failures
  · simp only [hmem, if_true]
    exact hs.call _
  · simp only [hmem, if_false]
    refine ⟨hs.step rfl (Nat.le_add_right _ _) (fun _ _ => rfl) rfl
      (List.mem_append_left _ hs.2.2.2.2.1) (fun o1 ho1 => ?_), fun h hh => ?_⟩
    · rcases List.mem_append.1 ho1 with hold | hnew
      · exact Or.inl hold
      · obtain ⟨i, _, rfl⟩ := List.mem_map.1 hnew
        exact Or.inr ⟨Nat.le_add_right _ _, rfl⟩
    · obtain ⟨i, _, rfl⟩ := List.mem_map.1 hh
      exact Nat.le_trans hs.2.1 (Nat.le_add_right _ _)

theorem run_vkBeginCommandBuffer (cb : Handle) (s : State) :
    (vkBeginCommandBuffer cb).run s =
      if s.vk.callNo ∈ s.vk.failures then
        ⟨.ok false, { s with vk := { s.vk with callNo := s.vk.callNo + 1 } }⟩
      else
        ⟨.ok true,
         { s with vk := { s.vk with
            recorded := fun h => if h = cb then [] else s.vk.recorded h,
            callNo := s.vk.callNo + 1 } }⟩ := by
  by_cases h : s.vk.callNo ∈ s.vk.failures <;>
    simp [vkBeginCommandBuffer, run_bind, h]

theorem kept_vkBeginCommandBuffer (s0 : State) (o : Obj) (cb : Handle)
    (hcb : s0.vk.nextHandle ≤ cb) :
    Hoare (KeptOnResize s0 o) (vkBeginCommandBuffer cb) (fun _ => KeptOnResize s0 o)
      (KeptOnResize s0 o) := by
  intro s hs
  rw [run_vkBeginCommandBuffer]
  by_cases hmem : s.vk.callNo ∈ s.vk.failures
  · simp only [hmem, if_true]
    exact hs.call _
  · simp only [hmem, if_false]
    exact hs.recorded cb hcb _ _ (fun h hne => by simp [hne])

theorem kept_vkEndCommandBuffer (s0 : State) (o : Obj) (cb : Handle) :
    Hoare (KeptOnResize s0 o) (vkEndCommandBuffer cb) (fun _ => KeptOnResize s0 o)
      (KeptOnResize s0 o) := by
  intro s hs
  exact hs.call _

theorem kept_throwUnless (s0 : State) (o : Obj) (ok : Bool) (msg : String) :
    Hoare (KeptOnResize s0 o) (throwUnless ok msg) (fun _ => KeptOnResize s0 o)
      (KeptOnResize s0 o) := by
  cases ok with
  | false => exact hoare_throw msg (fun _ hs => hs)
  | true => exact hoare_pure () (fun _ hs => hs)

theorem kept_vkCmd (s0 : State) (o : Obj) (cb : Handle) (c : Cmd)
    (hcb : s0.vk.nextHandle ≤ cb) :
    Hoare (KeptOnResize s0 o) (vkCmd cb c) (fun _ => KeptOnResize s0 o)
      (KeptOnResize s0 o) := by
  intro s hs
  have := hs.recorded cb hcb (s.vk.record cb [c]).recorded s.vk.callNo
    (fun h hne => by simp [Vk.record, hne])
  exact this

theorem kept_createOrThrow_plain (s0 : State) (o : Obj) (info : Info) (msg : String)
    (hk : info.isFrameResource = true) :
    Hoare (KeptOnResize s0 o) (createOrThrow info msg) (fun _ => KeptOnResize s0 o)
      (KeptOnResize s0 o) :=
  hoare_conseq (kept_createOrThrow s0 o info msg hk) (fun _ hs => hs) (fun _ _ hq => hq.1)
    (fun _ he => he)

/-- The part of `RecreateFrameResources` that creates: every object of `s0`
    it did not destroy before stays as it is. -/
theorem kept_createPhase (s0 : State) (o : Obj) (hlt : o.handle < s0.vk.nextHandle)
    (env : Env) :
    Hoare (KeptOnResize s0 o)
      (do CreateFrameResources env
          CreateGraphicsPipeline
          CreateGrassPipeline
          RecordCommandBuffers env)
      (fun _ => KeptOnResize s0 o) (KeptOnResize s0 o) := by
  repeat' (first
    | with_reducible (first
      | exact kept_pure _ _ _
      | exact kept_getFields _ _
      | exact kept_ImageCreate _ _ _ _ _ _
      | exact kept_ImageTransitionLayout _ _ _ _ _
      | exact kept_throwUnless _ _ _ _
      | exact kept_vkEndCommandBuffer _ _ _
      | exact kept_vkDestroy_new _ _ _ _ hlt (by assumption)
      | exact kept_vkBeginCommandBuffer _ _ _
          ((by assumption : ∀ h, h ∈ _ → _) _ (getD_mem_of_lt _ _ _ (by assumption)))
      | exact kept_vkCmd _ _ _ _
          ((by assumption : ∀ h, h ∈ _ → _) _ (getD_mem_of_lt _ _ _ (by assumption)))
      | apply hoare_bind_val (kept_ShaderModuleCreate _ _ _)
      | apply hoare_bind_val (kept_ImageCreateView _ _ _ _ _)
      | apply hoare_bind_val (kept_allocateCommandBuffersOrThrow _ _ _ _ _)
      | apply hoare_forRange
      | apply hoare_bind_inv
      | intro _)
    | (with_reducible apply kept_setFields
       intro _
       rfl)
    | (with_reducible apply kept_createOrThrow_plain
       rfl)
    | unfold CreateFrameResources
    | unfold CreateGraphicsPipeline
    | unfold CreateGrassPipeline
    | unfold RecordCommandBuffers)

theorem getElem?_getD_mem_of_lt (l : List Handle) (i : Nat) (d : Handle) (hi : i < l.length) :
    l[i]?.getD d ∈ l := by
  rw [List.getElem?_eq_getElem hi]
  exact List.getElem_mem hi

theorem ne_of_resizeSensitive {r : Fields} {x h : Handle}
    (hns : x ∉ resizeSensitiveHandles r) (hmem : h ∈ resizeSensitiveHandles r) : x ≠ h :=
  fun e => hns (e ▸ hmem)

/-- A destroy in the first part of `RecreateFrameResources`, where the fields
    are still those of `s0`. -/
theorem keptA_vkDestroy (s0 : State) (o : Obj) (k : ObjKind) (h : Handle)
    (hne : o.handle ≠ h) :
    Hoare (fun s => KeptOnResize s0 o s ∧ s.r = s0.r) (vkDestroy k h)
      (fun _ s => KeptOnResize s0 o s ∧ s.r = s0.r) (KeptOnResize s0 o) := by
  intro s hs
  exact ⟨hs.1.destroy k h hne, hs.2⟩

theorem keptA_DestroyFrameResources (s0 : State) (o : Obj)
    (hns : o.handle ∉ resizeSensitiveHandles s0.r) :
    Hoare (fun s => KeptOnResize s0 o s ∧ s.r = s0.r) DestroyFrameResources
      (fun _ s => KeptOnResize s0 o s ∧ s.r = s0.r) (KeptOnResize s0 o) := by
  unfold DestroyFrameResources
  refine hoare_bind_val (F := fun r => r = s0.r) (hoare_getFields (fun s hs => ⟨hs, hs.2⟩))
    (fun r hr => ?_)
  subst hr
  repeat' (first
    | with_reducible (first
      | apply hoare_forRange
      | apply hoare_bind_inv
      | intro _)
    | (apply keptA_vkDestroy
       apply ne_of_resizeSensitive hns
       first
         | (simp [resizeSensitiveHandles]; done)
         | simp [resizeSensitiveHandles,
             getElem?_getD_mem_of_lt _ _ VK_NULL_HANDLE (by assumption)]))

/-- Whatever `RecreateFrameResources` does, started in `s0`, it keeps every
    object of `s0` whose handle it does not hand to a destroy call. -/
theorem kept_RecreateFrameResources (s0 : State) (o : Obj)
    (hlt : o.handle < s0.vk.nextHandle) (hns : o.handle ∉ resizeSensitiveHandles s0.r)
    (env : Env) :
    Hoare (fun s => KeptOnResize s0 o s ∧ s.r = s0.r) (RecreateFrameResources env)
      (fun _ => KeptOnResize s0 o) (KeptOnResize s0 o) := by
  unfold RecreateFrameResources
  refine hoare_bind_val (F := fun r => r = s0.r) (hoare_getFields (fun s hs => ⟨hs, hs.2⟩))
    (fun r hr => ?_)
  subst hr
  refine hoare_bind_inv (keptA_vkDestroy s0 o _ _
    (ne_of_resizeSensitive hns (by simp [resizeSensitiveHandles]))) (fun _ => ?_)
  refine hoare_bind_inv (keptA_vkDestroy s0 o _ _
    (ne_of_resizeSensitive hns (by simp [resizeSensitiveHandles]))) (fun _ => ?_)
  refine hoare_bind_inv (keptA_vkDestroy s0 o _ _
    (ne_of_resizeSensitive hns (by simp [resizeSensitiveHandles]))) (fun _ => ?_)
  refine hoare_bind_inv (keptA_vkDestroy s0 o _ _
    (ne_of_resizeSensitive hns (by simp [resizeSensitiveHandles]))) (fun _ => ?_)
  refine hoare_bind_inv ?_ (fun _ => ?_)
  · unfold vkFreeCommandBuffers
    refine hoare_forRange _ _ (fun i hi => keptA_vkDestroy s0 o _ _
      (ne_of_resizeSensitive hns ?_))
    have := getElem?_getD_mem_of_lt _ _ VK_NULL_HANDLE hi
    simp [resizeSensitiveHandles, this]
  refine hoare_bind_inv (keptA_DestroyFrameResources s0 o hns) (fun _ => ?_)
  exact hoare_conseq (kept_createPhase s0 o hlt env) (fun _ hs => hs.1) (fun _ _ hq => hq)
    (fun _ he => he)

/-- C18: `RecreateFrameResources`, whether it returns or throws, leaves every
    resize-insensitive object as it was.  An object `o` that is live before
    the call and whose handle is not one of those the call hands to
    `vkDestroy*` / `vkFree*` (the two graphics pipelines and their layouts,
    the Composite command buffers, the swap-chain views, the depth image,
    the framebuffers and the G-buffer images) is live after it, with the
    same create-info; every object live after it was live before or is a
    new frame resource (so no compute pipeline, descriptor pool, schema,
    binding instance, render pass, command pool, sampler or semaphore is
    created); command buffers allocated before hold what they held, the
    Cull sequence among them; no descriptor write is applied; and the member
    fields that name the compute pipeline and its layout, the Cull command
    buffer, the descriptor pool, the four schemas, the binding instances,
    the render passes, the command pools, the sampler and the semaphore do
    not change. -/
theorem recreate_keeps_resize_insensitive (env : Env) (s s1 : State) (o : Obj)
    (h1 : s1 = ((RecreateFrameResources env).run s).st)
    (ho : o ∈ s.vk.live) (hlt : o.handle < s.vk.nextHandle)
    (hns : o.handle ∉ resizeSensitiveHandles s.r) :
    o ∈ s1.vk.live
    ∧ (∀ o1, o1 ∈ s1.vk.live →
        o1 ∈ s.vk.live ∨ (s.vk.nextHandle ≤ o1.handle ∧ o1.info.isFrameResource = true))
    ∧ (∀ h, h < s.vk.nextHandle → s1.vk.recorded h = s.vk.recorded h)
    ∧ s1.vk.appliedWrites = s.vk.appliedWrites
    ∧ s1.r.computePipeline = s.r.computePipeline
    ∧ s1.r.computePipelineLayout = s.r.computePipelineLayout
    ∧ s1.r.computeCommandBuffer = s.r.computeCommandBuffer
    ∧ s1.r.descriptorPool = s.r.descriptorPool
    ∧ s1.r.cameraDescriptorSetLayout = s.r.cameraDescriptorSetLayout
    ∧ s1.r.modelDescriptorSetLayout = s.r.modelDescriptorSetLayout
    ∧ s1.r.timeDescriptorSetLayout = s.r.timeDescriptorSetLayout
    ∧ s1.r.grassComputeDescriptorSetLayout = s.r.grassComputeDescriptorSetLayout
    ∧ s1.r.cameraDescriptorSet = s.r.cameraDescriptorSet
    ∧ s1.r.modelDescriptorSets = s.r.modelDescriptorSets
    ∧ s1.r.grassDescriptorSets = s.r.grassDescriptorSets
    ∧ s1.r.timeDescriptorSet = s.r.timeDescriptorSet
    ∧ s1.r.grassComputeDescriptorSets = s.r.grassComputeDescriptorSets
    ∧ s1.r.renderPass = s.r.renderPass
    ∧ s1.r.deferredRenderPass = s.r.deferredRenderPass
    ∧ s1.r.graphicsCommandPool = s.r.graphicsCommandPool
    ∧ s1.r.computeCommandPool = s.r.computeCommandPool
    ∧ s1.r.deferredSampler = s.r.deferredSampler
    ∧ s1.r.deferredSemaphore = s.r.deferredSemaphore := by
  have key := hoare_state (kept_RecreateFrameResources s o hlt hns env) s
    ⟨KeptOnResize.refl s o ho, rfl⟩
  rw [← h1] at key
  obtain ⟨hr, _, hrec, hw, hlive, hnew⟩ := key
  have hf : ∀ (g : Fields → Handle), (∀ r, g r.withoutFrameResources = g r) →
      g s1.r = g s.r := fun g hg => by rw [← hg s1.r, hr, hg]
  have hl : ∀ (g : Fields → List Handle), (∀ r, g r.withoutFrameResources = g r) →
      g s1.r = g s.r := fun g hg => by rw [← hg s1.r, hr, hg]
  exact ⟨hlive, hnew, hrec, hw,
    hf (fun r => r.computePipeline) (fun _ => rfl),
    hf (fun r => r.computePipelineLayout) (fun _ => rfl),
    hf (fun r => r.computeCommandBuffer) (fun _ => rfl),
    hf (fun r => r.descriptorPool) (fun _ => rfl),
    hf (fun r => r.cameraDescriptorSetLayout) (fun _ => rfl),
    hf (fun r => r.modelDescriptorSetLayout) (fun _ => rfl),
    hf (fun r => r.timeDescriptorSetLayout) (fun _ => rfl),
    hf (fun r => r.grassComputeDescriptorSetLayout) (fun _ => rfl),
    hf (fun r => r.cameraDescriptorSet) (fun _ => rfl),
    hl (fun r => r.modelDescriptorSets) (fun _ => rfl),
    hl (fun r => r.grassDescriptorSets) (fun _ => rfl),
    hf (fun r => r.timeDescriptorSet) (fun _ => rfl),
    hl (fun r => r.grassComputeDescriptorSets) (fun _ => rfl),
    hf (fun r => r.renderPass) (fun _ => rfl),
    hf (fun r => r.deferredRenderPass) (fun _ => rfl),
    hf (fun r => r.graphicsCommandPool) (fun _ => rfl),
    hf (fun r => r.computeCommandPool) (fun _ => rfl),
    hf (fun r => r.deferredSampler) (fun _ => rfl),
    hf (fun r => r.deferredSemaphore) (fun _ => rfl)⟩

/-- C18, at the demo scene: the compute pipeline (handle 50) is live in the
    constructed renderer and is not among the handles the resize destroys;
    after `RecreateFrameResources` it is live, unchanged, the Cull command
    buffer holds the sequence it held, and `computePipeline` still names
    it.  The same for the descriptor pool (handle 23).  Every object the
    claim lists has a handle the resize does not destroy, and the same
    create-info before and after. -/
theorem recreate_keeps_resize_insensitive_witness :
    (⟨50, .computePipeline ⟨.compute, 48⟩ 49⟩ : Obj) ∈ demoConstructed.vk.live
    ∧ demoConstructed.r.computePipeline = 50
    ∧ (50 : Handle) < demoConstructed.vk.nextHandle
    ∧ (50 : Handle) ∉ resizeSensitiveHandles demoConstructed.r
    ∧ demoConstructed.r.computeCommandBuffer < demoConstructed.vk.nextHandle
    ∧ (⟨50, .computePipeline ⟨.compute, 48⟩ 49⟩ : Obj) ∈ demoRecreated.vk.live
    ∧ demoRecreated.vk.recorded demoConstructed.r.computeCommandBuffer
        = demoConstructed.vk.recorded demoConstructed.r.computeCommandBuffer
    ∧ demoRecreated.r.computePipeline = demoConstructed.r.computePipeline
    ∧ (⟨23, .descriptorPool (descriptorPoolSizes demoEnv) 5⟩ : Obj) ∈ demoConstructed.vk.live
    ∧ demoConstructed.r.descriptorPool = 23
    ∧ (⟨23, .descriptorPool (descriptorPoolSizes demoEnv) 5⟩ : Obj) ∈ demoRecreated.vk.live
    ∧ ∀ h, h ∈ ([demoConstructed.r.computePipeline, demoConstructed.r.computePipelineLayout,
        demoConstructed.r.computeCommandBuffer, demoConstructed.r.descriptorPool,
        demoConstructed.r.cameraDescriptorSetLayout, demoConstructed.r.modelDescriptorSetLayout,
        demoConstructed.r.timeDescriptorSetLayout,
        demoConstructed.r.grassComputeDescriptorSetLayout,
        demoConstructed.r.cameraDescriptorSet, demoConstructed.r.timeDescriptorSet,
        demoConstructed.r.renderPass, demoConstructed.r.deferredRenderPass,
        demoConstructed.r.graphicsCommandPool, demoConstructed.r.computeCommandPool,
        demoConstructed.r.deferredSampler, demoConstructed.r.deferredSemaphore]
        ++ demoConstructed.r.modelDescriptorSets ++ demoConstructed.r.grassDescriptorSets
        ++ demoConstructed.r.grassComputeDescriptorSets) →
      h < demoConstructed.vk.nextHandle ∧ h ∉ resizeSensitiveHandles demoConstructed.r
      ∧ demoConstructed.vk.info? h ≠ none
      ∧ demoRecreated.vk.info? h = demoConstructed.vk.info? h :=
  ⟨by decide!, by decide!, by decide!, by decide!, by decide!,
   (recreate_keeps_resize_insensitive demoEnv demoConstructed demoRecreated
      ⟨50, .computePipeline ⟨.compute, 48⟩ 49⟩ rfl (by decide!) (by decide!) (by decide!)).1,
   (recreate_keeps_resize_insensitive demoEnv demoConstructed demoRecreated
      ⟨50, .computePipeline ⟨.compute, 48⟩ 49⟩ rfl (by decide!) (by decide!)
      (by decide!)).2.2.1 _ (by decide!),
   (recreate_keeps_resize_insensitive demoEnv demoConstructed demoRecreated
      ⟨50, .computePipeline ⟨.compute, 48⟩ 49⟩ rfl (by decide!) (by decide!)
      (by decide!)).2.2.2.2.1,
   by decide!, by decide!,
   (recreate_keeps_resize_insensitive demoEnv demoConstructed demoRecreated
      ⟨23, .descriptorPool (descriptorPoolSizes demoEnv) 5⟩ rfl (by decide!) (by decide!)
      (by decide!)).1,
   by decide!⟩

/-! ## Which pass binds which binding instance -/

theorem boundIn_append (a b : List Cmd) : boundIn (a ++ b) = boundIn a ++ boundIn b := by
  simp [boundIn]

theorem boundIn_flatMap_range (g : Nat → List Cmd) (x : Nat → Handle) (n : Nat)
    (hg : ∀ j, boundIn (g j) = [x j]) :
    boundIn ((List.range n).flatMap g) = (List.range n).map x := by
  induction n with
  | zero => rfl
  | succ k ih =>
    rw [List.range_succ, List.flatMap_append, boundIn_append, ih, List.map_append]
    simp [hg]

theorem map_getD_range (l : List Handle) (d : Handle) :
    (List.range l.length).map (fun j => l.getD j d) = l := by
  apply List.ext_getElem
  · simp
  · intro i h1 h2
    simp at h1
    simp [h1]

theorem boundIn_cullCommands (env : Env) (r : Fields)
    (hc : r.grassComputeDescriptorSets.length = env.scene.blades.length) :
    boundIn (cullCommands env r) =
      r.cameraDescriptorSet :: r.timeDescriptorSet :: r.grassComputeDescriptorSets := by
  unfold cullCommands
  rw [boundIn_append, boundIn_flatMap_range (cullBlock env r)
    (fun j => r.grassComputeDescriptorSets.getD j VK_NULL_HANDLE) _ (fun _ => rfl), ← hc,
    map_getD_range]
  rfl

theorem boundIn_fillCommands (env : Env) (r : Fields)
    (hg : r.grassDescriptorSets.length = env.scene.blades.length) :
    boundIn (fillCommands env r) = r.cameraDescriptorSet :: r.grassDescriptorSets := by
  unfold fillCommands
  rw [boundIn_append, boundIn_append, boundIn_flatMap_range (fillBlock env r)
    (fun j => r.grassDescriptorSets.getD j VK_NULL_HANDLE) _ (fun _ => rfl), ← hg,
    map_getD_range]
  simp [boundIn, fillHead, Cmd.boundSets]

theorem boundIn_compositeCommands (env : Env) (r : Fields) (i : Nat)
    (hm : r.modelDescriptorSets.length = env.scene.models.length) :
    boundIn (compositeCommands env r i) = r.cameraDescriptorSet :: r.modelDescriptorSets := by
  unfold compositeCommands
  rw [boundIn_append, boundIn_append, boundIn_flatMap_range (compositeBlock env r)
    (fun j => r.modelDescriptorSets.getD j VK_NULL_HANDLE) _ (fun _ => rfl), ← hm,
    map_getD_range]
  simp [boundIn, compositeHead, Cmd.boundSets]

/-! ## Functions that leave the binding instances alone -/

theorem frozen_quiet {α β : Type} {π : Fields → List AppliedWrite → β} {c : β} {m : M α}
    (hq : Quiet m) : Hoare (Frozen π c) m (fun _ => Frozen π c) (Frozen π c) := by
  intro s hs
  have h1 : Frozen π c (m.run s).st := by
    unfold Frozen at hs ⊢
    rw [(hq s).1, (hq s).2]
    exact hs
  rcases hk : m.run s with ⟨res, s1⟩
  rw [hk] at h1
  cases res with
  | error e => exact h1
  | ok a => exact h1

theorem frozen_setFields {β : Type} {π : Fields → List AppliedWrite → β} {c : β}
    (f : Fields → Fields) (hf : ∀ r w, π (f r) w = π r w) :
    Hoare (Frozen π c) (setFields f) (fun _ => Frozen π c) (Frozen π c) := by
  intro s hs
  show π (f s.r) s.vk.appliedWrites = c
  rw [hf]
  exact hs

theorem quiet_pure {α : Type} (a : α) : Quiet (pure a : M α) := fun _ => ⟨rfl, rfl⟩

theorem quiet_getFields : Quiet getFields := fun _ => ⟨rfl, rfl⟩

theorem quiet_newObject (info : Info) : Quiet (newObject info) := fun _ => ⟨rfl, rfl⟩

theorem quiet_throwUnless (ok : Bool) (msg : String) : Quiet (throwUnless ok msg) := by
  intro s
  cases ok <;> exact ⟨rfl, rfl⟩

theorem quiet_vkDestroy (k : ObjKind) (h : Handle) : Quiet (vkDestroy k h) := by
  intro s
  simp

theorem quiet_vkCmd (cb : Handle) (c : Cmd) : Quiet (vkCmd cb c) := fun _ => ⟨rfl, rfl⟩

theorem quiet_vkEndCommandBuffer (cb : Handle) : Quiet (vkEndCommandBuffer cb) :=
  fun _ => ⟨rfl, rfl⟩

theorem quiet_vkBeginCommandBuffer (cb : Handle) : Quiet (vkBeginCommandBuffer cb) := by
  intro s
  rw [run_vkBeginCommandBuffer]
  split_ifs <;> exact ⟨rfl, rfl⟩

theorem quiet_createOrThrow (info : Info) (msg : String) : Quiet (createOrThrow info msg) := by
  intro s
  rw [run_createOrThrow]
  split_ifs <;> exact ⟨rfl, rfl⟩

theorem quiet_allocateCommandBuffersOrThrow (pool : Handle) (n : Nat) (msg : String) :
    Quiet (allocateCommandBuffersOrThrow pool n msg) := by
  intro s
  rw [run_allocateCommandBuffersOrThrow]
  split_ifs <;> exact ⟨rfl, rfl⟩

theorem quiet_allocateDescriptorSetsOrThrow (pool : Handle) (n : Nat) (layouts : List Handle) :
    Quiet (allocateDescriptorSetsOrThrow pool n layouts) := by
  intro s
  rw [run_allocateDescriptorSetsOrThrow]
  split_ifs <;> exact ⟨rfl, rfl⟩

theorem quiet_ImageCreate (width height : Nat) (format : Format) (usage : List ImageUsage) :
    Quiet (Image.Create width height format usage) := fun _ => ⟨rfl, rfl⟩

theorem quiet_ImageCreateView (image : Handle) (format : Format) (aspect : ImageAspect) :
    Quiet (Image.CreateView image format aspect) := fun _ => ⟨rfl, rfl⟩

theorem quiet_ImageTransitionLayout (image : Handle) (oldLayout newLayout : ImageLayout) :
    Quiet (Image.TransitionLayout image oldLayout newLayout) := fun _ => ⟨rfl, rfl⟩

theorem quiet_ShaderModuleCreate (file : String) : Quiet (ShaderModule.Create file) :=
  fun _ => ⟨rfl, rfl⟩

/-- The three recording functions leave every reading of the binding-instance
    fields and of the applied descriptor writes as it is; they name the
    binding instances and write none. -/
theorem frozen_record {β : Type} (π : Fields → List AppliedWrite → β) (c : β) (env : Env)
    (h1 : ∀ r w v, π { r with commandBuffers := v } w = π r w)
    (h2 : ∀ r w v, π { r with deferredCommandBuffer := v } w = π r w)
    (h3 : ∀ r w v, π { r with deferredSemaphore := v } w = π r w)
    (h4 : ∀ r w v, π { r with computeCommandBuffer := v } w = π r w) :
    Hoare (Frozen π c) (RecordCommandBuffers env) (fun _ => Frozen π c) (Frozen π c)
    ∧ Hoare (Frozen π c) (RecordDeferredCommandBuffer env) (fun _ => Frozen π c) (Frozen π c)
    ∧ Hoare (Frozen π c) (RecordComputeCommandBuffer env) (fun _ => Frozen π c)
        (Frozen π c) := by
  refine ⟨?_, ?_, ?_⟩
  all_goals
    repeat' (first
      | with_reducible (first
        | exact frozen_quiet (quiet_pure _)
        | exact frozen_quiet quiet_getFields
        | exact frozen_quiet (quiet_throwUnless _ _)
        | exact frozen_quiet (quiet_vkCmd _ _)
        | exact frozen_quiet (quiet_vkBeginCommandBuffer _)
        | exact frozen_quiet (quiet_vkEndCommandBuffer _)
        | exact frozen_quiet (quiet_createOrThrow _ _)
        | exact frozen_quiet (quiet_allocateCommandBuffersOrThrow _ _ _)
        | apply hoare_forRange
        | apply hoare_bind_inv
        | intro _)
      | exact frozen_setFields _ (fun _ _ => h1 _ _ _)
      | exact frozen_setFields _ (fun _ _ => h2 _ _ _)
      | exact frozen_setFields _ (fun _ _ => h3 _ _ _)
      | exact frozen_setFields _ (fun _ _ => h4 _ _ _)
      | unfold RecordCommandBuffers
      | unfold RecordDeferredCommandBuffer
      | unfold RecordComputeCommandBuffer)

/-- What it means that the camera instance `c`, the model instances `M`, the
    grass instances `G`, the time instance `t` and the compute instances `C`
    are pairwise different. -/
theorem instances_apart (c t : Handle) (M G C : List Handle)
    (hnd : (c :: M ++ G ++ t :: C).Nodup) :
    (∀ h, h ∈ M → h ≠ c ∧ h ≠ t ∧ h ∉ C ∧ h ∉ G)
    ∧ (∀ h, h ∈ G → h ≠ c ∧ h ≠ t ∧ h ∉ C ∧ h ∉ M)
    ∧ (∀ h, h ∈ t :: C → h ≠ c ∧ h ∉ G ∧ h ∉ M) := by
  simp only [List.cons_append, List.nodup_cons, List.nodup_append, List.mem_append,
    List.mem_cons, List.disjoint_left, not_or] at hnd
  obtain ⟨⟨⟨hcM, hcG⟩, hct, hcC⟩, ⟨hM, hG, hMG⟩, ⟨htC, hC⟩, hMGtC⟩ := hnd
  refine ⟨fun h hh => ⟨fun e => hcM (e ▸ hh), (hMGtC (Or.inl hh)).1, (hMGtC (Or.inl hh)).2,
      hMG hh⟩,
    fun h hh => ⟨fun e => hcG (e ▸ hh), (hMGtC (Or.inr hh)).1, (hMGtC (Or.inr hh)).2,
      fun hm => hMG hm hh⟩,
    fun h hh => ?_⟩
  rcases List.mem_cons.1 hh with rfl | hC1
  · exact ⟨fun e => hct e.symm, fun hg => (hMGtC (Or.inr hg)).1 rfl,
      fun hm => (hMGtC (Or.inl hm)).1 rfl⟩
  · exact ⟨fun e => hcC (e ▸ hC1), fun hg => (hMGtC (Or.inr hg)).2 hC1,
      fun hm => (hMGtC (Or.inl hm)).2 hC1⟩

/-- C17, as stated, fails on the code: at the demo scene the camera binding
    instance (handle 24) is bound in the Cull sequence, in the Fill sequence
    and in both Composite sequences. -/
theorem camera_instance_bound_in_every_pass :
    ((construct demoEnv).run (State.fresh [])).error? = none
    ∧ demoConstructed.r.cameraDescriptorSet = 24
    ∧ boundIn (demoConstructed.vk.recorded demoConstructed.r.computeCommandBuffer)
        = [24, 28, 29, 30]
    ∧ boundIn (demoConstructed.vk.recorded demoConstructed.r.deferredCommandBuffer)
        = [24, 26, 27]
    ∧ demoConstructed.r.commandBuffers.map
        (fun cb => boundIn (demoConstructed.vk.recorded cb)) = [[24, 25], [24, 25]] := by
  decide!

/-- C17, amended: every binding instance other than the camera instance is
    bound in the recorded sequence of one pass only, and the camera instance
    in all three.  With one model instance per static model, one grass and
    one compute instance per grass group and no handle used twice: the Cull
    sequence binds the camera, the time and the compute instances; the Fill
    sequence the camera and the grass instances; every Composite sequence the
    camera and the model instances; so no model instance is bound by Cull or
    Fill, no grass instance by Cull or Composite, and neither the time nor a
    compute instance by Fill or Composite.  Recording applies no descriptor
    write. -/
theorem binding_instances_per_pass (env : Env) (s : State) (cull fill : List Cmd)
    (hm : s.r.modelDescriptorSets.length = env.scene.models.length)
    (hg : s.r.grassDescriptorSets.length = env.scene.blades.length)
    (hc : s.r.grassComputeDescriptorSets.length = env.scene.blades.length)
    (hnd : (s.r.cameraDescriptorSet :: s.r.modelDescriptorSets ++ s.r.grassDescriptorSets
      ++ s.r.timeDescriptorSet :: s.r.grassComputeDescriptorSets).Nodup)
    (hcull : ((RecordComputeCommandBuffer env).run s).error? = none)
    (hfill : ((RecordDeferredCommandBuffer env).run s).error? = none)
    (hcomp : ((RecordCommandBuffers env).run s).error? = none)
    (ecull : cull = ((RecordComputeCommandBuffer env).run s).st.vk.recorded
      ((RecordComputeCommandBuffer env).run s).st.r.computeCommandBuffer)
    (efill : fill = ((RecordDeferredCommandBuffer env).run s).st.vk.recorded
      ((RecordDeferredCommandBuffer env).run s).st.r.deferredCommandBuffer) :
    boundIn cull
      = s.r.cameraDescriptorSet :: s.r.timeDescriptorSet :: s.r.grassComputeDescriptorSets
    ∧ boundIn fill = s.r.cameraDescriptorSet :: s.r.grassDescriptorSets
    ∧ (∀ i, i < env.swapChain.count →
        boundIn (((RecordCommandBuffers env).run s).st.vk.recorded
          (((RecordCommandBuffers env).run s).st.r.commandBuffers.getD i VK_NULL_HANDLE))
          = s.r.cameraDescriptorSet :: s.r.modelDescriptorSets)
    ∧ (∀ h, h ∈ s.r.modelDescriptorSets → h ∉ boundIn cull ∧ h ∉ boundIn fill)
    ∧ (∀ h, h ∈ s.r.grassDescriptorSets →
        h ∉ boundIn cull ∧ ∀ i, i < env.swapChain.count →
          h ∉ boundIn (((RecordCommandBuffers env).run s).st.vk.recorded
            (((RecordCommandBuffers env).run s).st.r.commandBuffers.getD i VK_NULL_HANDLE)))
    ∧ (∀ h, h ∈ s.r.timeDescriptorSet :: s.r.grassComputeDescriptorSets →
        h ∉ boundIn fill ∧ ∀ i, i < env.swapChain.count →
          h ∉ boundIn (((RecordCommandBuffers env).run s).st.vk.recorded
            (((RecordCommandBuffers env).run s).st.r.commandBuffers.getD i VK_NULL_HANDLE)))
    ∧ ((RecordComputeCommandBuffer env).run s).st.vk.appliedWrites = s.vk.appliedWrites
    ∧ ((RecordDeferredCommandBuffer env).run s).st.vk.appliedWrites = s.vk.appliedWrites
    ∧ ((RecordCommandBuffers env).run s).st.vk.appliedWrites = s.vk.appliedWrites := by
  have hcullEq : boundIn cull
      = s.r.cameraDescriptorSet :: s.r.timeDescriptorSet :: s.r.grassComputeDescriptorSets := by
    rw [ecull, recorded_cull env s hcull]
    exact boundIn_cullCommands env s.r hc
  have hfillEq : boundIn fill = s.r.cameraDescriptorSet :: s.r.grassDescriptorSets := by
    rw [efill, recorded_fill env s hfill]
    exact boundIn_fillCommands env s.r hg
  have hfz := frozen_record (fun _ w => w) s.vk.appliedWrites env
    (fun _ _ _ => rfl) (fun _ _ _ => rfl) (fun _ _ _ => rfl) (fun _ _ _ => rfl)
  have hcompEq : ∀ i, i < env.swapChain.count →
      boundIn (((RecordCommandBuffers env).run s).st.vk.recorded
        (((RecordCommandBuffers env).run s).st.r.commandBuffers.getD i VK_NULL_HANDLE))
        = s.r.cameraDescriptorSet :: s.r.modelDescriptorSets := by
    intro i hi
    obtain ⟨hr, hrec⟩ := recorded_composite env s hcomp
    rw [hr]
    simp only []
    rw [getD_map_range _ _ _ hi, hrec i hi]
    exact boundIn_compositeCommands env s.r i hm
  obtain ⟨hM, hG, hC⟩ := instances_apart _ _ _ _ _ hnd
  refine ⟨hcullEq, hfillEq, hcompEq, fun h hh => ?_, fun h hh => ⟨?_, fun i hi => ?_⟩,
    fun h hh => ⟨?_, fun i hi => ?_⟩,
    hoare_state hfz.2.2 s rfl, hoare_state hfz.2.1 s rfl, hoare_state hfz.1 s rfl⟩
  · rw [hcullEq, hfillEq]
    obtain ⟨a, b, c, d⟩ := hM h hh
    simp only [List.mem_cons, not_or]
    exact ⟨⟨a, b, c⟩, a, d⟩
  · rw [hcullEq]
    obtain ⟨a, b, c, d⟩ := hG h hh
    simp only [List.mem_cons, not_or]
    exact ⟨a, b, c⟩
  · rw [hcompEq i hi]
    obtain ⟨a, b, c, d⟩ := hG h hh
    simp only [List.mem_cons, not_or]
    exact ⟨a, d⟩
  · rw [hfillEq]
    obtain ⟨a, b, c⟩ := hC h hh
    simp only [List.mem_cons, not_or]
    exact ⟨a, b⟩
  · rw [hcompEq i hi]
    obtain ⟨a, b, c⟩ := hC h hh
    simp only [List.mem_cons, not_or]
    exact ⟨a, c⟩

/-- C17, amended, at the demo scene: the recording functions succeed on the
    constructed renderer, the seven binding instances have seven different
    handles, and the Cull and Fill sequences bind what the theorem says. -/
theorem binding_instances_per_pass_witness :
    demoConstructed.r.modelDescriptorSets.length = demoEnv.scene.models.length
    ∧ demoConstructed.r.grassDescriptorSets.length = demoEnv.scene.blades.length
    ∧ demoConstructed.r.grassComputeDescriptorSets.length = demoEnv.scene.blades.length
    ∧ (demoConstructed.r.cameraDescriptorSet :: demoConstructed.r.modelDescriptorSets
        ++ demoConstructed.r.grassDescriptorSets
        ++ demoConstructed.r.timeDescriptorSet
          :: demoConstructed.r.grassComputeDescriptorSets).Nodup
    ∧ ((RecordComputeCommandBuffer demoEnv).run demoConstructed).error? = none
    ∧ ((RecordDeferredCommandBuffer demoEnv).run demoConstructed).error? = none
    ∧ ((RecordCommandBuffers demoEnv).run demoConstructed).error? = none
    ∧ boundIn (((RecordComputeCommandBuffer demoEnv).run demoConstructed).st.vk.recorded
        ((RecordComputeCommandBuffer demoEnv).run demoConstructed).st.r.computeCommandBuffer)
        = demoConstructed.r.cameraDescriptorSet :: demoConstructed.r.timeDescriptorSet
            :: demoConstructed.r.grassComputeDescriptorSets
    ∧ boundIn (((RecordDeferredCommandBuffer demoEnv).run demoConstructed).st.vk.recorded
        ((RecordDeferredCommandBuffer demoEnv).run demoConstructed).st.r.deferredCommandBuffer)
        = demoConstructed.r.cameraDescriptorSet :: demoConstructed.r.grassDescriptorSets :=
  ⟨by decide!, by decide!, by decide!, by decide!, by decide!, by decide!, by decide!,
   (binding_instances_per_pass demoEnv demoConstructed _ _ (by decide!) (by decide!)
      (by decide!) (by decide!) (by decide!) (by decide!) (by decide!) rfl rfl).1,
   (binding_instances_per_pass demoEnv demoConstructed _ _ (by decide!) (by decide!)
      (by decide!) (by decide!) (by decide!) (by decide!) (by decide!) rfl rfl).2.1⟩

/-! ## The slots written for each binding instance -/

/-- C20, as stated, fails on the code: at the demo scene grass binding
    instance 0 (handle 26) is allocated with the Model schema, which has the
    five slots 0 to 4, and the only descriptor write that targets it is the
    one for slot 0. -/
theorem grass_instance_written_at_slot0_only :
    ((construct demoEnv).run (State.fresh [])).error? = none
    ∧ demoConstructed.r.grassDescriptorSets = [26, 27]
    ∧ demoConstructed.vk.info? 26
        = some (.descriptorSet demoConstructed.r.descriptorPool
            (some demoConstructed.r.modelDescriptorSetLayout))
    ∧ demoConstructed.vk.info? demoConstructed.r.modelDescriptorSetLayout
        = some (.descriptorSetLayout modelLayoutBindings)
    ∧ modelLayoutBindings.map (fun b => b.binding) = [0, 1, 2, 3, 4]
    ∧ demoConstructed.vk.writtenSlots 26 = [0]
    ∧ (demoConstructed.vk.writesTo 26 1).length = 0 := by
  decide!

/-! ## Vectors of descriptor writes, filled block by block -/

/-- A list of `k * n` elements whose block `i` is `g i`, for every `i < n`,
    is the concatenation of the blocks. -/
theorem eq_flatMap_of_blocks {α : Type} (W : List α) (g : Nat → List α) (k n : Nat)
    (hk : ∀ j, (g j).length = k) (hlen : W.length = k * n)
    (hget : ∀ i b, i < n → b < k → W[k * i + b]? = (g i)[b]?) :
    W = (List.range n).flatMap g := by
  apply List.ext_getElem?
  intro j
  have hlen2 := length_flatMap_range g k hk n
  by_cases hj : j < k * n
  · have hkpos : 0 < k := by
      rcases Nat.eq_zero_or_pos k with h0 | hp
      · rw [h0, Nat.zero_mul] at hj
        exact absurd hj (Nat.not_lt_zero _)
      · exact hp
    have hdiv : j / k < n := by
      rw [Nat.div_lt_iff_lt_mul hkpos, Nat.mul_comm]
      exact hj
    have hmod : j % k < k := Nat.mod_lt _ hkpos
    have hsplit : k * (j / k) + j % k = j := Nat.div_add_mod j k
    rw [← hsplit, hget _ _ hdiv hmod, getElem?_flatMap_range g k hk n _ _ hdiv hmod]
  · rw [List.getElem?_eq_none (by omega), List.getElem?_eq_none (by omega)]

/-! ## The functions that create binding instances -/

theorem tracked_setVk_stack (r : Fields) (P : List (Handle × Nat)) (n : Handle)
    (f : Vk → Vk) (h1 : ∀ d, (f d).appliedWrites = d.appliedWrites)
    (h2 : ∀ d, (f d).nextHandle = d.nextHandle) :
    Hoare (Tracked r P n) (setVk f) (fun _ => Tracked r P n) (fun _ => True) := by
  refine hoare_setVk f (fun s hs => ?_)
  obtain ⟨a, b, c⟩ := hs
  refine ⟨a, ?_, ?_⟩
  · show (f s.vk).writtenPairs = P
    unfold Vk.writtenPairs at b ⊢
    rw [h1]
    exact b
  · show (f s.vk).nextHandle = n
    rw [h2]
    exact c

theorem tracked_declareLocal (r : Fields) (P : List (Handle × Nat)) (n : Handle)
    (cell : Nat) (v : DescInfo) :
    Hoare (Tracked r P n) (declareLocal cell v) (fun _ => Tracked r P n) (fun _ => True) :=
  tracked_setVk_stack r P n _ (fun _ => rfl) (fun _ => rfl)

theorem tracked_endLocal (r : Fields) (P : List (Handle × Nat)) (n : Handle) (cell : Nat) :
    Hoare (Tracked r P n) (endLocal cell) (fun _ => Tracked r P n) (fun _ => True) :=
  tracked_setVk_stack r P n _ (fun _ => rfl) (fun _ => rfl)

theorem tracked_setFields (r : Fields) (P : List (Handle × Nat)) (n : Handle)
    (f : Fields → Fields) :
    Hoare (Tracked r P n) (setFields f) (fun _ => Tracked (f r) P n) (fun _ => True) := by
  refine hoare_setFields f (fun s hs => ?_)
  obtain ⟨a, b, c⟩ := hs
  exact ⟨by rw [← a], b, c⟩

theorem tracked_getFields (r : Fields) (P : List (Handle × Nat)) (n : Handle) :
    Hoare (Tracked r P n) getFields (fun r1 s => Tracked r P n s ∧ r1 = r)
      (fun _ => True) :=
  hoare_getFields (fun _ hs => ⟨hs, hs.1⟩)

theorem tracked_allocateDescriptorSetsOrThrow (r : Fields) (P : List (Handle × Nat))
    (n : Handle) (pool : Handle) (count : Nat) (layouts : List Handle) :
    Hoare (Tracked r P n) (allocateDescriptorSetsOrThrow pool count layouts)
      (fun hs s => Tracked r P (n + count) s ∧ hs = (List.range count).map (n + ·))
      (fun _ => True) := by
  intro s hs
  obtain ⟨a, b, c⟩ := hs
  rw [run_allocateDescriptorSetsOrThrow]
  by_cases hmem : s.vk.callNo ∈ s.vk.failures
  · simp only [hmem, if_true]
  · simp only [hmem, if_false]
    subst c
    exact ⟨⟨a, b, rfl⟩, rfl⟩

/-- The batched update: every write of the vector is applied, to the
    instance and slot it names. -/
theorem tracked_vkUpdateDescriptorSets (r : Fields) (P : List (Handle × Nat)) (n : Handle)
    (ws : List WriteDescriptorSet) :
    Hoare (Tracked r P n) (vkUpdateDescriptorSets ws)
      (fun _ => Tracked r (P ++ ws.map WriteDescriptorSet.target) n) (fun _ => True) := by
  intro s hs
  obtain ⟨a, b, c⟩ := hs
  refine ⟨a, ?_, c⟩
  show (s.vk.appliedWrites ++ ws.map s.vk.applyWrite).map _ = _
  rw [List.map_append, List.map_map]
  unfold Vk.writtenPairs at b
  rw [b]
  rfl

theorem filledUpTo_zero (T : List (Handle × Nat)) (k : Nat) (n0 : Handle) :
    FilledUpTo T k n0 0 0 :=
  ⟨fun _ _ hj _ => absurd hj (Nat.not_lt_zero _), fun _ hb => absurd hb (Nat.not_lt_zero _)⟩

theorem filledUpTo_next {T : List (Handle × Nat)} {k : Nat} {n0 : Handle} {i : Nat}
    (h : FilledUpTo T k n0 i k) : FilledUpTo T k n0 (i + 1) 0 := by
  refine ⟨fun j b hj hb => ?_, fun _ hb => absurd hb (Nat.not_lt_zero _)⟩
  rcases Nat.lt_or_ge j i with hlt | hge
  · exact h.1 j b hlt hb
  · have hji : j = i := by omega
    subst hji
    exact h.2 b hb

/-- One more write goes into the vector, at the next entry of the current
    block. -/
theorem filledUpTo_write {W : List WriteDescriptorSet} {k : Nat} {n0 : Handle} {i c : Nat}
    (w : WriteDescriptorSet) (hw : w.target = (n0 + i, c))
    (h : FilledUpTo (W.map WriteDescriptorSet.target) k n0 i c) (hlen : k * i + c < W.length) :
    FilledUpTo ((W.set (k * i + c) w).map WriteDescriptorSet.target) k n0 i (c + 1) := by
  rw [List.map_set, hw]
  refine ⟨fun j b hj hb => ?_, fun b hb => ?_⟩
  · have h1 : k * (j + 1) ≤ k * i := Nat.mul_le_mul_left k hj
    rw [Nat.mul_succ] at h1
    rw [List.getElem?_set_ne (by omega)]
    exact h.1 j b hj hb
  · rcases Nat.lt_or_ge b c with hlt | hge
    · rw [List.getElem?_set_ne (by omega)]
      exact h.2 b hlt
    · have hbc : b = c := by omega
      subst hbc
      rw [List.getElem?_set_self (by simpa using hlen)]

/-- A vector all of whose blocks are filled in names the slots `0` to
    `k - 1` of each instance, instance by instance. -/
theorem targets_of_filled {T : List (Handle × Nat)} {k n : Nat} {n0 : Handle}
    (hlen : T.length = k * n) (h : FilledUpTo T k n0 n 0) : T = blockPairs n0 n k := by
  unfold blockPairs
  refine eq_flatMap_of_blocks T _ k n (fun _ => by simp) hlen (fun i b hi hb => ?_)
  rw [h.1 i b hi hb]
  simp [hb]

theorem mem_blockPairs (n0 : Handle) (n k : Nat) (h : Handle) (b : Nat) :
    (h, b) ∈ blockPairs n0 n k ↔ h ∈ (List.range n).map (n0 + ·) ∧ b < k := by
  unfold blockPairs
  simp only [List.mem_flatMap, List.mem_range, List.mem_map, Prod.mk.injEq]
  constructor
  · rintro ⟨i, hi, c, hc, rfl, rfl⟩
    exact ⟨⟨i, hi, rfl⟩, hc⟩
  · rintro ⟨⟨i, hi, rfl⟩, hb⟩
    exact ⟨i, hi, b, hb, rfl, rfl⟩

/-- What `CreateGrassDescriptorSets` does when it returns: one grass instance
    per grass group, with the next handles, each written at slot 0. -/
theorem spec_CreateGrassDescriptorSets (env : Env) (r0 : Fields) (P0 : List (Handle × Nat))
    (n0 : Handle) :
    Hoare (Tracked r0 P0 n0) (CreateGrassDescriptorSets env)
      (fun _ => Tracked
        { r0 with grassDescriptorSets := (List.range env.scene.blades.length).map (n0 + ·) }
        (P0 ++ blockPairs n0 env.scene.blades.length 1) (n0 + env.scene.blades.length))
      (fun _ => True) := by
  unfold CreateGrassDescriptorSets
  refine hoare_bind (tracked_setFields _ _ _ _) (fun _ => ?_)
  refine hoare_bind (tracked_getFields _ _ _) (fun r => hoare_pre_pure (fun hr => ?_))
  subst hr
  simp only [length_resize]
  refine hoare_bind (tracked_allocateDescriptorSetsOrThrow _ _ _ _ _ _)
    (fun sets => hoare_pre_pure (fun hs => ?_))
  subst hs
  refine hoare_bind (tracked_setFields _ _ _ _) (fun _ => ?_)
  refine hoare_bind
    (hoare_forRangeWith_idx
      (J := fun i W => W.length = 1 * env.scene.blades.length ∧
        FilledUpTo (W.map WriteDescriptorSet.target) 1 n0 i 0)
      _ _ _ ⟨by simp, filledUpTo_zero _ _ _⟩ (fun i W hi hJ => ?_))
    (fun W => hoare_pre_pure (fun hJ => ?_))
  · refine hoare_bind_inv (tracked_declareLocal _ _ _ _ _) (fun _ => ?_)
    refine hoare_bind_inv (tracked_endLocal _ _ _ _) (fun _ => ?_)
    refine hoare_pure _ (fun s hs => ⟨hs, by simpa using hJ.1, ?_⟩)
    have h1 := filledUpTo_write (k := 1) (c := 0)
      { dstSet := ((List.range env.scene.blades.length).map (n0 + ·)).getD i VK_NULL_HANDLE,
        dstBinding := 0, dstArrayElement := 0, descriptorType := .uniformBuffer,
        descriptorCount := 1, pBufferInfo := some 0, pImageInfo := none }
      (by rw [WriteDescriptorSet.target, getD_map_range _ _ _ hi]) hJ.2
      (by rw [hJ.1]; omega)
    simpa using filledUpTo_next h1
  · refine hoare_conseq (tracked_vkUpdateDescriptorSets _ _ _ W) (fun _ hs => hs)
      (fun _ s hq => ?_) (fun _ _ => trivial)
    rw [targets_of_filled (by simpa using hJ.1) hJ.2] at hq
    exact hq

/-- The batched update of a vector filled in block by block. -/
theorem tracked_update_filled (r : Fields) (P : List (Handle × Nat)) (n : Handle)
    (W : List WriteDescriptorSet) (k cnt : Nat) (n0 : Handle) (hlen : W.length = k * cnt)
    (hf : FilledUpTo (W.map WriteDescriptorSet.target) k n0 cnt 0) :
    Hoare (Tracked r P n) (vkUpdateDescriptorSets W)
      (fun _ => Tracked r (P ++ blockPairs n0 cnt k) n) (fun _ => True) := by
  have h := tracked_vkUpdateDescriptorSets r P n W
  rw [targets_of_filled (by simpa using hlen) hf] at h
  exact h

/-- What `CreateModelDescriptorSets` does when it returns: one model instance
    per static model, with the next handles, each written at slots 0 to 4. -/
theorem spec_CreateModelDescriptorSets (env : Env) (r0 : Fields) (P0 : List (Handle × Nat))
    (n0 : Handle) :
    Hoare (Tracked r0 P0 n0) (CreateModelDescriptorSets env)
      (fun _ => Tracked
        { r0 with modelDescriptorSets := (List.range env.scene.models.length).map (n0 + ·) }
        (P0 ++ blockPairs n0 env.scene.models.length 5) (n0 + env.scene.models.length))
      (fun _ => True) := by
  unfold CreateModelDescriptorSets
  refine hoare_bind (tracked_setFields _ _ _ _) (fun _ => ?_)
  refine hoare_bind (tracked_getFields _ _ _) (fun r => hoare_pre_pure (fun hr => ?_))
  subst hr
  simp only [length_resize]
  refine hoare_bind (tracked_allocateDescriptorSetsOrThrow _ _ _ _ _ _)
    (fun sets => hoare_pre_pure (fun hs => ?_))
  subst hs
  refine hoare_bind (tracked_setFields _ _ _ _) (fun _ => ?_)
  refine hoare_bind_inv (tracked_declareLocal _ _ _ _ _) (fun _ => ?_)
  refine hoare_bind_inv (tracked_declareLocal _ _ _ _ _) (fun _ => ?_)
  refine hoare_bind_inv (tracked_declareLocal _ _ _ _ _) (fun _ => ?_)
  refine hoare_bind
    (hoare_forRangeWith_idx
      (J := fun i W => W.length = 5 * env.scene.models.length ∧
        FilledUpTo (W.map WriteDescriptorSet.target) 5 n0 i 0)
      _ _ _ ⟨by simp, filledUpTo_zero _ _ _⟩ (fun i W hi hJ => ?_))
    (fun W => hoare_pre_pure (fun hJ => ?_))
  · refine hoare_bind_inv (tracked_declareLocal _ _ _ _ _) (fun _ => ?_)
    refine hoare_bind_inv (tracked_declareLocal _ _ _ _ _) (fun _ => ?_)
    refine hoare_bind_inv (tracked_endLocal _ _ _ _) (fun _ => ?_)
    refine hoare_bind_inv (tracked_endLocal _ _ _ _) (fun _ => ?_)
    refine hoare_pure _ (fun s hs => ⟨hs, by simpa using hJ.1, ?_⟩)
    have hg : ((List.range env.scene.models.length).map (n0 + ·)).getD i VK_NULL_HANDLE
        = n0 + i := getD_map_range _ _ _ hi
    have hl : 5 * i + 4 < W.length := by rw [hJ.1]; omega
    refine filledUpTo_next (filledUpTo_write (c := 4) _ (by rw [WriteDescriptorSet.target, hg])
      (filledUpTo_write (c := 3) _ (by rw [WriteDescriptorSet.target, hg])
        (filledUpTo_write (c := 2) _ (by rw [WriteDescriptorSet.target, hg])
          (filledUpTo_write (c := 1) _ (by rw [WriteDescriptorSet.target, hg])
            (filledUpTo_write (c := 0) _ (by rw [WriteDescriptorSet.target, hg]) hJ.2
              (by omega))
            (by simp; omega))
          (by simp; omega))
        (by simp; omega))
      (by simp; omega))
  · refine hoare_bind (tracked_update_filled _ _ _ W 5 _ n0 hJ.1 hJ.2) (fun _ => ?_)
    refine hoare_bind_inv (tracked_endLocal _ _ _ _) (fun _ => ?_)
    refine hoare_bind_inv (tracked_endLocal _ _ _ _) (fun _ => ?_)
    exact tracked_endLocal _ _ _ _

/-- What `CreateComputeDescriptorSets` does when it returns: one compute
    instance per grass group, with the next handles, each written at slots
    0 to 2. -/
theorem spec_CreateComputeDescriptorSets (env : Env) (r0 : Fields) (P0 : List (Handle × Nat))
    (n0 : Handle) :
    Hoare (Tracked r0 P0 n0) (CreateComputeDescriptorSets env)
      (fun _ => Tracked
        { r0 with
          grassComputeDescriptorSets := (List.range env.scene.blades.length).map (n0 + ·) }
        (P0 ++ blockPairs n0 env.scene.blades.length 3) (n0 + env.scene.blades.length))
      (fun _ => True) := by
  unfold CreateComputeDescriptorSets
  refine hoare_bind (tracked_setFields _ _ _ _) (fun _ => ?_)
  refine hoare_bind (tracked_getFields _ _ _) (fun r => hoare_pre_pure (fun hr => ?_))
  subst hr
  simp only [length_resize]
  refine hoare_bind (tracked_allocateDescriptorSetsOrThrow _ _ _ _ _ _)
    (fun sets => hoare_pre_pure (fun hs => ?_))
  subst hs
  refine hoare_bind (tracked_setFields _ _ _ _) (fun _ => ?_)
  refine hoare_bind
    (hoare_forRangeWith_idx
      (J := fun i W => W.length = 3 * env.scene.blades.length ∧
        FilledUpTo (W.map WriteDescriptorSet.target) 3 n0 i 0)
      _ _ _ ⟨by simp, filledUpTo_zero _ _ _⟩ (fun i W hi hJ => ?_))
    (fun W => hoare_pre_pure (fun hJ => ?_))
  · refine hoare_bind_inv (tracked_declareLocal _ _ _ _ _) (fun _ => ?_)
    refine hoare_bind_inv (tracked_declareLocal _ _ _ _ _) (fun _ => ?_)
    refine hoare_bind_inv (tracked_declareLocal _ _ _ _ _) (fun _ => ?_)
    refine hoare_bind_inv (tracked_endLocal _ _ _ _) (fun _ => ?_)
    refine hoare_bind_inv (tracked_endLocal _ _ _ _) (fun _ => ?_)
    refine hoare_bind_inv (tracked_endLocal _ _ _ _) (fun _ => ?_)
    refine hoare_pure _ (fun s hs => ⟨hs, by simpa using hJ.1, ?_⟩)
    have hg : ((List.range env.scene.blades.length).map (n0 + ·)).getD i VK_NULL_HANDLE
        = n0 + i := getD_map_range _ _ _ hi
    have hl : 3 * i + 2 < W.length := by rw [hJ.1]; omega
    refine filledUpTo_next
      (filledUpTo_write (c := 2) _ (by rw [WriteDescriptorSet.target, hg])
        (filledUpTo_write (c := 1) _ (by rw [WriteDescriptorSet.target, hg])
          (filledUpTo_write (c := 0) _ (by rw [WriteDescriptorSet.target, hg]) hJ.2
            (by omega))
          (by simp; omega))
        (by simp; omega))
  · exact tracked_update_filled _ _ _ W 3 _ n0 hJ.1 hJ.2

/-- What `CreateCameraDescriptorSet` does when it returns: the camera
    instance, with the next handle, written at slot 0. -/
theorem spec_CreateCameraDescriptorSet (env : Env) (r0 : Fields) (P0 : List (Handle × Nat))
    (n0 : Handle) :
    Hoare (Tracked r0 P0 n0) (CreateCameraDescriptorSet env)
      (fun _ => Tracked { r0 with cameraDescriptorSet := n0 } (P0 ++ blockPairs n0 1 1)
        (n0 + 1))
      (fun _ => True) := by
  unfold CreateCameraDescriptorSet
  refine hoare_bind (tracked_getFields _ _ _) (fun r => hoare_pre_pure (fun hr => ?_))
  subst hr
  refine hoare_bind (tracked_allocateDescriptorSetsOrThrow _ _ _ _ _ _)
    (fun sets => hoare_pre_pure (fun hs => ?_))
  subst hs
  refine hoare_bind (tracked_setFields _ _ _ _) (fun _ => ?_)
  refine hoare_bind_inv (tracked_declareLocal _ _ _ _ _) (fun _ => ?_)
  refine hoare_bind (tracked_vkUpdateDescriptorSets _ _ _ _) (fun _ => ?_)
  exact tracked_endLocal _ _ _ _

/-- What `CreateTimeDescriptorSet` does when it returns: the time instance,
    with the next handle, written at slot 0. -/
theorem spec_CreateTimeDescriptorSet (env : Env) (r0 : Fields) (P0 : List (Handle × Nat))
    (n0 : Handle) :
    Hoare (Tracked r0 P0 n0) (CreateTimeDescriptorSet env)
      (fun _ => Tracked { r0 with timeDescriptorSet := n0 } (P0 ++ blockPairs n0 1 1)
        (n0 + 1))
      (fun _ => True) := by
  unfold CreateTimeDescriptorSet
  refine hoare_bind (tracked_getFields _ _ _) (fun r => hoare_pre_pure (fun hr => ?_))
  subst hr
  refine hoare_bind (tracked_allocateDescriptorSetsOrThrow _ _ _ _ _ _)
    (fun sets => hoare_pre_pure (fun hs => ?_))
  subst hs
  refine hoare_bind (tracked_setFields _ _ _ _) (fun _ => ?_)
  refine hoare_bind_inv (tracked_declareLocal _ _ _ _ _) (fun _ => ?_)
  refine hoare_bind (tracked_vkUpdateDescriptorSets _ _ _ _) (fun _ => ?_)
  exact tracked_endLocal _ _ _ _

/-! ## The written slots, group by group -/

/-- One more group of `c` binding instances, allocated with the next `c`
    handles and written at the slots below `k`. -/
theorem written_step {gs : List (List Handle × Nat)} {s st : State} {c k : Nat}
    (hs : Written gs s)
    (hp : st.vk.writtenPairs = s.vk.writtenPairs ++ blockPairs s.vk.nextHandle c k)
    (hn : st.vk.nextHandle = s.vk.nextHandle + c) :
    Written (gs ++ [((List.range c).map (s.vk.nextHandle + ·), k)]) st := by
  obtain ⟨hiff, hnd, hlt⟩ := hs
  refine ⟨fun h b => ?_, ?_, fun h hh => ?_⟩
  · rw [hp, List.mem_append, hiff, mem_blockPairs]
    constructor
    · rintro (⟨g, hg, h1, h2⟩ | ⟨h1, h2⟩)
      · exact ⟨g, List.mem_append_left _ hg, h1, h2⟩
      · exact ⟨_, List.mem_append_right _ (List.mem_singleton.2 rfl), h1, h2⟩
    · rintro ⟨g, hg, h1, h2⟩
      rcases List.mem_append.1 hg with hold | hnew
      · exact Or.inl ⟨g, hold, h1, h2⟩
      · rw [List.mem_singleton] at hnew
        subst hnew
        exact Or.inr ⟨h1, h2⟩
  · rw [List.flatMap_append, List.flatMap_singleton]
    refine List.Nodup.append hnd ?_ ?_
    · exact (List.nodup_range c).map (fun a b hab => Nat.add_left_cancel hab)
    · intro h h1 h2
      obtain ⟨i, _, rfl⟩ := List.mem_map.1 h2
      exact absurd (hlt _ h1) (Nat.not_lt.2 (Nat.le_add_right _ _))
  · rw [List.flatMap_append, List.flatMap_singleton, List.mem_append] at hh
    rw [hn]
    rcases hh with hold | hnew
    · exact Nat.lt_of_lt_of_le (hlt h hold) (Nat.le_add_right _ _)
    · obtain ⟨i, hi, rfl⟩ := List.mem_map.1 hnew
      exact Nat.add_lt_add_left (List.mem_range.1 hi) _

/-- A step of the constructor that creates the `k`-th group of binding
    instances takes the renderer from stage `k` to stage `k + 1`. -/
theorem writtenStage_step (env : Env) (k c slots : Nat) (f : M Unit)
    (upd : Fields → Handle → Fields)
    (hspec : ∀ r0 P0 n0, Hoare (Tracked r0 P0 n0) f
      (fun _ => Tracked (upd r0 n0) (P0 ++ blockPairs n0 c slots) (n0 + c)) (fun _ => True))
    (hgs : ∀ r n0, (bindingGroups (upd r n0)).take (k + 1)
      = (bindingGroups r).take k ++ [((List.range c).map (n0 + ·), slots)])
    (hc : (bindingCounts env).take (k + 1) = (bindingCounts env).take k ++ [c]) :
    Hoare (WrittenStage env k) f (fun _ => WrittenStage env (k + 1)) (fun _ => True) := by
  intro s hs
  have h := hspec s.r s.vk.writtenPairs s.vk.nextHandle s ⟨rfl, rfl, rfl⟩
  rcases hrun : f.run s with ⟨res, st⟩
  rw [hrun] at h
  cases res with
  | error e => trivial
  | ok u =>
    obtain ⟨hr, hp, hn⟩ := h
    have hr1 : st.r = upd s.r s.vk.nextHandle := hr
    show Written ((bindingGroups st.r).take (k + 1)) st
      ∧ ((bindingGroups st.r).take (k + 1)).map (fun g => g.1.length)
        = (bindingCounts env).take (k + 1)
    rw [hr1, hgs]
    refine ⟨written_step hs.1 hp hn, ?_⟩
    rw [List.map_append, hs.2, hc]
    simp

theorem writtenStage_camera (env : Env) :
    Hoare (WrittenStage env 0) (CreateCameraDescriptorSet env) (fun _ => WrittenStage env 1)
      (fun _ => True) :=
  writtenStage_step env 0 1 1 _ (fun r n0 => { r with cameraDescriptorSet := n0 })
    (spec_CreateCameraDescriptorSet env) (fun _ _ => rfl) rfl

theorem writtenStage_model (env : Env) :
    Hoare (WrittenStage env 1) (CreateModelDescriptorSets env) (fun _ => WrittenStage env 2)
      (fun _ => True) :=
  writtenStage_step env 1 env.scene.models.length 5 _
    (fun r n0 =>
      { r with modelDescriptorSets := (List.range env.scene.models.length).map (n0 + ·) })
    (spec_CreateModelDescriptorSets env) (fun _ _ => rfl) rfl

theorem writtenStage_grass (env : Env) :
    Hoare (WrittenStage env 2) (CreateGrassDescriptorSets env) (fun _ => WrittenStage env 3)
      (fun _ => True) :=
  writtenStage_step env 2 env.scene.blades.length 1 _
    (fun r n0 =>
      { r with grassDescriptorSets := (List.range env.scene.blades.length).map (n0 + ·) })
    (spec_CreateGrassDescriptorSets env) (fun _ _ => rfl) rfl

theorem writtenStage_time (env : Env) :
    Hoare (WrittenStage env 3) (CreateTimeDescriptorSet env) (fun _ => WrittenStage env 4)
      (fun _ => True) :=
  writtenStage_step env 3 1 1 _ (fun r n0 => { r with timeDescriptorSet := n0 })
    (spec_CreateTimeDescriptorSet env) (fun _ _ => rfl) rfl

theorem writtenStage_compute (env : Env) :
    Hoare (WrittenStage env 4) (CreateComputeDescriptorSets env) (fun _ => WrittenStage env 5)
      (fun _ => True) :=
  writtenStage_step env 4 env.scene.blades.length 3 _
    (fun r n0 =>
      { r with
        grassComputeDescriptorSets := (List.range env.scene.blades.length).map (n0 + ·) })
    (spec_CreateComputeDescriptorSets env) (fun _ _ => rfl) rfl

set_option maxHeartbeats 4000000 in
/-- The steps of the constructor other than the five that create binding
    instances leave the binding-instance fields and the applied descriptor
    writes as they are. -/
theorem frozen_outside_bindings {β : Type} (π : Fields → List AppliedWrite → β)
    (hπ : ∀ r1 r2 w, bindingGroups r1 = bindingGroups r2 → π r1 w = π r2 w) (c : β)
    (env : Env) (m : M Unit) (hm : m ∈ stepsOutsideBindings env) :
    Hoare (Frozen π c) m (fun _ => Frozen π c) (Frozen π c) := by
  simp only [stepsOutsideBindings, List.mem_cons, List.mem_singleton, List.not_mem_nil,
    or_false] at hm
  rcases hm with rfl | rfl | rfl | rfl | rfl | rfl | rfl | rfl | rfl | rfl | rfl | rfl | rfl
    | rfl | rfl
  all_goals
    repeat' (first
      | with_reducible (first
        | exact frozen_quiet (quiet_pure _)
        | exact frozen_quiet quiet_getFields
        | exact frozen_quiet (quiet_throwUnless _ _)
        | exact frozen_quiet (quiet_vkCmd _ _)
        | exact frozen_quiet (quiet_vkDestroy _ _)
        | exact frozen_quiet (quiet_vkBeginCommandBuffer _)
        | exact frozen_quiet (quiet_vkEndCommandBuffer _)
        | exact frozen_quiet (quiet_createOrThrow _ _)
        | exact frozen_quiet (quiet_allocateCommandBuffersOrThrow _ _ _)
        | exact frozen_quiet (quiet_ImageCreate _ _ _ _)
        | exact frozen_quiet (quiet_ImageCreateView _ _ _)
        | exact frozen_quiet (quiet_ImageTransitionLayout _ _ _)
        | exact frozen_quiet (quiet_ShaderModuleCreate _)
        | apply hoare_forRange
        | apply hoare_bind_inv
        | intro _)
      | (with_reducible apply frozen_setFields
         intro _ _
         exact hπ _ _ _ rfl)
      | unfold CreateCommandPools
      | unfold CreateRenderPass
      | unfold CreateDeferredRenderPass
      | unfold CreateCameraDescriptorSetLayout
      | unfold CreateModelDescriptorSetLayout
      | unfold CreateTimeDescriptorSetLayout
      | unfold CreateComputeDescriptorSetLayout
      | unfold CreateDescriptorPool
      | unfold CreateFrameResources
      | unfold CreateGraphicsPipeline
      | unfold CreateGrassPipeline
      | unfold CreateComputePipeline
      | unfold RecordCommandBuffers
      | unfold RecordDeferredCommandBuffer
      | unfold RecordComputeCommandBuffer)

theorem noWrites_step (env : Env) (m : M Unit) (hm : m ∈ stepsOutsideBindings env) :
    Hoare (fun s => s.vk.appliedWrites = []) m (fun _ s => s.vk.appliedWrites = [])
      (fun _ => True) :=
  hoare_conseq (frozen_outside_bindings (fun _ w => w) (fun _ _ _ _ => rfl) [] env m hm)
    (fun _ hs => hs) (fun _ _ hq => hq) (fun _ _ => trivial)

theorem allWritten_step (env : Env) (m : M Unit) (hm : m ∈ stepsOutsideBindings env) :
    Hoare (AllWritten env) m (fun _ => AllWritten env) (fun _ => True) := by
  intro s hs
  have h := hoare_state
    (frozen_outside_bindings (fun r w => (bindingGroups r, w))
      (fun _ _ _ hg => by simp only [hg]) (bindingGroups s.r, s.vk.appliedWrites) env m hm) s rfl
  have h1 : bindingGroups (m.run s).st.r = bindingGroups s.r := congrArg Prod.fst h
  have h2 : (m.run s).st.vk.appliedWrites = s.vk.appliedWrites := congrArg Prod.snd h
  have h3 : AllWritten env (m.run s).st := by
    unfold AllWritten Vk.writtenPairs at hs ⊢
    rw [h1, h2]
    exact hs
  rcases hk : m.run s with ⟨res, s1⟩
  rw [hk] at h3
  cases res with
  | error e => trivial
  | ok a => exact h3

theorem writtenStage_zero (env : Env) (s : State) (hs : s.vk.appliedWrites = []) :
    WrittenStage env 0 s := by
  refine ⟨⟨fun h b => ?_, List.nodup_nil, fun h hh => ?_⟩, rfl⟩
  · simp [Vk.writtenPairs, hs]
  · simp at hh

theorem allWritten_of_stage (env : Env) (s : State) (hs : WrittenStage env 5 s) :
    AllWritten env s :=
  ⟨hs.1.1, hs.1.2.1, hs.2⟩

/-- The constructor, started with no descriptor write applied, leaves all
    binding instances allocated and written when it returns. -/
theorem allWritten_construct (env : Env) :
    Hoare (fun s => s.vk.appliedWrites = []) (construct env) (fun _ => AllWritten env)
      (fun _ => True) := by
  unfold construct
  refine hoare_bind_inv (noWrites_step env _ (by simp [stepsOutsideBindings])) (fun _ => ?_)
  refine hoare_bind_inv (noWrites_step env _ (by simp [stepsOutsideBindings])) (fun _ => ?_)
  refine hoare_bind_inv (noWrites_step env _ (by simp [stepsOutsideBindings])) (fun _ => ?_)
  refine hoare_bind_inv (noWrites_step env _ (by simp [stepsOutsideBindings])) (fun _ => ?_)
  refine hoare_bind_inv (noWrites_step env _ (by simp [stepsOutsideBindings])) (fun _ => ?_)
  refine hoare_bind_inv (noWrites_step env _ (by simp [stepsOutsideBindings])) (fun _ => ?_)
  refine hoare_bind_inv (noWrites_step env _ (by simp [stepsOutsideBindings])) (fun _ => ?_)
  refine hoare_bind_inv (noWrites_step env _ (by simp [stepsOutsideBindings])) (fun _ => ?_)
  refine hoare_bind (hoare_conseq (writtenStage_camera env)
    (fun s hs => writtenStage_zero env s hs) (fun _ _ hq => hq) (fun _ he => he)) (fun _ => ?_)
  refine hoare_bind (writtenStage_model env) (fun _ => ?_)
  refine hoare_bind (writtenStage_grass env) (fun _ => ?_)
  refine hoare_bind (writtenStage_time env) (fun _ => ?_)
  refine hoare_bind (hoare_conseq (writtenStage_compute env) (fun _ hs => hs)
    (fun _ s hq => allWritten_of_stage env s hq) (fun _ he => he)) (fun _ => ?_)
  refine hoare_bind_inv (allWritten_step env _ (by simp [stepsOutsideBindings])) (fun _ => ?_)
  refine hoare_bind_inv (allWritten_step env _ (by simp [stepsOutsideBindings])) (fun _ => ?_)
  refine hoare_bind_inv (allWritten_step env _ (by simp [stepsOutsideBindings])) (fun _ => ?_)
  refine hoare_bind_inv (allWritten_step env _ (by simp [stepsOutsideBindings])) (fun _ => ?_)
  refine hoare_bind_inv (allWritten_step env _ (by simp [stepsOutsideBindings])) (fun _ => ?_)
  refine hoare_bind_inv (allWritten_step env _ (by simp [stepsOutsideBindings])) (fun _ => ?_)
  exact allWritten_step env _ (by simp [stepsOutsideBindings])

/-- C20, amended: after a construction that returns, started with no
    descriptor write applied, a descriptor write has been issued for slot
    `b` of binding instance `h` exactly in these cases: `h` is the camera
    instance and `b = 0`; `h` is a model instance and `b` is one of the
    slots 0 to 4; `h` is a grass instance and `b = 0`; `h` is the time
    instance and `b = 0`; `h` is a compute instance and `b` is one of the
    slots 0 to 2.  There is one model instance per static model and one
    grass and one compute instance per grass group, and no two instances
    have the same handle, so slots 1 to 4 of a grass instance are not
    written. -/
theorem binding_instances_written_slots (env : Env) (s st : State)
    (hw : s.vk.appliedWrites = [])
    (hok : ((construct env).run s).error? = none)
    (hst : st = ((construct env).run s).st) :
    st.r.modelDescriptorSets.length = env.scene.models.length
    ∧ st.r.grassDescriptorSets.length = env.scene.blades.length
    ∧ st.r.grassComputeDescriptorSets.length = env.scene.blades.length
    ∧ (st.r.cameraDescriptorSet :: st.r.modelDescriptorSets ++ st.r.grassDescriptorSets
        ++ st.r.timeDescriptorSet :: st.r.grassComputeDescriptorSets).Nodup
    ∧ ∀ h b, (h, b) ∈ st.vk.writtenPairs ↔
        (h = st.r.cameraDescriptorSet ∧ b = 0)
        ∨ (h ∈ st.r.modelDescriptorSets ∧ b < 5)
        ∨ (h ∈ st.r.grassDescriptorSets ∧ b = 0)
        ∨ (h = st.r.timeDescriptorSet ∧ b = 0)
        ∨ (h ∈ st.r.grassComputeDescriptorSets ∧ b < 3) := by
  have h := allWritten_construct env s hw
  rcases hrun : (construct env).run s with ⟨res, s1⟩
  rw [hrun] at h hok hst
  cases res with
  | error e => simp [Out.error?] at hok
  | ok u =>
    have hst1 : st = s1 := hst
    subst hst1
    obtain ⟨hiff, hnd, hlen⟩ := h
    simp only [bindingGroups, bindingCounts, List.map_cons, List.map_nil, List.length_singleton,
      List.cons.injEq, and_true, true_and] at hlen
    refine ⟨hlen.1, hlen.2.1, hlen.2.2, ?_, fun h b => ?_⟩
    · simpa [bindingGroups] using hnd
    · rw [hiff]
      simp only [bindingGroups, List.mem_cons, List.mem_singleton, List.not_mem_nil, or_false]
      constructor
      · rintro ⟨g, (rfl | rfl | rfl | rfl | rfl), h1, h2⟩
        · exact Or.inl ⟨by simpa using h1, by omega⟩
        · exact Or.inr (Or.inl ⟨h1, h2⟩)
        · exact Or.inr (Or.inr (Or.inl ⟨h1, by omega⟩))
        · exact Or.inr (Or.inr (Or.inr (Or.inl ⟨by simpa using h1, by omega⟩)))
        · exact Or.inr (Or.inr (Or.inr (Or.inr ⟨h1, h2⟩)))
      · rintro (⟨h1, h2⟩ | ⟨h1, h2⟩ | ⟨h1, h2⟩ | ⟨h1, h2⟩ | ⟨h1, h2⟩)
        · exact ⟨_, Or.inl rfl, by simpa using h1, by omega⟩
        · exact ⟨_, Or.inr (Or.inl rfl), h1, h2⟩
        · exact ⟨_, Or.inr (Or.inr (Or.inl rfl)), h1, by omega⟩
        · exact ⟨_, Or.inr (Or.inr (Or.inr (Or.inl rfl))), by simpa using h1, by omega⟩
        · exact ⟨_, Or.inr (Or.inr (Or.inr (Or.inr rfl))), h1, h2⟩

/-- C20, amended, at the demo scene: the constructor returns, and of the
    two grass instances (handles 26 and 27) slot 0 is written and slot 1 is
    not, while every slot below 5 of the model instance (handle 25) is
    written. -/
theorem binding_instances_written_slots_witness :
    (State.fresh []).vk.appliedWrites = []
    ∧ ((construct demoEnv).run (State.fresh [])).error? = none
    ∧ demoConstructed.r.grassDescriptorSets = [26, 27]
    ∧ demoConstructed.r.modelDescriptorSets = [25]
    ∧ demoConstructed.r.grassDescriptorSets.length = demoEnv.scene.blades.length
    ∧ ((26, 0) ∈ demoConstructed.vk.writtenPairs ↔
        (26 = demoConstructed.r.cameraDescriptorSet ∧ 0 = 0)
        ∨ (26 ∈ demoConstructed.r.modelDescriptorSets ∧ 0 < 5)
        ∨ (26 ∈ demoConstructed.r.grassDescriptorSets ∧ 0 = 0)
        ∨ (26 = demoConstructed.r.timeDescriptorSet ∧ 0 = 0)
        ∨ (26 ∈ demoConstructed.r.grassComputeDescriptorSets ∧ 0 < 3))
    ∧ (26, 0) ∈ demoConstructed.vk.writtenPairs
    ∧ (26, 1) ∉ demoConstructed.vk.writtenPairs
    ∧ (25, 4) ∈ demoConstructed.vk.writtenPairs :=
  ⟨rfl, by decide!, by decide!, by decide!,
   (binding_instances_written_slots demoEnv (State.fresh []) demoConstructed rfl (by decide!)
      rfl).2.1,
   (binding_instances_written_slots demoEnv (State.fresh []) demoConstructed rfl (by decide!)
      rfl).2.2.2.2 26 0,
   by decide!, by decide!, by decide!⟩

/-! ## The pipeline barriers and the push constant -/

/-- The only pipeline barrier of a Composite sequence is its first command. -/
theorem barrier_of_compositeCommands (env : Env) (r : Fields) (i : Nat) (c : Cmd)
    (hc : c ∈ compositeCommands env r i) (hb : c.isPipelineBarrier = true) :
    c = .pipelineBarrier .COMPUTE_SHADER .DRAW_INDIRECT (cullToFillBarriers env) := by
  simp only [compositeCommands, compositeHead, compositeBlock, List.mem_append, List.mem_cons,
    List.mem_flatMap, List.mem_range, List.mem_singleton, List.not_mem_nil, or_false] at hc
  rcases hc with ((h | h | h | h) | ⟨j, -, (h | h | h | h)⟩) | h <;> subst h <;>
    first | rfl | exact absurd hb (by simp [Cmd.isPipelineBarrier])

theorem no_barrier_in_cullCommands (env : Env) (r : Fields) (c : Cmd)
    (hc : c ∈ cullCommands env r) : c.isPipelineBarrier = false := by
  simp only [cullCommands, cullHead, cullBlock, List.mem_append, List.mem_cons,
    List.mem_flatMap, List.mem_range, List.mem_singleton, List.not_mem_nil, or_false] at hc
  rcases hc with (h | h | h | h) | ⟨j, -, (h | h)⟩ <;> subst h <;> rfl

theorem no_barrier_in_fillCommands (env : Env) (r : Fields) (c : Cmd)
    (hc : c ∈ fillCommands env r) : c.isPipelineBarrier = false := by
  simp only [fillCommands, fillHead, fillBlock, List.mem_append, List.mem_cons,
    List.mem_flatMap, List.mem_range, List.mem_singleton, List.not_mem_nil, or_false] at hc
  rcases hc with ((h | h | h) | ⟨j, -, (h | h | h)⟩) | h <;> subst h <;> rfl

/-- The `j`-th buffer barrier is the one of grass group `j`. -/
theorem cullToFillBarriers_get (env : Env) (j : Nat) (b : Blades)
    (hb : env.scene.blades[j]? = some b) :
    (cullToFillBarriers env)[j]? = some
      (BufferMemoryBarrier.mk [.SHADER_WRITE] [.INDIRECT_COMMAND_READ]
        env.computeQueueFamily env.graphicsQueueFamily
        b.numBladesBuffer 0 env.sizeofBladeDrawIndirect) := by
  have hj : j < env.scene.blades.length := by
    rcases List.getElem?_eq_some.1 hb with ⟨hlt, _⟩
    exact hlt
  simp [cullToFillBarriers, hj, List.getD, hb]

/-- C21: every pipeline barrier command that `RecordCommandBuffers` records
    into one of its command buffers has source stage compute-shader and
    destination stage draw-indirect and carries exactly one buffer barrier
    per grass group; the `j`-th has source access shader-write, destination
    access indirect-command-read, goes from the compute queue family to the
    graphics queue family and covers `sizeof(BladeDrawIndirect)` bytes from
    offset 0 of group `j`'s indirect-count buffer.  The sequences recorded
    by `RecordComputeCommandBuffer` and `RecordDeferredCommandBuffer` hold
    no pipeline barrier, so these are all the recorded ones. -/
theorem pipeline_barrier_contents (env : Env) (s : State) :
    (((RecordCommandBuffers env).run s).error? = none →
      ∀ i, i < env.swapChain.count →
      ∀ c ∈ ((RecordCommandBuffers env).run s).st.vk.recorded
          (((RecordCommandBuffers env).run s).st.r.commandBuffers.getD i VK_NULL_HANDLE),
        c.isPipelineBarrier = true →
        ∃ bs, c = .pipelineBarrier .COMPUTE_SHADER .DRAW_INDIRECT bs
          ∧ bs.length = env.scene.blades.length
          ∧ ∀ (j : Nat) (b : Blades), env.scene.blades[j]? = some b →
              bs[j]? = some
                (BufferMemoryBarrier.mk [.SHADER_WRITE] [.INDIRECT_COMMAND_READ]
                  env.computeQueueFamily env.graphicsQueueFamily
                  b.numBladesBuffer 0 env.sizeofBladeDrawIndirect))
    ∧ (((RecordComputeCommandBuffer env).run s).error? = none →
      ∀ c ∈ ((RecordComputeCommandBuffer env).run s).st.vk.recorded
          ((RecordComputeCommandBuffer env).run s).st.r.computeCommandBuffer,
        c.isPipelineBarrier = false)
    ∧ (((RecordDeferredCommandBuffer env).run s).error? = none →
      ∀ c ∈ ((RecordDeferredCommandBuffer env).run s).st.vk.recorded
          ((RecordDeferredCommandBuffer env).run s).st.r.deferredCommandBuffer,
        c.isPipelineBarrier = false) := by
  refine ⟨fun h i hi c hc hb => ?_, fun h c hc => ?_, fun h c hc => ?_⟩
  · obtain ⟨hr, hrec⟩ := recorded_composite env s h
    rw [hr] at hc
    simp only [] at hc
    rw [getD_map_range _ _ _ hi, hrec i hi] at hc
    refine ⟨cullToFillBarriers env, barrier_of_compositeCommands env s.r i c hc hb,
      by simp [cullToFillBarriers], cullToFillBarriers_get env⟩
  · rw [recorded_cull env s h] at hc
    exact no_barrier_in_cullCommands env s.r c hc
  · rw [recorded_fill env s h] at hc
    exact no_barrier_in_fillCommands env s.r c hc

/-- C21, at the demo scene: the pipeline barrier of Composite sequence 0
    carries two buffer barriers, on the indirect-count buffers 203 and 213. -/
theorem pipeline_barrier_contents_witness :
    ((RecordCommandBuffers demoEnv).run demoConstructed).error? = none
    ∧ ∃ bs, Cmd.pipelineBarrier .COMPUTE_SHADER .DRAW_INDIRECT
          [⟨[.SHADER_WRITE], [.INDIRECT_COMMAND_READ], 1, 0, 203, 0, 16⟩,
           ⟨[.SHADER_WRITE], [.INDIRECT_COMMAND_READ], 1, 0, 213, 0, 16⟩]
        = .pipelineBarrier .COMPUTE_SHADER .DRAW_INDIRECT bs
      ∧ bs.length = demoEnv.scene.blades.length
      ∧ ∀ (j : Nat) (b : Blades), demoEnv.scene.blades[j]? = some b →
          bs[j]? = some
            (BufferMemoryBarrier.mk [.SHADER_WRITE] [.INDIRECT_COMMAND_READ]
              demoEnv.computeQueueFamily demoEnv.graphicsQueueFamily
              b.numBladesBuffer 0 demoEnv.sizeofBladeDrawIndirect) :=
  ⟨by decide!,
   (pipeline_barrier_contents demoEnv demoConstructed).1 (by decide!) 0 (by decide) _
     (by decide!) rfl⟩

theorem no_pushConstants_in_fillCommands (env : Env) (r : Fields) (c : Cmd)
    (hc : c ∈ fillCommands env r) : c.isPushConstants = false := by
  simp only [fillCommands, fillHead, fillBlock, List.mem_append, List.mem_cons,
    List.mem_flatMap, List.mem_range, List.mem_singleton, List.not_mem_nil, or_false] at hc
  rcases hc with ((h | h | h) | ⟨j, -, (h | h | h)⟩) | h <;> subst h <;> rfl

theorem no_pushConstants_in_compositeCommands (env : Env) (r : Fields) (i : Nat) (c : Cmd)
    (hc : c ∈ compositeCommands env r i) : c.isPushConstants = false := by
  simp only [compositeCommands, compositeHead, compositeBlock, List.mem_append, List.mem_cons,
    List.mem_flatMap, List.mem_range, List.mem_singleton, List.not_mem_nil, or_false] at hc
  rcases hc with ((h | h | h | h) | ⟨j, -, (h | h | h | h)⟩) | h <;> subst h <;> rfl

/-- In the Cull sequence the push constant is command 3, and every dispatch
    comes later. -/
theorem cullCommands_pushConstants (env : Env) (r : Fields) (k : Nat) (c : Cmd)
    (hk : (cullCommands env r)[k]? = some c) :
    (c.isPushConstants = true → k = 3) ∧ (c.isDispatch = true → 3 < k) := by
  unfold cullCommands at hk
  rcases Nat.lt_or_ge k 4 with hlt | hge
  · rw [List.getElem?_append_left (by simpa [cullHead] using hlt)] at hk
    have h4 : k = 0 ∨ k = 1 ∨ k = 2 ∨ k = 3 := by omega
    rcases h4 with rfl | rfl | rfl | rfl <;> simp [cullHead] at hk <;> subst hk <;>
      simp [Cmd.isPushConstants, Cmd.isDispatch]
  · rw [List.getElem?_append_right (by simpa [cullHead] using hge)] at hk
    have hmem := List.getElem?_mem hk
    simp only [cullBlock, List.mem_flatMap, List.mem_range, List.mem_cons, List.mem_singleton,
      List.not_mem_nil, or_false] at hmem
    rcases hmem with ⟨j, -, (h | h)⟩ <;> subst h
    · simp [Cmd.isPushConstants, Cmd.isDispatch]
    · simp [Cmd.isPushConstants, Cmd.isDispatch]
      omega

/-- C22: `CreateComputePipeline`, when it succeeds, leaves in
    `computePipeline` a live compute pipeline with its one stage, the compute
    stage, created with `computePipelineLayout`, and that layout is live and
    declares exactly one push-constant range: compute stage, offset 0, size
    `sizeof(int)`.  In the Cull sequence that `RecordComputeCommandBuffer`
    records, command 3 writes the push constant `NUM_BLADES` with that
    stage, offset and size; it is the only push-constant write of the
    sequence, and every dispatch comes after it.  The Fill sequence and the
    Composite sequences write no push constant. -/
theorem compute_push_constant (env : Env) (s : State) :
    ((CreateComputePipeline.run s).error? = none →
      (⟨(CreateComputePipeline.run s).st.r.computePipeline,
        .computePipeline ⟨.compute, s.vk.nextHandle⟩
          (CreateComputePipeline.run s).st.r.computePipelineLayout⟩ : Obj) ∈
        (CreateComputePipeline.run s).st.vk.live
      ∧ (⟨(CreateComputePipeline.run s).st.r.computePipelineLayout,
        .pipelineLayout
          [s.r.cameraDescriptorSetLayout, s.r.timeDescriptorSetLayout,
           s.r.grassComputeDescriptorSetLayout]
          [⟨.bits [.compute], 0, sizeofInt⟩]⟩ : Obj) ∈
        (CreateComputePipeline.run s).st.vk.live)
    ∧ (((RecordComputeCommandBuffer env).run s).error? = none →
      (((RecordComputeCommandBuffer env).run s).st.vk.recorded
          ((RecordComputeCommandBuffer env).run s).st.r.computeCommandBuffer)[3]? =
        some (.pushConstants s.r.computePipelineLayout (.bits [.compute]) 0 sizeofInt
          [env.NUM_BLADES])
      ∧ ∀ k c, (((RecordComputeCommandBuffer env).run s).st.vk.recorded
          ((RecordComputeCommandBuffer env).run s).st.r.computeCommandBuffer)[k]? = some c →
        (c.isPushConstants = true → k = 3) ∧ (c.isDispatch = true → 3 < k))
    ∧ (((RecordDeferredCommandBuffer env).run s).error? = none →
      ∀ c ∈ ((RecordDeferredCommandBuffer env).run s).st.vk.recorded
          ((RecordDeferredCommandBuffer env).run s).st.r.deferredCommandBuffer,
        c.isPushConstants = false)
    ∧ (((RecordCommandBuffers env).run s).error? = none →
      ∀ i, i < env.swapChain.count →
      ∀ c ∈ ((RecordCommandBuffers env).run s).st.vk.recorded
          (((RecordCommandBuffers env).run s).st.r.commandBuffers.getD i VK_NULL_HANDLE),
        c.isPushConstants = false) := by
  refine ⟨fun h => ?_, fun h => ?_, fun h c hc => ?_, fun h i hi c hc => ?_⟩
  · unfold CreateComputePipeline at h ⊢
    by_cases h1 : s.vk.callNo ∈ s.vk.failures <;>
    by_cases h2 : s.vk.callNo + 1 ∈ s.vk.failures <;>
      simp [run_bind, run_createOrThrow, h1, h2, ShaderModule.Create] at h ⊢
    constructor
    · refine Vk.mem_destroy_fresh _ _ _ _ (by simp) ?_
      repeat (first | exact Nat.lt_succ_self _ | apply Nat.lt_succ_of_lt)
    · refine Vk.mem_destroy_fresh _ _ _ _ (by simp) ?_
      repeat (first | exact Nat.lt_succ_self _ | apply Nat.lt_succ_of_lt)
  · rw [recorded_cull env s h]
    exact ⟨by simp [cullCommands, cullHead], cullCommands_pushConstants env s.r⟩
  · rw [recorded_fill env s h] at hc
    exact no_pushConstants_in_fillCommands env s.r c hc
  · obtain ⟨hr, hrec⟩ := recorded_composite env s h
    rw [hr] at hc
    simp only [] at hc
    rw [getD_map_range _ _ _ hi, hrec i hi] at hc
    exact no_pushConstants_in_compositeCommands env s.r i c hc

/-- C22, at the demo scene: when `CreateComputePipeline` and
    `RecordComputeCommandBuffer` run on the constructed renderer both succeed;
    the new layout declares the one push-constant range and command 3 of the
    new Cull sequence writes `NUM_BLADES = 512` through it. -/
theorem compute_push_constant_witness :
    (CreateComputePipeline.run demoConstructed).error? = none
    ∧ ((RecordComputeCommandBuffer demoEnv).run demoConstructed).error? = none
    ∧ (⟨(CreateComputePipeline.run demoConstructed).st.r.computePipelineLayout,
        .pipelineLayout
          [demoConstructed.r.cameraDescriptorSetLayout, demoConstructed.r.timeDescriptorSetLayout,
           demoConstructed.r.grassComputeDescriptorSetLayout]
          [⟨.bits [.compute], 0, sizeofInt⟩]⟩ : Obj) ∈
        (CreateComputePipeline.run demoConstructed).st.vk.live
    ∧ (((RecordComputeCommandBuffer demoEnv).run demoConstructed).st.vk.recorded
          ((RecordComputeCommandBuffer demoEnv).run demoConstructed).st.r.computeCommandBuffer)[3]? =
        some (.pushConstants demoConstructed.r.computePipelineLayout (.bits [.compute]) 0
          sizeofInt [demoEnv.NUM_BLADES]) :=
  ⟨by decide!, by decide!,
   ((compute_push_constant demoEnv demoConstructed).1 (by decide!)).2,
   ((compute_push_constant demoEnv demoConstructed).2.1 (by decide!)).1⟩

/-! ## Allocation requests, pool reserves and double releases at concrete scenes -/

/-- C26, on the code: at the demo scene (two grass groups) command 7 of the
    Fill sequence binds grass binding instance 1 (handle 27) at set 1 of the
    grass pipeline layout, whose position 1 holds the Model schema, and
    command 6 of the Cull sequence binds compute binding instance 1 (handle
    30) at set 2 of the compute pipeline layout, whose position 2 holds the
    Compute-Cull schema; neither instance was allocated with a schema the
    code supplied: the allocation request named two instances and passed a
    one-element layouts array.  Every other bind of the three sequences is
    compatible, and so is every bind of the Composite sequences, which has
    one static model; with two static models the bind of model binding
    instance 1 is not. -/
theorem second_instance_bound_without_schema :
    ((construct demoEnv).run (State.fresh [])).error? = none
    ∧ (demoConstructed.vk.recorded demoConstructed.r.deferredCommandBuffer)[7]?
        = some (.bindDescriptorSets .GRAPHICS demoConstructed.r.grassPipelineLayout 1 [27])
    ∧ demoConstructed.vk.info? demoConstructed.r.grassPipelineLayout
        = some (.pipelineLayout
            [demoConstructed.r.cameraDescriptorSetLayout,
             demoConstructed.r.modelDescriptorSetLayout] [])
    ∧ demoConstructed.vk.info? 26
        = some (.descriptorSet demoConstructed.r.descriptorPool
            (some demoConstructed.r.modelDescriptorSetLayout))
    ∧ demoConstructed.vk.info? 27 = some (.descriptorSet demoConstructed.r.descriptorPool none)
    ∧ (demoConstructed.vk.recorded demoConstructed.r.deferredCommandBuffer).map
          demoConstructed.vk.compatibleBind
        = [true, true, true, true, true, true, true, false, true, true]
    ∧ (demoConstructed.vk.recorded demoConstructed.r.computeCommandBuffer)[6]?
        = some (.bindDescriptorSets .COMPUTE demoConstructed.r.computePipelineLayout 2 [30])
    ∧ demoConstructed.vk.info? demoConstructed.r.computePipelineLayout
        = some (.pipelineLayout
            [demoConstructed.r.cameraDescriptorSetLayout,
             demoConstructed.r.timeDescriptorSetLayout,
             demoConstructed.r.grassComputeDescriptorSetLayout]
            [⟨.bits [.compute], 0, sizeofInt⟩])
    ∧ demoConstructed.vk.info? 30 = some (.descriptorSet demoConstructed.r.descriptorPool none)
    ∧ (demoConstructed.vk.recorded demoConstructed.r.computeCommandBuffer).map
          demoConstructed.vk.compatibleBind
        = [true, true, true, true, true, true, false, true]
    ∧ (demoConstructed.r.commandBuffers.all fun cb =>
        (demoConstructed.vk.recorded cb).all demoConstructed.vk.compatibleBind) = true
    ∧ ((construct twoModelEnv).run (State.fresh [])).error? = none
    ∧ (twoModelConstructed.r.commandBuffers.map fun cb =>
        (twoModelConstructed.vk.recorded cb).map twoModelConstructed.vk.compatibleBind)
        = [[true, true, true, true, true, true, true, true, true, true, false, true, true],
           [true, true, true, true, true, true, true, true, true, true, false, true, true]] := by
  decide!

/-- C28, on the code: at the demo scene (one static model, two grass groups)
    the constructor makes five allocation requests; the request for the grass
    instances and the request for the compute instances each name two
    instances and pass a layouts array of one handle, so the second instance
    of each (handles 27 and 30) is created from what lies behind the array.
    With two static models the request for the model instances does the
    same. -/
theorem allocation_passes_one_layout_for_many :
    ((construct demoEnv).run (State.fresh [])).error? = none
    ∧ demoConstructed.vk.descriptorAllocations
        = [ ⟨demoConstructed.r.descriptorPool, 1, [demoConstructed.r.cameraDescriptorSetLayout]⟩,
            ⟨demoConstructed.r.descriptorPool, 1, [demoConstructed.r.modelDescriptorSetLayout]⟩,
            ⟨demoConstructed.r.descriptorPool, 2, [demoConstructed.r.modelDescriptorSetLayout]⟩,
            ⟨demoConstructed.r.descriptorPool, 1, [demoConstructed.r.timeDescriptorSetLayout]⟩,
            ⟨demoConstructed.r.descriptorPool, 2,
              [demoConstructed.r.grassComputeDescriptorSetLayout]⟩ ]
    ∧ (demoConstructed.vk.descriptorAllocations.map fun a =>
        decide (a.setLayouts.length = a.descriptorSetCount))
        = [true, true, false, true, false]
    ∧ demoConstructed.r.grassDescriptorSets = [26, 27]
    ∧ demoConstructed.r.grassComputeDescriptorSets = [29, 30]
    ∧ demoConstructed.vk.info? 27 = some (.descriptorSet demoConstructed.r.descriptorPool none)
    ∧ demoConstructed.vk.info? 30 = some (.descriptorSet demoConstructed.r.descriptorPool none)
    ∧ ((construct twoModelEnv).run (State.fresh [])).error? = none
    ∧ (twoModelConstructed.vk.descriptorAllocations.map fun a =>
        (a.descriptorSetCount, a.setLayouts.length))
        = [(1, 1), (2, 1), (2, 1), (1, 1), (2, 1)] := by
  decide!

/-- C29, on the code: the pool sizes reserve `7 * N + M` combined image
    samplers for every scene; at the demo scene (`N = 1`, `M = 2`) that is
    9, while the three instances allocated with the Model schema (one model
    instance, two grass instances) take 4 each, 12 in all.  Uniform buffers
    (5 reserved, 5 taken) and storage buffers (6 and 6) do agree. -/
theorem pool_reserves_fewer_image_samplers :
    (∀ env : Env, reservedDescriptors (descriptorPoolSizes env) .combinedImageSampler
        = 7 * env.scene.models.length + env.scene.blades.length)
    ∧ ((construct demoEnv).run (State.fresh [])).error? = none
    ∧ demoConstructed.vk.info? demoConstructed.r.descriptorPool
        = some (.descriptorPool (descriptorPoolSizes demoEnv) 5)
    ∧ schemaDescriptors modelLayoutBindings .combinedImageSampler = 4
    ∧ demoConstructed.vk.reservedBy demoConstructed.r.descriptorPool .combinedImageSampler = 9
    ∧ demoConstructed.vk.requiredDescriptors demoConstructed.r.descriptorPool
        .combinedImageSampler = 12
    ∧ demoConstructed.vk.reservedBy demoConstructed.r.descriptorPool .uniformBuffer = 5
    ∧ demoConstructed.vk.requiredDescriptors demoConstructed.r.descriptorPool .uniformBuffer = 5
    ∧ demoConstructed.vk.reservedBy demoConstructed.r.descriptorPool .storageBuffer = 6
    ∧ demoConstructed.vk.requiredDescriptors demoConstructed.r.descriptorPool .storageBuffer
        = 6 := by
  refine ⟨fun env => ?_, ?_⟩
  · have h : reservedDescriptors (descriptorPoolSizes env) .combinedImageSampler
        = env.scene.models.length * 7 + env.scene.blades.length + 0 := rfl
    rw [h]
    omega
  · decide!

/-- C30, on the code: at the demo scene the constructor and one
    `RecreateFrameResources` release nothing that is not live, and neither
    does the destructor when it runs right after the constructor.  After one
    `RecreateFrameResources` the fields of the twelve G-buffer objects and of
    the G-buffer framebuffer still hold the handles that the resize
    destroyed; the destructor, and likewise a second
    `RecreateFrameResources`, hands each of the thirteen to the driver
    again. -/
theorem gbuffer_released_twice :
    ((construct demoEnv).run (State.fresh [])).error? = none
    ∧ ((RecreateFrameResources demoEnv).run demoConstructed).error? = none
    ∧ ((RecreateFrameResources demoEnv).run demoRecreated).error? = none
    ∧ demoConstructed.vk.faults = []
    ∧ (destruct.run demoConstructed).st.vk.faults = []
    ∧ demoRecreated.vk.faults = []
    ∧ (destruct.run demoRecreated).st.vk.faults
        = [ (.imageView, demoConstructed.r.deferredAlbedoImageView),
            (.deviceMemory, demoConstructed.r.deferredAlbedoImageMemory),
            (.image, demoConstructed.r.deferredAlbedoImage),
            (.imageView, demoConstructed.r.deferredPositionImageView),
            (.deviceMemory, demoConstructed.r.deferredPositionImageMemory),
            (.image, demoConstructed.r.deferredPositionImage),
            (.imageView, demoConstructed.r.deferredNormalImageView),
            (.deviceMemory, demoConstructed.r.deferredNormalImageMemory),
            (.image, demoConstructed.r.deferredNormalImage),
            (.imageView, demoConstructed.r.deferredDepthImageView),
            (.deviceMemory, demoConstructed.r.deferredDepthImageMemory),
            (.image, demoConstructed.r.deferredDepthImage),
            (.framebuffer, demoConstructed.r.deferredFramebuffer) ]
    ∧ ((RecreateFrameResources demoEnv).run demoRecreated).st.vk.faults
        = (destruct.run demoRecreated).st.vk.faults
    ∧ (destruct.run demoRecreated).st.vk.faults.all
        (fun f => !demoRecreated.vk.isLive f.2) = true := by
  decide!

/-! ## Rules for what a state holds -/

theorem M.bind_assoc {α β γ : Type} (m : M α) (f : α → M β) (g : β → M γ) :
    (m >>= f) >>= g = m >>= fun a => f a >>= g := by
  funext s
  show ((m >>= f) >>= g).run s = (m >>= fun a => f a >>= g).run s
  rw [run_bind, run_bind, run_bind]
  rcases m.run s with ⟨res, s1⟩
  cases res <;> rfl

theorem M.pure_bind {α β : Type} (a : α) (f : α → M β) : (pure a : M α) >>= f = f a := rfl

theorem M.bind_pure {α : Type} (m : M α) : (m >>= fun a => (pure a : M α)) = m := by
  funext s
  show (m >>= fun a => (pure a : M α)).run s = m.run s
  rw [run_bind]
  rcases m.run s with ⟨res, s1⟩
  cases res <;> rfl

/-- A step that returns the value `a`, followed by the rest. -/
theorem holds_step {α β : Type} {P P1 : State → Prop} {Q : β → State → Prop} {m : M α}
    {f : α → M β} {a : α}
    (hm : Hoare P m (fun x s => x = a ∧ P1 s) (fun _ => True))
    (hf : Hoare P1 (f a) Q (fun _ => True)) : Hoare P (m >>= f) Q (fun _ => True) :=
  hoare_bind hm (fun x s hs => by
    obtain ⟨hx, h1⟩ := hs
    subst hx
    exact hf s h1)

/-- A member function on its own is the function followed by `pure`. -/
theorem hoare_of_bind_pure {α : Type} {P : State → Prop} {Q : α → State → Prop}
    {E : State → Prop} {m : M α} (h : Hoare P (m >>= fun a => (pure a : M α)) Q E) :
    Hoare P m Q E := by
  intro s hs
  have h1 := h s hs
  rw [run_bind] at h1
  rcases hk : m.run s with ⟨res, s1⟩
  rw [hk] at h1
  cases res with
  | error e => exact h1
  | ok a => exact h1

theorem holds_congr {r r1 : Fields} {L L1 : List Obj} {n n1 : Handle}
    {F : List (ObjKind × Handle)} {s : State} (h : Holds r L n F s)
    (hr : r = r1) (hL : L = L1) (hn : n = n1) : Holds r1 L1 n1 F s := by
  subst hr hL hn
  exact h

/-- The end of a member function. -/
theorem holds_done {α : Type} {r r1 : Fields} {L L1 : List Obj} {n n1 : Handle}
    {F : List (ObjKind × Handle)} (a : α) (hr : r = r1) (hL : L = L1) (hn : n = n1) :
    Hoare (Holds r L n F) (pure a : M α) (fun _ => Holds r1 L1 n1 F) (fun _ => True) :=
  hoare_pure a (fun _ hs => holds_congr hs hr hL hn)

theorem spec_createOrThrow (r : Fields) (L : List Obj) (n : Handle)
    (F : List (ObjKind × Handle)) (info : Info) (msg : String) :
    Hoare (Holds r L n F) (createOrThrow info msg)
      (fun x s => x = n ∧ Holds r (L ++ [⟨n, info⟩]) (n + 1) F s) (fun _ => True) := by
  intro s hs
  obtain ⟨h1, h2, h3, h4, h0, h5⟩ := hs
  rw [run_createOrThrow]
  by_cases hmem : s.vk.callNo ∈ s.vk.failures
  · simp only [hmem, if_true]
  · simp only [hmem, if_false]
    subst h1 h2 h3 h4
    refine ⟨rfl, rfl, rfl, rfl, rfl, Nat.lt_succ_of_lt h0, fun o ho => ?_⟩
    rcases List.mem_append.1 ho with hold | hnew
    · exact Nat.lt_succ_of_lt (h5 o hold)
    · rw [List.mem_singleton] at hnew
      subst hnew
      exact Nat.lt_succ_self _

theorem spec_newObject (r : Fields) (L : List Obj) (n : Handle)
    (F : List (ObjKind × Handle)) (info : Info) :
    Hoare (Holds r L n F) (newObject info)
      (fun x s => x = n ∧ Holds r (L ++ [⟨n, info⟩]) (n + 1) F s) (fun _ => True) := by
  intro s hs
  obtain ⟨h1, h2, h3, h4, h0, h5⟩ := hs
  subst h1 h2 h3 h4
  refine ⟨rfl, rfl, rfl, rfl, rfl, Nat.lt_succ_of_lt h0, fun o ho => ?_⟩
  rcases List.mem_append.1 ho with hold | hnew
  · exact Nat.lt_succ_of_lt (h5 o hold)
  · rw [List.mem_singleton] at hnew
    subst hnew
    exact Nat.lt_succ_self _

theorem holds_createOrThrow {β : Type} {r : Fields} {L : List Obj} {n : Handle}
    {F : List (ObjKind × Handle)} {info : Info} {msg : String} {f : Handle → M β}
    {Q : β → State → Prop}
    (h : Hoare (Holds r (L ++ [⟨n, info⟩]) (n + 1) F) (f n) Q (fun _ => True)) :
    Hoare (Holds r L n F) (createOrThrow info msg >>= f) Q (fun _ => True) :=
  holds_step (spec_createOrThrow r L n F info msg) h

theorem holds_ShaderModuleCreate {β : Type} {r : Fields} {L : List Obj} {n : Handle}
    {F : List (ObjKind × Handle)} {file : String} {f : Handle → M β}
    {Q : β → State → Prop}
    (h : Hoare (Holds r (L ++ [⟨n, .shaderModule file⟩]) (n + 1) F) (f n) Q (fun _ => True)) :
    Hoare (Holds r L n F) (ShaderModule.Create file >>= f) Q (fun _ => True) :=
  holds_step (spec_newObject r L n F _) h

theorem holds_ImageCreateView {β : Type} {r : Fields} {L : List Obj} {n : Handle}
    {F : List (ObjKind × Handle)} {image : Handle} {format : Format} {aspect : ImageAspect}
    {f : Handle → M β} {Q : β → State → Prop}
    (h : Hoare (Holds r (L ++ [⟨n, .imageView image format aspect⟩]) (n + 1) F) (f n) Q
      (fun _ => True)) :
    Hoare (Holds r L n F) (Image.CreateView image format aspect >>= f) Q (fun _ => True) :=
  holds_step (spec_newObject r L n F _) h

theorem holds_ImageCreate {β : Type} {r : Fields} {L : List Obj} {n : Handle}
    {F : List (ObjKind × Handle)} {width height : Nat} {format : Format}
    {usage : List ImageUsage} {f : Handle × Handle → M β} {Q : β → State → Prop}
    (h : Hoare
      (Holds r (L ++ [⟨n, .image width height format usage⟩] ++ [⟨n + 1, .deviceMemory n⟩])
        (n + 1 + 1) F)
      (f (n, n + 1)) Q (fun _ => True)) :
    Hoare (Holds r L n F) (Image.Create width height format usage >>= f) Q (fun _ => True) := by
  unfold Image.Create
  rw [M.bind_assoc]
  refine holds_step (spec_newObject r L n F _) ?_
  rw [M.bind_assoc]
  refine holds_step (spec_newObject r _ _ F _) ?_
  exact h

theorem holds_ImageTransitionLayout {β : Type} {P : State → Prop} {image : Handle}
    {oldLayout newLayout : ImageLayout} {f : Unit → M β} {Q : β → State → Prop}
    (h : Hoare P (f ()) Q (fun _ => True)) :
    Hoare P (Image.TransitionLayout image oldLayout newLayout >>= f) Q (fun _ => True) := h

theorem holds_setFields {β : Type} {r : Fields} {L : List Obj} {n : Handle}
    {F : List (ObjKind × Handle)} {g : Fields → Fields} {f : Unit → M β}
    {Q : β → State → Prop}
    (h : Hoare (Holds (g r) L n F) (f ()) Q (fun _ => True)) :
    Hoare (Holds r L n F) (setFields g >>= f) Q (fun _ => True) :=
  holds_step (a := ()) (hoare_setFields g (fun s hs => by
    obtain ⟨h1, h2⟩ := hs
    subst h1
    exact ⟨rfl, rfl, h2⟩)) h

theorem holds_getFields {β : Type} {r : Fields} {L : List Obj} {n : Handle}
    {F : List (ObjKind × Handle)} {f : Fields → M β} {Q : β → State → Prop}
    (h : Hoare (Holds r L n F) (f r) Q (fun _ => True)) :
    Hoare (Holds r L n F) (getFields >>= f) Q (fun _ => True) :=
  holds_step (a := r) (hoare_getFields (fun _ hs => ⟨hs.1, hs⟩)) h

/-- A driver call that touches neither the objects nor the handles. -/
theorem holds_setVk {β : Type} {r : Fields} {L : List Obj} {n : Handle}
    {F : List (ObjKind × Handle)} {g : Vk → Vk} {f : Unit → M β} {Q : β → State → Prop}
    (hg : ∀ d, (g d).live = d.live ∧ (g d).nextHandle = d.nextHandle ∧ (g d).faults = d.faults)
    (h : Hoare (Holds r L n F) (f ()) Q (fun _ => True)) :
    Hoare (Holds r L n F) (setVk g >>= f) Q (fun _ => True) :=
  holds_step (a := ()) (hoare_setVk g (fun s hs => by
    obtain ⟨h1, h2, h3, h4, h5⟩ := hs
    obtain ⟨g1, g2, g3⟩ := hg s.vk
    exact ⟨rfl, h1, g1.trans h2, g2.trans h3, g3.trans h4, h5⟩)) h

theorem holds_declareLocal {β : Type} {r : Fields} {L : List Obj} {n : Handle}
    {F : List (ObjKind × Handle)} {cell : Nat} {v : DescInfo} {f : Unit → M β}
    {Q : β → State → Prop} (h : Hoare (Holds r L n F) (f ()) Q (fun _ => True)) :
    Hoare (Holds r L n F) (declareLocal cell v >>= f) Q (fun _ => True) :=
  holds_setVk (fun _ => ⟨rfl, rfl, rfl⟩) h

theorem holds_endLocal {β : Type} {r : Fields} {L : List Obj} {n : Handle}
    {F : List (ObjKind × Handle)} {cell : Nat} {f : Unit → M β}
    {Q : β → State → Prop} (h : Hoare (Holds r L n F) (f ()) Q (fun _ => True)) :
    Hoare (Holds r L n F) (endLocal cell >>= f) Q (fun _ => True) :=
  holds_setVk (fun _ => ⟨rfl, rfl, rfl⟩) h

theorem holds_vkUpdateDescriptorSets {β : Type} {r : Fields} {L : List Obj} {n : Handle}
    {F : List (ObjKind × Handle)} {ws : List WriteDescriptorSet} {f : Unit → M β}
    {Q : β → State → Prop} (h : Hoare (Holds r L n F) (f ()) Q (fun _ => True)) :
    Hoare (Holds r L n F) (vkUpdateDescriptorSets ws >>= f) Q (fun _ => True) :=
  holds_setVk (fun _ => ⟨rfl, rfl, rfl⟩) h

theorem holds_vkCmd {β : Type} {r : Fields} {L : List Obj} {n : Handle}
    {F : List (ObjKind × Handle)} {cb : Handle} {c : Cmd} {f : Unit → M β}
    {Q : β → State → Prop} (h : Hoare (Holds r L n F) (f ()) Q (fun _ => True)) :
    Hoare (Holds r L n F) (vkCmd cb c >>= f) Q (fun _ => True) :=
  holds_setVk (fun _ => ⟨rfl, rfl, rfl⟩) h

theorem holds_throwUnless {β : Type} {P : State → Prop} {ok : Bool} {msg : String}
    {f : Unit → M β} {Q : β → State → Prop} (h : Hoare P (f ()) Q (fun _ => True)) :
    Hoare P (throwUnless ok msg >>= f) Q (fun _ => True) := by
  cases ok
  · intro s _
    trivial
  · exact h

/-- A checked call that creates nothing: whatever it returns, the rest goes
    on from the same objects. -/
theorem holds_vkBeginCommandBuffer {β : Type} {r : Fields} {L : List Obj} {n : Handle}
    {F : List (ObjKind × Handle)} {cb : Handle} {f : Bool → M β} {Q : β → State → Prop}
    (h : ∀ b, Hoare (Holds r L n F) (f b) Q (fun _ => True)) :
    Hoare (Holds r L n F) (vkBeginCommandBuffer cb >>= f) Q (fun _ => True) := by
  refine hoare_bind (Q := fun _ => Holds r L n F) ?_ h
  intro s hs
  rw [run_vkBeginCommandBuffer]
  obtain ⟨h1, h2, h3, h4, h5⟩ := hs
  by_cases hmem : s.vk.callNo ∈ s.vk.failures
  · simp only [hmem, if_true]
    exact ⟨h1, h2, h3, h4, h5⟩
  · simp only [hmem, if_false]
    exact ⟨h1, h2, h3, h4, h5⟩

theorem holds_vkEndCommandBuffer {β : Type} {r : Fields} {L : List Obj} {n : Handle}
    {F : List (ObjKind × Handle)} {cb : Handle} {f : Bool → M β} {Q : β → State → Prop}
    (h : ∀ b, Hoare (Holds r L n F) (f b) Q (fun _ => True)) :
    Hoare (Holds r L n F) (vkEndCommandBuffer cb >>= f) Q (fun _ => True) := by
  refine hoare_bind (Q := fun _ => Holds r L n F) ?_ h
  intro _ hs
  exact hs

/-- What the precondition says of the objects alone can be used in the proof
    of the triple. -/
theorem holds_fresh {α : Type} {r : Fields} {L : List Obj} {n : Handle}
    {F : List (ObjKind × Handle)} {m : M α} {Q : α → State → Prop} {E : State → Prop}
    (h : 0 < n → (∀ o ∈ L, o.handle < n) → Hoare (Holds r L n F) m Q E) :
    Hoare (Holds r L n F) m Q E :=
  fun s hs => h hs.2.2.2.2.1 hs.2.2.2.2.2 s hs

/-- Releasing a live object that stands between older and younger ones. -/
theorem holds_vkDestroy {β : Type} {r : Fields} {L : List Obj} {n : Handle}
    {F : List (ObjKind × Handle)} {k : ObjKind} {h : Handle} {f : Unit → M β}
    {Q : β → State → Prop} (A B : List Obj) (info : Info)
    (hL : L = A ++ ⟨h, info⟩ :: B) (hk : info.kind = k) (h0 : 0 < h)
    (hA : ∀ o ∈ A, o.handle < h) (hB : ∀ o ∈ B, h < o.handle)
    (hrest : Hoare (Holds r (A ++ B) n F) (f ()) Q (fun _ => True)) :
    Hoare (Holds r L n F) (vkDestroy k h >>= f) Q (fun _ => True) := by
  refine holds_step (a := ()) ?_ hrest
  intro s hs
  obtain ⟨h1, h2, h3, h4, h5, h6⟩ := hs
  subst hL
  have hlive : s.vk.isLiveOfKind k h = true := by
    unfold Vk.isLiveOfKind
    rw [h2, List.any_eq_true]
    exact ⟨⟨h, info⟩, by simp, by simp [hk]⟩
  have hne : h ≠ VK_NULL_HANDLE := Nat.pos_iff_ne_zero.1 h0
  have hfilter : (A ++ ⟨h, info⟩ :: B).filter (fun o => !(o.handle == h)) = A ++ B := by
    rw [List.filter_append, List.filter_cons]
    have e1 : A.filter (fun o => !(o.handle == h)) = A :=
      List.filter_eq_self.2 (fun o ho => by
        have := Nat.ne_of_lt (hA o ho)
        simpa using this)
    have e2 : B.filter (fun o => !(o.handle == h)) = B :=
      List.filter_eq_self.2 (fun o ho => by
        have := Nat.ne_of_gt (hB o ho)
        simpa using this)
    rw [e1, e2]
    simp
  refine ⟨rfl, h1, ?_, ?_, ?_, h5, fun o ho => ?_⟩
  · show (s.vk.destroy k h).live = A ++ B
    unfold Vk.destroy
    rw [if_neg hne, if_pos hlive]
    show s.vk.live.filter _ = _
    rw [h2, hfilter]
  · show (s.vk.destroy k h).nextHandle = n
    rw [Vk.destroy_nextHandle]
    exact h3
  · show (s.vk.destroy k h).faults = F
    unfold Vk.destroy
    rw [if_neg hne, if_pos hlive]
    exact h4
  · exact h6 o (by
      rcases List.mem_append.1 ho with ha | hb
      · exact List.mem_append_left _ ha
      · exact List.mem_append_right _ (List.mem_cons_of_mem _ hb))

theorem fresh_append_range {L : List Obj} {n : Handle} (cnt : Nat) (g : Nat → Info)
    (h : ∀ o ∈ L, o.handle < n) :
    ∀ o ∈ L ++ (List.range cnt).map (fun i => (⟨n + i, g i⟩ : Obj)), o.handle < n + cnt := by
  intro o ho
  rcases List.mem_append.1 ho with hold | hnew
  · exact Nat.lt_of_lt_of_le (h o hold) (Nat.le_add_right _ _)
  · obtain ⟨i, hi, rfl⟩ := List.mem_map.1 hnew
    exact Nat.add_lt_add_left (List.mem_range.1 hi) n

theorem holds_allocateDescriptorSetsOrThrow {β : Type} {r : Fields} {L : List Obj}
    {n : Handle} {F : List (ObjKind × Handle)} {pool : Handle} {cnt : Nat}
    {layouts : List Handle} {f : List Handle → M β} {Q : β → State → Prop}
    (h : Hoare
      (Holds r (L ++ (List.range cnt).map (fun i => ⟨n + i, .descriptorSet pool layouts[i]?⟩))
        (n + cnt) F)
      (f ((List.range cnt).map (n + ·))) Q (fun _ => True)) :
    Hoare (Holds r L n F) (allocateDescriptorSetsOrThrow pool cnt layouts >>= f) Q
      (fun _ => True) := by
  refine holds_step ?_ h
  intro s hs
  obtain ⟨h1, h2, h3, h4, h0, h5⟩ := hs
  rw [run_allocateDescriptorSetsOrThrow]
  by_cases hmem : s.vk.callNo ∈ s.vk.failures
  · simp only [hmem, if_true]
  · simp only [hmem, if_false]
    subst h1 h2 h3 h4
    exact ⟨rfl, rfl, rfl, rfl, rfl, Nat.lt_of_lt_of_le h0 (Nat.le_add_right _ _),
      fresh_append_range cnt _ h5⟩

theorem holds_allocateCommandBuffersOrThrow {β : Type} {r : Fields} {L : List Obj}
    {n : Handle} {F : List (ObjKind × Handle)} {pool : Handle} {cnt : Nat} {msg : String}
    {f : List Handle → M β} {Q : β → State → Prop}
    (h : Hoare
      (Holds r (L ++ (List.range cnt).map (fun i => ⟨n + i, .commandBuffer pool⟩))
        (n + cnt) F)
      (f ((List.range cnt).map (n + ·))) Q (fun _ => True)) :
    Hoare (Holds r L n F) (allocateCommandBuffersOrThrow pool cnt msg >>= f) Q
      (fun _ => True) := by
  refine holds_step ?_ h
  intro s hs
  obtain ⟨h1, h2, h3, h4, h0, h5⟩ := hs
  rw [run_allocateCommandBuffersOrThrow]
  by_cases hmem : s.vk.callNo ∈ s.vk.failures
  · simp only [hmem, if_true]
  · simp only [hmem, if_false]
    subst h1 h2 h3 h4
    exact ⟨rfl, rfl, rfl, rfl, rfl, Nat.lt_of_lt_of_le h0 (Nat.le_add_right _ _),
      fresh_append_range cnt _ h5⟩

theorem holds_pure_bind {α β : Type} {P : State → Prop} {a : α} {f : α → M β}
    {Q : β → State → Prop} (h : Hoare P (f a) Q (fun _ => True)) :
    Hoare P ((pure a : M α) >>= f) Q (fun _ => True) := h

/-- A counted loop whose iterations leave the objects and the fields as they
    are. -/
theorem holds_forRange_const {β : Type} {P : State → Prop} {cnt : Nat} {body : Nat → M Unit}
    {f : Unit → M β} {Q : β → State → Prop}
    (hbody : ∀ i, i < cnt →
      Hoare P (body i >>= fun x => (pure x : M Unit)) (fun _ => P) (fun _ => True))
    (h : Hoare P (f ()) Q (fun _ => True)) :
    Hoare P (forRange cnt body >>= f) Q (fun _ => True) :=
  hoare_bind (hoare_forRange cnt body (fun i hi => hoare_of_bind_pure (hbody i hi)))
    (fun _ => h)

theorem holds_forRangeWith_const {α β : Type} {P : State → Prop} {cnt : Nat} {acc : α}
    {body : Nat → α → M α} {f : α → M β} {Q : β → State → Prop}
    (hbody : ∀ i a, i < cnt →
      Hoare P (body i a >>= fun x => (pure x : M α)) (fun _ => P) (fun _ => True))
    (h : ∀ a, Hoare P (f a) Q (fun _ => True)) :
    Hoare P (forRangeWith cnt acc body >>= f) Q (fun _ => True) :=
  hoare_bind
    (hoare_forRangeWith (J := fun _ => True) cnt acc body trivial
      (fun i a hi _ => hoare_conseq (hoare_of_bind_pure (hbody i a hi)) (fun _ hs => hs)
        (fun _ _ hq => ⟨hq, trivial⟩) (fun _ _ => trivial)))
    (fun a => hoare_conseq (h a) (fun _ hs => hs.1) (fun _ _ hq => hq) (fun _ _ => trivial))

/-- A counted loop after whose `i`-th iteration the state holds what the
    `i`-th entry of a table says. -/
theorem holds_forRange {β : Type} {F : List (ObjKind × Handle)} (cnt : Nat)
    (body : Nat → M Unit) (rI : Nat → Fields) (LI : Nat → List Obj) (nI : Nat → Handle)
    {f : Unit → M β} {Q : β → State → Prop}
    (hbody : ∀ i, i < cnt →
      Hoare (Holds (rI i) (LI i) (nI i) F) (body i >>= fun x => (pure x : M Unit))
        (fun _ => Holds (rI (i + 1)) (LI (i + 1)) (nI (i + 1)) F) (fun _ => True))
    (h : Hoare (Holds (rI cnt) (LI cnt) (nI cnt) F) (f ()) Q (fun _ => True)) :
    Hoare (Holds (rI 0) (LI 0) (nI 0) F) (forRange cnt body >>= f) Q (fun _ => True) := by
  refine hoare_bind (Q := fun _ => Holds (rI cnt) (LI cnt) (nI cnt) F) ?_ (fun _ => h)
  clear h
  induction cnt with
  | zero => exact hoare_pure () (fun _ hs => hs)
  | succ k ih =>
    rw [forRange_succ]
    exact hoare_bind (ih (fun i hi => hbody i (by omega)))
      (fun _ => hoare_of_bind_pure (hbody k (by omega)))

/-! ## What each step of the constructor leaves -/

theorem objs_CreateCommandPools (env : Env) (r : Fields) (L : List Obj) (n : Handle)
    (F : List (ObjKind × Handle)) :
    Hoare (Holds r L n F) (CreateCommandPools env)
      (fun _ => Holds { r with graphicsCommandPool := n, computeCommandPool := n + 1 }
        (L ++ [⟨n, .commandPool env.graphicsQueueFamily⟩,
               ⟨n + 1, .commandPool env.computeQueueFamily⟩])
        (n + 2) F)
      (fun _ => True) := by
  refine hoare_of_bind_pure ?_
  simp only [CreateCommandPools, M.bind_assoc]
  repeat (with_reducible first
    | apply holds_createOrThrow
    | apply holds_setFields)
  exact holds_done () rfl (by simp) rfl

theorem objs_CreateRenderPass (r : Fields) (L : List Obj) (n : Handle)
    (F : List (ObjKind × Handle)) :
    Hoare (Holds r L n F) CreateRenderPass
      (fun _ => Holds { r with renderPass := n }
        (L ++ [⟨n, .renderPass presentationRenderPassInfo⟩]) (n + 1) F)
      (fun _ => True) := by
  refine hoare_of_bind_pure ?_
  simp only [CreateRenderPass, M.bind_assoc]
  repeat (with_reducible first
    | apply holds_createOrThrow
    | apply holds_setFields)
  exact holds_done () rfl rfl rfl

theorem objs_CreateDeferredRenderPass (env : Env) (r : Fields) (L : List Obj) (n : Handle)
    (F : List (ObjKind × Handle)) :
    Hoare (Holds r L n F) (CreateDeferredRenderPass env)
      (fun _ => Holds
        { r with deferredRenderPass := n,
                 deferredAlbedoImage := n + 1, deferredAlbedoImageMemory := n + 2,
                 deferredAlbedoImageView := n + 3,
                 deferredPositionImage := n + 4, deferredPositionImageMemory := n + 5,
                 deferredPositionImageView := n + 6,
                 deferredNormalImage := n + 7, deferredNormalImageMemory := n + 8,
                 deferredNormalImageView := n + 9,
                 deferredDepthImage := n + 10, deferredDepthImageMemory := n + 11,
                 deferredDepthImageView := n + 12,
                 deferredFramebuffer := n + 13, deferredSampler := n + 14 }
        (L ++ [ ⟨n, .renderPass deferredRenderPassInfo⟩,
                ⟨n + 1, .image env.swapChain.width env.swapChain.height .R16G16B16A16_SFLOAT
                  [.COLOR_ATTACHMENT, .SAMPLED]⟩,
                ⟨n + 2, .deviceMemory (n + 1)⟩,
                ⟨n + 3, .imageView (n + 1) .R16G16B16A16_SFLOAT .COLOR⟩,
                ⟨n + 4, .image env.swapChain.width env.swapChain.height .R16G16B16A16_SFLOAT
                  [.COLOR_ATTACHMENT, .SAMPLED]⟩,
                ⟨n + 5, .deviceMemory (n + 4)⟩,
                ⟨n + 6, .imageView (n + 4) .R16G16B16A16_SFLOAT .COLOR⟩,
                ⟨n + 7, .image env.swapChain.width env.swapChain.height .R16G16B16A16_SFLOAT
                  [.COLOR_ATTACHMENT, .SAMPLED]⟩,
                ⟨n + 8, .deviceMemory (n + 7)⟩,
                ⟨n + 9, .imageView (n + 7) .R16G16B16A16_SFLOAT .COLOR⟩,
                ⟨n + 10, .image env.swapChain.width env.swapChain.height .depthFormat
                  [.DEPTH_STENCIL_ATTACHMENT]⟩,
                ⟨n + 11, .deviceMemory (n + 10)⟩,
                ⟨n + 12, .imageView (n + 10) .depthFormat .DEPTH⟩,
                ⟨n + 13, .framebuffer n [n + 3, n + 6, n + 9, n + 12]
                  env.swapChain.width env.swapChain.height⟩,
                ⟨n + 14, .sampler⟩ ])
        (n + 15) F)
      (fun _ => True) := by
  refine hoare_of_bind_pure ?_
  simp only [CreateDeferredRenderPass, M.bind_assoc]
  repeat (with_reducible first
    | apply holds_createOrThrow
    | apply holds_setFields
    | apply holds_ImageCreate
    | apply holds_ImageCreateView)
  exact holds_done () rfl (by simp) rfl

theorem objs_CreateCameraDescriptorSetLayout (r : Fields) (L : List Obj) (n : Handle)
    (F : List (ObjKind × Handle)) :
    Hoare (Holds r L n F) CreateCameraDescriptorSetLayout
      (fun _ => Holds { r with cameraDescriptorSetLayout := n }
        (L ++ [⟨n, .descriptorSetLayout cameraLayoutBindings⟩]) (n + 1) F)
      (fun _ => True) := by
  refine hoare_of_bind_pure ?_
  simp only [CreateCameraDescriptorSetLayout, M.bind_assoc]
  repeat (with_reducible first
    | apply holds_createOrThrow
    | apply holds_setFields)
  exact holds_done () rfl rfl rfl

theorem objs_CreateModelDescriptorSetLayout (r : Fields) (L : List Obj) (n : Handle)
    (F : List (ObjKind × Handle)) :
    Hoare (Holds r L n F) CreateModelDescriptorSetLayout
      (fun _ => Holds { r with modelDescriptorSetLayout := n }
        (L ++ [⟨n, .descriptorSetLayout modelLayoutBindings⟩]) (n + 1) F)
      (fun _ => True) := by
  refine hoare_of_bind_pure ?_
  simp only [CreateModelDescriptorSetLayout, M.bind_assoc]
  repeat (with_reducible first
    | apply holds_createOrThrow
    | apply holds_setFields)
  exact holds_done () rfl rfl rfl

theorem objs_CreateTimeDescriptorSetLayout (r : Fields) (L : List Obj) (n : Handle)
    (F : List (ObjKind × Handle)) :
    Hoare (Holds r L n F) CreateTimeDescriptorSetLayout
      (fun _ => Holds { r with timeDescriptorSetLayout := n }
        (L ++ [⟨n, .descriptorSetLayout timeLayoutBindings⟩]) (n + 1) F)
      (fun _ => True) := by
  refine hoare_of_bind_pure ?_
  simp only [CreateTimeDescriptorSetLayout, M.bind_assoc]
  repeat (with_reducible first
    | apply holds_createOrThrow
    | apply holds_setFields)
  exact holds_done () rfl rfl rfl

theorem objs_CreateComputeDescriptorSetLayout (r : Fields) (L : List Obj) (n : Handle)
    (F : List (ObjKind × Handle)) :
    Hoare (Holds r L n F) CreateComputeDescriptorSetLayout
      (fun _ => Holds { r with grassComputeDescriptorSetLayout := n }
        (L ++ [⟨n, .descriptorSetLayout computeLayoutBindings⟩]) (n + 1) F)
      (fun _ => True) := by
  refine hoare_of_bind_pure ?_
  simp only [CreateComputeDescriptorSetLayout, M.bind_assoc]
  repeat (with_reducible first
    | apply holds_createOrThrow
    | apply holds_setFields)
  exact holds_done () rfl rfl rfl

theorem objs_CreateDescriptorPool (env : Env) (r : Fields) (L : List Obj) (n : Handle)
    (F : List (ObjKind × Handle)) :
    Hoare (Holds r L n F) (CreateDescriptorPool env)
      (fun _ => Holds { r with descriptorPool := n }
        (L ++ [⟨n, .descriptorPool (descriptorPoolSizes env) 5⟩]) (n + 1) F)
      (fun _ => True) := by
  refine hoare_of_bind_pure ?_
  simp only [CreateDescriptorPool, M.bind_assoc]
  repeat (with_reducible first
    | apply holds_createOrThrow
    | apply holds_setFields)
  exact holds_done () rfl rfl rfl

theorem objs_CreateCameraDescriptorSet (env : Env) (r : Fields) (L : List Obj) (n : Handle)
    (F : List (ObjKind × Handle)) :
    Hoare (Holds r L n F) (CreateCameraDescriptorSet env)
      (fun _ => Holds { r with cameraDescriptorSet := n }
        (L ++ [⟨n, .descriptorSet r.descriptorPool (some r.cameraDescriptorSetLayout)⟩])
        (n + 1) F)
      (fun _ => True) := by
  refine hoare_of_bind_pure ?_
  simp only [CreateCameraDescriptorSet, M.bind_assoc]
  repeat (with_reducible first
    | apply holds_getFields
    | apply holds_allocateDescriptorSetsOrThrow
    | apply holds_setFields
    | apply holds_declareLocal
    | apply holds_vkUpdateDescriptorSets
    | apply holds_endLocal)
  exact holds_done () rfl rfl rfl

theorem objs_CreateTimeDescriptorSet (env : Env) (r : Fields) (L : List Obj) (n : Handle)
    (F : List (ObjKind × Handle)) :
    Hoare (Holds r L n F) (CreateTimeDescriptorSet env)
      (fun _ => Holds { r with timeDescriptorSet := n }
        (L ++ [⟨n, .descriptorSet r.descriptorPool (some r.timeDescriptorSetLayout)⟩])
        (n + 1) F)
      (fun _ => True) := by
  refine hoare_of_bind_pure ?_
  simp only [CreateTimeDescriptorSet, M.bind_assoc]
  repeat (with_reducible first
    | apply holds_getFields
    | apply holds_allocateDescriptorSetsOrThrow
    | apply holds_setFields
    | apply holds_declareLocal
    | apply holds_vkUpdateDescriptorSets
    | apply holds_endLocal)
  exact holds_done () rfl rfl rfl

theorem objs_CreateModelDescriptorSets (env : Env) (r : Fields) (L : List Obj) (n : Handle)
    (F : List (ObjKind × Handle)) :
    Hoare (Holds r L n F) (CreateModelDescriptorSets env)
      (fun _ => Holds
        { r with modelDescriptorSets := (List.range env.scene.models.length).map (n + ·) }
        (L ++ (List.range env.scene.models.length).map
          (fun i => ⟨n + i, .descriptorSet r.descriptorPool [r.modelDescriptorSetLayout][i]?⟩))
        (n + env.scene.models.length) F)
      (fun _ => True) := by
  refine hoare_of_bind_pure ?_
  simp only [CreateModelDescriptorSets, M.bind_assoc]
  repeat' (first
    | with_reducible (first
      | apply holds_getFields
      | apply holds_allocateDescriptorSetsOrThrow
      | apply holds_setFields
      | apply holds_declareLocal
      | apply holds_vkUpdateDescriptorSets
      | apply holds_endLocal
      | apply holds_pure_bind
      | exact holds_done _ rfl rfl rfl
      | refine holds_forRangeWith_const (fun i a _ => ?_) (fun a => ?_))
    | simp only [M.bind_assoc])
  exact holds_done () (by simp [length_resize]) (by simp [length_resize])
    (by simp [length_resize])

theorem objs_CreateGrassDescriptorSets (env : Env) (r : Fields) (L : List Obj) (n : Handle)
    (F : List (ObjKind × Handle)) :
    Hoare (Holds r L n F) (CreateGrassDescriptorSets env)
      (fun _ => Holds
        { r with grassDescriptorSets := (List.range env.scene.blades.length).map (n + ·) }
        (L ++ (List.range env.scene.blades.length).map
          (fun i => ⟨n + i, .descriptorSet r.descriptorPool [r.modelDescriptorSetLayout][i]?⟩))
        (n + env.scene.blades.length) F)
      (fun _ => True) := by
  refine hoare_of_bind_pure ?_
  simp only [CreateGrassDescriptorSets, M.bind_assoc]
  repeat' (first
    | with_reducible (first
      | apply holds_getFields
      | apply holds_allocateDescriptorSetsOrThrow
      | apply holds_setFields
      | apply holds_declareLocal
      | apply holds_vkUpdateDescriptorSets
      | apply holds_endLocal
      | apply holds_pure_bind
      | exact holds_done _ rfl rfl rfl
      | refine holds_forRangeWith_const (fun i a _ => ?_) (fun a => ?_))
    | simp only [M.bind_assoc])
  exact holds_done () (by simp [length_resize]) (by simp [length_resize])
    (by simp [length_resize])

theorem objs_CreateComputeDescriptorSets (env : Env) (r : Fields) (L : List Obj) (n : Handle)
    (F : List (ObjKind × Handle)) :
    Hoare (Holds r L n F) (CreateComputeDescriptorSets env)
      (fun _ => Holds
        { r with
          grassComputeDescriptorSets := (List.range env.scene.blades.length).map (n + ·) }
        (L ++ (List.range env.scene.blades.length).map
          (fun i =>
            ⟨n + i, .descriptorSet r.descriptorPool [r.grassComputeDescriptorSetLayout][i]?⟩))
        (n + env.scene.blades.length) F)
      (fun _ => True) := by
  refine hoare_of_bind_pure ?_
  simp only [CreateComputeDescriptorSets, M.bind_assoc]
  repeat' (first
    | with_reducible (first
      | apply holds_getFields
      | apply holds_allocateDescriptorSetsOrThrow
      | apply holds_setFields
      | apply holds_declareLocal
      | apply holds_vkUpdateDescriptorSets
      | apply holds_endLocal
      | apply holds_pure_bind
      | exact holds_done _ rfl rfl rfl
      | refine holds_forRangeWith_const (fun i a _ => ?_) (fun a => ?_))
    | simp only [M.bind_assoc])
  exact holds_done () (by simp [length_resize]) (by simp [length_resize])
    (by simp [length_resize])

theorem set_prefix_drop (p l : List Handle) (i : Nat) (x : Handle) (hp : p.length = i)
    (hi : i < l.length) : (p ++ l.drop i).set i x = p ++ [x] ++ l.drop (i + 1) := by
  subst hp
  rw [List.set_append_right _ _ (Nat.le_refl _), Nat.sub_self, List.drop_eq_getElem_cons hi,
    List.set_cons_zero, List.append_assoc]
  rfl

theorem objs_CreateFrameResources (env : Env) (r : Fields) (L : List Obj) (n : Handle)
    (F : List (ObjKind × Handle)) :
    Hoare (Holds r L n F) (CreateFrameResources env)
      (fun _ => Holds
        { r with
          imageViews := (List.range env.swapChain.count).map (n + ·),
          depthImage := n + env.swapChain.count,
          depthImageMemory := n + env.swapChain.count + 1,
          depthImageView := n + env.swapChain.count + 2,
          framebuffers := (List.range env.swapChain.count).map (n + env.swapChain.count + 3 + ·) }
        (L ++ (List.range env.swapChain.count).map
            (fun i => ⟨n + i, .imageView (env.swapChain.images.getD i VK_NULL_HANDLE)
              .swapChainFormat .COLOR⟩)
          ++ [ ⟨n + env.swapChain.count,
                .image env.swapChain.width env.swapChain.height .depthFormat
                  [.DEPTH_STENCIL_ATTACHMENT]⟩,
               ⟨n + env.swapChain.count + 1, .deviceMemory (n + env.swapChain.count)⟩,
               ⟨n + env.swapChain.count + 2,
                .imageView (n + env.swapChain.count) .depthFormat .DEPTH⟩ ]
          ++ (List.range env.swapChain.count).map
            (fun i => ⟨n + env.swapChain.count + 3 + i,
              .framebuffer r.renderPass [n + i, n + env.swapChain.count + 2]
                env.swapChain.width env.swapChain.height⟩))
        (n + env.swapChain.count + 3 + env.swapChain.count) F)
      (fun _ => True) := by
  refine hoare_of_bind_pure ?_
  simp only [CreateFrameResources, M.bind_assoc]
  apply holds_setFields
  refine hoare_conseq
    (holds_forRange env.swapChain.count _
      (fun i => { r with imageViews :=
        (List.range i).map (n + ·) ++ (resize r.imageViews env.swapChain.count).drop i })
      (fun i => L ++ (List.range i).map
        (fun j => ⟨n + j, .imageView (env.swapChain.images.getD j VK_NULL_HANDLE)
          .swapChainFormat .COLOR⟩))
      (fun i => n + i) (fun i hi => ?_) ?_)
    (fun s hs => holds_congr hs (by simp) (by simp) rfl) (fun _ _ h => h) (fun _ _ => trivial)
  · simp only [M.bind_assoc]
    apply holds_createOrThrow
    apply holds_setFields
    refine holds_done () ?_ ?_ rfl
    · simp only []
      rw [set_prefix_drop _ _ _ _ (by simp) (by rw [length_resize]; exact hi)]
      simp [List.range_succ]
    · simp [List.range_succ]
  · apply holds_ImageCreate
    apply holds_setFields
    apply holds_ImageCreateView
    apply holds_setFields
    apply holds_ImageTransitionLayout
    apply holds_setFields
    refine hoare_conseq
      (holds_forRange env.swapChain.count _
        (fun i => { r with
          imageViews := (List.range env.swapChain.count).map (n + ·),
          depthImage := n + env.swapChain.count,
          depthImageMemory := n + env.swapChain.count + 1,
          depthImageView := n + env.swapChain.count + 2,
          framebuffers := (List.range i).map (n + env.swapChain.count + 3 + ·) ++
            (resize r.framebuffers env.swapChain.count).drop i })
        (fun i => L ++ (List.range env.swapChain.count).map
            (fun j => ⟨n + j, .imageView (env.swapChain.images.getD j VK_NULL_HANDLE)
              .swapChainFormat .COLOR⟩)
          ++ [ ⟨n + env.swapChain.count,
                .image env.swapChain.width env.swapChain.height .depthFormat
                  [.DEPTH_STENCIL_ATTACHMENT]⟩,
               ⟨n + env.swapChain.count + 1, .deviceMemory (n + env.swapChain.count)⟩,
               ⟨n + env.swapChain.count + 2,
                .imageView (n + env.swapChain.count) .depthFormat .DEPTH⟩ ]
          ++ (List.range i).map
            (fun j => ⟨n + env.swapChain.count + 3 + j,
              .framebuffer r.renderPass [n + j, n + env.swapChain.count + 2]
                env.swapChain.width env.swapChain.height⟩))
        (fun i => n + env.swapChain.count + 3 + i) (fun i hi => ?_) ?_)
      (fun s hs => holds_congr hs (by simp [length_resize]) (by simp) rfl)
      (fun _ _ h => h) (fun _ _ => trivial)
    · simp only [M.bind_assoc]
      apply holds_getFields
      apply holds_createOrThrow
      apply holds_setFields
      refine holds_done () ?_ ?_ rfl
      · simp only []
        rw [set_prefix_drop _ _ _ _ (by simp) (by rw [length_resize]; exact hi)]
        simp [List.range_succ]
      · rw [getD_map_range _ _ _ hi]
        simp [List.range_succ]
    · exact holds_done () (by simp [length_resize]) rfl rfl

theorem objs_CreateGraphicsPipeline (r : Fields) (L : List Obj) (n : Handle)
    (F : List (ObjKind × Handle)) :
    Hoare (Holds r L n F) CreateGraphicsPipeline
      (fun _ => Holds
        { r with graphicsPipelineLayout := n + 2, graphicsPipeline := n + 3 }
        (L ++ [ ⟨n + 2, .pipelineLayout
                  [r.cameraDescriptorSetLayout, r.modelDescriptorSetLayout] []⟩,
                ⟨n + 3, .graphicsPipeline
                  { stages := [⟨.vertex, n⟩, ⟨.fragment, n + 1⟩],
                    topology := .TRIANGLE_LIST, cullMode := .BACK,
                    frontFace := .COUNTER_CLOCKWISE,
                    depthTestEnable := true, depthWriteEnable := true,
                    colorBlendAttachmentCount := 1,
                    colorBlendAttachments := [colorBlendAttachment],
                    patchControlPoints := none,
                    layout := n + 2, renderPass := r.renderPass, subpass := 0 }⟩ ])
        (n + 4) F)
      (fun _ => True) := by
  refine holds_fresh (fun hpos hfresh => ?_)
  refine hoare_of_bind_pure ?_
  simp only [CreateGraphicsPipeline, M.bind_assoc]
  repeat (with_reducible first
    | apply holds_ShaderModuleCreate
    | apply holds_getFields
    | apply holds_createOrThrow
    | apply holds_setFields)
  refine holds_vkDestroy L _ (.shaderModule _)
    (by simp only [List.append_assoc, List.cons_append, List.nil_append]; rfl) rfl hpos hfresh
    ?_ ?_
  · intro o ho
    simp only [List.mem_cons, List.mem_singleton, List.not_mem_nil, or_false] at ho
    rcases ho with rfl | rfl | rfl <;>
      repeat (first | exact Nat.lt_succ_self _ | apply Nat.lt_succ_of_lt)
  refine holds_vkDestroy L _ (.shaderModule _) rfl rfl (Nat.succ_pos _)
    (fun o ho => Nat.lt_succ_of_lt (hfresh o ho)) ?_ ?_
  · intro o ho
    simp only [List.mem_cons, List.mem_singleton, List.not_mem_nil, or_false] at ho
    rcases ho with rfl | rfl <;>
      repeat (first | exact Nat.lt_succ_self _ | apply Nat.lt_succ_of_lt)
  exact holds_done () rfl rfl rfl

theorem objs_CreateGrassPipeline (r : Fields) (L : List Obj) (n : Handle)
    (F : List (ObjKind × Handle)) :
    Hoare (Holds r L n F) CreateGrassPipeline
      (fun _ => Holds
        { r with grassPipelineLayout := n + 4, grassPipeline := n + 5 }
        (L ++ [ ⟨n + 4, .pipelineLayout
                  [r.cameraDescriptorSetLayout, r.modelDescriptorSetLayout] []⟩,
                ⟨n + 5, .graphicsPipeline
                  { stages := [⟨.vertex, n⟩, ⟨.tessellationControl, n + 1⟩,
                               ⟨.tessellationEvaluation, n + 2⟩, ⟨.fragment, n + 3⟩],
                    topology := .PATCH_LIST, cullMode := .NONE,
                    frontFace := .COUNTER_CLOCKWISE,
                    depthTestEnable := true, depthWriteEnable := true,
                    colorBlendAttachmentCount := 3,
                    colorBlendAttachments :=
                      [colorBlendAttachment, colorBlendAttachment, colorBlendAttachment],
                    patchControlPoints := some 1,
                    layout := n + 4, renderPass := r.deferredRenderPass, subpass := 0 }⟩ ])
        (n + 6) F)
      (fun _ => True) := by
  refine holds_fresh (fun hpos hfresh => ?_)
  refine hoare_of_bind_pure ?_
  simp only [CreateGrassPipeline, M.bind_assoc]
  repeat (with_reducible first
    | apply holds_ShaderModuleCreate
    | apply holds_getFields
    | apply holds_createOrThrow
    | apply holds_setFields)
  refine holds_vkDestroy L _ (.shaderModule _)
    (by simp only [List.append_assoc, List.cons_append, List.nil_append]; rfl) rfl hpos hfresh
    ?_ ?_
  · intro o ho
    simp only [List.mem_cons, List.mem_singleton, List.not_mem_nil, or_false] at ho
    rcases ho with rfl | rfl | rfl | rfl | rfl <;>
      repeat (first | exact Nat.lt_succ_self _ | apply Nat.lt_succ_of_lt)
  refine holds_vkDestroy L _ (.shaderModule _) rfl rfl (Nat.succ_pos _)
    (fun o ho => Nat.lt_succ_of_lt (hfresh o ho)) ?_ ?_
  · intro o ho
    simp only [List.mem_cons, List.mem_singleton, List.not_mem_nil, or_false] at ho
    rcases ho with rfl | rfl | rfl | rfl <;>
      repeat (first | exact Nat.lt_succ_self _ | apply Nat.lt_succ_of_lt)
  refine holds_vkDestroy L _ (.shaderModule _) rfl rfl (Nat.succ_pos _)
    (fun o ho => Nat.lt_succ_of_lt (Nat.lt_succ_of_lt (hfresh o ho))) ?_ ?_
  · intro o ho
    simp only [List.mem_cons, List.mem_singleton, List.not_mem_nil, or_false] at ho
    rcases ho with rfl | rfl | rfl <;>
      repeat (first | exact Nat.lt_succ_self _ | apply Nat.lt_succ_of_lt)
  refine holds_vkDestroy L _ (.shaderModule _) rfl rfl (Nat.succ_pos _)
    (fun o ho => Nat.lt_succ_of_lt (Nat.lt_succ_of_lt (Nat.lt_succ_of_lt (hfresh o ho)))) ?_ ?_
  · intro o ho
    simp only [List.mem_cons, List.mem_singleton, List.not_mem_nil, or_false] at ho
    rcases ho with rfl | rfl <;>
      repeat (first | exact Nat.lt_succ_self _ | apply Nat.lt_succ_of_lt)
  exact holds_done () rfl rfl rfl

theorem objs_CreateComputePipeline (r : Fields) (L : List Obj) (n : Handle)
    (F : List (ObjKind × Handle)) :
    Hoare (Holds r L n F) CreateComputePipeline
      (fun _ => Holds
        { r with computePipelineLayout := n + 1, computePipeline := n + 2 }
        (L ++ [ ⟨n + 1, .pipelineLayout
                  [r.cameraDescriptorSetLayout, r.timeDescriptorSetLayout,
                   r.grassComputeDescriptorSetLayout]
                  [⟨.bits [.compute], 0, sizeofInt⟩]⟩,
                ⟨n + 2, .computePipeline ⟨.compute, n⟩ (n + 1)⟩ ])
        (n + 3) F)
      (fun _ => True) := by
  refine holds_fresh (fun hpos hfresh => ?_)
  refine hoare_of_bind_pure ?_
  simp only [CreateComputePipeline, M.bind_assoc]
  repeat (with_reducible first
    | apply holds_ShaderModuleCreate
    | apply holds_getFields
    | apply holds_createOrThrow
    | apply holds_setFields)
  refine holds_vkDestroy L _ (.shaderModule _)
    (by simp only [List.append_assoc, List.cons_append, List.nil_append]; rfl) rfl hpos hfresh
    ?_ ?_
  · intro o ho
    simp only [List.mem_cons, List.mem_singleton, List.not_mem_nil, or_false] at ho
    rcases ho with rfl | rfl <;>
      repeat (first | exact Nat.lt_succ_self _ | apply Nat.lt_succ_of_lt)
  exact holds_done () rfl rfl rfl

theorem objs_RecordCommandBuffers (env : Env) (r : Fields) (L : List Obj) (n : Handle)
    (F : List (ObjKind × Handle)) :
    Hoare (Holds r L n F) (RecordCommandBuffers env)
      (fun _ => Holds
        { r with commandBuffers := (List.range env.swapChain.count).map (n + ·) }
        (L ++ (List.range env.swapChain.count).map
          (fun i => ⟨n + i, .commandBuffer r.graphicsCommandPool⟩))
        (n + env.swapChain.count) F)
      (fun _ => True) := by
  refine hoare_of_bind_pure ?_
  simp only [RecordCommandBuffers, M.bind_assoc]
  repeat' (first
    | with_reducible (first
      | apply holds_getFields
      | apply holds_allocateCommandBuffersOrThrow
      | apply holds_setFields
      | apply holds_vkCmd
      | apply holds_throwUnless
      | apply holds_pure_bind
      | exact holds_done _ rfl rfl rfl
      | refine holds_vkBeginCommandBuffer (fun _ => ?_)
      | refine holds_vkEndCommandBuffer (fun _ => ?_)
      | refine holds_forRange_const (fun _ _ => ?_) ?_)
    | simp only [M.bind_assoc])
  exact holds_done () (by simp [length_resize]) (by simp [length_resize])
    (by simp [length_resize])

theorem objs_RecordDeferredCommandBuffer (env : Env) (r : Fields) (L : List Obj) (n : Handle)
    (F : List (ObjKind × Handle)) :
    Hoare (Holds r L n F) (RecordDeferredCommandBuffer env)
      (fun _ => Holds
        { r with deferredCommandBuffer := n, deferredSemaphore := n + 1 }
        (L ++ [⟨n, .commandBuffer r.graphicsCommandPool⟩, ⟨n + 1, .semaphore⟩])
        (n + 2) F)
      (fun _ => True) := by
  refine hoare_of_bind_pure ?_
  simp only [RecordDeferredCommandBuffer, M.bind_assoc]
  repeat' (first
    | with_reducible (first
      | apply holds_getFields
      | apply holds_allocateCommandBuffersOrThrow
      | apply holds_createOrThrow
      | apply holds_setFields
      | apply holds_vkCmd
      | apply holds_throwUnless
      | apply holds_pure_bind
      | exact holds_done _ rfl rfl rfl
      | refine holds_vkBeginCommandBuffer (fun _ => ?_)
      | refine holds_vkEndCommandBuffer (fun _ => ?_)
      | refine holds_forRange_const (fun _ _ => ?_) ?_)
    | simp only [M.bind_assoc])
  exact holds_done () rfl (by simp [List.range_succ]) rfl

theorem objs_RecordComputeCommandBuffer (env : Env) (r : Fields) (L : List Obj) (n : Handle)
    (F : List (ObjKind × Handle)) :
    Hoare (Holds r L n F) (RecordComputeCommandBuffer env)
      (fun _ => Holds
        { r with computeCommandBuffer := n }
        (L ++ [⟨n, .commandBuffer r.computeCommandPool⟩])
        (n + 1) F)
      (fun _ => True) := by
  refine hoare_of_bind_pure ?_
  simp only [RecordComputeCommandBuffer, M.bind_assoc]
  repeat' (first
    | with_reducible (first
      | apply holds_getFields
      | apply holds_allocateCommandBuffersOrThrow
      | apply holds_setFields
      | apply holds_vkCmd
      | apply holds_throwUnless
      | apply holds_pure_bind
      | exact holds_done _ rfl rfl rfl
      | refine holds_vkBeginCommandBuffer (fun _ => ?_)
      | refine holds_vkEndCommandBuffer (fun _ => ?_)
      | refine holds_forRange_const (fun _ _ => ?_) ?_)
    | simp only [M.bind_assoc])
  exact holds_done () rfl (by simp [List.range_succ]) rfl

/-! ## What the three recording functions leave, one after the other -/

/-- A triple, and beside it what a run that returns is known to reach. -/
theorem hoare_and_run {α : Type} {P : State → Prop} {m : M α} {Q : α → State → Prop}
    {G : State → Prop} (h1 : Hoare P m Q (fun _ => True))
    (h2 : ∀ s, P s → (m.run s).error? = none → G (m.run s).st) :
    Hoare P m (fun a st => Q a st ∧ G st) (fun _ => True) := by
  intro s hs
  have a1 := h1 s hs
  have a2 := h2 s hs
  rcases hk : m.run s with ⟨res, s1⟩
  rw [hk] at a1 a2
  cases res with
  | error e => trivial
  | ok a => exact ⟨a1, a2 rfl⟩

/-- What a returning run reaches satisfies the postcondition. -/
theorem hoare_returns {α : Type} {P : State → Prop} {m : M α} {Q : State → Prop}
    {E : State → Prop} (h : Hoare P m (fun _ => Q) E) (s : State) (hs : P s)
    (hok : (m.run s).error? = none) : Q (m.run s).st := by
  have h1 := h s hs
  rcases hk : m.run s with ⟨res, s1⟩
  rw [hk] at h1 hok
  cases res with
  | error e => simp at hok
  | ok a => exact h1

/-- `RecordDeferredCommandBuffer` records into its new command buffer only. -/
theorem recorded_fill_frame (env : Env) (s : State)
    (h : ((RecordDeferredCommandBuffer env).run s).error? = none) (x : Handle)
    (hx : x ≠ s.vk.nextHandle) :
    ((RecordDeferredCommandBuffer env).run s).st.vk.recorded x = s.vk.recorded x := by
  simp only [RecordDeferredCommandBuffer, vkCmd_eq, vkCmds_append, forRange_vkCmds,
    vkCmds_append_bind] at h ⊢
  by_cases h1 : s.vk.callNo ∈ s.vk.failures <;>
  by_cases h2 : s.vk.callNo + 1 ∈ s.vk.failures <;>
  by_cases h3 : s.vk.callNo + 1 + 1 ∈ s.vk.failures <;>
  by_cases h4 : s.vk.callNo + 1 + 1 + 1 ∈ s.vk.failures <;>
  simp [run_bind, run_allocateOne, run_createOrThrow, vkBeginCommandBuffer,
    vkEndCommandBuffer, h1, h2, h3, h4, Vk.record, hx] at h ⊢

/-- `RecordComputeCommandBuffer` records into its new command buffer only. -/
theorem recorded_cull_frame (env : Env) (s : State)
    (h : ((RecordComputeCommandBuffer env).run s).error? = none) (x : Handle)
    (hx : x ≠ s.vk.nextHandle) :
    ((RecordComputeCommandBuffer env).run s).st.vk.recorded x = s.vk.recorded x := by
  simp only [RecordComputeCommandBuffer, vkCmd_eq, vkCmds_append, forRange_vkCmds,
    vkCmds_append_bind] at h ⊢
  by_cases h1 : s.vk.callNo ∈ s.vk.failures <;>
  by_cases h2 : s.vk.callNo + 1 ∈ s.vk.failures <;>
  by_cases h3 : s.vk.callNo + 1 + 1 ∈ s.vk.failures <;>
  simp [run_bind, run_allocateOne, vkBeginCommandBuffer, vkEndCommandBuffer, h1, h2, h3,
    Vk.record, hx] at h ⊢

/-- The handle of the new Fill command buffer, and of the new Cull one. -/
theorem fill_buffer_handle (env : Env) (s : State)
    (h : ((RecordDeferredCommandBuffer env).run s).error? = none) :
    ((RecordDeferredCommandBuffer env).run s).st.r.deferredCommandBuffer = s.vk.nextHandle := by
  simp only [RecordDeferredCommandBuffer, vkCmd_eq, vkCmds_append, forRange_vkCmds,
    vkCmds_append_bind] at h ⊢
  by_cases h1 : s.vk.callNo ∈ s.vk.failures <;>
  by_cases h2 : s.vk.callNo + 1 ∈ s.vk.failures <;>
  by_cases h3 : s.vk.callNo + 1 + 1 ∈ s.vk.failures <;>
  by_cases h4 : s.vk.callNo + 1 + 1 + 1 ∈ s.vk.failures <;>
  simp [run_bind, run_allocateOne, run_createOrThrow, vkBeginCommandBuffer,
    vkEndCommandBuffer, h1, h2, h3, h4] at h ⊢

theorem cull_buffer_handle (env : Env) (s : State)
    (h : ((RecordComputeCommandBuffer env).run s).error? = none) :
    ((RecordComputeCommandBuffer env).run s).st.r.computeCommandBuffer = s.vk.nextHandle := by
  simp only [RecordComputeCommandBuffer, vkCmd_eq, vkCmds_append, forRange_vkCmds,
    vkCmds_append_bind] at h ⊢
  by_cases h1 : s.vk.callNo ∈ s.vk.failures <;>
  by_cases h2 : s.vk.callNo + 1 ∈ s.vk.failures <;>
  by_cases h3 : s.vk.callNo + 1 + 1 ∈ s.vk.failures <;>
  simp [run_bind, run_allocateOne, vkBeginCommandBuffer, vkEndCommandBuffer, h1, h2, h3] at h ⊢

/-- The three recording functions in a row: the objects and fields they
    leave, and the sequences in the command buffers they allocate. -/
theorem objs_recordAll (env : Env) (r : Fields) (L : List Obj) (n : Handle)
    (F : List (ObjKind × Handle)) :
    Hoare (Holds r L n F)
      (RecordCommandBuffers env >>= fun _ =>
        RecordDeferredCommandBuffer env >>= fun _ => RecordComputeCommandBuffer env)
      (fun _ s =>
        Holds
          { r with commandBuffers := (List.range env.swapChain.count).map (n + ·),
                   deferredCommandBuffer := n + env.swapChain.count,
                   deferredSemaphore := n + env.swapChain.count + 1,
                   computeCommandBuffer := n + env.swapChain.count + 2 }
          (L ++ (List.range env.swapChain.count).map
              (fun i => ⟨n + i, .commandBuffer r.graphicsCommandPool⟩)
            ++ [ ⟨n + env.swapChain.count, .commandBuffer r.graphicsCommandPool⟩,
                 ⟨n + env.swapChain.count + 1, .semaphore⟩,
                 ⟨n + env.swapChain.count + 2, .commandBuffer r.computeCommandPool⟩ ])
          (n + env.swapChain.count + 3) F s
        ∧ (∀ i, i < env.swapChain.count →
            s.vk.recorded (n + i) = compositeCommands env r i)
        ∧ s.vk.recorded (n + env.swapChain.count) = fillCommands env r
        ∧ s.vk.recorded (n + env.swapChain.count + 2) = cullCommands env r)
      (fun _ => True) := by
  refine hoare_bind
    (hoare_and_run (G := fun st => ∀ i, i < env.swapChain.count →
        st.vk.recorded (n + i) = compositeCommands env r i)
      (objs_RecordCommandBuffers env r L n F) (fun s hs hok i hi => ?_)) (fun _ => ?_)
  · obtain ⟨hr, _, hn, _⟩ := hs
    rw [← hr, ← hn]
    exact (recorded_composite env s hok).2 i hi
  refine hoare_bind
    (hoare_and_run
      (G := fun st => (∀ i, i < env.swapChain.count →
        st.vk.recorded (n + i) = compositeCommands env r i)
        ∧ st.vk.recorded (n + env.swapChain.count) = fillCommands env r)
      (hoare_conseq (objs_RecordDeferredCommandBuffer env _ _ _ F) (fun _ hs => hs.1)
        (fun _ _ hq => hq) (fun _ _ => trivial))
      (fun s hs hok => ?_)) (fun _ => ?_)
  · obtain ⟨⟨hr, _, hn, _⟩, hrec⟩ := hs
    constructor
    · intro i hi
      have hne : n + i ≠ s.vk.nextHandle := by
        rw [hn]
        exact Nat.ne_of_lt (Nat.add_lt_add_left hi n)
      rw [recorded_fill_frame env s hok _ hne]
      exact hrec i hi
    · have h1 := recorded_fill env s hok
      rw [fill_buffer_handle env s hok, hn, hr] at h1
      exact h1
  refine hoare_conseq
    (hoare_and_run
      (G := fun st => (∀ i, i < env.swapChain.count →
        st.vk.recorded (n + i) = compositeCommands env r i)
        ∧ st.vk.recorded (n + env.swapChain.count) = fillCommands env r
        ∧ st.vk.recorded (n + env.swapChain.count + 2) = cullCommands env r)
      (hoare_conseq (objs_RecordComputeCommandBuffer env _ _ _ F) (fun _ hs => hs.1)
        (fun _ _ hq => hq) (fun _ _ => trivial))
      (fun s hs hok => ?_))
    (fun _ hs => hs) (fun _ st hq => ⟨holds_congr hq.1 rfl ?_ rfl, hq.2⟩) (fun _ _ => trivial)
  · obtain ⟨⟨hr, _, hn, _⟩, hrec, hfill⟩ := hs
    refine ⟨fun i hi => ?_, ?_, ?_⟩
    · have hne : n + i ≠ s.vk.nextHandle := by
        rw [hn]
        exact Nat.ne_of_lt
          (Nat.lt_of_lt_of_le (Nat.add_lt_add_left hi n) (Nat.le_add_right _ 2))
      rw [recorded_cull_frame env s hok _ hne]
      exact hrec i hi
    · have hne : n + env.swapChain.count ≠ s.vk.nextHandle := by
        rw [hn]
        exact Nat.ne_of_lt (Nat.lt_add_of_pos_right (by decide))
      rw [recorded_cull_frame env s hok _ hne]
      exact hfill
    · have h1 := recorded_cull env s hok
      rw [cull_buffer_handle env s hok, hn, hr] at h1
      exact h1
  · simp only [List.append_assoc, List.cons_append, List.nil_append]

/-! ## What the constructor leaves -/

/-- A constructor that returns leaves the member fields `constructedFields`
    and has added the live objects `constructedLive`, whatever the fields
    held before; it released nothing that was not live, and its command
    buffers hold the sequences for the scene. -/
theorem objs_construct (env : Env) (r : Fields) (L : List Obj) (n : Handle)
    (F : List (ObjKind × Handle)) :
    Hoare (Holds r L n F) (construct env)
      (fun _ s => Holds (constructedFields env n) (L ++ constructedLive env n)
          (constructedNext env n) F s
        ∧ SequencesRecorded env (constructedFields env n) s)
      (fun _ => True) := by
  unfold construct
  refine hoare_bind (objs_CreateCommandPools env _ _ _ _) (fun _ => ?_)
  refine hoare_bind (objs_CreateRenderPass _ _ _ _) (fun _ => ?_)
  refine hoare_bind (objs_CreateDeferredRenderPass env _ _ _ _) (fun _ => ?_)
  refine hoare_bind (objs_CreateCameraDescriptorSetLayout _ _ _ _) (fun _ => ?_)
  refine hoare_bind (objs_CreateModelDescriptorSetLayout _ _ _ _) (fun _ => ?_)
  refine hoare_bind (objs_CreateTimeDescriptorSetLayout _ _ _ _) (fun _ => ?_)
  refine hoare_bind (objs_CreateComputeDescriptorSetLayout _ _ _ _) (fun _ => ?_)
  refine hoare_bind (objs_CreateDescriptorPool env _ _ _ _) (fun _ => ?_)
  refine hoare_bind (objs_CreateCameraDescriptorSet env _ _ _ _) (fun _ => ?_)
  refine hoare_bind (objs_CreateModelDescriptorSets env _ _ _ _) (fun _ => ?_)
  refine hoare_bind (objs_CreateGrassDescriptorSets env _ _ _ _) (fun _ => ?_)
  refine hoare_bind (objs_CreateTimeDescriptorSet env _ _ _ _) (fun _ => ?_)
  refine hoare_bind (objs_CreateComputeDescriptorSets env _ _ _ _) (fun _ => ?_)
  refine hoare_bind (objs_CreateFrameResources env _ _ _ _) (fun _ => ?_)
  refine hoare_bind (objs_CreateGraphicsPipeline _ _ _ _) (fun _ => ?_)
  refine hoare_bind (objs_CreateGrassPipeline _ _ _ _) (fun _ => ?_)
  refine hoare_bind (objs_CreateComputePipeline _ _ _ _) (fun _ => ?_)
  refine hoare_conseq (objs_recordAll env _ _ _ _) (fun _ hs => hs)
    (fun _ s hq => ⟨holds_congr hq.1 ?_ ?_ ?_, fun i hi => ?_, ?_, ?_⟩) (fun _ _ => trivial)
  · rfl
  · simp only [constructedLive, constructedBase, constructedSets, constructedFrame,
      constructedPipelines, constructedCommandBuffers, List.append_assoc, List.cons_append,
      List.nil_append]
    rfl
  · rfl
  · have h1 : (constructedFields env n).commandBuffers.getD i VK_NULL_HANDLE
        = pipelineBase env n + 13 + i := getD_map_range _ _ _ hi
    rw [h1]
    exact hq.2.1 i hi
  · exact hq.2.2.1
  · exact hq.2.2.2

theorem holds_fresh_state (failures : List Nat) :
    Holds Fields.null [] 1 [] (State.fresh failures) :=
  ⟨rfl, rfl, rfl, rfl, Nat.one_pos, fun _ h => absurd h (List.not_mem_nil _)⟩

/-- The state a constructor that returns reaches on a device on which
    nothing has been created. -/
theorem constructed_state (env : Env) (failures : List Nat)
    (h : ((construct env).run (State.fresh failures)).error? = none) :
    Holds (constructedFields env 1) (constructedLive env 1) (constructedNext env 1) []
        ((construct env).run (State.fresh failures)).st
    ∧ SequencesRecorded env (constructedFields env 1)
        ((construct env).run (State.fresh failures)).st := by
  have key := hoare_returns (objs_construct env Fields.null [] 1 []) (State.fresh failures)
    (holds_fresh_state failures) h
  simpa using key

/-! ## The destructor as a list of driver calls -/

@[simp] theorem run_vkDestroyPool (k : ObjKind) (h : Handle) (s : State) :
    (vkDestroyPool k h).run s = ⟨.ok (), { s with vk := s.vk.destroyPool k h }⟩ := rfl

theorem releaseAll_append (d : Vk) (xs ys : List Release) :
    d.releaseAll (xs ++ ys) = (d.releaseAll xs).releaseAll ys := by
  simp [Vk.releaseAll, List.foldl_append]

theorem releaseAll_cons (d : Vk) (x : Release) (xs : List Release) :
    d.releaseAll (x :: xs) = (x.apply d |> fun d1 => d1.releaseAll xs) := rfl

theorem releaseAll_nil (d : Vk) : d.releaseAll [] = d := rfl

/-- A loop that releases the entries of a vector one by one. -/
theorem run_forRange_vkDestroy (k : ObjKind) (l : List Handle) (n : Nat) (hn : n ≤ l.length)
    (s : State) :
    (forRange n fun i => vkDestroy k (l.getD i VK_NULL_HANDLE)).run s =
      ⟨.ok (), { s with vk := s.vk.releaseAll ((l.take n).map fun h => ⟨false, k, h⟩) }⟩ := by
  induction n with
  | zero => rfl
  | succ m ih =>
    have hm : m < l.length := hn
    rw [forRange_succ, run_bind, ih (Nat.le_of_lt hm)]
    simp only [run_vkDestroy]
    rw [List.take_succ, List.map_append, releaseAll_append]
    simp [List.getD, List.getElem?_eq_getElem hm, Vk.releaseAll, Release.apply]

theorem run_vkFreeCommandBuffers (l : List Handle) (s : State) :
    (vkFreeCommandBuffers l).run s =
      ⟨.ok (), { s with vk := s.vk.releaseAll (l.map fun h => ⟨false, .commandBuffer, h⟩) }⟩ := by
  unfold vkFreeCommandBuffers
  rw [run_forRange_vkDestroy _ _ _ (Nat.le_refl _), List.take_length]

theorem releases_map_destroy (k : ObjKind) (l : List Handle) :
    (l.map (TeardownCall.destroy k)).flatMap TeardownCall.releases
      = l.map fun h => ⟨false, k, h⟩ := by
  induction l with
  | nil => rfl
  | cons a t ih =>
    rw [List.map_cons, List.flatMap_cons, ih]
    rfl

theorem run_DestroyFrameResources (s : State) :
    DestroyFrameResources.run s =
      ⟨.ok (), { s with vk := s.vk.teardown (destroyFrameResourcesCalls s.r) }⟩ := by
  unfold DestroyFrameResources
  simp only [run_bind, run_getFields, run_forRange_vkDestroy _ _ _ (Nat.le_refl _),
    List.take_length, run_vkDestroy]
  simp only [Vk.teardown, destroyFrameResourcesCalls, List.flatMap_append, List.flatMap_cons,
    List.flatMap_nil, releases_map_destroy, TeardownCall.releases, releaseAll_append,
    List.append_nil]
  rfl

/-- The destructor does to the device what its calls do, one after the
    other, and returns. -/
theorem run_destruct (s : State) :
    destruct.run s = ⟨.ok (), { s with vk := s.vk.teardown (destructCalls s.r) }⟩ := by
  unfold destruct
  simp only [run_bind, run_getFields, run_vkFreeCommandBuffers, run_vkDestroy,
    run_vkDestroyPool, run_DestroyFrameResources]
  simp only [Vk.teardown, destructCalls, destructHead, destructTail, List.flatMap_append,
    List.flatMap_cons, List.flatMap_nil, TeardownCall.releases, releaseAll_append,
    List.append_nil, List.nil_append, List.map_cons, List.map_nil]
  rfl

/-! ## Releasing every object once -/

theorem kind_of_allocatedFrom (o : Obj) (p : Handle) (h : o.allocatedFrom p = true) :
    o.info.kind = .descriptorSet ∨ o.info.kind = .commandBuffer := by
  unfold Obj.allocatedFrom at h
  cases hi : o.info <;> simp [hi] at h <;> simp [Info.kind]

/-- A release of a live object of the right kind logs no fault and takes out
    of the live set exactly what it frees. -/
theorem apply_of_backed (d : Vk) (x : Release) (h0 : x.handle ≠ VK_NULL_HANDLE)
    (hb : ∃ o ∈ d.live, o.handle = x.handle ∧ o.info.kind = x.kind) :
    (x.apply d).faults = d.faults
    ∧ (x.apply d).live = d.live.filter (fun o => !x.frees o) := by
  obtain ⟨o, ho, hh, hk⟩ := hb
  have hlive : d.isLiveOfKind x.kind x.handle = true := by
    unfold Vk.isLiveOfKind
    rw [List.any_eq_true]
    exact ⟨o, ho, by simp [hh, hk]⟩
  unfold Release.apply
  cases hp : x.pool
  · simp only [Bool.false_eq_true, if_false]
    unfold Vk.destroy
    rw [if_neg h0, if_pos hlive]
    refine ⟨rfl, ?_⟩
    show d.live.filter _ = _
    congr 1
    funext o1
    simp [Release.frees, hp]
  · simp only [if_true]
    unfold Vk.destroyPool
    rw [if_neg h0, if_pos hlive]
    refine ⟨rfl, ?_⟩
    show d.live.filter _ = _
    congr 1
    funext o1
    simp [Release.frees, hp]

/-- Releases of live objects, no two of the same handle, with no command
    buffer and no binding instance released after a pool: no fault is
    logged, and what stays live is what no release frees. -/
theorem releaseAll_of_backed (xs : List Release) :
    ∀ (d : Vk), (∀ x ∈ xs, x.handle ≠ VK_NULL_HANDLE) →
    (∀ x ∈ xs, ∃ o ∈ d.live, o.handle = x.handle ∧ o.info.kind = x.kind) →
    xs.Pairwise (fun x y => x.handle ≠ y.handle
      ∧ (x.pool = true → y.kind ≠ .descriptorSet ∧ y.kind ≠ .commandBuffer)) →
    (d.releaseAll xs).faults = d.faults
    ∧ (d.releaseAll xs).live = d.live.filter (fun o => xs.all fun x => !x.frees o) := by
  induction xs with
  | nil =>
    intro d _ _ _
    exact ⟨rfl, by simp [Vk.releaseAll]⟩
  | cons x rest ih =>
    intro d h0 hb hp
    obtain ⟨hx, hrest⟩ := List.pairwise_cons.1 hp
    obtain ⟨f1, l1⟩ := apply_of_backed d x (h0 x (List.mem_cons_self _ _))
      (hb x (List.mem_cons_self _ _))
    have hb1 : ∀ y ∈ rest, ∃ o ∈ (x.apply d).live, o.handle = y.handle ∧ o.info.kind = y.kind := by
      intro y hy
      obtain ⟨o, ho, hh, hk⟩ := hb y (List.mem_cons_of_mem _ hy)
      refine ⟨o, ?_, hh, hk⟩
      rw [l1, List.mem_filter]
      refine ⟨ho, ?_⟩
      obtain ⟨hne, hpool⟩ := hx y hy
      have e1 : (o.handle == x.handle) = false := by
        rw [hh]
        simpa using fun e => hne e.symm
      have e2 : (x.pool && o.allocatedFrom x.handle) = false := by
        cases hxp : x.pool
        · rfl
        · rcases hal : o.allocatedFrom x.handle with _ | _
          · rfl
          · obtain ⟨k1, k2⟩ := hpool hxp
            rcases kind_of_allocatedFrom o _ hal with hk1 | hk1
            · exact absurd (hk.symm.trans hk1) k1
            · exact absurd (hk.symm.trans hk1) k2
      simp [Release.frees, e1, e2]
    obtain ⟨f2, l2⟩ := ih (x.apply d) (fun y hy => h0 y (List.mem_cons_of_mem _ hy)) hb1 hrest
    refine ⟨?_, ?_⟩
    · show ((x.apply d).releaseAll rest).faults = d.faults
      rw [f2, f1]
    · show ((x.apply d).releaseAll rest).live = _
      rw [l2, l1, List.filter_filter]
      congr 1
      funext o
      simp [List.all_cons, Bool.and_comm]

/-- The condition on the order of the releases holds when no handle comes
    twice and the releases of pools come after those of every command buffer
    and binding instance. -/
theorem pairwise_of_nodup_split (pre post : List Release)
    (hn : ((pre ++ post).map fun x => x.handle).Nodup)
    (hpre : ∀ x ∈ pre, x.pool = false)
    (hpost : ∀ y ∈ post, y.kind ≠ .descriptorSet ∧ y.kind ≠ .commandBuffer) :
    (pre ++ post).Pairwise (fun x y => x.handle ≠ y.handle
      ∧ (x.pool = true → y.kind ≠ .descriptorSet ∧ y.kind ≠ .commandBuffer)) := by
  have h1 : (pre ++ post).Pairwise (fun x y => x.handle ≠ y.handle) :=
    List.pairwise_map.1 hn
  rw [List.pairwise_append] at h1 ⊢
  obtain ⟨a, b, c⟩ := h1
  refine ⟨a.imp_of_mem ?_, b.imp_of_mem ?_, ?_⟩
  · intro x y hx _ hne
    exact ⟨hne, fun hp => absurd hp (by simp [hpre x hx])⟩
  · intro x y _ hy hne
    exact ⟨hne, fun _ => hpost y hy⟩
  · intro x hx y hy
    exact ⟨c x hx y hy, fun _ => hpost y hy⟩

/-- The releases of the destructor of a constructed renderer, in order. -/
theorem releases_constructed (env : Env) (n0 : Handle) :
    (destructCalls (constructedFields env n0)).flatMap TeardownCall.releases
      = earlyReleases env n0 ++ lateReleases env n0 := by
  simp only [destructCalls, destructHead, destructTail, destroyFrameResourcesCalls,
    constructedFields, List.flatMap_append, List.flatMap_cons, List.flatMap_nil,
    releases_map_destroy, TeardownCall.releases, List.append_nil, List.nil_append,
    List.map_cons, List.map_nil, earlyReleases, lateReleases,
    List.append_assoc, List.cons_append]
  simp only [List.map_map, Function.comp_def]

theorem early_not_pool (env : Env) (n0 : Handle) :
    ∀ x ∈ earlyReleases env n0, x.pool = false := by
  intro x hx
  simp only [earlyReleases, List.mem_append, List.mem_map, List.mem_range, List.mem_cons,
    List.mem_singleton, List.not_mem_nil, or_false] at hx
  rcases hx with ⟨i, -, rfl⟩ | h
  · rfl
  · rcases h with rfl | rfl | rfl | rfl | rfl | rfl | rfl | rfl | rfl | rfl | rfl | rfl <;> rfl

theorem late_kinds (env : Env) (n0 : Handle) :
    ∀ y ∈ lateReleases env n0, y.kind ≠ .descriptorSet ∧ y.kind ≠ .commandBuffer := by
  intro y hy
  simp only [lateReleases, List.mem_append, List.mem_map, List.mem_range, List.mem_cons,
    List.mem_singleton, List.not_mem_nil, or_false] at hy
  rcases hy with (((h | ⟨i, -, rfl⟩) | h) | ⟨i, -, rfl⟩) | h
  · rcases h with rfl | rfl | rfl <;> exact ⟨by simp, by simp⟩
  · exact ⟨by simp, by simp⟩
  · rcases h with rfl | rfl | rfl <;> exact ⟨by simp, by simp⟩
  · exact ⟨by simp, by simp⟩
  · rcases h with rfl | rfl | rfl | rfl | rfl | rfl | rfl | rfl | rfl | rfl | rfl | rfl | rfl
      | rfl | rfl | rfl | rfl <;> exact ⟨by simp, by simp⟩

set_option maxHeartbeats 4000000 in
/-- No handle is released twice. -/
theorem releases_nodup (env : Env) (n0 : Handle) :
    ((earlyReleases env n0 ++ lateReleases env n0).map fun x => x.handle).Nodup := by
  simp only [earlyReleases, lateReleases, frameBase, pipelineBase, List.map_append,
    List.map_map, List.map_cons, List.map_nil, Function.comp_def]
  simp only [List.nodup_append, List.nodup_cons, List.nodup_nil, List.mem_cons, List.mem_append,
    List.mem_map, List.mem_range, List.mem_singleton, List.not_mem_nil, not_or, not_exists,
    not_and, List.Disjoint, and_true, or_false, List.nodup_map_iff_inj_on (List.nodup_range _),
    forall_exists_index, and_imp, forall_eq_or_imp, forall_eq, imp_false, not_false_eq_true]
  unfold Handle at *
  repeat' apply And.intro
  all_goals (intros; try omega)
  all_goals casesm* _ ∨ _, ∃ _, _, _ ∧ _
  all_goals repeat' apply And.intro
  all_goals (intros; omega)

theorem exists_mem_tail {α : Type} {P : α → Prop} {a : α} {l : List α}
    (h : ∃ o ∈ l, P o) : ∃ o ∈ a :: l, P o := by
  obtain ⟨o, ho, hp⟩ := h
  exact ⟨o, List.mem_cons_of_mem _ ho, hp⟩

theorem exists_mem_right {α : Type} {P : α → Prop} {l₁ l₂ : List α}
    (h : ∃ o ∈ l₂, P o) : ∃ o ∈ l₁ ++ l₂, P o := by
  obtain ⟨o, ho, hp⟩ := h
  exact ⟨o, List.mem_append_right _ ho, hp⟩

/-- No release of the destructor of a constructed renderer names the null
    handle. -/
theorem releases_not_null (env : Env) (n0 : Handle) (h0 : 0 < n0) :
    ∀ x ∈ earlyReleases env n0 ++ lateReleases env n0, x.handle ≠ VK_NULL_HANDLE := by
  intro x hx
  simp only [earlyReleases, lateReleases, List.mem_append, List.mem_map, List.mem_range,
    List.mem_cons, List.mem_singleton, List.not_mem_nil, or_false] at hx
  casesm* _ ∨ _, ∃ _, _, _ ∧ _
  all_goals subst x
  all_goals simp only [frameBase, pipelineBase, VK_NULL_HANDLE]
  all_goals unfold Handle at *
  all_goals omega

set_option maxHeartbeats 4000000 in
/-- Every release of the destructor of a constructed renderer names a live
    object of the kind it is released as. -/
theorem releases_backed (env : Env) (n0 : Handle) :
    ∀ x ∈ earlyReleases env n0 ++ lateReleases env n0,
      ∃ o ∈ constructedLive env n0, o.handle = x.handle ∧ o.info.kind = x.kind := by
  intro x hx
  simp only [earlyReleases, lateReleases, List.mem_append, List.mem_map, List.mem_range,
    List.mem_cons, List.mem_singleton, List.not_mem_nil, or_false] at hx
  casesm* _ ∨ _, ∃ _, _, _ ∧ _
  all_goals subst x
  all_goals simp only [constructedLive, constructedBase, constructedSets, constructedFrame,
    constructedPipelines, constructedCommandBuffers, List.append_assoc, List.cons_append,
    List.nil_append]
  all_goals repeat (first
    | exact ⟨_, List.mem_cons_self _ _, rfl, rfl⟩
    | exact ⟨_, List.mem_append_left _ (List.mem_map.2 ⟨_, List.mem_range.2 ‹_ < _›, rfl⟩),
        rfl, rfl⟩
    | exact ⟨_, List.mem_map.2 ⟨_, List.mem_range.2 ‹_ < _›, rfl⟩, rfl, rfl⟩
    | apply exists_mem_tail
    | apply exists_mem_right)

/-- The binding instances are allocated from the descriptor pool. -/
theorem sets_from_pool (env : Env) (n0 : Handle) :
    ∀ o ∈ constructedSets env n0, o.allocatedFrom (n0 + 22) = true := by
  intro o ho
  simp only [constructedSets, List.mem_append, List.mem_map, List.mem_range,
    List.mem_cons, List.mem_singleton, List.not_mem_nil, or_false] at ho
  casesm* _ ∨ _, ∃ _, _, _ ∧ _
  all_goals subst o
  all_goals simp [Obj.allocatedFrom]

set_option maxHeartbeats 4000000 in
/-- Every object a constructor left live is freed by one of the releases of
    the destructor. -/
theorem constructed_released (env : Env) (n0 : Handle) :
    ∀ o ∈ constructedLive env n0,
      ∃ x ∈ earlyReleases env n0 ++ lateReleases env n0, x.frees o = true := by
  intro o ho
  have hpool : (⟨true, .descriptorPool, n0 + 22⟩ : Release)
      ∈ earlyReleases env n0 ++ lateReleases env n0 := by
    simp [lateReleases]
  have key : o ∈ constructedSets env n0
      ∨ ∃ x ∈ earlyReleases env n0 ++ lateReleases env n0, x.handle = o.handle := by
    simp only [constructedLive, List.mem_append] at ho
    rcases ho with (((ho | ho) | ho) | ho) | ho
    · right
      simp only [constructedBase, List.mem_append, List.mem_map, List.mem_range,
        List.mem_cons, List.mem_singleton, List.not_mem_nil, or_false] at ho
      casesm* _ ∨ _, ∃ _, _, _ ∧ _
      all_goals subst o
      all_goals simp only [earlyReleases, lateReleases, List.append_assoc, List.cons_append,
        List.nil_append]
      all_goals repeat (first
        | exact ⟨_, List.mem_cons_self _ _, rfl⟩
        | apply exists_mem_tail
        | apply exists_mem_right)
    · exact Or.inl ho
    · right
      simp only [constructedFrame, List.mem_append, List.mem_map, List.mem_range,
        List.mem_cons, List.mem_singleton, List.not_mem_nil, or_false] at ho
      casesm* _ ∨ _, ∃ _, _, _ ∧ _
      all_goals subst o
      all_goals simp only [earlyReleases, lateReleases, List.append_assoc, List.cons_append,
        List.nil_append]
      all_goals repeat (first
        | exact ⟨_, List.mem_cons_self _ _, rfl⟩
        | exact ⟨_, List.mem_append_left _ (List.mem_map.2 ⟨_, List.mem_range.2 ‹_ < _›, rfl⟩),
            rfl⟩
        | apply exists_mem_tail
        | apply exists_mem_right)
    · right
      simp only [constructedPipelines, List.mem_append, List.mem_map, List.mem_range,
        List.mem_cons, List.mem_singleton, List.not_mem_nil, or_false] at ho
      casesm* _ ∨ _, ∃ _, _, _ ∧ _
      all_goals subst o
      all_goals simp only [earlyReleases, lateReleases, List.append_assoc, List.cons_append,
        List.nil_append]
      all_goals repeat (first
        | exact ⟨_, List.mem_cons_self _ _, rfl⟩
        | apply exists_mem_tail
        | apply exists_mem_right)
    · right
      simp only [constructedCommandBuffers, List.mem_append, List.mem_map, List.mem_range,
        List.mem_cons, List.mem_singleton, List.not_mem_nil, or_false] at ho
      casesm* _ ∨ _, ∃ _, _, _ ∧ _
      all_goals subst o
      all_goals simp only [earlyReleases, lateReleases, List.append_assoc, List.cons_append,
        List.nil_append]
      all_goals repeat (first
        | exact ⟨_, List.mem_cons_self _ _, rfl⟩
        | exact ⟨_, List.mem_append_left _ (List.mem_map.2 ⟨_, List.mem_range.2 ‹_ < _›, rfl⟩),
            rfl⟩
        | apply exists_mem_tail
        | apply exists_mem_right)
  rcases key with hs | ⟨x, hx, hh⟩
  · exact ⟨_, hpool, by simp [Release.frees, sets_from_pool env n0 o hs]⟩
  · exact ⟨x, hx, by simp [Release.frees, hh]⟩

/-- The destructor frees command buffers only in its first calls and
    destroys command pools only in its last ones. -/
theorem free_before_destroyPool (r : Fields) (i j : Nat) (p q : Handle) (bufs : List Handle)
    (hi : (destructCalls r)[i]? = some (.freeCommandBuffers p bufs))
    (hj : (destructCalls r)[j]? = some (.destroyPool .commandPool q)) : i < j := by
  have hlen : (destructHead r).length = 17 := rfl
  have hsplit : destructCalls r
      = destructHead r ++ (destroyFrameResourcesCalls r ++ destructTail r) := by
    simp [destructCalls]
  have h1 : i < 17 := by
    by_contra hge
    rw [hsplit, List.getElem?_append_right (by rw [hlen]; omega)] at hi
    have hmem := List.getElem?_mem hi
    simp [destroyFrameResourcesCalls, destructTail] at hmem
  have h2 : 17 ≤ j := by
    by_contra hlt
    rw [hsplit, List.getElem?_append_left (by rw [hlen]; omega)] at hj
    have hj17 : j < 17 := by omega
    interval_cases j <;> simp [destructHead] at hj
  omega

set_option maxHeartbeats 1000000 in
/-- C25: teardown of a renderer whose constructor returned on a device on
    which nothing had been created, with no resize in between. The first
    call of the destructor is the wait for the device to be idle and every
    call that releases something comes after it; the destructor returns and
    does to the device what its calls do in order; no released handle is
    released twice, every release is of an object the constructor left live
    and of its kind, and every object the constructor left live is released;
    a call that frees command buffers comes before every call that destroys a
    command pool; and after the destructor nothing has been released while
    not live and no object is live. -/
theorem teardown_releases_each_once (env : Env) (failures : List Nat)
    (h : ((construct env).run (State.fresh failures)).error? = none) :
    (destructCalls ((construct env).run (State.fresh failures)).st.r)[0]?
        = some .deviceWaitIdle
    ∧ (∀ i c, (destructCalls ((construct env).run (State.fresh failures)).st.r)[i]? = some c →
        c.releases ≠ [] → 0 < i)
    ∧ (destruct.run ((construct env).run (State.fresh failures)).st).res = .ok ()
    ∧ (destruct.run ((construct env).run (State.fresh failures)).st).st.vk
        = ((construct env).run (State.fresh failures)).st.vk.teardown
            (destructCalls ((construct env).run (State.fresh failures)).st.r)
    ∧ (((destructCalls ((construct env).run (State.fresh failures)).st.r).flatMap
          TeardownCall.releases).map fun x => x.handle).Nodup
    ∧ (∀ x ∈ (destructCalls ((construct env).run (State.fresh failures)).st.r).flatMap
          TeardownCall.releases,
        ∃ o ∈ ((construct env).run (State.fresh failures)).st.vk.live,
          o.handle = x.handle ∧ o.info.kind = x.kind)
    ∧ (∀ o ∈ ((construct env).run (State.fresh failures)).st.vk.live,
        ∃ x ∈ (destructCalls ((construct env).run (State.fresh failures)).st.r).flatMap
          TeardownCall.releases, x.frees o = true)
    ∧ (∀ (i j : Nat) (p q : Handle) (bufs : List Handle),
        (destructCalls ((construct env).run (State.fresh failures)).st.r)[i]?
          = some (TeardownCall.freeCommandBuffers p bufs) →
        (destructCalls ((construct env).run (State.fresh failures)).st.r)[j]?
          = some (TeardownCall.destroyPool .commandPool q) → i < j)
    ∧ (destruct.run ((construct env).run (State.fresh failures)).st).st.vk.faults = []
    ∧ (destruct.run ((construct env).run (State.fresh failures)).st).st.vk.live = [] := by
  obtain ⟨⟨hr, hlive, -, hfaults, -, -⟩, -⟩ := constructed_state env failures h
  generalize ((construct env).run (State.fresh failures)).st = s at hr hlive hfaults ⊢
  have hrel : (destructCalls s.r).flatMap TeardownCall.releases
      = earlyReleases env 1 ++ lateReleases env 1 := by
    rw [hr]
    exact releases_constructed env 1
  have hback := releases_backed env 1
  have hcov := constructed_released env 1
  have hnodup := releases_nodup env 1
  have hall := releaseAll_of_backed (earlyReleases env 1 ++ lateReleases env 1) s.vk
    (releases_not_null env 1 Nat.one_pos)
    (by rw [hlive]; exact hback)
    (pairwise_of_nodup_split _ _ hnodup (early_not_pool env 1) (late_kinds env 1))
  have hrun := run_destruct s
  refine ⟨rfl, ?_, ?_, ?_, ?_, ?_, ?_, ?_, ?_, ?_⟩
  · intro i c hc hne
    rcases Nat.eq_zero_or_pos i with h0 | h0
    · subst h0
      have hc2 : c = .deviceWaitIdle := by
        have : (destructCalls s.r)[0]? = some TeardownCall.deviceWaitIdle := rfl
        rw [this] at hc
        exact (Option.some.inj hc).symm
      subst hc2
      exact absurd rfl hne
    · exact h0
  · rw [hrun]
  · rw [hrun]
  · rw [hrel]
    exact hnodup
  · rw [hrel, hlive]
    exact hback
  · rw [hrel, hlive]
    exact hcov
  · intro i j p q bufs hi hj
    exact free_before_destroyPool s.r i j p q bufs hi hj
  · rw [hrun]
    show (s.vk.teardown (destructCalls s.r)).faults = []
    rw [Vk.teardown, hrel, hall.1, hfaults]
  · rw [hrun]
    show (s.vk.teardown (destructCalls s.r)).live = []
    rw [Vk.teardown, hrel, hall.2, hlive, List.filter_eq_nil_iff]
    intro o ho
    obtain ⟨x, hx, hf⟩ := hcov o ho
    simp only [List.all_eq_true, Bool.not_eq_true, Bool.not_eq_eq_eq_not, Bool.not_true]
    intro hcontra
    have := hcontra x hx
    simp [hf] at this

/-- The demo scene: its constructor returns on the fresh device, 48 objects
    are live before the destructor and none after it, and the destructor
    releases nothing that is not live. -/
theorem teardown_releases_each_once_witness :
    ((construct demoEnv).run (State.fresh [])).error? = none
    ∧ ((construct demoEnv).run (State.fresh [])).st.vk.live.length = 48
    ∧ (destruct.run ((construct demoEnv).run (State.fresh [])).st).st.vk.faults = []
    ∧ (destruct.run ((construct demoEnv).run (State.fresh [])).st).st.vk.live = [] :=
  ⟨by decide!, by decide!,
   (teardown_releases_each_once demoEnv [] (by decide!)).2.2.2.2.2.2.2.2.1,
   (teardown_releases_each_once demoEnv [] (by decide!)).2.2.2.2.2.2.2.2.2⟩

/-- The objects of the first segment of the constructor are among those it
    leaves live. -/
theorem base_live (env : Env) (n0 : Handle) (o : Obj) (h : o ∈ constructedBase env n0) :
    o ∈ constructedLive env n0 := by
  simp only [constructedLive, List.mem_append]
  exact Or.inl (Or.inl (Or.inl (Or.inl h)))

theorem presentation_pass_live (env : Env) (n0 : Handle) :
    (⟨n0 + 2, .renderPass presentationRenderPassInfo⟩ : Obj) ∈ constructedLive env n0 :=
  base_live env n0 _ (by simp [constructedBase])

theorem deferred_pass_live (env : Env) (n0 : Handle) :
    (⟨n0 + 3, .renderPass deferredRenderPassInfo⟩ : Obj) ∈ constructedLive env n0 :=
  base_live env n0 _ (by simp [constructedBase])

/-- The graphics pipelines a constructor leaves live: the opaque pipeline
    against the presentation pass, the grass pipeline against the G-buffer
    pass. -/
theorem pipelines_of_constructed (env : Env) (n0 : Handle) :
    ∀ o ∈ constructedLive env n0, ∀ p, o.info = .graphicsPipeline p →
      (p.renderPass = n0 + 2 ∧ p.colorBlendAttachmentCount = 1
        ∧ p.colorBlendAttachments.length = 1)
      ∨ (p.renderPass = n0 + 3 ∧ p.colorBlendAttachmentCount = 3
        ∧ p.colorBlendAttachments.length = 3) := by
  intro o ho p hp
  simp only [constructedLive, constructedBase, constructedSets, constructedFrame,
    constructedPipelines, constructedCommandBuffers, List.mem_append, List.mem_map,
    List.mem_range, List.mem_cons, List.mem_singleton, List.not_mem_nil, or_false] at ho
  casesm* _ ∨ _, ∃ _, _, _ ∧ _
  all_goals subst o
  all_goals simp only [Info.graphicsPipeline.injEq, reduceCtorEq] at hp
  all_goals subst p
  · exact Or.inl ⟨rfl, rfl, rfl⟩
  · exact Or.inr ⟨rfl, rfl, rfl⟩

/-- The framebuffers a constructor leaves live: the G-buffer framebuffer of
    four views and the presentation framebuffers of two views. -/
theorem framebuffers_of_constructed (env : Env) (n0 : Handle) :
    ∀ o ∈ constructedLive env n0, ∀ rp views w h, o.info = .framebuffer rp views w h →
      (rp = n0 + 2 ∧ views.length = 2) ∨ (rp = n0 + 3 ∧ views.length = 4) := by
  intro o ho rp views w h hp
  simp only [constructedLive, constructedBase, constructedSets, constructedFrame,
    constructedPipelines, constructedCommandBuffers, List.mem_append, List.mem_map,
    List.mem_range, List.mem_cons, List.mem_singleton, List.not_mem_nil, or_false] at ho
  casesm* _ ∨ _, ∃ _, _, _ ∧ _
  all_goals subst o
  all_goals simp only [Info.framebuffer.injEq, reduceCtorEq] at hp
  all_goals obtain ⟨rfl, rfl, -, -⟩ := hp
  · exact Or.inr ⟨rfl, rfl⟩
  · exact Or.inl ⟨rfl, rfl⟩

/-- A render pass is begun in a Composite sequence with the presentation
    pass and two clear values, the second one for depth. -/
theorem begin_in_compositeCommands (env : Env) (r : Fields) (i : Nat) (rp fb : Handle)
    (w h : Nat) (clears : List ClearValue)
    (hc : Cmd.beginRenderPass rp fb w h clears ∈ compositeCommands env r i) :
    rp = r.renderPass ∧ clears.length = 2 ∧ clears[1]? = some (.depthStencil oneLit 0) := by
  simp only [compositeCommands, compositeHead, compositeBlock, List.mem_append, List.mem_cons,
    List.mem_singleton, List.mem_flatMap, List.mem_range, List.not_mem_nil, or_false,
    Cmd.beginRenderPass.injEq, reduceCtorEq, false_or, or_false, and_false, exists_false,
    exists_const] at hc
  obtain ⟨rfl, -, -, -, rfl⟩ := hc
  exact ⟨rfl, rfl, rfl⟩

/-- A render pass is begun in the Fill sequence with the G-buffer pass and
    four clear values, the fourth one for depth. -/
theorem begin_in_fillCommands (env : Env) (r : Fields) (rp fb : Handle)
    (w h : Nat) (clears : List ClearValue)
    (hc : Cmd.beginRenderPass rp fb w h clears ∈ fillCommands env r) :
    rp = r.deferredRenderPass ∧ clears.length = 4
      ∧ clears[3]? = some (.depthStencil oneLit 0) := by
  simp only [fillCommands, fillHead, fillBlock, List.mem_append, List.mem_cons,
    List.mem_singleton, List.mem_flatMap, List.mem_range, List.not_mem_nil, or_false,
    Cmd.beginRenderPass.injEq, reduceCtorEq, false_or, or_false, and_false, exists_false,
    exists_const] at hc
  obtain ⟨rfl, -, -, -, rfl⟩ := hc
  exact ⟨rfl, rfl, rfl⟩

/-- No render pass is begun in the Cull sequence. -/
theorem no_begin_in_cullCommands (env : Env) (r : Fields) (rp fb : Handle)
    (w h : Nat) (clears : List ClearValue) :
    Cmd.beginRenderPass rp fb w h clears ∉ cullCommands env r := by
  simp [cullCommands, cullHead, cullBlock]

/-- C27: after a constructor that returned on a device on which nothing had
    been created, the presentation render pass (1 colour attachment, 2
    attachments) and the G-buffer render pass (3 colour attachments, 4
    attachments) are live; every live graphics pipeline names a live render
    pass and has as many colour blend attachments as the subpass of that
    pass has colour attachments, the opaque pipeline being created against
    the presentation pass and the grass pipeline against the G-buffer pass;
    every live framebuffer names a live render pass and has as many image
    views as that pass has attachments; and every begin of a render pass
    recorded in the Cull, Fill and Composite command buffers names a live
    render pass and supplies as many clear values as that pass has
    attachments, with a depth clear value at the index of the depth
    attachment. -/
theorem attachment_counts_agree (env : Env) (failures : List Nat) (s : State)
    (h : ((construct env).run (State.fresh failures)).error? = none)
    (hs : s = ((construct env).run (State.fresh failures)).st) :
    (⟨s.r.renderPass, .renderPass presentationRenderPassInfo⟩ : Obj) ∈ s.vk.live
    ∧ (⟨s.r.deferredRenderPass, .renderPass deferredRenderPassInfo⟩ : Obj) ∈ s.vk.live
    ∧ presentationRenderPassInfo.colorAttachments.length = 1
    ∧ presentationRenderPassInfo.attachments.length = 2
    ∧ presentationRenderPassInfo.depthStencilAttachment.attachment = 1
    ∧ deferredRenderPassInfo.colorAttachments.length = 3
    ∧ deferredRenderPassInfo.attachments.length = 4
    ∧ deferredRenderPassInfo.depthStencilAttachment.attachment = 3
    ∧ (∀ o ∈ s.vk.live, ∀ p, o.info = .graphicsPipeline p →
        ∃ info, (⟨p.renderPass, .renderPass info⟩ : Obj) ∈ s.vk.live
          ∧ p.colorBlendAttachmentCount = info.colorAttachments.length
          ∧ p.colorBlendAttachments.length = info.colorAttachments.length)
    ∧ (∃ p, (⟨s.r.graphicsPipeline, .graphicsPipeline p⟩ : Obj) ∈ s.vk.live
        ∧ p.renderPass = s.r.renderPass ∧ p.colorBlendAttachmentCount = 1)
    ∧ (∃ p, (⟨s.r.grassPipeline, .graphicsPipeline p⟩ : Obj) ∈ s.vk.live
        ∧ p.renderPass = s.r.deferredRenderPass ∧ p.colorBlendAttachmentCount = 3)
    ∧ (∀ o ∈ s.vk.live, ∀ rp views w h, o.info = .framebuffer rp views w h →
        ∃ info, (⟨rp, .renderPass info⟩ : Obj) ∈ s.vk.live
          ∧ views.length = info.attachments.length)
    ∧ (∀ cb ∈ s.r.computeCommandBuffer :: s.r.deferredCommandBuffer :: s.r.commandBuffers,
        ∀ rp fb w h clears, Cmd.beginRenderPass rp fb w h clears ∈ s.vk.recorded cb →
          ∃ info, (⟨rp, .renderPass info⟩ : Obj) ∈ s.vk.live
            ∧ clears.length = info.attachments.length
            ∧ ∃ d st, clears[info.depthStencilAttachment.attachment]?
                = some (.depthStencil d st)) := by
  obtain ⟨⟨hr, hlive, -, -, -, -⟩, hrec1, hrec2, hrec3⟩ := constructed_state env failures h
  rw [← hs] at hr hlive hrec1 hrec2 hrec3
  have hp := presentation_pass_live env 1
  have hd := deferred_pass_live env 1
  have hrp : s.r.renderPass = 1 + 2 := by rw [hr]; rfl
  have hdp : s.r.deferredRenderPass = 1 + 3 := by rw [hr]; rfl
  refine ⟨?_, ?_, rfl, rfl, rfl, rfl, rfl, rfl, ?_, ?_, ?_, ?_, ?_⟩
  · rw [hlive, hrp]; exact hp
  · rw [hlive, hdp]; exact hd
  · intro o ho p hinfo
    rw [hlive] at ho ⊢
    rcases pipelines_of_constructed env 1 o ho p hinfo with ⟨a, b, c⟩ | ⟨a, b, c⟩
    · exact ⟨presentationRenderPassInfo, by rw [a]; exact hp, b, c⟩
    · exact ⟨deferredRenderPassInfo, by rw [a]; exact hd, b, c⟩
  · rw [hlive, hr]
    exact ⟨_, List.mem_append_left _ (List.mem_append_right _
      (List.mem_cons_of_mem _ (List.mem_cons_self _ _))), rfl, rfl⟩
  · rw [hlive, hr]
    exact ⟨_, List.mem_append_left _ (List.mem_append_right _
      (List.mem_cons_of_mem _ (List.mem_cons_of_mem _ (List.mem_cons_of_mem _
        (List.mem_cons_self _ _))))), rfl, rfl⟩
  · intro o ho rp views w h hinfo
    rw [hlive] at ho ⊢
    rcases framebuffers_of_constructed env 1 o ho rp views w h hinfo with ⟨a, b⟩ | ⟨a, b⟩
    · exact ⟨presentationRenderPassInfo, by rw [a]; exact hp, b⟩
    · exact ⟨deferredRenderPassInfo, by rw [a]; exact hd, b⟩
  · intro cb hcb rp fb w h clears hc
    rw [hlive]
    rw [← hr] at hrec1 hrec2 hrec3
    rcases List.mem_cons.1 hcb with rfl | hcb
    · rw [hrec3] at hc
      exact absurd hc (no_begin_in_cullCommands env s.r rp fb w h clears)
    rcases List.mem_cons.1 hcb with rfl | hcb
    · rw [hrec2] at hc
      obtain ⟨a, b, c⟩ := begin_in_fillCommands env s.r rp fb w h clears hc
      exact ⟨deferredRenderPassInfo, by rw [a, hdp]; exact hd, b, _, _, c⟩
    · have hbufs : s.r.commandBuffers
          = (List.range env.swapChain.count).map (pipelineBase env 1 + 13 + ·) := by
        rw [hr]; rfl
      obtain ⟨i, hi, rfl⟩ : ∃ i, i < env.swapChain.count
          ∧ s.r.commandBuffers.getD i VK_NULL_HANDLE = cb := by
        rw [hbufs] at hcb ⊢
        obtain ⟨i, hi, rfl⟩ := List.mem_map.1 hcb
        have hi2 := List.mem_range.1 hi
        exact ⟨i, hi2, by simp [List.getD, hi2]⟩
      rw [hrec1 i hi] at hc
      obtain ⟨a, b, c⟩ := begin_in_compositeCommands env s.r i rp fb w h clears hc
      exact ⟨presentationRenderPassInfo, by rw [a, hrp]; exact hp, b, _, _, c⟩

/-- The demo scene: its constructor returns, the grass pipeline has three
    colour blend attachments and the G-buffer framebuffer four views, and
    the general statement holds of it. -/
theorem attachment_counts_agree_witness :
    ((construct demoEnv).run (State.fresh [])).error? = none
    ∧ (∃ p, (⟨demoConstructed.r.grassPipeline, .graphicsPipeline p⟩ : Obj)
          ∈ demoConstructed.vk.live
        ∧ p.renderPass = demoConstructed.r.deferredRenderPass
        ∧ p.colorBlendAttachmentCount = 3)
    ∧ (∀ o ∈ demoConstructed.vk.live, ∀ rp views w h, o.info = .framebuffer rp views w h →
        ∃ info, (⟨rp, .renderPass info⟩ : Obj) ∈ demoConstructed.vk.live
          ∧ views.length = info.attachments.length) :=
  ⟨by decide!,
   (attachment_counts_agree demoEnv [] demoConstructed (by decide!) rfl).2.2.2.2.2.2.2.2.2.2.1,
   (attachment_counts_agree demoEnv [] demoConstructed (by decide!)
      rfl).2.2.2.2.2.2.2.2.2.2.2.1⟩

/-! ## Rules for what descriptor writes read -/

theorem traced_setFields (r : Fields) (A : List AppliedWrite) (n : Handle)
    (K : (Nat → Option StackCell) → Prop) (g : Fields → Fields) :
    Hoare (Traced r A n K) (setFields g) (fun _ => Traced (g r) A n K) (fun _ => True) := by
  refine hoare_setFields g (fun s hs => ?_)
  obtain ⟨a, b⟩ := hs
  exact ⟨by rw [← a], b⟩

theorem traced_getFields (r : Fields) (A : List AppliedWrite) (n : Handle)
    (K : (Nat → Option StackCell) → Prop) :
    Hoare (Traced r A n K) getFields (fun r1 s => Traced r A n K s ∧ r1 = r)
      (fun _ => True) :=
  hoare_getFields (fun _ hs => ⟨hs, hs.1⟩)

theorem traced_allocateDescriptorSetsOrThrow (r : Fields) (A : List AppliedWrite)
    (n : Handle) (K : (Nat → Option StackCell) → Prop) (pool : Handle) (count : Nat)
    (layouts : List Handle) :
    Hoare (Traced r A n K) (allocateDescriptorSetsOrThrow pool count layouts)
      (fun hs s => Traced r A (n + count) K s ∧ hs = (List.range count).map (n + ·))
      (fun _ => True) := by
  intro s hs
  obtain ⟨a, b, c, d⟩ := hs
  rw [run_allocateDescriptorSetsOrThrow]
  by_cases hmem : s.vk.callNo ∈ s.vk.failures
  · simp only [hmem, if_true]
  · simp only [hmem, if_false]
    subst c
    exact ⟨⟨a, b, rfl, d⟩, rfl⟩

/-- A local info struct comes into scope. -/
theorem traced_declareLocal (r : Fields) (A : List AppliedWrite) (n : Handle)
    (K K1 : (Nat → Option StackCell) → Prop) (cell : Nat) (v : DescInfo)
    (h : ∀ st, K st → K1 (fun c => if c = cell then some ⟨v, true⟩ else st c)) :
    Hoare (Traced r A n K) (declareLocal cell v) (fun _ => Traced r A n K1)
      (fun _ => True) :=
  hoare_setVk _ (fun _ hs => ⟨hs.1, hs.2.1, hs.2.2.1, h _ hs.2.2.2⟩)

/-- A local info struct goes out of scope. -/
theorem traced_endLocal (r : Fields) (A : List AppliedWrite) (n : Handle)
    (K K1 : (Nat → Option StackCell) → Prop) (cell : Nat)
    (h : ∀ st, K st → K1 (fun c =>
      if c = cell then (st c).map (fun x => { x with inScope := false }) else st c)) :
    Hoare (Traced r A n K) (endLocal cell) (fun _ => Traced r A n K1) (fun _ => True) :=
  hoare_setVk _ (fun _ hs => ⟨hs.1, hs.2.1, hs.2.2.1, h _ hs.2.2.2⟩)

/-- The batched update appends one applied write per entry of the vector. -/
theorem appended_vkUpdateDescriptorSets (r : Fields) (A : List AppliedWrite) (n : Handle)
    (K : (Nat → Option StackCell) → Prop) (W : List WriteDescriptorSet)
    (Φ : AppliedWrite → Prop) (h : ∀ d : Vk, K d.stack → ∀ w ∈ W, Φ (d.applyWrite w)) :
    Hoare (Traced r A n K) (vkUpdateDescriptorSets W) (fun _ => Appended A Φ)
      (fun _ => True) := by
  refine hoare_setVk _ (fun s hs => ⟨W.map s.vk.applyWrite, ?_, fun a ha => ?_⟩)
  · show s.vk.appliedWrites ++ _ = _
    rw [hs.2.1]
  · obtain ⟨w, hw, rfl⟩ := List.mem_map.1 ha
    exact h s.vk hs.2.2.2 w hw

theorem appended_endLocal (A : List AppliedWrite) (Φ : AppliedWrite → Prop) (cell : Nat) :
    Hoare (Appended A Φ) (endLocal cell) (fun _ => Appended A Φ) (fun _ => True) :=
  hoare_setVk _ (fun _ hs => hs)

theorem forall_mem_set {α : Type} {G : α → Prop} {l : List α} (i : Nat) (a : α)
    (h : ∀ x ∈ l, G x) (ha : G a) : ∀ x ∈ l.set i a, G x := by
  intro x hx
  rcases List.mem_or_eq_of_mem_set hx with h1 | h1
  · exact h x h1
  · rw [h1]
    exact ha

/-- `CreateCameraDescriptorSet` applies writes to slot 0 only. -/
theorem appends_CreateCameraDescriptorSet (env : Env) (r : Fields) (A : List AppliedWrite)
    (n : Handle) :
    Hoare (Traced r A n (fun _ => True)) (CreateCameraDescriptorSet env)
      (fun _ => Appended A (fun a => a.dstBinding = 0)) (fun _ => True) := by
  unfold CreateCameraDescriptorSet
  refine hoare_bind (traced_getFields _ _ _ _) (fun r1 => hoare_pre_pure (fun hr => ?_))
  refine hoare_bind (traced_allocateDescriptorSetsOrThrow _ _ _ _ _ _ _)
    (fun sets => hoare_pre_pure (fun _ => ?_))
  refine hoare_bind (traced_setFields _ _ _ _ _) (fun _ => ?_)
  refine hoare_bind (traced_declareLocal _ _ _ _ (fun _ => True) _ _ (fun _ _ => trivial))
    (fun _ => ?_)
  refine hoare_bind (appended_vkUpdateDescriptorSets _ _ _ _ _ (fun a => a.dstBinding = 0)
    (fun d _ w hw => ?_)) (fun _ => ?_)
  · rw [List.mem_singleton] at hw
    subst hw
    rfl
  · exact appended_endLocal _ _ _

/-- `CreateTimeDescriptorSet` applies writes to slot 0 only. -/
theorem appends_CreateTimeDescriptorSet (env : Env) (r : Fields) (A : List AppliedWrite)
    (n : Handle) :
    Hoare (Traced r A n (fun _ => True)) (CreateTimeDescriptorSet env)
      (fun _ => Appended A (fun a => a.dstBinding = 0)) (fun _ => True) := by
  unfold CreateTimeDescriptorSet
  refine hoare_bind (traced_getFields _ _ _ _) (fun r1 => hoare_pre_pure (fun hr => ?_))
  refine hoare_bind (traced_allocateDescriptorSetsOrThrow _ _ _ _ _ _ _)
    (fun sets => hoare_pre_pure (fun _ => ?_))
  refine hoare_bind (traced_setFields _ _ _ _ _) (fun _ => ?_)
  refine hoare_bind (traced_declareLocal _ _ _ _ (fun _ => True) _ _ (fun _ _ => trivial))
    (fun _ => ?_)
  refine hoare_bind (appended_vkUpdateDescriptorSets _ _ _ _ _ (fun a => a.dstBinding = 0)
    (fun d _ w hw => ?_)) (fun _ => ?_)
  · rw [List.mem_singleton] at hw
    subst hw
    rfl
  · exact appended_endLocal _ _ _

/-- `CreateGrassDescriptorSets` applies writes to slot 0 only. -/
theorem appends_CreateGrassDescriptorSets (env : Env) (r : Fields) (A : List AppliedWrite)
    (n : Handle) :
    Hoare (Traced r A n (fun _ => True)) (CreateGrassDescriptorSets env)
      (fun _ => Appended A (fun a => a.dstBinding = 0)) (fun _ => True) := by
  unfold CreateGrassDescriptorSets
  refine hoare_bind (traced_setFields _ _ _ _ _) (fun _ => ?_)
  refine hoare_bind (traced_getFields _ _ _ _) (fun r1 => hoare_pre_pure (fun hr => ?_))
  refine hoare_bind (traced_allocateDescriptorSetsOrThrow _ _ _ _ _ _ _)
    (fun sets => hoare_pre_pure (fun _ => ?_))
  refine hoare_bind (traced_setFields _ _ _ _ _) (fun _ => ?_)
  refine hoare_bind
    (hoare_forRangeWith (J := fun W => ∀ w ∈ W, w.dstBinding = 0) _ _ _
      (fun w hw => by rw [List.eq_of_mem_replicate hw]; rfl) (fun i W _ hJ => ?_))
    (fun W => hoare_pre_pure (fun hJ => ?_))
  · refine hoare_bind_inv
      (traced_declareLocal _ _ _ _ (fun _ => True) _ _ (fun _ _ => trivial)) (fun _ => ?_)
    refine hoare_bind_inv
      (traced_endLocal _ _ _ _ (fun _ => True) _ (fun _ _ => trivial)) (fun _ => ?_)
    exact hoare_pure _ (fun s hs => ⟨hs, forall_mem_set _ _ hJ rfl⟩)
  · exact appended_vkUpdateDescriptorSets _ _ _ _ _ _ (fun d _ w hw => hJ w hw)

/-- `CreateComputeDescriptorSets` applies writes to the instances it
    allocates, apart from entries of the vector it leaves zeroed. -/
theorem appends_CreateComputeDescriptorSets (env : Env) (r : Fields) (A : List AppliedWrite)
    (n : Handle) :
    Hoare (Traced r A n (fun _ => True)) (CreateComputeDescriptorSets env)
      (fun _ => Appended A (fun a => a.dstBinding = 0 ∨ n ≤ a.dstSet)) (fun _ => True) := by
  unfold CreateComputeDescriptorSets
  refine hoare_bind (traced_setFields _ _ _ _ _) (fun _ => ?_)
  refine hoare_bind (traced_getFields _ _ _ _) (fun r1 => hoare_pre_pure (fun hr => ?_))
  subst hr
  simp only [length_resize]
  refine hoare_bind (traced_allocateDescriptorSetsOrThrow _ _ _ _ _ _ _)
    (fun sets => hoare_pre_pure (fun hs => ?_))
  subst hs
  refine hoare_bind (traced_setFields _ _ _ _ _) (fun _ => ?_)
  refine hoare_bind
    (hoare_forRangeWith (J := fun W => ∀ w ∈ W, w.dstBinding = 0 ∨ n ≤ w.dstSet) _ _ _
      (fun w hw => by rw [List.eq_of_mem_replicate hw]; exact Or.inl rfl)
      (fun i W hi hJ => ?_))
    (fun W => hoare_pre_pure (fun hJ => ?_))
  · refine hoare_bind_inv
      (traced_declareLocal _ _ _ _ (fun _ => True) _ _ (fun _ _ => trivial)) (fun _ => ?_)
    refine hoare_bind_inv
      (traced_declareLocal _ _ _ _ (fun _ => True) _ _ (fun _ _ => trivial)) (fun _ => ?_)
    refine hoare_bind_inv
      (traced_declareLocal _ _ _ _ (fun _ => True) _ _ (fun _ _ => trivial)) (fun _ => ?_)
    refine hoare_bind_inv
      (traced_endLocal _ _ _ _ (fun _ => True) _ (fun _ _ => trivial)) (fun _ => ?_)
    refine hoare_bind_inv
      (traced_endLocal _ _ _ _ (fun _ => True) _ (fun _ _ => trivial)) (fun _ => ?_)
    refine hoare_bind_inv
      (traced_endLocal _ _ _ _ (fun _ => True) _ (fun _ _ => trivial)) (fun _ => ?_)
    have hg : ((List.range env.scene.blades.length).map (n + ·)).getD i VK_NULL_HANDLE
        = n + i := getD_map_range _ _ _ hi
    have hle : n ≤ ((List.range env.scene.blades.length).map (n + ·)).getD i VK_NULL_HANDLE := by
      rw [hg]
      exact Nat.le_add_right _ _
    exact hoare_pure _ (fun s hs => ⟨hs,
      forall_mem_set _ _ (forall_mem_set _ _ (forall_mem_set _ _ hJ (Or.inr hle)) (Or.inr hle))
        (Or.inr hle)⟩)
  · exact appended_vkUpdateDescriptorSets _ _ _ _ _ _ (fun d _ w hw => hJ w hw)

/-- `CreateModelDescriptorSets` applies, to every slot from 2 on, a write
    that reads the G-buffer image info of that slot while it is in scope. -/
theorem appends_CreateModelDescriptorSets (env : Env) (r : Fields) (A : List AppliedWrite)
    (n : Handle) :
    Hoare (Traced r A n (fun _ => True)) (CreateModelDescriptorSets env)
      (fun _ => Appended A (fun a => 2 ≤ a.dstBinding →
        a.source = gBufferSource r.deferredSampler
          [r.deferredAlbedoImageView, r.deferredPositionImageView, r.deferredNormalImageView]
          a.dstBinding))
      (fun _ => True) := by
  unfold CreateModelDescriptorSets
  refine hoare_bind (traced_setFields _ _ _ _ _) (fun _ => ?_)
  refine hoare_bind (traced_getFields _ _ _ _) (fun r1 => hoare_pre_pure (fun hr => ?_))
  subst hr
  refine hoare_bind (traced_allocateDescriptorSetsOrThrow _ _ _ _ _ _ _)
    (fun sets => hoare_pre_pure (fun _ => ?_))
  refine hoare_bind (traced_setFields _ _ _ _ _) (fun _ => ?_)
  refine hoare_bind (traced_declareLocal _ _ _ _
    (fun st => st 0 = some ⟨.image r.deferredSampler r.deferredAlbedoImageView
      .SHADER_READ_ONLY_OPTIMAL, true⟩) _ _ (fun _ _ => by simp)) (fun _ => ?_)
  refine hoare_bind (traced_declareLocal _ _ _ _
    (fun st => st 0 = some ⟨.image r.deferredSampler r.deferredAlbedoImageView
        .SHADER_READ_ONLY_OPTIMAL, true⟩
      ∧ st 1 = some ⟨.image r.deferredSampler r.deferredPositionImageView
        .SHADER_READ_ONLY_OPTIMAL, true⟩) _ _ (fun _ h => by simpa using h)) (fun _ => ?_)
  refine hoare_bind (traced_declareLocal _ _ _ _
    (fun st => st 0 = some ⟨.image r.deferredSampler r.deferredAlbedoImageView
        .SHADER_READ_ONLY_OPTIMAL, true⟩
      ∧ st 1 = some ⟨.image r.deferredSampler r.deferredPositionImageView
        .SHADER_READ_ONLY_OPTIMAL, true⟩
      ∧ st 2 = some ⟨.image r.deferredSampler r.deferredNormalImageView
        .SHADER_READ_ONLY_OPTIMAL, true⟩) _ _ (fun _ h => by simpa using h)) (fun _ => ?_)
  refine hoare_bind
    (hoare_forRangeWith (J := fun W => ∀ w ∈ W, WriteDescriptorSet.namesGBuffer w) _ _ _
      (fun w hw => by
        rw [List.eq_of_mem_replicate hw]
        intro h2
        simp [WriteDescriptorSet.zero] at h2)
      (fun i W _ hJ => ?_))
    (fun W => hoare_pre_pure (fun hJ => ?_))
  · refine hoare_bind_inv
      (traced_declareLocal _ _ _ _ _ _ _ (fun _ h => by simpa using h)) (fun _ => ?_)
    refine hoare_bind_inv
      (traced_declareLocal _ _ _ _ _ _ _ (fun _ h => by simpa using h)) (fun _ => ?_)
    refine hoare_bind_inv
      (traced_endLocal _ _ _ _ _ _ (fun _ h => by simpa using h)) (fun _ => ?_)
    refine hoare_bind_inv
      (traced_endLocal _ _ _ _ _ _ (fun _ h => by simpa using h)) (fun _ => ?_)
    refine hoare_pure _ (fun s hs => ⟨hs, ?_⟩)
    refine forall_mem_set _ _ (forall_mem_set _ _ (forall_mem_set _ _ (forall_mem_set _ _
      (forall_mem_set _ _ hJ ?_) ?_) ?_) ?_) ?_
    · intro h2
      simp at h2
    · intro h2
      simp at h2
    · intro _
      exact ⟨by simp, rfl, rfl⟩
    · intro _
      exact ⟨by simp, rfl, rfl⟩
    · intro _
      exact ⟨by simp, rfl, rfl⟩
  · refine hoare_bind (appended_vkUpdateDescriptorSets _ _ _ _ _
      (fun a => 2 ≤ a.dstBinding →
        a.source = gBufferSource r.deferredSampler
          [r.deferredAlbedoImageView, r.deferredPositionImageView, r.deferredNormalImageView]
          a.dstBinding)
      (fun d hK w hw h2 => ?_)) (fun _ => ?_)
    · obtain ⟨k0, k1, k2⟩ := hK
      have h2w : 2 ≤ w.dstBinding := h2
      obtain ⟨h4, ht, hp⟩ := hJ w hw h2w
      have hsrc : (d.applyWrite w).source = d.stack (w.dstBinding - 2) := by
        simp [Vk.applyWrite, ht, hp, isBufferType]
      rw [hsrc]
      show d.stack (w.dstBinding - 2) = gBufferSource _ _ w.dstBinding
      have hb : w.dstBinding = 2 ∨ w.dstBinding = 3 ∨ w.dstBinding = 4 := by omega
      rcases hb with hb | hb | hb
      · rw [hb]
        exact k0
      · rw [hb]
        exact k1
      · rw [hb]
        exact k2
    · refine hoare_bind_inv (appended_endLocal _ _ _) (fun _ => ?_)
      refine hoare_bind_inv (appended_endLocal _ _ _) (fun _ => ?_)
      exact appended_endLocal _ _ _

/-! ## The G-buffer slots through the constructor -/

/-- A triple holds from a stronger precondition. -/
theorem hoare_pre {α : Type} {P : State → Prop} (R : State → Prop) {Q : α → State → Prop}
    {E : State → Prop} {m : M α} (hP : ∀ s, P s → R s) (hm : Hoare R m Q E) :
    Hoare P m Q E :=
  hoare_conseq hm hP (fun _ _ hq => hq) (fun _ h => h)

/-- The steps of the constructor that are not about binding instances leave
    what the applied writes read as it is. -/
theorem reads_outside (env : Env) (S : Handle) (V : List Handle) (B : Handle) (m : M Unit)
    (hm : m ∈ stepsOutsideBindings env) :
    Hoare (GBufferReads S V B) m (fun _ => GBufferReads S V B) (fun _ => True) := by
  intro s hs
  have h := hoare_state
    (frozen_outside_bindings (fun _ w => w) (fun _ _ _ _ => rfl) s.vk.appliedWrites env m hm)
    s rfl
  have h1 : (m.run s).st.vk.appliedWrites = s.vk.appliedWrites := h
  have h2 : GBufferReads S V B (m.run s).st := by
    unfold GBufferReads
    rw [h1]
    exact hs
  rcases hk : m.run s with ⟨res, s1⟩
  rw [hk] at h2
  cases res with
  | error e => trivial
  | ok a => exact h2

theorem hoare_both {α : Type} {P I : State → Prop} {Q : α → State → Prop} {m : M α}
    (h1 : Hoare P m Q (fun _ => True)) (h2 : Hoare I m (fun _ => I) (fun _ => True)) :
    Hoare (fun s => P s ∧ I s) m (fun a s => Q a s ∧ I s) (fun _ => True) := by
  intro s hs
  have a1 := h1 s hs.1
  have a2 := h2 s hs.2
  rcases hk : m.run s with ⟨res, s1⟩
  rw [hk] at a1 a2
  cases res with
  | error e => trivial
  | ok a => exact ⟨a1, a2⟩

/-- A step that is not about binding instances, with what it does to the
    objects. -/
theorem reads_of_outside (env : Env) (S : Handle) (V : List Handle) (B : Handle)
    {m : M Unit} {P : State → Prop} {Q : Unit → State → Prop}
    (hm : m ∈ stepsOutsideBindings env) (hobjs : Hoare P m Q (fun _ => True)) :
    Hoare (fun s => P s ∧ GBufferReads S V B s) m (fun a s => Q a s ∧ GBufferReads S V B s)
      (fun _ => True) :=
  hoare_both hobjs (reads_outside env S V B m hm)

/-- A step that applies descriptor writes, with what it does to the
    objects. -/
theorem reads_of_appends (S : Handle) (V : List Handle) (B : Handle) {m : M Unit}
    {r : Fields} {L : List Obj} {n : Handle} {F : List (ObjKind × Handle)}
    {Q : Unit → State → Prop} (Φ : AppliedWrite → Prop)
    (hobjs : Hoare (Holds r L n F) m Q (fun _ => True))
    (happ : ∀ A, Hoare (Traced r A n (fun _ => True)) m (fun _ => Appended A Φ)
      (fun _ => True))
    (hΦ : ∀ a, Φ a → 2 ≤ a.dstBinding → a.dstSet < B →
      a.source = gBufferSource S V a.dstBinding) :
    Hoare (fun s => Holds r L n F s ∧ GBufferReads S V B s) m
      (fun a s => Q a s ∧ GBufferReads S V B s) (fun _ => True) := by
  refine hoare_and_run
    (hoare_conseq hobjs (fun _ hs => hs.1) (fun _ _ hq => hq) (fun _ _ => trivial))
    (fun s hs hok => ?_)
  obtain ⟨new, hnew, hall⟩ := hoare_returns (happ s.vk.appliedWrites) s
    ⟨hs.1.1, rfl, hs.1.2.2.1, trivial⟩ hok
  intro a ha h2 hB
  rw [hnew] at ha
  rcases List.mem_append.1 ha with hold | hn
  · exact hs.2 a hold h2 hB
  · exact hΦ a (hall a hn) h2 hB

set_option maxHeartbeats 4000000 in
/-- A constructor that starts with no descriptor write applied leaves, when
    it returns, every applied write to a slot from 2 on of a model instance
    reading the G-buffer image info of its slot. -/
theorem reads_construct (env : Env) (r : Fields) (L : List Obj) (n : Handle)
    (F : List (ObjKind × Handle)) :
    Hoare (fun s => Holds r L n F s ∧ s.vk.appliedWrites = []) (construct env)
      (fun _ => GBufferReads (n + 17) [n + 6, n + 9, n + 12]
        (n + 24 + env.scene.models.length))
      (fun _ => True) := by
  refine hoare_pre (fun s => Holds r L n F s
      ∧ GBufferReads (n + 17) [n + 6, n + 9, n + 12] (n + 24 + env.scene.models.length) s)
    (fun s hs => ⟨hs.1, fun a ha => by rw [hs.2] at ha; simp at ha⟩) ?_
  unfold construct
  refine hoare_bind (reads_of_outside env _ _ _ (by simp [stepsOutsideBindings])
    (objs_CreateCommandPools env _ _ _ _)) (fun _ => ?_)
  refine hoare_bind (reads_of_outside env _ _ _ (by simp [stepsOutsideBindings])
    (objs_CreateRenderPass _ _ _ _)) (fun _ => ?_)
  refine hoare_bind (reads_of_outside env _ _ _ (by simp [stepsOutsideBindings])
    (objs_CreateDeferredRenderPass env _ _ _ _)) (fun _ => ?_)
  refine hoare_bind (reads_of_outside env _ _ _ (by simp [stepsOutsideBindings])
    (objs_CreateCameraDescriptorSetLayout _ _ _ _)) (fun _ => ?_)
  refine hoare_bind (reads_of_outside env _ _ _ (by simp [stepsOutsideBindings])
    (objs_CreateModelDescriptorSetLayout _ _ _ _)) (fun _ => ?_)
  refine hoare_bind (reads_of_outside env _ _ _ (by simp [stepsOutsideBindings])
    (objs_CreateTimeDescriptorSetLayout _ _ _ _)) (fun _ => ?_)
  refine hoare_bind (reads_of_outside env _ _ _ (by simp [stepsOutsideBindings])
    (objs_CreateComputeDescriptorSetLayout _ _ _ _)) (fun _ => ?_)
  refine hoare_bind (reads_of_outside env _ _ _ (by simp [stepsOutsideBindings])
    (objs_CreateDescriptorPool env _ _ _ _)) (fun _ => ?_)
  refine hoare_bind (reads_of_appends _ _ _ _ (objs_CreateCameraDescriptorSet env _ _ _ _)
    (fun A => appends_CreateCameraDescriptorSet env _ A _)
    (fun a h0 h2 _ => absurd h2 (by rw [h0]; decide))) (fun _ => ?_)
  refine hoare_bind (reads_of_appends _ _ _ _ (objs_CreateModelDescriptorSets env _ _ _ _)
    (fun A => appends_CreateModelDescriptorSets env _ A _)
    (fun a ha h2 _ => ha h2)) (fun _ => ?_)
  refine hoare_bind (reads_of_appends _ _ _ _ (objs_CreateGrassDescriptorSets env _ _ _ _)
    (fun A => appends_CreateGrassDescriptorSets env _ A _)
    (fun a h0 h2 _ => absurd h2 (by rw [h0]; decide))) (fun _ => ?_)
  refine hoare_bind (reads_of_appends _ _ _ _ (objs_CreateTimeDescriptorSet env _ _ _ _)
    (fun A => appends_CreateTimeDescriptorSet env _ A _)
    (fun a h0 h2 _ => absurd h2 (by rw [h0]; decide))) (fun _ => ?_)
  refine hoare_bind (reads_of_appends _ _ _ _ (objs_CreateComputeDescriptorSets env _ _ _ _)
    (fun A => appends_CreateComputeDescriptorSets env _ A _)
    (fun a ha h2 hB => ?_)) (fun _ => ?_)
  · rcases ha with h0 | hle
    · exact absurd h2 (by rw [h0]; decide)
    · exfalso
      have h1 : a.dstSet < a.dstSet := Nat.lt_of_lt_of_le hB (Nat.le_trans (by omega) hle)
      exact Nat.lt_irrefl _ h1
  refine hoare_pre (GBufferReads (n + 17) [n + 6, n + 9, n + 12]
      (n + 24 + env.scene.models.length)) (fun _ hs => hs.2) ?_
  refine hoare_bind_inv (reads_outside env _ _ _ _ (by simp [stepsOutsideBindings]))
    (fun _ => ?_)
  refine hoare_bind_inv (reads_outside env _ _ _ _ (by simp [stepsOutsideBindings]))
    (fun _ => ?_)
  refine hoare_bind_inv (reads_outside env _ _ _ _ (by simp [stepsOutsideBindings]))
    (fun _ => ?_)
  refine hoare_bind_inv (reads_outside env _ _ _ _ (by simp [stepsOutsideBindings]))
    (fun _ => ?_)
  refine hoare_bind_inv (reads_outside env _ _ _ _ (by simp [stepsOutsideBindings]))
    (fun _ => ?_)
  refine hoare_bind_inv (reads_outside env _ _ _ _ (by simp [stepsOutsideBindings]))
    (fun _ => ?_)
  exact reads_outside env _ _ _ _ (by simp [stepsOutsideBindings])

/-- C23: after a constructor that returned on a device on which nothing had
    been created. The G-buffer render pass is live with the create info
    `deferredRenderPassInfo`: its subpass has the colour attachments 0, 1
    and 2 in the colour-attachment layout, each declared clear-on-load,
    store-on-exit, from the undefined layout to the shader-read-only layout;
    its depth attachment is attachment 3, declared clear-on-load and
    discard-on-exit; it declares two subpass dependencies, from outside to
    subpass 0 and from subpass 0 to outside, both by-region. The G-buffer
    framebuffer is live and has the albedo, position, normal and depth views
    as attachments 0 to 3. There is one model instance per static model;
    each has been written at slots 2, 3 and 4, and every applied write to
    slot `b` from 2 to 4 of a model instance read, from a struct in scope,
    the G-buffer sampler with the view of attachment `b - 2` in the final
    layout of that attachment. -/
theorem gbuffer_layouts_agree (env : Env) (failures : List Nat) (s : State)
    (h : ((construct env).run (State.fresh failures)).error? = none)
    (hs : s = ((construct env).run (State.fresh failures)).st) :
    (⟨s.r.deferredRenderPass, .renderPass deferredRenderPassInfo⟩ : Obj) ∈ s.vk.live
    ∧ deferredRenderPassInfo.colorAttachments
        = [⟨0, .COLOR_ATTACHMENT_OPTIMAL⟩, ⟨1, .COLOR_ATTACHMENT_OPTIMAL⟩,
           ⟨2, .COLOR_ATTACHMENT_OPTIMAL⟩]
    ∧ (∀ k, k < 3 → ∃ att, deferredRenderPassInfo.attachments[k]? = some att
        ∧ att.loadOp = .CLEAR ∧ att.storeOp = .STORE ∧ att.initialLayout = .UNDEFINED
        ∧ att.finalLayout = .SHADER_READ_ONLY_OPTIMAL)
    ∧ deferredRenderPassInfo.attachments.length = 4
    ∧ deferredRenderPassInfo.depthStencilAttachment.attachment = 3
    ∧ (∃ att, deferredRenderPassInfo.attachments[3]? = some att
        ∧ att.loadOp = .CLEAR ∧ att.storeOp = .DONT_CARE)
    ∧ deferredRenderPassInfo.dependencies.map (fun d => (d.srcSubpass, d.dstSubpass, d.byRegion))
        = [(.outside, .index 0, true), (.index 0, .outside, true)]
    ∧ (⟨s.r.deferredFramebuffer, .framebuffer s.r.deferredRenderPass
          [s.r.deferredAlbedoImageView, s.r.deferredPositionImageView,
           s.r.deferredNormalImageView, s.r.deferredDepthImageView]
          env.swapChain.width env.swapChain.height⟩ : Obj) ∈ s.vk.live
    ∧ s.r.modelDescriptorSets.length = env.scene.models.length
    ∧ (∀ x ∈ s.r.modelDescriptorSets, ∀ b, 2 ≤ b → b ≤ 4 →
        ∃ a ∈ s.vk.appliedWrites, a.dstSet = x ∧ a.dstBinding = b)
    ∧ (∀ a ∈ s.vk.appliedWrites, a.dstSet ∈ s.r.modelDescriptorSets →
        2 ≤ a.dstBinding → a.dstBinding ≤ 4 →
        ∃ att, deferredRenderPassInfo.attachments[a.dstBinding - 2]? = some att
          ∧ a.source = some ⟨.image s.r.deferredSampler
              ([s.r.deferredAlbedoImageView, s.r.deferredPositionImageView,
                s.r.deferredNormalImageView].getD (a.dstBinding - 2) VK_NULL_HANDLE)
              att.finalLayout, true⟩) := by
  obtain ⟨⟨hr, hlive, -, -, -, -⟩, -⟩ := constructed_state env failures h
  have hreads := hoare_returns (reads_construct env Fields.null [] 1 []) (State.fresh failures)
    ⟨holds_fresh_state failures, rfl⟩ h
  have hwritten := hoare_returns (allWritten_construct env) (State.fresh failures) rfl h
  rw [← hs] at hr hlive hreads hwritten
  have hsets : s.r.modelDescriptorSets
      = (List.range env.scene.models.length).map (1 + 24 + ·) := by
    rw [hr]; rfl
  refine ⟨?_, rfl, ?_, rfl, rfl, ⟨_, rfl, rfl, rfl⟩, rfl, ?_, ?_, ?_, ?_⟩
  · rw [hlive, hr]
    exact deferred_pass_live env 1
  · intro k hk
    have hk3 : k = 0 ∨ k = 1 ∨ k = 2 := by omega
    rcases hk3 with rfl | rfl | rfl <;> exact ⟨_, rfl, rfl, rfl, rfl, rfl⟩
  · rw [hlive, hr]
    exact base_live env 1 _ (by simp [constructedBase, constructedFields])
  · rw [hsets]
    simp
  · intro x hx b h2 h4
    have hmem : (x, b) ∈ s.vk.writtenPairs :=
      (hwritten.1 x b).2 ⟨(s.r.modelDescriptorSets, 5), by simp [bindingGroups], hx,
        Nat.lt_succ_of_le h4⟩
    obtain ⟨a, ha, hab⟩ := List.mem_map.1 hmem
    exact ⟨a, ha, congrArg Prod.fst hab, congrArg Prod.snd hab⟩
  · intro a ha hset h2 h4
    have hlt : a.dstSet < 1 + 24 + env.scene.models.length := by
      rw [hsets] at hset
      obtain ⟨i, hi, hia⟩ := List.mem_map.1 hset
      rw [← hia]
      exact Nat.add_lt_add_left (List.mem_range.1 hi) _
    have hsrc := hreads a ha h2 hlt
    rw [hsrc, hr]
    have hb : a.dstBinding = 2 ∨ a.dstBinding = 3 ∨ a.dstBinding = 4 := by omega
    rcases hb with hb | hb | hb <;> rw [hb] <;> exact ⟨_, rfl, rfl⟩

/-- The demo scene: its constructor returns, its one model instance has been
    written at slots 2 to 4, and every applied write to such a slot read the
    G-buffer image info of the slot in the final layout of the attachment. -/
theorem gbuffer_layouts_agree_witness :
    ((construct demoEnv).run (State.fresh [])).error? = none
    ∧ demoConstructed.r.modelDescriptorSets.length = 1
    ∧ (∀ x ∈ demoConstructed.r.modelDescriptorSets, ∀ b, 2 ≤ b → b ≤ 4 →
        ∃ a ∈ demoConstructed.vk.appliedWrites, a.dstSet = x ∧ a.dstBinding = b)
    ∧ (∀ a ∈ demoConstructed.vk.appliedWrites,
        a.dstSet ∈ demoConstructed.r.modelDescriptorSets →
        2 ≤ a.dstBinding → a.dstBinding ≤ 4 →
        ∃ att, deferredRenderPassInfo.attachments[a.dstBinding - 2]? = some att
          ∧ a.source = some ⟨.image demoConstructed.r.deferredSampler
              ([demoConstructed.r.deferredAlbedoImageView,
                demoConstructed.r.deferredPositionImageView,
                demoConstructed.r.deferredNormalImageView].getD (a.dstBinding - 2)
                  VK_NULL_HANDLE)
              att.finalLayout, true⟩) :=
  ⟨by decide!,
   (gbuffer_layouts_agree demoEnv [] demoConstructed (by decide!) rfl).2.2.2.2.2.2.2.2.1,
   (gbuffer_layouts_agree demoEnv [] demoConstructed (by decide!) rfl).2.2.2.2.2.2.2.2.2.1,
   (gbuffer_layouts_agree demoEnv [] demoConstructed (by decide!) rfl).2.2.2.2.2.2.2.2.2.2⟩

/-! ## The Composite sequences -/

theorem compositeCommands_block (env : Env) (r : Fields) (i j k : Nat)
    (hj : j < env.scene.models.length) (hk : k < 4) :
    (compositeCommands env r i)[4 + (4 * j + k)]? = (compositeBlock env r j)[k]? := by
  unfold compositeCommands
  have hlen := length_flatMap_range (compositeBlock env r) 4 (fun _ => rfl)
    env.scene.models.length
  have hhead : (compositeHead env r i).length = 4 := rfl
  rw [List.getElem?_append_left (by rw [List.length_append, hlen, hhead]; omega)]
  rw [List.getElem?_append_right (by rw [hhead]; omega), hhead]
  have hidx : 4 + (4 * j + k) - 4 = 4 * j + k := by omega
  rw [hidx]
  exact getElem?_flatMap_range (compositeBlock env r) 4 (fun _ => rfl) _ j k hj hk

theorem compositeCommands_length (env : Env) (r : Fields) (i : Nat) :
    (compositeCommands env r i).length = 4 + 4 * env.scene.models.length + 1 := by
  unfold compositeCommands
  rw [List.length_append, List.length_append,
    length_flatMap_range (compositeBlock env r) 4 (fun _ => rfl)]
  rfl

theorem compositeCommands_last (env : Env) (r : Fields) (i : Nat) :
    (compositeCommands env r i)[4 + 4 * env.scene.models.length]? = some .endRenderPass := by
  unfold compositeCommands
  have hlen := length_flatMap_range (compositeBlock env r) 4 (fun _ => rfl)
    env.scene.models.length
  have hhead : (compositeHead env r i).length = 4 := rfl
  rw [List.getElem?_append_right (by rw [List.length_append, hlen, hhead]),
    List.length_append, hlen, hhead, Nat.sub_self]
  rfl

theorem compositeCommands_draws (env : Env) (r : Fields) (i : Nat) :
    (compositeCommands env r i).countP Cmd.isDraw = env.scene.models.length
    ∧ (compositeCommands env r i).countP Cmd.isDrawIndexed = env.scene.models.length := by
  unfold compositeCommands
  rw [List.countP_append, List.countP_append, List.countP_append, List.countP_append,
    countP_flatMap_range Cmd.isDraw (compositeBlock env r) 1 (fun _ => rfl),
    countP_flatMap_range Cmd.isDrawIndexed (compositeBlock env r) 1 (fun _ => rfl)]
  have h1 : (compositeHead env r i).countP Cmd.isDraw = 0 := rfl
  have h2 : (compositeHead env r i).countP Cmd.isDrawIndexed = 0 := rfl
  have h3 : [Cmd.endRenderPass].countP Cmd.isDraw = 0 := rfl
  have h4 : [Cmd.endRenderPass].countP Cmd.isDrawIndexed = 0 := rfl
  omega

/-- The sequence `RecordCommandBuffers` leaves in command buffer `i` is a
    Composite sequence for `i`. -/
theorem compositeSequence_commands (env : Env) (r : Fields) (i : Nat) :
    CompositeSequence env r i (compositeCommands env r i) := by
  refine ⟨compositeCommands_length env r i, ?_, ?_, compositeCommands_last env r i,
    (compositeCommands_draws env r i).1, (compositeCommands_draws env r i).2, fun j m hm => ?_⟩
  · simp [compositeCommands, compositeHead, oneLit]
  · simp [compositeCommands, compositeHead]
  · have hj : j < env.scene.models.length := by
      rcases List.getElem?_eq_some.1 hm with ⟨hlt, _⟩
      exact hlt
    have hd : env.scene.models.getD j default = m := by
      simp [List.getD, hm]
    have h0 := compositeCommands_block env r i j 0 hj (by omega)
    have h1 := compositeCommands_block env r i j 1 hj (by omega)
    have h2 := compositeCommands_block env r i j 2 hj (by omega)
    have h3 := compositeCommands_block env r i j 3 hj (by omega)
    simp only [compositeBlock, hd] at h0 h1 h2 h3
    exact ⟨h0, h1, h2, h3⟩

/-! ## Releases keep the handles handed out -/

theorem apply_issued (x : Release) (d : Vk) :
    (x.apply d).nextHandle = d.nextHandle ∧ ∀ o ∈ (x.apply d).live, o ∈ d.live := by
  unfold Release.apply Vk.destroy Vk.destroyPool
  split_ifs <;> first
    | exact ⟨rfl, fun _ h => h⟩
    | exact ⟨rfl, fun _ h => (List.mem_filter.1 h).1⟩

theorem releaseAll_issued (xs : List Release) :
    ∀ d : Vk, (d.releaseAll xs).nextHandle = d.nextHandle
      ∧ ∀ o ∈ (d.releaseAll xs).live, o ∈ d.live := by
  induction xs with
  | nil => exact fun d => ⟨rfl, fun _ h => h⟩
  | cons x rest ih =>
    intro d
    obtain ⟨a1, a2⟩ := apply_issued x d
    obtain ⟨b1, b2⟩ := ih (x.apply d)
    exact ⟨b1.trans a1, fun o ho => a2 o (b2 o ho)⟩

/-- A member function that only releases objects keeps the handles handed
    out. -/
theorem issued_releases {m : M Unit} (r : Fields) (n : Handle)
    (hm : ∀ s, ∃ xs, m.run s = ⟨.ok (), { s with vk := s.vk.releaseAll xs }⟩) :
    Hoare (Issued r n) m (fun _ => Issued r n) (fun _ => True) := by
  intro s hs
  obtain ⟨xs, hx⟩ := hm s
  rw [hx]
  obtain ⟨a, b⟩ := releaseAll_issued xs s.vk
  obtain ⟨h1, h2, h3, h4⟩ := hs
  exact ⟨h1, a.trans h2, h3, fun o ho => h4 o (b o ho)⟩

theorem issued_vkDestroy (r : Fields) (n : Handle) (k : ObjKind) (h : Handle) :
    Hoare (Issued r n) (vkDestroy k h) (fun _ => Issued r n) (fun _ => True) :=
  issued_releases r n (fun _ => ⟨[⟨false, k, h⟩], rfl⟩)

/-- A member function that adds the objects `seg` to those that are live,
    whatever is live, keeps live what was live. -/
theorem issued_of_holds {m : M Unit} {r r1 : Fields} {n n1 : Handle}
    {g : List Obj → List Obj} (keep seg : List Obj)
    (hspec : ∀ L F, Hoare (Holds r L n F) m (fun _ => Holds r1 (g L) n1 F) (fun _ => True))
    (hg : ∀ L, g L = L ++ seg) :
    Hoare (fun s => Issued r n s ∧ ∀ o ∈ keep, o ∈ s.vk.live) m
      (fun _ s => Issued r1 n1 s ∧ ∀ o ∈ keep ++ seg, o ∈ s.vk.live) (fun _ => True) := by
  intro s hs
  obtain ⟨⟨h1, h2, h3, h4⟩, hk⟩ := hs
  have key := hspec s.vk.live s.vk.faults s ⟨h1, rfl, h2, rfl, h3, h4⟩
  rcases hrun : m.run s with ⟨res, s1⟩
  rw [hrun] at key
  cases res with
  | error e => trivial
  | ok a =>
    obtain ⟨k1, k2, k3, -, k5, k6⟩ := key
    rw [hg] at k2 k6
    refine ⟨⟨k1, k3, k5, fun o ho => k6 o (by rw [← k2]; exact ho)⟩, fun o ho => ?_⟩
    show o ∈ s1.vk.live
    rw [k2]
    rcases List.mem_append.1 ho with hold | hnew
    · exact List.mem_append_left _ (hk o hold)
    · exact List.mem_append_right _ hnew

/-! ## `RecreateFrameResources` -/

/-- `RecordCommandBuffers` with what it records, whatever is live. -/
theorem issued_RecordCommandBuffers (env : Env) (r : Fields) (n : Handle) (keep : List Obj) :
    Hoare (fun s => Issued r n s ∧ ∀ o ∈ keep, o ∈ s.vk.live) (RecordCommandBuffers env)
      (fun _ s =>
        (Issued { r with commandBuffers := (List.range env.swapChain.count).map (n + ·) }
            (n + env.swapChain.count) s
          ∧ ∀ o ∈ keep ++ (List.range env.swapChain.count).map
              (fun i => (⟨n + i, .commandBuffer r.graphicsCommandPool⟩ : Obj)), o ∈ s.vk.live)
        ∧ ∀ i, i < env.swapChain.count →
            s.vk.recorded (n + i) = compositeCommands env r i)
      (fun _ => True) := by
  refine hoare_and_run
    (issued_of_holds keep _ (fun L F => objs_RecordCommandBuffers env r L n F) (fun L => rfl))
    (fun s hs hok i hi => ?_)
  obtain ⟨⟨hr, hn, _⟩, _⟩ := hs
  rw [← hr, ← hn]
  exact (recorded_composite env s hok).2 i hi

set_option maxHeartbeats 1000000 in
/-- What `RecreateFrameResources` leaves when it returns, whatever was live
    before: new swap-chain image views, a new depth image, new framebuffers,
    new opaque and grass pipelines, and new Composite command buffers with
    their sequences recorded. -/
theorem objs_RecreateFrameResources (env : Env) (r : Fields) (n : Handle) :
    Hoare (Issued r n) (RecreateFrameResources env)
      (fun _ s =>
        (Issued
          { r with
            imageViews := (List.range env.swapChain.count).map (n + ·),
            depthImage := n + env.swapChain.count,
            depthImageMemory := n + env.swapChain.count + 1,
            depthImageView := n + env.swapChain.count + 2,
            framebuffers :=
              (List.range env.swapChain.count).map (n + env.swapChain.count + 3 + ·),
            graphicsPipelineLayout := n + env.swapChain.count + 3 + env.swapChain.count + 2,
            graphicsPipeline := n + env.swapChain.count + 3 + env.swapChain.count + 3,
            grassPipelineLayout := n + env.swapChain.count + 3 + env.swapChain.count + 8,
            grassPipeline := n + env.swapChain.count + 3 + env.swapChain.count + 9,
            commandBuffers := (List.range env.swapChain.count).map
              (n + env.swapChain.count + 3 + env.swapChain.count + 10 + ·) }
          (n + env.swapChain.count + 3 + env.swapChain.count + 10 + env.swapChain.count) s
        ∧ ∀ o ∈
            (List.range env.swapChain.count).map
                (fun i => (⟨n + i, .imageView (env.swapChain.images.getD i VK_NULL_HANDLE)
                  .swapChainFormat .COLOR⟩ : Obj))
              ++ (List.range env.swapChain.count).map
                (fun i => ⟨n + env.swapChain.count + 3 + i,
                  .framebuffer r.renderPass [n + i, n + env.swapChain.count + 2]
                    env.swapChain.width env.swapChain.height⟩)
              ++ (List.range env.swapChain.count).map
                (fun i => ⟨n + env.swapChain.count + 3 + env.swapChain.count + 10 + i,
                  .commandBuffer r.graphicsCommandPool⟩),
            o ∈ s.vk.live)
        ∧ ∀ i, i < env.swapChain.count →
            s.vk.recorded (n + env.swapChain.count + 3 + env.swapChain.count + 10 + i)
              = compositeCommands env
                  { r with
                    imageViews := (List.range env.swapChain.count).map (n + ·),
                    depthImage := n + env.swapChain.count,
                    depthImageMemory := n + env.swapChain.count + 1,
                    depthImageView := n + env.swapChain.count + 2,
                    framebuffers :=
                      (List.range env.swapChain.count).map (n + env.swapChain.count + 3 + ·),
                    graphicsPipelineLayout :=
                      n + env.swapChain.count + 3 + env.swapChain.count + 2,
                    graphicsPipeline := n + env.swapChain.count + 3 + env.swapChain.count + 3,
                    grassPipelineLayout :=
                      n + env.swapChain.count + 3 + env.swapChain.count + 8,
                    grassPipeline := n + env.swapChain.count + 3 + env.swapChain.count + 9 }
                  i)
      (fun _ => True) := by
  unfold RecreateFrameResources
  refine hoare_bind (Q := fun x s => Issued r n s ∧ x = r) (hoare_getFields (fun _ hs => ⟨hs, hs.1⟩))
    (fun r0 => hoare_pre_pure (fun hr => ?_))
  subst hr
  refine hoare_bind_inv (issued_vkDestroy _ _ _ _) (fun _ => ?_)
  refine hoare_bind_inv (issued_vkDestroy _ _ _ _) (fun _ => ?_)
  refine hoare_bind_inv (issued_vkDestroy _ _ _ _) (fun _ => ?_)
  refine hoare_bind_inv (issued_vkDestroy _ _ _ _) (fun _ => ?_)
  refine hoare_bind_inv (issued_releases _ _ (fun s => ⟨_, run_vkFreeCommandBuffers _ s⟩))
    (fun _ => ?_)
  refine hoare_bind_inv (issued_releases _ _ (fun s => ⟨_, run_DestroyFrameResources s⟩))
    (fun _ => ?_)
  refine hoare_pre (fun s => Issued r0 n s ∧ ∀ o ∈ ([] : List Obj), o ∈ s.vk.live)
    (fun s hs => ⟨hs, fun o ho => absurd ho (List.not_mem_nil o)⟩) ?_
  refine hoare_bind (issued_of_holds [] _ (fun L F => objs_CreateFrameResources env r0 L n F)
    (fun L => by rw [List.append_assoc, List.append_assoc])) (fun _ => ?_)
  refine hoare_bind (issued_of_holds _ _ (fun L F => objs_CreateGraphicsPipeline _ L _ F)
    (fun L => rfl)) (fun _ => ?_)
  refine hoare_bind (issued_of_holds _ _ (fun L F => objs_CreateGrassPipeline _ L _ F)
    (fun L => rfl)) (fun _ => ?_)
  refine hoare_conseq (issued_RecordCommandBuffers env _ _ _) (fun _ hs => hs)
    (fun _ st hq => ⟨⟨hq.1.1, fun o ho => hq.1.2 o ?_⟩, hq.2⟩) (fun _ h => h)
  simp only [List.nil_append, List.mem_append, List.mem_cons, List.mem_map, List.mem_range,
    List.not_mem_nil, or_false] at ho ⊢
  rcases ho with (h1 | h1) | h1
  · exact Or.inl (Or.inl (Or.inl (Or.inl h1)))
  · exact Or.inl (Or.inl (Or.inl (Or.inr (Or.inr h1))))
  · exact Or.inr h1

/-- A renderer is presentable after a `RecreateFrameResources` that
    returns, and the handles of its live objects have been handed out. -/
theorem presentable_recreated (env : Env) (s : State) (hs : HandlesIssued s)
    (h : ((RecreateFrameResources env).run s).error? = none) :
    FramePresentable env ((RecreateFrameResources env).run s).st
    ∧ HandlesIssued ((RecreateFrameResources env).run s).st := by
  obtain ⟨⟨⟨hr, hn, hpos, hfresh⟩, hlive⟩, hrec⟩ :=
    hoare_returns (objs_RecreateFrameResources env s.r s.vk.nextHandle) s
      ⟨rfl, rfl, hs.1, hs.2⟩ h
  generalize ((RecreateFrameResources env).run s).st = st at hr hn hpos hfresh hlive hrec
  refine ⟨⟨?_, ?_, ?_, fun i hi => ⟨?_, ?_, ?_, ?_⟩⟩, ?_, ?_⟩
  · rw [hr]; simp
  · rw [hr]; simp
  · rw [hr]; simp
  · rw [hr]
    refine hlive _ (List.mem_append_right _ (List.mem_map.2 ⟨i, List.mem_range.2 hi, ?_⟩))
    simp only [getD_map_range _ _ _ hi]
  · rw [hr]
    refine hlive _ (List.mem_append_left _ (List.mem_append_left _
      (List.mem_map.2 ⟨i, List.mem_range.2 hi, ?_⟩)))
    simp only [getD_map_range _ _ _ hi]
  · rw [hr]
    refine hlive _ (List.mem_append_left _ (List.mem_append_right _
      (List.mem_map.2 ⟨i, List.mem_range.2 hi, ?_⟩)))
    simp only [getD_map_range _ _ _ hi]
  · rw [hr]
    simp only [getD_map_range _ _ _ hi]
    rw [hrec i hi]
    exact compositeSequence_commands env _ i
  · rw [hn]; exact hpos
  · rw [hn]; exact hfresh

/-- A renderer is presentable after a constructor that returned on a device
    on which nothing had been created, and the handles of its live objects
    have been handed out. -/
theorem presentable_constructed (env : Env) (failures : List Nat)
    (h : ((construct env).run (State.fresh failures)).error? = none) :
    FramePresentable env ((construct env).run (State.fresh failures)).st
    ∧ HandlesIssued ((construct env).run (State.fresh failures)).st := by
  obtain ⟨⟨hr, hlive, hn, -, hpos, hfresh⟩, hrec, -, -⟩ := constructed_state env failures h
  generalize ((construct env).run (State.fresh failures)).st = st
    at hr hlive hn hpos hfresh hrec
  refine ⟨⟨?_, ?_, ?_, fun i hi => ⟨?_, ?_, ?_, ?_⟩⟩, ?_, ?_⟩
  · rw [hr]; simp [constructedFields]
  · rw [hr]; simp [constructedFields]
  · rw [hr]; simp [constructedFields]
  · rw [hr, hlive]
    have e : (constructedFields env 1).commandBuffers.getD i VK_NULL_HANDLE
        = pipelineBase env 1 + 13 + i := getD_map_range _ _ _ hi
    rw [e]
    exact List.mem_append_right _ (List.mem_append_left _
      (List.mem_map.2 ⟨i, List.mem_range.2 hi, rfl⟩))
  · rw [hr, hlive]
    have e : (constructedFields env 1).imageViews.getD i VK_NULL_HANDLE
        = frameBase env 1 + i := getD_map_range _ _ _ hi
    rw [e]
    exact List.mem_append_left _ (List.mem_append_left _ (List.mem_append_right _
      (List.mem_append_left _ (List.mem_append_left _
        (List.mem_map.2 ⟨i, List.mem_range.2 hi, rfl⟩)))))
  · rw [hr, hlive]
    have e1 : (constructedFields env 1).imageViews.getD i VK_NULL_HANDLE
        = frameBase env 1 + i := getD_map_range _ _ _ hi
    have e2 : (constructedFields env 1).framebuffers.getD i VK_NULL_HANDLE
        = frameBase env 1 + env.swapChain.count + 3 + i := getD_map_range _ _ _ hi
    rw [e1, e2]
    exact List.mem_append_left _ (List.mem_append_left _ (List.mem_append_right _
      (List.mem_append_right _ (List.mem_map.2 ⟨i, List.mem_range.2 hi, rfl⟩))))
  · rw [hr, hrec i hi]
    exact compositeSequence_commands env _ i
  · rw [hn]; exact hpos
  · rw [hn, hlive]; exact hfresh

/-- C24: for every scene and swap chain. After a constructor that returned
    on a device on which nothing had been created, and after every
    `RecreateFrameResources` that returns from a state in which the handles
    of the live objects have been handed out (as they are after the
    constructor and after every such call), the renderer is presentable:
    there are as many Composite command buffers, framebuffers and swap-chain
    image views as swap-chain images, and for every image index `i` below
    that count they are live, framebuffer `i` is for the presentation render
    pass over view `i` and the shared depth view, and command buffer `i`,
    the one `Frame` submits for the acquired index `i`, holds a Composite
    sequence for `i`: it begins the presentation render pass on framebuffer
    `i` with the background colour and depth 1.0 as its two clear values and
    holds one indexed draw per static model, the `j`-th after the binds of
    model `j`'s vertex buffer, its index buffer with 32-bit indices and model
    instance `j` at set 1, drawing the model's index count with one instance.
    With one static model every such sequence holds exactly one draw. -/
theorem composite_sequences_presentable (env : Env) :
    (∀ failures, ((construct env).run (State.fresh failures)).error? = none →
        FramePresentable env ((construct env).run (State.fresh failures)).st
        ∧ HandlesIssued ((construct env).run (State.fresh failures)).st)
    ∧ (∀ s, HandlesIssued s → ((RecreateFrameResources env).run s).error? = none →
        FramePresentable env ((RecreateFrameResources env).run s).st
        ∧ HandlesIssued ((RecreateFrameResources env).run s).st)
    ∧ (∀ s i, submitComposite env i s
        = .queueSubmit .Graphics [s.r.deferredSemaphore] [.COLOR_ATTACHMENT_OUTPUT]
            [s.r.commandBuffers.getD i VK_NULL_HANDLE] [env.swapChain.renderFinishedSemaphore])
    ∧ (∀ s i, FramePresentable env s → i < env.swapChain.count →
        env.scene.models.length = 1 →
        (s.vk.recorded (s.r.commandBuffers.getD i VK_NULL_HANDLE)).countP Cmd.isDraw = 1
        ∧ (s.vk.recorded (s.r.commandBuffers.getD i VK_NULL_HANDLE)).countP Cmd.isDrawIndexed
            = 1) := by
  refine ⟨presentable_constructed env, presentable_recreated env, fun _ _ => rfl,
    fun s i hp hi h1 => ?_⟩
  obtain ⟨-, -, -, -, hd, hx, -⟩ := (hp.2.2.2 i hi).2.2.2
  rw [h1] at hd hx
  exact ⟨hd, hx⟩

/-- The demo scene (one static model, two swap-chain images): the renderer
    is presentable after the constructor, after one resize and after a
    second one, and sequence 1 after the second resize holds one draw. -/
theorem composite_sequences_presentable_witness :
    ((construct demoEnv).run (State.fresh [])).error? = none
    ∧ ((RecreateFrameResources demoEnv).run demoConstructed).error? = none
    ∧ ((RecreateFrameResources demoEnv).run demoRecreated).error? = none
    ∧ FramePresentable demoEnv demoConstructed
    ∧ FramePresentable demoEnv demoRecreated
    ∧ FramePresentable demoEnv ((RecreateFrameResources demoEnv).run demoRecreated).st
    ∧ (((RecreateFrameResources demoEnv).run demoRecreated).st.vk.recorded
        (((RecreateFrameResources demoEnv).run demoRecreated).st.r.commandBuffers.getD 1
          VK_NULL_HANDLE)).countP Cmd.isDrawIndexed = 1 :=
  have c := (composite_sequences_presentable demoEnv).1 [] (by decide!)
  have r1 := (composite_sequences_presentable demoEnv).2.1 demoConstructed c.2 (by decide!)
  have r2 := (composite_sequences_presentable demoEnv).2.1 demoRecreated r1.2 (by decide!)
  ⟨by decide!, by decide!, by decide!, c.1, r1.1, r2.1,
   ((composite_sequences_presentable demoEnv).2.2.2 _ 1 r2.1 (by decide) rfl).2⟩

end DeferredRenderer
